import Mathlib

/-!
Verification development for the erc20-hodl-subgraph repository.

The repository maintains, per account ("User"), a chronological chain of
hourly checkpoints ("HourObservation") carrying a time-weighted cumulative
holding metric ("cumulativeHODL"), and answers queries about the metric at
bucket-aligned timestamps and HODLer ratios over time ranges.

Shallow embedding conventions:
- graph-ts BigInt values are embedded as Lean Int (arbitrary precision,
  signed, matching BigInt); BigInt.div truncates toward zero, embedded as
  Int.tdiv.
- The entity store (User and HourObservation tables of the subgraph store)
  is embedded as a pair of lookup functions plus the list of created user
  ids (creation order).  User.load / user.save return and persist
  independent copies of a record, exactly as in the AssemblyScript store;
  local variables in the handlers are such copies.
- Entity ids: a User is keyed by its address hex string; an
  HourObservation is keyed by the pair (address string, hour timestamp),
  embedding the source's string id address + "-" + hourTimestamp
  (addresses are hex strings, so the pairing is injective on the ids the
  source constructs).
- Exceptions (throw new Error in AssemblyScript) are embedded as Except
  results.  The query walk of getOrComputeCumulativeHODL is a while loop
  whose termination relies on data invariants; it is embedded with an
  explicit fuel of observationCount + 1 (enough on every store the
  handlers produce); exhausting the fuel is reported as a distinguished
  error that the source would exhibit as divergence.
-/

namespace HodlSubgraph

/-- Account identifiers: address hex strings (User.id in the schema). -/
abbrev Addr := String

/-- src/constants: the zero address, used as the sentinel aggregate account. -/
def ZERO_ADDRESS : Addr := "0x0000000000000000000000000000000000000000"

/-- src/constants: SECONDS_PER_HOUR, the bucket size. -/
def SECONDS_PER_HOUR : Int := 3600

/-- src/utils.ts getHourTimestamp: timestamp.div(3600).times(3600) with
BigInt division (truncation toward zero). -/
def getHourTimestamp (timestamp : Int) : Int :=
  timestamp.tdiv SECONDS_PER_HOUR * SECONDS_PER_HOUR

/-- The User entity (types/schema).  The address field duplicates id and is
never read by the handlers, so it is omitted. -/
structure User where
  id : Addr
  balance : Int
  observationCount : Int
  lastHourTimestamp : Int
deriving DecidableEq, Repr

/-- The HourObservation entity (types/schema).  Keyed in the store by
(user id, hour timestamp). -/
structure HourObservation where
  user : Addr
  lastTimestamp : Int
  lastBalance : Int
  cumulativeHODL : Int
  previousHourTimestamp : Int
  nextHourTimestamp : Int
deriving DecidableEq, Repr

/-- The entity store: User and HourObservation tables plus the list of
user ids ever created (in creation order). -/
structure Store where
  users : Addr → Option User
  observations : Addr → Int → Option HourObservation
  accounts : List Addr

def emptyStore : Store := ⟨fun _ => none, fun _ _ => none, []⟩

def loadUser (s : Store) (a : Addr) : Option User := s.users a

/-- user.save(): upsert the record at its own id. -/
def saveUser (s : Store) (u : User) : Store :=
  { s with users := fun x => if x = u.id then some u else s.users x }

/-- Creation of a new User entity also records its id in the account list. -/
def createUser (s : Store) (u : User) : Store :=
  { saveUser s u with accounts := s.accounts ++ [u.id] }

def loadObs (s : Store) (a : Addr) (b : Int) : Option HourObservation :=
  s.observations a b

/-- observation.save(): upsert at key (user id, hour timestamp). -/
def saveObs (s : Store) (a : Addr) (b : Int) (o : HourObservation) : Store :=
  { s with
    observations := fun x y =>
      if x = a then (if y = b then some o else s.observations x y)
      else s.observations x y }

/-- A Transfer event: params.from, params.to, params.value and the block
timestamp. -/
structure Event where
  pfrom : Addr
  pto : Addr
  value : Int
  timestamp : Int
deriving DecidableEq, Repr

/-- One error kind for the ledger updater (mapping.ts line 79). -/
inductive TransferError where
  | mintAndBurn
deriving DecidableEq, Repr

/-- Error kinds of the query engine (tests/handleTransfer.test.ts):
alignment check, the missing-observation invariant throw inside the
backward walk, the fuel artifact of embedding the while loop, and the two
ratio errors. -/
inductive QueryError where
  | alignment
  | invariantViolation
  | outOfFuel
  | range
  | divisionByZero
deriving DecidableEq, Repr

/-- mapping.ts getOrCreateUser (lines 8-19). -/
def getOrCreateUser (s : Store) (a : Addr) : User × Store :=
  match loadUser s a with
  | some u => (u, s)
  | none => ((⟨a, 0, 0, 0⟩ : User), createUser s ⟨a, 0, 0, 0⟩)

/-- mapping.ts getOrCreateHourObservation (lines 21-61).  Takes the
caller's user copy, the event timestamp and the user's pre-mutation
balance; returns the (not yet saved) observation, the possibly updated
user copy, and the store after the internal saves (the previous
observation's next link and the user record, in the creation branch). -/
def getOrCreateHourObservation (user : User) (currentTimestamp priorUserBalance : Int)
    (s : Store) : HourObservation × User × Store :=
  let hourTimestamp := getHourTimestamp currentTimestamp
  match loadObs s user.id hourTimestamp with
  | none =>
    let obs0 : HourObservation :=
      ⟨user.id, currentTimestamp, user.balance, 0, 0, 0⟩
    let next :=
      if 0 < user.observationCount then
        match loadObs s user.id user.lastHourTimestamp with
        | some lastObs =>
          let timeDelta := currentTimestamp - lastObs.lastTimestamp
          (({ obs0 with
              cumulativeHODL := lastObs.cumulativeHODL + timeDelta * priorUserBalance,
              previousHourTimestamp := getHourTimestamp lastObs.lastTimestamp } : HourObservation),
           saveObs s user.id user.lastHourTimestamp
             { lastObs with nextHourTimestamp := hourTimestamp })
        | none => (obs0, s)
      else (obs0, s)
    let user' := { user with
      observationCount := user.observationCount + 1,
      lastHourTimestamp := hourTimestamp }
    (next.1, user', saveUser next.2 user')
  | some obs =>
    let timeDelta := currentTimestamp - obs.lastTimestamp
    (({ obs with
        cumulativeHODL := obs.cumulativeHODL + timeDelta * priorUserBalance,
        lastTimestamp := currentTimestamp,
        lastBalance := user.balance } : HourObservation), user, s)

/-- mapping.ts handleTransfer (lines 63-117), one Transfer event applied to
the store.  Local variables fromUser / toUser / tokenUser are independent
copies, exactly as User.load returns fresh objects in the source. -/
def handleTransfer (s : Store) (e : Event) : Except TransferError Store :=
  if 0 < e.value then
    let fs := getOrCreateUser s e.pfrom
    let fromUser := fs.1
    let ts := getOrCreateUser fs.2 e.pto
    let toUser := ts.1
    let zs := getOrCreateUser ts.2 ZERO_ADDRESS
    let tokenUser := zs.1
    let s3 := zs.2
    let isMint := fromUser.id == ZERO_ADDRESS
    let isBurn := toUser.id == ZERO_ADDRESS
    if isMint && isBurn then .error .mintAndBurn
    else
      let priorFromBalance := fromUser.balance
      let priorToBalance := toUser.balance
      let priorTotalSupply := tokenUser.balance
      let fromUser' := { fromUser with balance := fromUser.balance - e.value }
      let s4 := if isMint then s3 else saveUser s3 fromUser'
      let toUser' := { toUser with balance := toUser.balance + e.value }
      let s5 := if isBurn then s4 else saveUser s4 toUser'
      let tokenUser' :=
        if isMint then { tokenUser with balance := tokenUser.balance + e.value }
        else if isBurn then { tokenUser with balance := tokenUser.balance - e.value }
        else tokenUser
      let s6 := saveUser s5 tokenUser'
      let s7 :=
        if isMint then s6
        else
          let r := getOrCreateHourObservation fromUser' e.timestamp priorFromBalance s6
          saveObs r.2.2 fromUser'.id (getHourTimestamp e.timestamp) r.1
      let s8 :=
        if isBurn then s7
        else
          let r := getOrCreateHourObservation toUser' e.timestamp priorToBalance s7
          saveObs r.2.2 toUser'.id (getHourTimestamp e.timestamp) r.1
      let r := getOrCreateHourObservation tokenUser' e.timestamp priorTotalSupply s8
      .ok (saveObs r.2.2 tokenUser'.id (getHourTimestamp e.timestamp) r.1)
  else
    .ok s

/-- Apply a list of Transfer events in order, starting from a given store. -/
def applyHistoryFrom (s : Store) : List Event → Except TransferError Store
  | [] => .ok s
  | e :: rest =>
    match handleTransfer s e with
    | .ok s' => applyHistoryFrom s' rest
    | .error err => .error err

/-- Apply a list of Transfer events in order, starting from the empty store. -/
def applyHistory (es : List Event) : Except TransferError Store :=
  applyHistoryFrom emptyStore es

/-- tests/handleTransfer.test.ts extrapolateCumulativeHODL (lines 24-27). -/
def extrapolateCumulativeHODL (o : HourObservation) (timestamp : Int) : Int :=
  o.cumulativeHODL + o.lastBalance * (timestamp - o.lastTimestamp)

/-- The while loop of getOrComputeCumulativeHODL (test file lines 71-89):
walk backward from a bucket via previousHourTimestamp while it is
positive; a missing observation is the invariant throw; fuel embeds
termination. -/
def hodlWalk (s : Store) (a : Addr) (timestamp : Int) :
    Nat → Int → Except QueryError Int
  | 0, _ => .error .outOfFuel
  | fuel + 1, cur =>
    if 0 < cur then
      match loadObs s a cur with
      | none => .error .invariantViolation
      | some o =>
        if o.lastTimestamp ≤ timestamp then .ok (extrapolateCumulativeHODL o timestamp)
        else hodlWalk s a timestamp fuel o.previousHourTimestamp
    else .ok 0

/-- tests/handleTransfer.test.ts getOrComputeCumulativeHODL (lines 42-93):
the metric-at-timestamp query ("metricAt" of the specification). -/
def getOrComputeCumulativeHODL (s : Store) (address : Addr) (timestamp : Int) :
    Except QueryError Int :=
  if timestamp = getHourTimestamp timestamp then
    match loadUser s address with
    | none => .ok 0
    | some user =>
      match loadObs s address timestamp with
      | some obs =>
        match loadObs s address obs.previousHourTimestamp with
        | some previousObservation => .ok (extrapolateCumulativeHODL previousObservation timestamp)
        | none => .ok 0
      | none =>
        hodlWalk s address timestamp (user.observationCount.toNat + 1) user.lastHourTimestamp
  else .error .alignment

/-- tests/handleTransfer.test.ts computeHODLerRatio (lines 126-144); the
BigDecimal quotient of the two BigInt deltas is embedded as the exact
rational (the source's BigDecimal carries more than enough precision for
the equalities considered here, and the spec leaves the precision contract
open). -/
def computeHODLerRatioValue (s : Store) (userAddress : Addr)
    (startTimestamp endTimestamp : Int) : Except QueryError Rat :=
  if endTimestamp ≤ startTimestamp then .error .range
  else do
    let userStartCumulativeHODL ← getOrComputeCumulativeHODL s userAddress startTimestamp
    let userEndCumulativeHODL ← getOrComputeCumulativeHODL s userAddress endTimestamp
    let userHODLDelta := userEndCumulativeHODL - userStartCumulativeHODL
    let tokenStartCumulativeHODL ← getOrComputeCumulativeHODL s ZERO_ADDRESS startTimestamp
    let tokenEndCumulativeHODL ← getOrComputeCumulativeHODL s ZERO_ADDRESS endTimestamp
    let tokenHODLDelta := tokenEndCumulativeHODL - tokenStartCumulativeHODL
    if tokenHODLDelta = 0 then .error .divisionByZero
    else .ok ((userHODLDelta : Rat) / (tokenHODLDelta : Rat))

/-! ### Derived store observables -/

/-- The balance stored for an account (0 when the account record is absent,
matching the freshly-initialized balance a first reference would create). -/
def storedBalance (s : Store) (a : Addr) : Int :=
  match loadUser s a with
  | some u => u.balance
  | none => 0

/-- Sum of the stored balances of all non-sentinel accounts. -/
def sumBalances (s : Store) : Int :=
  ((s.accounts.filter (fun a => a != ZERO_ADDRESS)).map (storedBalance s)).sum

/-- Sum of getOrComputeCumulativeHODL over a list of accounts, propagating
any query error. -/
def sumMetrics (s : Store) (T : Int) : List Addr → Except QueryError Int
  | [] => .ok 0
  | a :: rest => do
    let v ← getOrComputeCumulativeHODL s a T
    let r ← sumMetrics s T rest
    pure (v + r)

/-- Sum of the metric over all non-sentinel accounts present in the store. -/
def metricSum (s : Store) (T : Int) : Except QueryError Int :=
  sumMetrics s T (s.accounts.filter (fun a => a != ZERO_ADDRESS))

/-! ### History predicates -/

/-- Timestamps are nondecreasing and bounded below by L. -/
def chronoFromB (L : Int) : List Event → Bool
  | [] => true
  | e :: rest => decide (L ≤ e.timestamp) && chronoFromB e.timestamp rest

/-- A nonnegative amount (values are uint256 in the event feed), a
timestamp at or after the first bucket boundary, and distinct endpoints. -/
def goodEventB (e : Event) : Bool :=
  decide (0 ≤ e.value) && decide (SECONDS_PER_HOUR ≤ e.timestamp) && (e.pfrom != e.pto)

/-- Chronological event feed whose events all satisfy goodEventB. -/
def GoodHistoryB (es : List Event) : Bool :=
  es.all goodEventB && chronoFromB 0 es

/-- No event transfers from an address to itself. -/
def noSelfB (es : List Event) : Bool := es.all (fun e => e.pfrom != e.pto)

/-! ### Reference semantics computed directly from the event history -/

/-- Whether an event updates the given account (its balance or checkpoint):
the sentinel is updated by every nonzero event; a non-sentinel endpoint is
updated unless that side is the mint/burn side. -/
def touches (e : Event) (a : Addr) : Prop :=
  0 < e.value ∧
    (a = ZERO_ADDRESS ∨ (a = e.pfrom ∧ e.pfrom ≠ ZERO_ADDRESS) ∨
      (a = e.pto ∧ e.pto ≠ ZERO_ADDRESS))

instance (e : Event) (a : Addr) : Decidable (touches e a) := by
  unfold touches; infer_instance

/-- The balance change an event causes for an account (under from ≠ to). -/
def delta (e : Event) (a : Addr) : Int :=
  if 0 < e.value then
    (if a = e.pfrom ∧ e.pfrom ≠ ZERO_ADDRESS then -e.value else 0) +
    (if a = e.pto ∧ e.pto ≠ ZERO_ADDRESS then e.value else 0) +
    (if a = ZERO_ADDRESS then
      (if e.pfrom = ZERO_ADDRESS then e.value
       else if e.pto = ZERO_ADDRESS then -e.value else 0)
     else 0)
  else 0

/-- Balance of an account after a list of events. -/
def balanceOf (es : List Event) (a : Addr) : Int :=
  es.foldl (fun b e => b + delta e a) 0

/-- Balance of an account at an instant t: all events with timestamp ≤ t
have been applied. -/
def balAt (es : List Event) (a : Addr) (t : Int) : Int :=
  balanceOf (es.filter (fun e => decide (e.timestamp ≤ t))) a

/-- No event with a positive amount debits more than the sender's balance
at that point of the history (accumulator: the events already applied). -/
def noOverdraftAux : List Event → List Event → Bool
  | _, [] => true
  | done, e :: rest =>
    (!(decide (0 < e.value) && (e.pfrom != ZERO_ADDRESS)) ||
      decide (e.value ≤ balanceOf done e.pfrom)) &&
    noOverdraftAux (done ++ [e]) rest

def noOverdraftB (es : List Event) : Bool := noOverdraftAux [] es

/-- The time-weighted cumulative holding metric of account a at time T,
computed directly from the event history: running balance bal held since
lastT, integrating balance over time up to T. -/
def hodlFrom (a : Addr) (T : Int) : Int → Int → List Event → Int
  | bal, lastT, [] => bal * (T - lastT)
  | bal, lastT, e :: rest =>
    if e.timestamp ≤ T then
      bal * (e.timestamp - lastT) + hodlFrom a T (bal + delta e a) e.timestamp rest
    else bal * (T - lastT)

/-- The reference metric: integral of the account's balance from time 0
to T under the history es. -/
def trueHODL (es : List Event) (a : Addr) (T : Int) : Int := hodlFrom a T 0 0 es

/-! ### Abstract per-account checkpoint model -/

/-- One checkpoint of the abstract per-account model: its bucket, the time
and post-event balance of the latest event that updated it, and the
cumulative metric at that time. -/
structure ChainEntry where
  bucket : Int
  lastTimestamp : Int
  lastBalance : Int
  cum : Int
deriving DecidableEq, Repr

/-- Abstract state of one account: current balance and checkpoint chain,
newest first. -/
structure AAcc where
  balance : Int
  chain : List ChainEntry
deriving DecidableEq, Repr

/-- Abstract effect of one updating event at time t with balance change d:
update the head checkpoint in place when the event falls in its bucket,
otherwise push a new checkpoint accumulating from the previous head. -/
def astepRaw (A : AAcc) (t d : Int) : AAcc :=
  let b := A.balance
  let bucket := getHourTimestamp t
  match A.chain with
  | [] => ⟨b + d, [⟨bucket, t, b + d, 0⟩]⟩
  | c :: rest =>
    let cum' := c.cum + (t - c.lastTimestamp) * b
    if c.bucket = bucket then ⟨b + d, ⟨bucket, t, b + d, cum'⟩ :: rest⟩
    else ⟨b + d, ⟨bucket, t, b + d, cum'⟩ :: c :: rest⟩

def astepAcc (A : AAcc) (e : Event) (a : Addr) : AAcc :=
  if touches e a then astepRaw A e.timestamp (delta e a) else A

def aexecFrom (A : AAcc) (a : Addr) (es : List Event) : AAcc :=
  es.foldl (fun X e => astepAcc X e a) A

/-- Abstract state of account a after the history es. -/
def aexec (es : List Event) (a : Addr) : AAcc := aexecFrom ⟨0, []⟩ a es

/-- Walk an abstract chain (newest first): extrapolate from the first
checkpoint at or before T, 0 if none. -/
def walkCE (T : Int) : List ChainEntry → Int
  | [] => 0
  | c :: rest =>
    if c.lastTimestamp ≤ T then c.cum + c.lastBalance * (T - c.lastTimestamp)
    else walkCE T rest

/-! ### Well-formedness of abstract states and the store relation -/

/-- A checkpoint records the bucket of its own last event time, and sits
at or after the first bucket boundary. -/
def EntryWF (c : ChainEntry) : Prop :=
  c.bucket = getHourTimestamp c.lastTimestamp ∧ SECONDS_PER_HOUR ≤ c.bucket

/-- Chain well-formedness: entries well formed, buckets strictly
decreasing by at least one bucket, and whenever a checkpoint's last event
time sits exactly on its bucket boundary its cumulative value equals the
extrapolation from the previous checkpoint (0 for the oldest). -/
def ChainWF : List ChainEntry → Prop
  | [] => True
  | c :: rest =>
    EntryWF c ∧ ChainWF rest ∧
    (match rest with
     | [] => c.lastTimestamp = c.bucket → c.cum = 0
     | c' :: _ =>
       c'.bucket + SECONDS_PER_HOUR ≤ c.bucket ∧
       (c.lastTimestamp = c.bucket →
         c.cum = c'.cum + (c.bucket - c'.lastTimestamp) * c'.lastBalance))

/-- Abstract account well-formedness: chain well formed and the head
checkpoint carries the current balance (0 when untouched). -/
def AAccWF (A : AAcc) : Prop :=
  ChainWF A.chain ∧
  (match A.chain with
   | [] => A.balance = 0
   | c :: _ => c.lastBalance = A.balance)

/-- The head checkpoint's last event time is at most t. -/
def headLastLE (A : AAcc) (t : Int) : Prop :=
  match A.chain with
  | [] => True
  | c :: _ => c.lastTimestamp ≤ t

/-- A stored observation realizes an abstract checkpoint (the next link is
never read by the queries and is left unconstrained). -/
def ObsMatches (o : HourObservation) (a : Addr) (c : ChainEntry) (prevB : Int) : Prop :=
  o.user = a ∧ o.lastTimestamp = c.lastTimestamp ∧ o.lastBalance = c.lastBalance ∧
  o.cumulativeHODL = c.cum ∧ o.previousHourTimestamp = prevB

def prevBucketOf : List ChainEntry → Int
  | [] => 0
  | c :: _ => c.bucket

/-- Every abstract checkpoint is stored at its bucket with a previous link
to the next (older) entry's bucket, 0 for the oldest. -/
def ChainInStore (s : Store) (a : Addr) : List ChainEntry → Prop
  | [] => True
  | c :: rest =>
    (∃ o, loadObs s a c.bucket = some o ∧ ObsMatches o a c (prevBucketOf rest)) ∧
    ChainInStore s a rest

/-- The store's view of one account realizes its abstract state: the
observation table holds exactly the chain's buckets, each matching its
entry, and the user record carries the balance, count and latest bucket. -/
def AccMatches (s : Store) (a : Addr) (A : AAcc) : Prop :=
  (∀ b, (loadObs s a b).isSome ↔ b ∈ A.chain.map ChainEntry.bucket) ∧
  ChainInStore s a A.chain ∧
  (match A.chain with
   | [] => loadUser s a = none
   | c :: _ => loadUser s a = some ⟨a, A.balance, (A.chain.length : Int), c.bucket⟩)

/-- The account list holds exactly the ids of the stored user records,
without duplicates. -/
def AccountsOK (s : Store) : Prop :=
  (∀ a, (loadUser s a).isSome ↔ a ∈ s.accounts) ∧ s.accounts.Nodup

/-- Every stored user record carries its own key as id. -/
def StoreIdWF (s : Store) : Prop :=
  ∀ a u, loadUser s a = some u → u.id = a

/-- The store after a history realizes the abstract state of every account. -/
def Rel (es : List Event) (s : Store) : Prop :=
  (∀ a, AccMatches s a (aexec es a)) ∧ AccountsOK s

/-! ### The walk described by the specification (for the refinement claim) -/

/-- The checkpoint chain of an account as described by the specification:
follow previousHourTimestamp links backward from lastCheckpointBucket.
The strict-decrease guard embodies the spec's strictly-increasing acyclic
chain; the fuel is one more than the account's checkpoint count, enough
for every chain the handlers produce. -/
def specChain (s : Store) (a : Addr) : Nat → Int → List HourObservation
  | 0, _ => []
  | fuel + 1, b =>
    match loadObs s a b with
    | none => []
    | some o =>
      o :: (if o.previousHourTimestamp < b then specChain s a fuel o.previousHourTimestamp else [])

def walkObsList (T : Int) : List HourObservation → Int
  | [] => 0
  | o :: rest =>
    if o.lastTimestamp ≤ T then extrapolateCumulativeHODL o T else walkObsList T rest

/-- The metric query as worded by the specification (claim C4): 0 for a
never-observed account; otherwise walk the account's chain backward from
lastCheckpointBucket and extrapolate from the first checkpoint whose last
event time is at most the query timestamp, 0 when the walk exhausts the
chain. -/
def metricAtSpec (s : Store) (a : Addr) (T : Int) : Int :=
  match loadUser s a with
  | none => 0
  | some u => walkObsList T (specChain s a (u.observationCount.toNat + 1) u.lastHourTimestamp)

/-! ### Concrete histories used as counterexamples and witnesses -/

def addrA : Addr := "0xaaa1"
def addrB : Addr := "0xbbb2"
def addrC : Addr := "0xccc3"

def runStore (es : List Event) : Store :=
  match applyHistory es with
  | .ok s => s
  | .error _ => emptyStore

def c1Hist : List Event :=
  [⟨ZERO_ADDRESS, addrA, 1000, 1000⟩, ⟨ZERO_ADDRESS, addrB, 500, 5000⟩]
def c1Store : Store := runStore c1Hist

def c2Hist : List Event :=
  [⟨ZERO_ADDRESS, addrA, 1000, 3600⟩, ⟨addrA, addrA, 100, 3600⟩]
def c2Store : Store := runStore c2Hist

def c3Hist : List Event :=
  [⟨ZERO_ADDRESS, addrA, 100, 3600⟩, ⟨addrA, addrB, 1000, 3600⟩]
def c3Store : Store := runStore c3Hist

def c4Hist : List Event := [⟨ZERO_ADDRESS, addrA, 1000, 1000⟩]
def c4Store : Store := runStore c4Hist

def c6Hist : List Event :=
  [⟨ZERO_ADDRESS, addrA, 1000, 1000⟩, ⟨addrB, addrC, 5, 5000⟩]
def c6Store : Store := runStore c6Hist

def c10Store : Store := runStore [⟨ZERO_ADDRESS, addrA, 1000, 3600⟩]

def wHist : List Event :=
  [⟨ZERO_ADDRESS, addrA, 1000, 3600⟩, ⟨addrA, addrB, 400, 5400⟩]
def wStore : Store := runStore wHist

def c5User : User := ⟨addrA, 1000, 1, 3600⟩

def c10SelfEvent : Event := ⟨addrA, addrA, 100, 7200⟩

def c10After : Store :=
  match handleTransfer c10Store c10SelfEvent with
  | .ok s => s
  | .error _ => emptyStore

/-! The store produced by handleTransfer, case by case on mint/burn: the
observation phase for one account (getOrCreateHourObservation followed by
saving the returned observation at its id), and the three result shapes of
a nonzero transfer.  These restate the body of handleTransfer; the
equations below prove them equal to it. -/

def obsPipeline (u : User) (t prior : Int) (s : Store) : Store :=
  let r := getOrCreateHourObservation u t prior s
  saveObs r.2.2 u.id (getHourTimestamp t) r.1

def regularResult (s : Store) (e : Event) : Store :=
  let fs := getOrCreateUser s e.pfrom
  let fromUser := fs.1
  let ts := getOrCreateUser fs.2 e.pto
  let toUser := ts.1
  let zs := getOrCreateUser ts.2 ZERO_ADDRESS
  let tokenUser := zs.1
  let fromUser' := { fromUser with balance := fromUser.balance - e.value }
  let toUser' := { toUser with balance := toUser.balance + e.value }
  let s6 := saveUser (saveUser (saveUser zs.2 fromUser') toUser') tokenUser
  obsPipeline tokenUser e.timestamp tokenUser.balance
    (obsPipeline toUser' e.timestamp toUser.balance
      (obsPipeline fromUser' e.timestamp fromUser.balance s6))

def mintResult (s : Store) (e : Event) : Store :=
  let fs := getOrCreateUser s e.pfrom
  let ts := getOrCreateUser fs.2 e.pto
  let toUser := ts.1
  let zs := getOrCreateUser ts.2 ZERO_ADDRESS
  let tokenUser := zs.1
  let toUser' := { toUser with balance := toUser.balance + e.value }
  let tokenUser' := { tokenUser with balance := tokenUser.balance + e.value }
  let s6 := saveUser (saveUser zs.2 toUser') tokenUser'
  obsPipeline tokenUser' e.timestamp tokenUser.balance
    (obsPipeline toUser' e.timestamp toUser.balance s6)

def burnResult (s : Store) (e : Event) : Store :=
  let fs := getOrCreateUser s e.pfrom
  let fromUser := fs.1
  let ts := getOrCreateUser fs.2 e.pto
  let zs := getOrCreateUser ts.2 ZERO_ADDRESS
  let tokenUser := zs.1
  let fromUser' := { fromUser with balance := fromUser.balance - e.value }
  let tokenUser' := { tokenUser with balance := tokenUser.balance - e.value }
  let s6 := saveUser (saveUser zs.2 fromUser') tokenUser'
  obsPipeline tokenUser' e.timestamp tokenUser.balance
    (obsPipeline fromUser' e.timestamp fromUser.balance s6)

/-! ## Basic store lemmas -/

@[simp] theorem loadUser_saveObs (s : Store) (a : Addr) (b : Int) (o : HourObservation)
    (x : Addr) : loadUser (saveObs s a b o) x = loadUser s x := rfl

@[simp] theorem loadObs_saveUser (s : Store) (u : User) (x : Addr) (y : Int) :
    loadObs (saveUser s u) x y = loadObs s x y := rfl

@[simp] theorem loadObs_createUser (s : Store) (u : User) (x : Addr) (y : Int) :
    loadObs (createUser s u) x y = loadObs s x y := rfl

theorem loadUser_saveUser (s : Store) (u : User) (x : Addr) :
    loadUser (saveUser s u) x = if x = u.id then some u else loadUser s x := rfl

theorem loadUser_createUser (s : Store) (u : User) (x : Addr) :
    loadUser (createUser s u) x = if x = u.id then some u else loadUser s x := rfl

theorem loadObs_saveObs (s : Store) (a : Addr) (b : Int) (o : HourObservation)
    (x : Addr) (y : Int) :
    loadObs (saveObs s a b o) x y =
      if x = a then (if y = b then some o else loadObs s x y) else loadObs s x y := rfl

@[simp] theorem accounts_saveUser (s : Store) (u : User) :
    (saveUser s u).accounts = s.accounts := rfl

@[simp] theorem accounts_saveObs (s : Store) (a : Addr) (b : Int) (o : HourObservation) :
    (saveObs s a b o).accounts = s.accounts := rfl

@[simp] theorem accounts_createUser (s : Store) (u : User) :
    (createUser s u).accounts = s.accounts ++ [u.id] := rfl

theorem loadUser_saveUser_same (s : Store) (u : User) :
    loadUser (saveUser s u) u.id = some u := by simp [loadUser_saveUser]

theorem loadUser_saveUser_other (s : Store) (u : User) (x : Addr) (h : x ≠ u.id) :
    loadUser (saveUser s u) x = loadUser s x := by simp [loadUser_saveUser, h]

theorem loadObs_saveObs_same (s : Store) (a : Addr) (b : Int) (o : HourObservation) :
    loadObs (saveObs s a b o) a b = some o := by simp [loadObs_saveObs]

theorem loadObs_saveObs_other (s : Store) (a : Addr) (b : Int) (o : HourObservation)
    (x : Addr) (y : Int) (h : x ≠ a ∨ y ≠ b) :
    loadObs (saveObs s a b o) x y = loadObs s x y := by
  rcases h with h | h
  · simp [loadObs_saveObs, h]
  · rw [loadObs_saveObs]
    by_cases hx : x = a <;> simp [hx, h]

/-! ## Bucket arithmetic -/

theorem getHourTimestamp_self_iff (t : Int) :
    t = getHourTimestamp t ↔ t % SECONDS_PER_HOUR = 0 := by
  unfold getHourTimestamp SECONDS_PER_HOUR
  constructor
  · intro h
    have hd : (3600 : Int) ∣ t := ⟨t.tdiv 3600, by linarith [h]⟩
    omega
  · intro h
    obtain ⟨k, hk⟩ : (3600 : Int) ∣ t := by omega
    subst hk
    rw [Int.mul_tdiv_cancel_left k (by norm_num)]
    ring

theorem getHourTimestamp_nonneg_eq (t : Int) (h : 0 ≤ t) :
    getHourTimestamp t = t / 3600 * 3600 := by
  unfold getHourTimestamp SECONDS_PER_HOUR
  rw [Int.tdiv_eq_ediv h (by norm_num)]

theorem getHourTimestamp_le (t : Int) (h : 0 ≤ t) : getHourTimestamp t ≤ t := by
  rw [getHourTimestamp_nonneg_eq t h]; omega

theorem lt_getHourTimestamp_add (t : Int) (h : 0 ≤ t) :
    t < getHourTimestamp t + SECONDS_PER_HOUR := by
  rw [getHourTimestamp_nonneg_eq t h]; unfold SECONDS_PER_HOUR; omega

theorem getHourTimestamp_mono {t t' : Int} (h0 : 0 ≤ t) (h : t ≤ t') :
    getHourTimestamp t ≤ getHourTimestamp t' := by
  rw [getHourTimestamp_nonneg_eq t h0, getHourTimestamp_nonneg_eq t' (le_trans h0 h)]
  have := Int.ediv_le_ediv (by norm_num : (0:Int) < 3600) h
  omega

theorem getHourTimestamp_dvd (t : Int) (h : 0 ≤ t) :
    getHourTimestamp t % SECONDS_PER_HOUR = 0 := by
  rw [getHourTimestamp_nonneg_eq t h]; unfold SECONDS_PER_HOUR; omega

theorem getHourTimestamp_of_between {b t : Int} (hb : b % SECONDS_PER_HOUR = 0)
    (h1 : b ≤ t) (h2 : t < b + SECONDS_PER_HOUR) (h0 : 0 ≤ b) :
    getHourTimestamp t = b := by
  rw [getHourTimestamp_nonneg_eq t (le_trans h0 h1)]
  unfold SECONDS_PER_HOUR at hb h2
  omega

/-! ## The case shape of handleTransfer and store locality lemmas -/

theorem getOrCreateHourObservation_loadUser (u : User) (t prior : Int) (s : Store) (x : Addr) :
    loadUser (getOrCreateHourObservation u t prior s).2.2 x =
      match loadObs s u.id (getHourTimestamp t) with
      | some _ => loadUser s x
      | none =>
        if x = u.id then
          some { u with observationCount := u.observationCount + 1,
                        lastHourTimestamp := getHourTimestamp t }
        else loadUser s x := by
  unfold getOrCreateHourObservation
  dsimp only
  cases h : loadObs s u.id (getHourTimestamp t) with
  | some o => rfl
  | none =>
    dsimp only
    rw [loadUser_saveUser]
    by_cases hc : 0 < u.observationCount
    · rw [if_pos hc]
      cases hl : loadObs s u.id u.lastHourTimestamp with
      | some lastObs => rfl
      | none => rfl
    · rw [if_neg hc]

theorem getOrCreateHourObservation_loadObs_other (u : User) (t prior : Int) (s : Store)
    (x : Addr) (y : Int) (hx : x ≠ u.id) :
    loadObs (getOrCreateHourObservation u t prior s).2.2 x y = loadObs s x y := by
  unfold getOrCreateHourObservation
  dsimp only
  cases h : loadObs s u.id (getHourTimestamp t) with
  | some o => rfl
  | none =>
    dsimp only
    rw [loadObs_saveUser]
    by_cases hc : 0 < u.observationCount
    · rw [if_pos hc]
      cases hl : loadObs s u.id u.lastHourTimestamp with
      | some lastObs => exact loadObs_saveObs_other _ _ _ _ _ _ (Or.inl hx)
      | none => rfl
    · rw [if_neg hc]

theorem handleTransfer_regular (s : Store) (e : Event) (hv : 0 < e.value)
    (hf : ((getOrCreateUser s e.pfrom).1.id == ZERO_ADDRESS) = false)
    (hb : ((getOrCreateUser (getOrCreateUser s e.pfrom).2 e.pto).1.id == ZERO_ADDRESS) = false) :
    handleTransfer s e = .ok (regularResult s e) := by
  unfold handleTransfer regularResult obsPipeline
  rw [if_pos hv]
  simp only [hf, hb, Bool.false_and, Bool.false_eq_true, if_false]

theorem handleTransfer_mint (s : Store) (e : Event) (hv : 0 < e.value)
    (hf : ((getOrCreateUser s e.pfrom).1.id == ZERO_ADDRESS) = true)
    (hb : ((getOrCreateUser (getOrCreateUser s e.pfrom).2 e.pto).1.id == ZERO_ADDRESS) = false) :
    handleTransfer s e = .ok (mintResult s e) := by
  unfold handleTransfer mintResult obsPipeline
  rw [if_pos hv]
  simp only [hf, hb, Bool.true_and, Bool.false_eq_true, Bool.true_eq_false, if_false, if_true]

theorem handleTransfer_burn (s : Store) (e : Event) (hv : 0 < e.value)
    (hf : ((getOrCreateUser s e.pfrom).1.id == ZERO_ADDRESS) = false)
    (hb : ((getOrCreateUser (getOrCreateUser s e.pfrom).2 e.pto).1.id == ZERO_ADDRESS) = true) :
    handleTransfer s e = .ok (burnResult s e) := by
  unfold handleTransfer burnResult obsPipeline
  rw [if_pos hv]
  simp only [hf, hb, Bool.false_and, Bool.false_eq_true, Bool.true_eq_false, if_false, if_true]

theorem handleTransfer_mintburn (s : Store) (e : Event) (hv : 0 < e.value)
    (hf : ((getOrCreateUser s e.pfrom).1.id == ZERO_ADDRESS) = true)
    (hb : ((getOrCreateUser (getOrCreateUser s e.pfrom).2 e.pto).1.id == ZERO_ADDRESS) = true) :
    handleTransfer s e = .error .mintAndBurn := by
  unfold handleTransfer
  rw [if_pos hv]
  simp only [hf, hb, Bool.and_self, if_true]

theorem getOrCreateHourObservation_accounts (u : User) (t prior : Int) (s : Store) :
    (getOrCreateHourObservation u t prior s).2.2.accounts = s.accounts := by
  unfold getOrCreateHourObservation
  dsimp only
  cases h : loadObs s u.id (getHourTimestamp t) with
  | some o => rfl
  | none =>
    dsimp only
    by_cases hc : 0 < u.observationCount
    · rw [if_pos hc]
      cases hl : loadObs s u.id u.lastHourTimestamp with
      | some lastObs => rfl
      | none => rfl
    · rw [if_neg hc]; rfl

theorem obsPipeline_loadUser (u : User) (t prior : Int) (s : Store) (x : Addr) :
    loadUser (obsPipeline u t prior s) x =
      match loadObs s u.id (getHourTimestamp t) with
      | some _ => loadUser s x
      | none =>
        if x = u.id then
          some { u with observationCount := u.observationCount + 1,
                        lastHourTimestamp := getHourTimestamp t }
        else loadUser s x := by
  unfold obsPipeline
  rw [loadUser_saveObs]
  exact getOrCreateHourObservation_loadUser u t prior s x

theorem obsPipeline_loadUser_other (u : User) (t prior : Int) (s : Store) (x : Addr)
    (hx : x ≠ u.id) : loadUser (obsPipeline u t prior s) x = loadUser s x := by
  rw [obsPipeline_loadUser]
  cases h : loadObs s u.id (getHourTimestamp t) with
  | some o => rfl
  | none => rw [if_neg hx]

theorem obsPipeline_loadUser_some (u : User) (t prior : Int) (s : Store) (x : Addr)
    (hsome : (loadObs s u.id (getHourTimestamp t)).isSome = true) :
    loadUser (obsPipeline u t prior s) x = loadUser s x := by
  rw [obsPipeline_loadUser]
  cases h : loadObs s u.id (getHourTimestamp t) with
  | some o => rfl
  | none => rw [h] at hsome; simp at hsome

theorem obsPipeline_loadUser_none_self (u : User) (t prior : Int) (s : Store)
    (hnone : loadObs s u.id (getHourTimestamp t) = none) :
    loadUser (obsPipeline u t prior s) u.id =
      some { u with observationCount := u.observationCount + 1,
                    lastHourTimestamp := getHourTimestamp t } := by
  rw [obsPipeline_loadUser, hnone]
  simp

theorem obsPipeline_loadObs_other (u : User) (t prior : Int) (s : Store) (x : Addr)
    (y : Int) (hx : x ≠ u.id) :
    loadObs (obsPipeline u t prior s) x y = loadObs s x y := by
  unfold obsPipeline
  rw [loadObs_saveObs_other _ _ _ _ _ _ (Or.inl hx)]
  exact getOrCreateHourObservation_loadObs_other u t prior s x y hx

theorem obsPipeline_loadObs_self_isSome (u : User) (t prior : Int) (s : Store) :
    (loadObs (obsPipeline u t prior s) u.id (getHourTimestamp t)).isSome = true := by
  unfold obsPipeline
  rw [loadObs_saveObs_same]
  rfl

theorem obsPipeline_accounts (u : User) (t prior : Int) (s : Store) :
    (obsPipeline u t prior s).accounts = s.accounts := by
  unfold obsPipeline
  rw [accounts_saveObs, getOrCreateHourObservation_accounts]

theorem getOrCreateUser_of_some (s : Store) (a : Addr) (u : User) (h : loadUser s a = some u) :
    getOrCreateUser s a = (u, s) := by
  unfold getOrCreateUser; rw [h]

theorem getOrCreateUser_spec (s : Store) (a : Addr) (hWF : StoreIdWF s) :
    (getOrCreateUser s a).1.id = a ∧
    (getOrCreateUser s a).1.balance = storedBalance s a ∧
    loadUser (getOrCreateUser s a).2 a = some (getOrCreateUser s a).1 ∧
    (∀ x, x ≠ a → loadUser (getOrCreateUser s a).2 x = loadUser s x) ∧
    (∀ x y, loadObs (getOrCreateUser s a).2 x y = loadObs s x y) ∧
    StoreIdWF (getOrCreateUser s a).2 := by
  unfold getOrCreateUser storedBalance
  cases h : loadUser s a with
  | some u =>
    exact ⟨hWF a u h, rfl, h, fun x hx => rfl, fun x y => rfl, hWF⟩
  | none =>
    refine ⟨rfl, rfl, ?_, ?_, fun x y => rfl, ?_⟩
    · rw [loadUser_createUser]; simp
    · intro x hx; rw [loadUser_createUser, if_neg hx]
    · intro b u' hb
      rw [loadUser_createUser] at hb
      by_cases hba : b = a
      · subst hba; rw [if_pos rfl] at hb; cases hb; rfl
      · rw [if_neg hba] at hb; exact hWF b u' hb

theorem claim_C10_self_transfer (s : Store) (X : Addr) (v t : Int)
    (hWF : StoreIdWF s) (hX : X ≠ ZERO_ADDRESS) (hv : 0 < v) :
    ∃ s', handleTransfer s ⟨X, X, v, t⟩ = Except.ok s' ∧
      storedBalance s' X = (if (loadObs s X (getHourTimestamp t)).isSome
        then storedBalance s X + v else storedBalance s X - v) ∧
      storedBalance s' ZERO_ADDRESS = storedBalance s ZERO_ADDRESS := by
  obtain ⟨h1id, h1bal, h1self, h1other, h1obs, h1wf⟩ := getOrCreateUser_spec s X hWF
  have e1 : getOrCreateUser (getOrCreateUser s X).2 X =
      ((getOrCreateUser s X).1, (getOrCreateUser s X).2) :=
    getOrCreateUser_of_some _ _ _ h1self
  obtain ⟨h2id, h2bal, h2self, h2other, h2obs, h2wf⟩ :=
    getOrCreateUser_spec (getOrCreateUser s X).2 ZERO_ADDRESS h1wf
  have hf : (((getOrCreateUser s (⟨X, X, v, t⟩ : Event).pfrom).1.id == ZERO_ADDRESS) = false) := by
    dsimp only
    rw [h1id]
    exact beq_eq_false_iff_ne.mpr hX
  have hb : (((getOrCreateUser (getOrCreateUser s (⟨X, X, v, t⟩ : Event).pfrom).2
      (⟨X, X, v, t⟩ : Event).pto).1.id == ZERO_ADDRESS) = false) := by
    dsimp only
    rw [e1]
    dsimp only
    rw [h1id]
    exact beq_eq_false_iff_ne.mpr hX
  refine ⟨regularResult s ⟨X, X, v, t⟩, handleTransfer_regular s ⟨X, X, v, t⟩ hv hf hb, ?_, ?_⟩
  · unfold regularResult
    dsimp only
    rw [e1]
    dsimp only
    unfold storedBalance
    rw [obsPipeline_loadUser_other _ _ _ _ _ (by rw [h2id]; exact hX)]
    have hsomeTo : (loadObs (obsPipeline { id := (getOrCreateUser s X).1.id, balance := (getOrCreateUser s X).1.balance - v, observationCount := (getOrCreateUser s X).1.observationCount, lastHourTimestamp := (getOrCreateUser s X).1.lastHourTimestamp } t (getOrCreateUser s X).1.balance (saveUser (saveUser (saveUser (getOrCreateUser (getOrCreateUser s X).2 ZERO_ADDRESS).2 { id := (getOrCreateUser s X).1.id, balance := (getOrCreateUser s X).1.balance - v, observationCount := (getOrCreateUser s X).1.observationCount, lastHourTimestamp := (getOrCreateUser s X).1.lastHourTimestamp }) { id := (getOrCreateUser s X).1.id, balance := (getOrCreateUser s X).1.balance + v, observationCount := (getOrCreateUser s X).1.observationCount, lastHourTimestamp := (getOrCreateUser s X).1.lastHourTimestamp }) (getOrCreateUser (getOrCreateUser s X).2 ZERO_ADDRESS).1)) ({ id := (getOrCreateUser s X).1.id, balance := (getOrCreateUser s X).1.balance + v, observationCount := (getOrCreateUser s X).1.observationCount, lastHourTimestamp := (getOrCreateUser s X).1.lastHourTimestamp } : User).id (getHourTimestamp t)).isSome = true :=
      obsPipeline_loadObs_self_isSome _ _ _ _
    rw [obsPipeline_loadUser_some _ _ _ _ _ hsomeTo]
    cases hobs : loadObs s X (getHourTimestamp t) with
    | some o =>
      have hises : (loadObs (saveUser (saveUser (saveUser (getOrCreateUser (getOrCreateUser s X).2 ZERO_ADDRESS).2 { id := (getOrCreateUser s X).1.id, balance := (getOrCreateUser s X).1.balance - v, observationCount := (getOrCreateUser s X).1.observationCount, lastHourTimestamp := (getOrCreateUser s X).1.lastHourTimestamp }) { id := (getOrCreateUser s X).1.id, balance := (getOrCreateUser s X).1.balance + v, observationCount := (getOrCreateUser s X).1.observationCount, lastHourTimestamp := (getOrCreateUser s X).1.lastHourTimestamp }) (getOrCreateUser (getOrCreateUser s X).2 ZERO_ADDRESS).1) ({ id := (getOrCreateUser s X).1.id, balance := (getOrCreateUser s X).1.balance - v, observationCount := (getOrCreateUser s X).1.observationCount, lastHourTimestamp := (getOrCreateUser s X).1.lastHourTimestamp } : User).id (getHourTimestamp t)).isSome = true := by
        dsimp only
        rw [loadObs_saveUser, loadObs_saveUser, loadObs_saveUser, h2obs, h1obs, h1id, hobs]
        rfl
      rw [obsPipeline_loadUser_some _ _ _ _ _ hises]
      rw [loadUser_saveUser, if_neg (by rw [h2id]; exact hX), loadUser_saveUser]
      dsimp only
      rw [if_pos h1id.symm]
      dsimp only
      rw [h1bal]
      simp
      rfl
    | none =>
      have hisnone : loadObs (saveUser (saveUser (saveUser (getOrCreateUser (getOrCreateUser s X).2 ZERO_ADDRESS).2 { id := (getOrCreateUser s X).1.id, balance := (getOrCreateUser s X).1.balance - v, observationCount := (getOrCreateUser s X).1.observationCount, lastHourTimestamp := (getOrCreateUser s X).1.lastHourTimestamp }) { id := (getOrCreateUser s X).1.id, balance := (getOrCreateUser s X).1.balance + v, observationCount := (getOrCreateUser s X).1.observationCount, lastHourTimestamp := (getOrCreateUser s X).1.lastHourTimestamp }) (getOrCreateUser (getOrCreateUser s X).2 ZERO_ADDRESS).1) ({ id := (getOrCreateUser s X).1.id, balance := (getOrCreateUser s X).1.balance - v, observationCount := (getOrCreateUser s X).1.observationCount, lastHourTimestamp := (getOrCreateUser s X).1.lastHourTimestamp } : User).id (getHourTimestamp t) = none := by
        dsimp only
        rw [loadObs_saveUser, loadObs_saveUser, loadObs_saveUser, h2obs, h1obs, h1id, hobs]
      rw [obsPipeline_loadUser, hisnone]
      rw [if_pos (show X = ({ id := (getOrCreateUser s X).1.id, balance := (getOrCreateUser s X).1.balance - v, observationCount := (getOrCreateUser s X).1.observationCount, lastHourTimestamp := (getOrCreateUser s X).1.lastHourTimestamp } : User).id by simp [h1id])]
      dsimp only
      rw [h1bal]
      simp
      rfl
  · unfold regularResult
    dsimp only
    rw [e1]
    dsimp only
    unfold storedBalance
    have hZX : ZERO_ADDRESS ≠ X := Ne.symm hX
    have htail : loadUser (obsPipeline { id := (getOrCreateUser s X).1.id, balance := (getOrCreateUser s X).1.balance + v, observationCount := (getOrCreateUser s X).1.observationCount, lastHourTimestamp := (getOrCreateUser s X).1.lastHourTimestamp } t (getOrCreateUser s X).1.balance (obsPipeline { id := (getOrCreateUser s X).1.id, balance := (getOrCreateUser s X).1.balance - v, observationCount := (getOrCreateUser s X).1.observationCount, lastHourTimestamp := (getOrCreateUser s X).1.lastHourTimestamp } t (getOrCreateUser s X).1.balance (saveUser (saveUser (saveUser (getOrCreateUser (getOrCreateUser s X).2 ZERO_ADDRESS).2 { id := (getOrCreateUser s X).1.id, balance := (getOrCreateUser s X).1.balance - v, observationCount := (getOrCreateUser s X).1.observationCount, lastHourTimestamp := (getOrCreateUser s X).1.lastHourTimestamp }) { id := (getOrCreateUser s X).1.id, balance := (getOrCreateUser s X).1.balance + v, observationCount := (getOrCreateUser s X).1.observationCount, lastHourTimestamp := (getOrCreateUser s X).1.lastHourTimestamp }) (getOrCreateUser (getOrCreateUser s X).2 ZERO_ADDRESS).1))) ZERO_ADDRESS = some (getOrCreateUser (getOrCreateUser s X).2 ZERO_ADDRESS).1 := by
      rw [obsPipeline_loadUser_other _ _ _ _ _ (by dsimp only; rw [h1id]; exact hZX)]
      rw [obsPipeline_loadUser_other _ _ _ _ _ (by dsimp only; rw [h1id]; exact hZX)]
      rw [loadUser_saveUser, if_pos h2id.symm]
    rw [obsPipeline_loadUser]
    cases hzo : loadObs (obsPipeline { id := (getOrCreateUser s X).1.id, balance := (getOrCreateUser s X).1.balance + v, observationCount := (getOrCreateUser s X).1.observationCount, lastHourTimestamp := (getOrCreateUser s X).1.lastHourTimestamp } t (getOrCreateUser s X).1.balance (obsPipeline { id := (getOrCreateUser s X).1.id, balance := (getOrCreateUser s X).1.balance - v, observationCount := (getOrCreateUser s X).1.observationCount, lastHourTimestamp := (getOrCreateUser s X).1.lastHourTimestamp } t (getOrCreateUser s X).1.balance (saveUser (saveUser (saveUser (getOrCreateUser (getOrCreateUser s X).2 ZERO_ADDRESS).2 { id := (getOrCreateUser s X).1.id, balance := (getOrCreateUser s X).1.balance - v, observationCount := (getOrCreateUser s X).1.observationCount, lastHourTimestamp := (getOrCreateUser s X).1.lastHourTimestamp }) { id := (getOrCreateUser s X).1.id, balance := (getOrCreateUser s X).1.balance + v, observationCount := (getOrCreateUser s X).1.observationCount, lastHourTimestamp := (getOrCreateUser s X).1.lastHourTimestamp }) (getOrCreateUser (getOrCreateUser s X).2 ZERO_ADDRESS).1))) ((getOrCreateUser (getOrCreateUser s X).2 ZERO_ADDRESS).1 : User).id (getHourTimestamp t) with
    | some o =>
      rw [htail]
      dsimp only
      rw [h2bal]
      unfold storedBalance
      rw [h1other ZERO_ADDRESS hZX]
    | none =>
      dsimp only
      rw [if_pos h2id.symm]
      dsimp only
      rw [h2bal]
      unfold storedBalance
      rw [h1other ZERO_ADDRESS hZX]



/-! ## Generic sums over address lists -/

theorem sum_map_add_split (l : List Addr) (f g : Addr → Int) :
    (l.map (fun x => f x + g x)).sum = (l.map f).sum + (l.map g).sum := by
  induction l with
  | nil => simp
  | cons a rest ih => simp [ih]; ring

theorem sum_map_congr_mem (l : List Addr) (f g : Addr → Int)
    (h : ∀ x ∈ l, f x = g x) : (l.map f).sum = (l.map g).sum := by
  induction l with
  | nil => simp
  | cons a rest ih =>
    simp only [List.map_cons, List.sum_cons]
    rw [h a (by simp), ih (fun x hx => h x (by simp [hx]))]

theorem sum_map_support_zero (l : List Addr) (f : Addr → Int)
    (h : ∀ x ∈ l, f x = 0) : (l.map f).sum = 0 := by
  rw [sum_map_congr_mem l f (fun _ => 0) h]
  simp

theorem sum_map_support_one (l : List Addr) (f : Addr → Int) (p : Addr)
    (hnd : l.Nodup) (hp : p ∈ l) (h : ∀ x ∈ l, x ≠ p → f x = 0) :
    (l.map f).sum = f p := by
  induction l with
  | nil => cases hp
  | cons a rest ih =>
    simp only [List.map_cons, List.sum_cons]
    rcases List.mem_cons.mp hp with hap | hp'
    · subst hap
      rw [sum_map_support_zero rest f (fun x hx => h x (List.mem_cons_of_mem _ hx)
        (fun hxa => (List.nodup_cons.mp hnd).1 (hxa ▸ hx)))]
      ring
    · rw [h a (by simp) (fun hap => (List.nodup_cons.mp hnd).1 (hap ▸ hp')),
        ih (List.nodup_cons.mp hnd).2 hp' (fun x hx hxp => h x (List.mem_cons_of_mem _ hx) hxp)]
      ring

theorem sum_map_support_two (l : List Addr) (f : Addr → Int) (p q : Addr)
    (hnd : l.Nodup) (hp : p ∈ l) (hq : q ∈ l) (hpq : p ≠ q)
    (h : ∀ x ∈ l, x ≠ p → x ≠ q → f x = 0) :
    (l.map f).sum = f p + f q := by
  induction l with
  | nil => cases hp
  | cons a rest ih =>
    simp only [List.map_cons, List.sum_cons]
    rcases List.mem_cons.mp hp with hap | hp'
    · subst hap
      have hq' : q ∈ rest := by
        rcases List.mem_cons.mp hq with h1 | h1
        · exact absurd h1.symm hpq
        · exact h1
      rw [sum_map_support_one rest f q (List.nodup_cons.mp hnd).2 hq'
        (fun x hx hxq => h x (List.mem_cons_of_mem _ hx)
          (fun hxa => (List.nodup_cons.mp hnd).1 (hxa ▸ hx)) hxq)]
    · rcases List.mem_cons.mp hq with haq | hq'
      · subst haq
        rw [sum_map_support_one rest f p (List.nodup_cons.mp hnd).2 hp'
          (fun x hx hxp => h x (List.mem_cons_of_mem _ hx) hxp
            (fun hxa => (List.nodup_cons.mp hnd).1 (hxa ▸ hx)))]
        ring
      · rw [h a (by simp) (fun hap => (List.nodup_cons.mp hnd).1 (hap ▸ hp'))
          (fun haq => (List.nodup_cons.mp hnd).1 (haq ▸ hq')),
          ih (List.nodup_cons.mp hnd).2 hp' hq'
            (fun x hx hxp hxq => h x (List.mem_cons_of_mem _ hx) hxp hxq)]
        ring


/-! ## Balance and domain effects of the store operations -/

theorem storedBalance_saveUser (s : Store) (u : User) (x : Addr) :
    storedBalance (saveUser s u) x = if x = u.id then u.balance else storedBalance s x := by
  unfold storedBalance
  rw [loadUser_saveUser]
  by_cases hx : x = u.id
  · rw [if_pos hx, if_pos hx]
  · rw [if_neg hx, if_neg hx]

theorem isSome_saveUser (s : Store) (u : User) (x : Addr)
    (hpres : (loadUser s u.id).isSome = true) :
    (loadUser (saveUser s u) x).isSome = (loadUser s x).isSome := by
  rw [loadUser_saveUser]
  by_cases hx : x = u.id
  · rw [if_pos hx, hx, hpres]
    rfl
  · rw [if_neg hx]

theorem obsPipeline_isSome (u : User) (t prior : Int) (s : Store) (x : Addr)
    (hpres : (loadUser s u.id).isSome = true) :
    (loadUser (obsPipeline u t prior s) x).isSome = (loadUser s x).isSome := by
  rw [obsPipeline_loadUser]
  cases hobs : loadObs s u.id (getHourTimestamp t) with
  | some o => rfl
  | none =>
    by_cases hx : x = u.id
    · rw [if_pos hx, hx, hpres]
      rfl
    · rw [if_neg hx]

theorem obsPipeline_storedBalance (u : User) (t prior : Int) (s : Store) (x : Addr)
    (hbal : storedBalance s u.id = u.balance) :
    storedBalance (obsPipeline u t prior s) x = storedBalance s x := by
  unfold storedBalance
  rw [obsPipeline_loadUser]
  cases hobs : loadObs s u.id (getHourTimestamp t) with
  | some o => rfl
  | none =>
    by_cases hx : x = u.id
    · rw [if_pos hx, hx]
      unfold storedBalance at hbal
      rw [hbal]
    · rw [if_neg hx]

theorem accountsOK_of_same (s s' : Store) (h : AccountsOK s)
    (hacc : s'.accounts = s.accounts)
    (hiso : ∀ x, (loadUser s' x).isSome = (loadUser s x).isSome) : AccountsOK s' := by
  refine ⟨fun a => ?_, hacc ▸ h.2⟩
  rw [hiso a, hacc]
  exact h.1 a

theorem getOrCreateUser_char (s : Store) (a : Addr) :
    (∀ x, storedBalance (getOrCreateUser s a).2 x = storedBalance s x) ∧
    (∀ x, (loadUser (getOrCreateUser s a).2 x).isSome =
      ((x = a : Bool) || (loadUser s x).isSome)) ∧
    (AccountsOK s → AccountsOK (getOrCreateUser s a).2) ∧
    (AccountsOK s → sumBalances (getOrCreateUser s a).2 = sumBalances s) := by
  unfold getOrCreateUser
  cases h : loadUser s a with
  | some u =>
    refine ⟨fun x => rfl, fun x => ?_, fun hA => hA, fun _ => rfl⟩
    by_cases hx : x = a
    · subst hx
      rw [h]
      simp
    · simp [hx]
  | none =>
    refine ⟨fun x => ?_, fun x => ?_, fun hA => ?_, fun hA => ?_⟩
    · unfold storedBalance
      rw [loadUser_createUser]
      by_cases hx : x = a
      · subst hx
        rw [if_pos rfl, h]
      · rw [if_neg hx]
    · rw [loadUser_createUser]
      by_cases hx : x = a
      · subst hx
        rw [if_pos rfl, h]
        simp
      · rw [if_neg hx]
        simp [hx]
    · have hna : a ∉ s.accounts := fun hm => by
        have := (hA.1 a).mpr hm
        rw [h] at this
        exact Bool.noConfusion this
      constructor
      · intro x
        rw [accounts_createUser, loadUser_createUser]
        by_cases hx : x = a
        · subst hx
          simp
        · rw [if_neg hx]
          rw [List.mem_append]
          simp only [List.mem_singleton, hx, or_false]
          exact hA.1 x
      · rw [accounts_createUser]
        simp [List.nodup_append, hA.2, hna]
    · unfold sumBalances
      rw [accounts_createUser, List.filter_append]
      rw [List.map_append, List.sum_append]
      have hpt : ∀ x ∈ s.accounts.filter (fun b => b != ZERO_ADDRESS),
          storedBalance (createUser s ⟨a, 0, 0, 0⟩) x = storedBalance s x := by
        intro x hx
        unfold storedBalance
        rw [loadUser_createUser]
        by_cases hxa : x = a
        · subst hxa
          rw [if_pos rfl, h]
        · rw [if_neg hxa]
      rw [sum_map_congr_mem _ _ _ hpt]
      have : ([a].filter (fun b => b != ZERO_ADDRESS)).map
          (storedBalance (createUser s ⟨a, 0, 0, 0⟩)) = List.nil ∨
          ([a].filter (fun b => b != ZERO_ADDRESS)).map
          (storedBalance (createUser s ⟨a, 0, 0, 0⟩)) = [0] := by
        by_cases hz : (a != ZERO_ADDRESS) = true
        · right
          rw [List.filter_singleton, hz]
          simp only [cond_true, List.map_cons, List.map_nil]
          unfold storedBalance
          rw [loadUser_createUser, if_pos rfl]
        · left
          rw [List.filter_singleton, Bool.eq_false_iff.mpr hz]
          rfl
      rcases this with h0 | h0 <;> rw [h0] <;> simp


theorem tripleCreate_facts (s : Store) (e : Event) (hWF : StoreIdWF s) (hA : AccountsOK s) :
    ((getOrCreateUser s e.pfrom).1).id = e.pfrom ∧ ((getOrCreateUser s e.pfrom).1).balance = storedBalance s e.pfrom ∧
    ((getOrCreateUser (getOrCreateUser s e.pfrom).2 e.pto).1).id = e.pto ∧ ((getOrCreateUser (getOrCreateUser s e.pfrom).2 e.pto).1).balance = storedBalance s e.pto ∧
    ((getOrCreateUser (getOrCreateUser (getOrCreateUser s e.pfrom).2 e.pto).2 ZERO_ADDRESS).1).id = ZERO_ADDRESS ∧ ((getOrCreateUser (getOrCreateUser (getOrCreateUser s e.pfrom).2 e.pto).2 ZERO_ADDRESS).1).balance = storedBalance s ZERO_ADDRESS ∧
    (∀ x, storedBalance (getOrCreateUser (getOrCreateUser (getOrCreateUser s e.pfrom).2 e.pto).2 ZERO_ADDRESS).2 x = storedBalance s x) ∧
    AccountsOK (getOrCreateUser (getOrCreateUser (getOrCreateUser s e.pfrom).2 e.pto).2 ZERO_ADDRESS).2 ∧ sumBalances (getOrCreateUser (getOrCreateUser (getOrCreateUser s e.pfrom).2 e.pto).2 ZERO_ADDRESS).2 = sumBalances s ∧
    (loadUser (getOrCreateUser (getOrCreateUser (getOrCreateUser s e.pfrom).2 e.pto).2 ZERO_ADDRESS).2 e.pfrom).isSome = true ∧
    (loadUser (getOrCreateUser (getOrCreateUser (getOrCreateUser s e.pfrom).2 e.pto).2 ZERO_ADDRESS).2 e.pto).isSome = true ∧
    (loadUser (getOrCreateUser (getOrCreateUser (getOrCreateUser s e.pfrom).2 e.pto).2 ZERO_ADDRESS).2 ZERO_ADDRESS).isSome = true ∧
    StoreIdWF (getOrCreateUser (getOrCreateUser (getOrCreateUser s e.pfrom).2 e.pto).2 ZERO_ADDRESS).2 := by
  obtain ⟨h1id, h1bal, h1self, h1other, h1obs, h1wf⟩ := getOrCreateUser_spec s e.pfrom hWF
  obtain ⟨c1b, c1i, c1a, c1s⟩ := getOrCreateUser_char s e.pfrom
  obtain ⟨h2id, h2bal, h2self, h2other, h2obs, h2wf⟩ :=
    getOrCreateUser_spec (getOrCreateUser s e.pfrom).2 e.pto h1wf
  obtain ⟨c2b, c2i, c2a, c2s⟩ := getOrCreateUser_char (getOrCreateUser s e.pfrom).2 e.pto
  obtain ⟨h3id, h3bal, h3self, h3other, h3obs, h3wf⟩ :=
    getOrCreateUser_spec (getOrCreateUser (getOrCreateUser s e.pfrom).2 e.pto).2 ZERO_ADDRESS h2wf
  obtain ⟨c3b, c3i, c3a, c3s⟩ := getOrCreateUser_char (getOrCreateUser (getOrCreateUser s e.pfrom).2 e.pto).2 ZERO_ADDRESS
  have hbal : ∀ x, storedBalance (getOrCreateUser (getOrCreateUser (getOrCreateUser s e.pfrom).2 e.pto).2 ZERO_ADDRESS).2 x = storedBalance s x := by
    intro x
    rw [c3b, c2b, c1b]
  refine ⟨h1id, h1bal, h2id, ?_, h3id, ?_, hbal, c3a (c2a (c1a hA)), ?_, ?_, ?_, ?_, h3wf⟩
  · rw [h2bal, c1b]
  · rw [h3bal, c2b, c1b]
  · rw [c3s (c2a (c1a hA)), c2s (c1a hA), c1s hA]
  · rw [c3i, c2i, c1i]
    simp
  · rw [c3i]
    have : (loadUser (getOrCreateUser (getOrCreateUser s e.pfrom).2 e.pto).2 e.pto).isSome = true := by
      rw [h2self]
      rfl
    rw [this]
    simp
  · rw [h3self]
    rfl


theorem c2_step_regular (s : Store) (e : Event) (hWF : StoreIdWF s) (hA : AccountsOK s)
    (hne : e.pfrom ≠ e.pto) (hf0 : e.pfrom ≠ ZERO_ADDRESS) (ht0 : e.pto ≠ ZERO_ADDRESS) :
    AccountsOK (regularResult s e) ∧
    storedBalance (regularResult s e) ZERO_ADDRESS = storedBalance s ZERO_ADDRESS ∧
    sumBalances (regularResult s e) = sumBalances s := by
  obtain ⟨f1id, f1bal, f2id, f2bal, f3id, f3bal, fbal, fAOK, fsum, fpF, fpT, fpZ, fwf⟩ :=
    tripleCreate_facts s e hWF hA
  have hres : regularResult s e = (obsPipeline (getOrCreateUser (getOrCreateUser (getOrCreateUser s e.pfrom).2 e.pto).2 ZERO_ADDRESS).1 e.timestamp ((getOrCreateUser (getOrCreateUser (getOrCreateUser s e.pfrom).2 e.pto).2 ZERO_ADDRESS).1).balance (obsPipeline { id := ((getOrCreateUser (getOrCreateUser s e.pfrom).2 e.pto).1).id, balance := ((getOrCreateUser (getOrCreateUser s e.pfrom).2 e.pto).1).balance + e.value, observationCount := ((getOrCreateUser (getOrCreateUser s e.pfrom).2 e.pto).1).observationCount, lastHourTimestamp := ((getOrCreateUser (getOrCreateUser s e.pfrom).2 e.pto).1).lastHourTimestamp } e.timestamp ((getOrCreateUser (getOrCreateUser s e.pfrom).2 e.pto).1).balance (obsPipeline { id := ((getOrCreateUser s e.pfrom).1).id, balance := ((getOrCreateUser s e.pfrom).1).balance - e.value, observationCount := ((getOrCreateUser s e.pfrom).1).observationCount, lastHourTimestamp := ((getOrCreateUser s e.pfrom).1).lastHourTimestamp } e.timestamp ((getOrCreateUser s e.pfrom).1).balance (saveUser (saveUser (saveUser (getOrCreateUser (getOrCreateUser (getOrCreateUser s e.pfrom).2 e.pto).2 ZERO_ADDRESS).2 { id := ((getOrCreateUser s e.pfrom).1).id, balance := ((getOrCreateUser s e.pfrom).1).balance - e.value, observationCount := ((getOrCreateUser s e.pfrom).1).observationCount, lastHourTimestamp := ((getOrCreateUser s e.pfrom).1).lastHourTimestamp }) { id := ((getOrCreateUser (getOrCreateUser s e.pfrom).2 e.pto).1).id, balance := ((getOrCreateUser (getOrCreateUser s e.pfrom).2 e.pto).1).balance + e.value, observationCount := ((getOrCreateUser (getOrCreateUser s e.pfrom).2 e.pto).1).observationCount, lastHourTimestamp := ((getOrCreateUser (getOrCreateUser s e.pfrom).2 e.pto).1).lastHourTimestamp }) (getOrCreateUser (getOrCreateUser (getOrCreateUser s e.pfrom).2 e.pto).2 ZERO_ADDRESS).1)))) := rfl
  have balS : ∀ x, storedBalance (saveUser (saveUser (saveUser (getOrCreateUser (getOrCreateUser (getOrCreateUser s e.pfrom).2 e.pto).2 ZERO_ADDRESS).2 { id := ((getOrCreateUser s e.pfrom).1).id, balance := ((getOrCreateUser s e.pfrom).1).balance - e.value, observationCount := ((getOrCreateUser s e.pfrom).1).observationCount, lastHourTimestamp := ((getOrCreateUser s e.pfrom).1).lastHourTimestamp }) { id := ((getOrCreateUser (getOrCreateUser s e.pfrom).2 e.pto).1).id, balance := ((getOrCreateUser (getOrCreateUser s e.pfrom).2 e.pto).1).balance + e.value, observationCount := ((getOrCreateUser (getOrCreateUser s e.pfrom).2 e.pto).1).observationCount, lastHourTimestamp := ((getOrCreateUser (getOrCreateUser s e.pfrom).2 e.pto).1).lastHourTimestamp }) (getOrCreateUser (getOrCreateUser (getOrCreateUser s e.pfrom).2 e.pto).2 ZERO_ADDRESS).1) x =
      if x = ZERO_ADDRESS then storedBalance s ZERO_ADDRESS
      else if x = e.pto then storedBalance s e.pto + e.value
      else if x = e.pfrom then storedBalance s e.pfrom - e.value
      else storedBalance s x := by
    intro x
    rw [storedBalance_saveUser, storedBalance_saveUser, storedBalance_saveUser]
    dsimp only
    rw [f1id, f2id, f3id, f1bal, f2bal, f3bal, fbal x]
  have pF3 : (loadUser (getOrCreateUser (getOrCreateUser (getOrCreateUser s e.pfrom).2 e.pto).2 ZERO_ADDRESS).2 ({ id := ((getOrCreateUser s e.pfrom).1).id, balance := ((getOrCreateUser s e.pfrom).1).balance - e.value, observationCount := ((getOrCreateUser s e.pfrom).1).observationCount, lastHourTimestamp := ((getOrCreateUser s e.pfrom).1).lastHourTimestamp } : User).id).isSome = true := by
    dsimp only
    rw [f1id]
    exact fpF
  have s1iso : ∀ x, (loadUser (saveUser (getOrCreateUser (getOrCreateUser (getOrCreateUser s e.pfrom).2 e.pto).2 ZERO_ADDRESS).2 { id := ((getOrCreateUser s e.pfrom).1).id, balance := ((getOrCreateUser s e.pfrom).1).balance - e.value, observationCount := ((getOrCreateUser s e.pfrom).1).observationCount, lastHourTimestamp := ((getOrCreateUser s e.pfrom).1).lastHourTimestamp }) x).isSome = (loadUser (getOrCreateUser (getOrCreateUser (getOrCreateUser s e.pfrom).2 e.pto).2 ZERO_ADDRESS).2 x).isSome :=
    fun x => isSome_saveUser _ _ _ pF3
  have pT1 : (loadUser (saveUser (getOrCreateUser (getOrCreateUser (getOrCreateUser s e.pfrom).2 e.pto).2 ZERO_ADDRESS).2 { id := ((getOrCreateUser s e.pfrom).1).id, balance := ((getOrCreateUser s e.pfrom).1).balance - e.value, observationCount := ((getOrCreateUser s e.pfrom).1).observationCount, lastHourTimestamp := ((getOrCreateUser s e.pfrom).1).lastHourTimestamp }) ({ id := ((getOrCreateUser (getOrCreateUser s e.pfrom).2 e.pto).1).id, balance := ((getOrCreateUser (getOrCreateUser s e.pfrom).2 e.pto).1).balance + e.value, observationCount := ((getOrCreateUser (getOrCreateUser s e.pfrom).2 e.pto).1).observationCount, lastHourTimestamp := ((getOrCreateUser (getOrCreateUser s e.pfrom).2 e.pto).1).lastHourTimestamp } : User).id).isSome = true := by
    rw [s1iso]
    dsimp only
    rw [f2id]
    exact fpT
  have s2iso : ∀ x, (loadUser (saveUser (saveUser (getOrCreateUser (getOrCreateUser (getOrCreateUser s e.pfrom).2 e.pto).2 ZERO_ADDRESS).2 { id := ((getOrCreateUser s e.pfrom).1).id, balance := ((getOrCreateUser s e.pfrom).1).balance - e.value, observationCount := ((getOrCreateUser s e.pfrom).1).observationCount, lastHourTimestamp := ((getOrCreateUser s e.pfrom).1).lastHourTimestamp }) { id := ((getOrCreateUser (getOrCreateUser s e.pfrom).2 e.pto).1).id, balance := ((getOrCreateUser (getOrCreateUser s e.pfrom).2 e.pto).1).balance + e.value, observationCount := ((getOrCreateUser (getOrCreateUser s e.pfrom).2 e.pto).1).observationCount, lastHourTimestamp := ((getOrCreateUser (getOrCreateUser s e.pfrom).2 e.pto).1).lastHourTimestamp }) x).isSome =
      (loadUser (saveUser (getOrCreateUser (getOrCreateUser (getOrCreateUser s e.pfrom).2 e.pto).2 ZERO_ADDRESS).2 { id := ((getOrCreateUser s e.pfrom).1).id, balance := ((getOrCreateUser s e.pfrom).1).balance - e.value, observationCount := ((getOrCreateUser s e.pfrom).1).observationCount, lastHourTimestamp := ((getOrCreateUser s e.pfrom).1).lastHourTimestamp }) x).isSome :=
    fun x => isSome_saveUser _ _ _ pT1
  have pZ2 : (loadUser (saveUser (saveUser (getOrCreateUser (getOrCreateUser (getOrCreateUser s e.pfrom).2 e.pto).2 ZERO_ADDRESS).2 { id := ((getOrCreateUser s e.pfrom).1).id, balance := ((getOrCreateUser s e.pfrom).1).balance - e.value, observationCount := ((getOrCreateUser s e.pfrom).1).observationCount, lastHourTimestamp := ((getOrCreateUser s e.pfrom).1).lastHourTimestamp }) { id := ((getOrCreateUser (getOrCreateUser s e.pfrom).2 e.pto).1).id, balance := ((getOrCreateUser (getOrCreateUser s e.pfrom).2 e.pto).1).balance + e.value, observationCount := ((getOrCreateUser (getOrCreateUser s e.pfrom).2 e.pto).1).observationCount, lastHourTimestamp := ((getOrCreateUser (getOrCreateUser s e.pfrom).2 e.pto).1).lastHourTimestamp }) ((getOrCreateUser (getOrCreateUser (getOrCreateUser s e.pfrom).2 e.pto).2 ZERO_ADDRESS).1).id).isSome = true := by
    rw [s2iso, s1iso, f3id]
    exact fpZ
  have s3iso : ∀ x, (loadUser (saveUser (saveUser (saveUser (getOrCreateUser (getOrCreateUser (getOrCreateUser s e.pfrom).2 e.pto).2 ZERO_ADDRESS).2 { id := ((getOrCreateUser s e.pfrom).1).id, balance := ((getOrCreateUser s e.pfrom).1).balance - e.value, observationCount := ((getOrCreateUser s e.pfrom).1).observationCount, lastHourTimestamp := ((getOrCreateUser s e.pfrom).1).lastHourTimestamp }) { id := ((getOrCreateUser (getOrCreateUser s e.pfrom).2 e.pto).1).id, balance := ((getOrCreateUser (getOrCreateUser s e.pfrom).2 e.pto).1).balance + e.value, observationCount := ((getOrCreateUser (getOrCreateUser s e.pfrom).2 e.pto).1).observationCount, lastHourTimestamp := ((getOrCreateUser (getOrCreateUser s e.pfrom).2 e.pto).1).lastHourTimestamp }) (getOrCreateUser (getOrCreateUser (getOrCreateUser s e.pfrom).2 e.pto).2 ZERO_ADDRESS).1) x).isSome =
      (loadUser (saveUser (saveUser (getOrCreateUser (getOrCreateUser (getOrCreateUser s e.pfrom).2 e.pto).2 ZERO_ADDRESS).2 { id := ((getOrCreateUser s e.pfrom).1).id, balance := ((getOrCreateUser s e.pfrom).1).balance - e.value, observationCount := ((getOrCreateUser s e.pfrom).1).observationCount, lastHourTimestamp := ((getOrCreateUser s e.pfrom).1).lastHourTimestamp }) { id := ((getOrCreateUser (getOrCreateUser s e.pfrom).2 e.pto).1).id, balance := ((getOrCreateUser (getOrCreateUser s e.pfrom).2 e.pto).1).balance + e.value, observationCount := ((getOrCreateUser (getOrCreateUser s e.pfrom).2 e.pto).1).observationCount, lastHourTimestamp := ((getOrCreateUser (getOrCreateUser s e.pfrom).2 e.pto).1).lastHourTimestamp }) x).isSome :=
    fun x => isSome_saveUser _ _ _ pZ2
  have isoS : ∀ x, (loadUser (saveUser (saveUser (saveUser (getOrCreateUser (getOrCreateUser (getOrCreateUser s e.pfrom).2 e.pto).2 ZERO_ADDRESS).2 { id := ((getOrCreateUser s e.pfrom).1).id, balance := ((getOrCreateUser s e.pfrom).1).balance - e.value, observationCount := ((getOrCreateUser s e.pfrom).1).observationCount, lastHourTimestamp := ((getOrCreateUser s e.pfrom).1).lastHourTimestamp }) { id := ((getOrCreateUser (getOrCreateUser s e.pfrom).2 e.pto).1).id, balance := ((getOrCreateUser (getOrCreateUser s e.pfrom).2 e.pto).1).balance + e.value, observationCount := ((getOrCreateUser (getOrCreateUser s e.pfrom).2 e.pto).1).observationCount, lastHourTimestamp := ((getOrCreateUser (getOrCreateUser s e.pfrom).2 e.pto).1).lastHourTimestamp }) (getOrCreateUser (getOrCreateUser (getOrCreateUser s e.pfrom).2 e.pto).2 ZERO_ADDRESS).1) x).isSome = (loadUser (getOrCreateUser (getOrCreateUser (getOrCreateUser s e.pfrom).2 e.pto).2 ZERO_ADDRESS).2 x).isSome :=
    fun x => ((s3iso x).trans (s2iso x)).trans (s1iso x)
  have p1cond : storedBalance (saveUser (saveUser (saveUser (getOrCreateUser (getOrCreateUser (getOrCreateUser s e.pfrom).2 e.pto).2 ZERO_ADDRESS).2 { id := ((getOrCreateUser s e.pfrom).1).id, balance := ((getOrCreateUser s e.pfrom).1).balance - e.value, observationCount := ((getOrCreateUser s e.pfrom).1).observationCount, lastHourTimestamp := ((getOrCreateUser s e.pfrom).1).lastHourTimestamp }) { id := ((getOrCreateUser (getOrCreateUser s e.pfrom).2 e.pto).1).id, balance := ((getOrCreateUser (getOrCreateUser s e.pfrom).2 e.pto).1).balance + e.value, observationCount := ((getOrCreateUser (getOrCreateUser s e.pfrom).2 e.pto).1).observationCount, lastHourTimestamp := ((getOrCreateUser (getOrCreateUser s e.pfrom).2 e.pto).1).lastHourTimestamp }) (getOrCreateUser (getOrCreateUser (getOrCreateUser s e.pfrom).2 e.pto).2 ZERO_ADDRESS).1) ({ id := ((getOrCreateUser s e.pfrom).1).id, balance := ((getOrCreateUser s e.pfrom).1).balance - e.value, observationCount := ((getOrCreateUser s e.pfrom).1).observationCount, lastHourTimestamp := ((getOrCreateUser s e.pfrom).1).lastHourTimestamp } : User).id = ({ id := ((getOrCreateUser s e.pfrom).1).id, balance := ((getOrCreateUser s e.pfrom).1).balance - e.value, observationCount := ((getOrCreateUser s e.pfrom).1).observationCount, lastHourTimestamp := ((getOrCreateUser s e.pfrom).1).lastHourTimestamp } : User).balance := by
    dsimp only
    rw [balS, f1id, if_neg hf0, if_neg hne, if_pos rfl, f1bal]
  have p1pres : (loadUser (saveUser (saveUser (saveUser (getOrCreateUser (getOrCreateUser (getOrCreateUser s e.pfrom).2 e.pto).2 ZERO_ADDRESS).2 { id := ((getOrCreateUser s e.pfrom).1).id, balance := ((getOrCreateUser s e.pfrom).1).balance - e.value, observationCount := ((getOrCreateUser s e.pfrom).1).observationCount, lastHourTimestamp := ((getOrCreateUser s e.pfrom).1).lastHourTimestamp }) { id := ((getOrCreateUser (getOrCreateUser s e.pfrom).2 e.pto).1).id, balance := ((getOrCreateUser (getOrCreateUser s e.pfrom).2 e.pto).1).balance + e.value, observationCount := ((getOrCreateUser (getOrCreateUser s e.pfrom).2 e.pto).1).observationCount, lastHourTimestamp := ((getOrCreateUser (getOrCreateUser s e.pfrom).2 e.pto).1).lastHourTimestamp }) (getOrCreateUser (getOrCreateUser (getOrCreateUser s e.pfrom).2 e.pto).2 ZERO_ADDRESS).1) ({ id := ((getOrCreateUser s e.pfrom).1).id, balance := ((getOrCreateUser s e.pfrom).1).balance - e.value, observationCount := ((getOrCreateUser s e.pfrom).1).observationCount, lastHourTimestamp := ((getOrCreateUser s e.pfrom).1).lastHourTimestamp } : User).id).isSome = true := by
    dsimp only
    rw [isoS, f1id]
    exact fpF
  have P1bal : ∀ x, storedBalance (obsPipeline { id := ((getOrCreateUser s e.pfrom).1).id, balance := ((getOrCreateUser s e.pfrom).1).balance - e.value, observationCount := ((getOrCreateUser s e.pfrom).1).observationCount, lastHourTimestamp := ((getOrCreateUser s e.pfrom).1).lastHourTimestamp } e.timestamp ((getOrCreateUser s e.pfrom).1).balance (saveUser (saveUser (saveUser (getOrCreateUser (getOrCreateUser (getOrCreateUser s e.pfrom).2 e.pto).2 ZERO_ADDRESS).2 { id := ((getOrCreateUser s e.pfrom).1).id, balance := ((getOrCreateUser s e.pfrom).1).balance - e.value, observationCount := ((getOrCreateUser s e.pfrom).1).observationCount, lastHourTimestamp := ((getOrCreateUser s e.pfrom).1).lastHourTimestamp }) { id := ((getOrCreateUser (getOrCreateUser s e.pfrom).2 e.pto).1).id, balance := ((getOrCreateUser (getOrCreateUser s e.pfrom).2 e.pto).1).balance + e.value, observationCount := ((getOrCreateUser (getOrCreateUser s e.pfrom).2 e.pto).1).observationCount, lastHourTimestamp := ((getOrCreateUser (getOrCreateUser s e.pfrom).2 e.pto).1).lastHourTimestamp }) (getOrCreateUser (getOrCreateUser (getOrCreateUser s e.pfrom).2 e.pto).2 ZERO_ADDRESS).1)) x = storedBalance (saveUser (saveUser (saveUser (getOrCreateUser (getOrCreateUser (getOrCreateUser s e.pfrom).2 e.pto).2 ZERO_ADDRESS).2 { id := ((getOrCreateUser s e.pfrom).1).id, balance := ((getOrCreateUser s e.pfrom).1).balance - e.value, observationCount := ((getOrCreateUser s e.pfrom).1).observationCount, lastHourTimestamp := ((getOrCreateUser s e.pfrom).1).lastHourTimestamp }) { id := ((getOrCreateUser (getOrCreateUser s e.pfrom).2 e.pto).1).id, balance := ((getOrCreateUser (getOrCreateUser s e.pfrom).2 e.pto).1).balance + e.value, observationCount := ((getOrCreateUser (getOrCreateUser s e.pfrom).2 e.pto).1).observationCount, lastHourTimestamp := ((getOrCreateUser (getOrCreateUser s e.pfrom).2 e.pto).1).lastHourTimestamp }) (getOrCreateUser (getOrCreateUser (getOrCreateUser s e.pfrom).2 e.pto).2 ZERO_ADDRESS).1) x :=
    fun x => obsPipeline_storedBalance _ _ _ _ _ p1cond
  have P1iso : ∀ x, (loadUser (obsPipeline { id := ((getOrCreateUser s e.pfrom).1).id, balance := ((getOrCreateUser s e.pfrom).1).balance - e.value, observationCount := ((getOrCreateUser s e.pfrom).1).observationCount, lastHourTimestamp := ((getOrCreateUser s e.pfrom).1).lastHourTimestamp } e.timestamp ((getOrCreateUser s e.pfrom).1).balance (saveUser (saveUser (saveUser (getOrCreateUser (getOrCreateUser (getOrCreateUser s e.pfrom).2 e.pto).2 ZERO_ADDRESS).2 { id := ((getOrCreateUser s e.pfrom).1).id, balance := ((getOrCreateUser s e.pfrom).1).balance - e.value, observationCount := ((getOrCreateUser s e.pfrom).1).observationCount, lastHourTimestamp := ((getOrCreateUser s e.pfrom).1).lastHourTimestamp }) { id := ((getOrCreateUser (getOrCreateUser s e.pfrom).2 e.pto).1).id, balance := ((getOrCreateUser (getOrCreateUser s e.pfrom).2 e.pto).1).balance + e.value, observationCount := ((getOrCreateUser (getOrCreateUser s e.pfrom).2 e.pto).1).observationCount, lastHourTimestamp := ((getOrCreateUser (getOrCreateUser s e.pfrom).2 e.pto).1).lastHourTimestamp }) (getOrCreateUser (getOrCreateUser (getOrCreateUser s e.pfrom).2 e.pto).2 ZERO_ADDRESS).1)) x).isSome = (loadUser (saveUser (saveUser (saveUser (getOrCreateUser (getOrCreateUser (getOrCreateUser s e.pfrom).2 e.pto).2 ZERO_ADDRESS).2 { id := ((getOrCreateUser s e.pfrom).1).id, balance := ((getOrCreateUser s e.pfrom).1).balance - e.value, observationCount := ((getOrCreateUser s e.pfrom).1).observationCount, lastHourTimestamp := ((getOrCreateUser s e.pfrom).1).lastHourTimestamp }) { id := ((getOrCreateUser (getOrCreateUser s e.pfrom).2 e.pto).1).id, balance := ((getOrCreateUser (getOrCreateUser s e.pfrom).2 e.pto).1).balance + e.value, observationCount := ((getOrCreateUser (getOrCreateUser s e.pfrom).2 e.pto).1).observationCount, lastHourTimestamp := ((getOrCreateUser (getOrCreateUser s e.pfrom).2 e.pto).1).lastHourTimestamp }) (getOrCreateUser (getOrCreateUser (getOrCreateUser s e.pfrom).2 e.pto).2 ZERO_ADDRESS).1) x).isSome :=
    fun x => obsPipeline_isSome _ _ _ _ _ p1pres
  have p2cond : storedBalance (obsPipeline { id := ((getOrCreateUser s e.pfrom).1).id, balance := ((getOrCreateUser s e.pfrom).1).balance - e.value, observationCount := ((getOrCreateUser s e.pfrom).1).observationCount, lastHourTimestamp := ((getOrCreateUser s e.pfrom).1).lastHourTimestamp } e.timestamp ((getOrCreateUser s e.pfrom).1).balance (saveUser (saveUser (saveUser (getOrCreateUser (getOrCreateUser (getOrCreateUser s e.pfrom).2 e.pto).2 ZERO_ADDRESS).2 { id := ((getOrCreateUser s e.pfrom).1).id, balance := ((getOrCreateUser s e.pfrom).1).balance - e.value, observationCount := ((getOrCreateUser s e.pfrom).1).observationCount, lastHourTimestamp := ((getOrCreateUser s e.pfrom).1).lastHourTimestamp }) { id := ((getOrCreateUser (getOrCreateUser s e.pfrom).2 e.pto).1).id, balance := ((getOrCreateUser (getOrCreateUser s e.pfrom).2 e.pto).1).balance + e.value, observationCount := ((getOrCreateUser (getOrCreateUser s e.pfrom).2 e.pto).1).observationCount, lastHourTimestamp := ((getOrCreateUser (getOrCreateUser s e.pfrom).2 e.pto).1).lastHourTimestamp }) (getOrCreateUser (getOrCreateUser (getOrCreateUser s e.pfrom).2 e.pto).2 ZERO_ADDRESS).1)) ({ id := ((getOrCreateUser (getOrCreateUser s e.pfrom).2 e.pto).1).id, balance := ((getOrCreateUser (getOrCreateUser s e.pfrom).2 e.pto).1).balance + e.value, observationCount := ((getOrCreateUser (getOrCreateUser s e.pfrom).2 e.pto).1).observationCount, lastHourTimestamp := ((getOrCreateUser (getOrCreateUser s e.pfrom).2 e.pto).1).lastHourTimestamp } : User).id = ({ id := ((getOrCreateUser (getOrCreateUser s e.pfrom).2 e.pto).1).id, balance := ((getOrCreateUser (getOrCreateUser s e.pfrom).2 e.pto).1).balance + e.value, observationCount := ((getOrCreateUser (getOrCreateUser s e.pfrom).2 e.pto).1).observationCount, lastHourTimestamp := ((getOrCreateUser (getOrCreateUser s e.pfrom).2 e.pto).1).lastHourTimestamp } : User).balance := by
    dsimp only
    rw [P1bal, balS, f2id, if_neg ht0, if_pos rfl, f2bal]
  have p2pres : (loadUser (obsPipeline { id := ((getOrCreateUser s e.pfrom).1).id, balance := ((getOrCreateUser s e.pfrom).1).balance - e.value, observationCount := ((getOrCreateUser s e.pfrom).1).observationCount, lastHourTimestamp := ((getOrCreateUser s e.pfrom).1).lastHourTimestamp } e.timestamp ((getOrCreateUser s e.pfrom).1).balance (saveUser (saveUser (saveUser (getOrCreateUser (getOrCreateUser (getOrCreateUser s e.pfrom).2 e.pto).2 ZERO_ADDRESS).2 { id := ((getOrCreateUser s e.pfrom).1).id, balance := ((getOrCreateUser s e.pfrom).1).balance - e.value, observationCount := ((getOrCreateUser s e.pfrom).1).observationCount, lastHourTimestamp := ((getOrCreateUser s e.pfrom).1).lastHourTimestamp }) { id := ((getOrCreateUser (getOrCreateUser s e.pfrom).2 e.pto).1).id, balance := ((getOrCreateUser (getOrCreateUser s e.pfrom).2 e.pto).1).balance + e.value, observationCount := ((getOrCreateUser (getOrCreateUser s e.pfrom).2 e.pto).1).observationCount, lastHourTimestamp := ((getOrCreateUser (getOrCreateUser s e.pfrom).2 e.pto).1).lastHourTimestamp }) (getOrCreateUser (getOrCreateUser (getOrCreateUser s e.pfrom).2 e.pto).2 ZERO_ADDRESS).1)) ({ id := ((getOrCreateUser (getOrCreateUser s e.pfrom).2 e.pto).1).id, balance := ((getOrCreateUser (getOrCreateUser s e.pfrom).2 e.pto).1).balance + e.value, observationCount := ((getOrCreateUser (getOrCreateUser s e.pfrom).2 e.pto).1).observationCount, lastHourTimestamp := ((getOrCreateUser (getOrCreateUser s e.pfrom).2 e.pto).1).lastHourTimestamp } : User).id).isSome = true := by
    dsimp only
    rw [P1iso, isoS, f2id]
    exact fpT
  have P2bal : ∀ x, storedBalance (obsPipeline { id := ((getOrCreateUser (getOrCreateUser s e.pfrom).2 e.pto).1).id, balance := ((getOrCreateUser (getOrCreateUser s e.pfrom).2 e.pto).1).balance + e.value, observationCount := ((getOrCreateUser (getOrCreateUser s e.pfrom).2 e.pto).1).observationCount, lastHourTimestamp := ((getOrCreateUser (getOrCreateUser s e.pfrom).2 e.pto).1).lastHourTimestamp } e.timestamp ((getOrCreateUser (getOrCreateUser s e.pfrom).2 e.pto).1).balance (obsPipeline { id := ((getOrCreateUser s e.pfrom).1).id, balance := ((getOrCreateUser s e.pfrom).1).balance - e.value, observationCount := ((getOrCreateUser s e.pfrom).1).observationCount, lastHourTimestamp := ((getOrCreateUser s e.pfrom).1).lastHourTimestamp } e.timestamp ((getOrCreateUser s e.pfrom).1).balance (saveUser (saveUser (saveUser (getOrCreateUser (getOrCreateUser (getOrCreateUser s e.pfrom).2 e.pto).2 ZERO_ADDRESS).2 { id := ((getOrCreateUser s e.pfrom).1).id, balance := ((getOrCreateUser s e.pfrom).1).balance - e.value, observationCount := ((getOrCreateUser s e.pfrom).1).observationCount, lastHourTimestamp := ((getOrCreateUser s e.pfrom).1).lastHourTimestamp }) { id := ((getOrCreateUser (getOrCreateUser s e.pfrom).2 e.pto).1).id, balance := ((getOrCreateUser (getOrCreateUser s e.pfrom).2 e.pto).1).balance + e.value, observationCount := ((getOrCreateUser (getOrCreateUser s e.pfrom).2 e.pto).1).observationCount, lastHourTimestamp := ((getOrCreateUser (getOrCreateUser s e.pfrom).2 e.pto).1).lastHourTimestamp }) (getOrCreateUser (getOrCreateUser (getOrCreateUser s e.pfrom).2 e.pto).2 ZERO_ADDRESS).1))) x = storedBalance (saveUser (saveUser (saveUser (getOrCreateUser (getOrCreateUser (getOrCreateUser s e.pfrom).2 e.pto).2 ZERO_ADDRESS).2 { id := ((getOrCreateUser s e.pfrom).1).id, balance := ((getOrCreateUser s e.pfrom).1).balance - e.value, observationCount := ((getOrCreateUser s e.pfrom).1).observationCount, lastHourTimestamp := ((getOrCreateUser s e.pfrom).1).lastHourTimestamp }) { id := ((getOrCreateUser (getOrCreateUser s e.pfrom).2 e.pto).1).id, balance := ((getOrCreateUser (getOrCreateUser s e.pfrom).2 e.pto).1).balance + e.value, observationCount := ((getOrCreateUser (getOrCreateUser s e.pfrom).2 e.pto).1).observationCount, lastHourTimestamp := ((getOrCreateUser (getOrCreateUser s e.pfrom).2 e.pto).1).lastHourTimestamp }) (getOrCreateUser (getOrCreateUser (getOrCreateUser s e.pfrom).2 e.pto).2 ZERO_ADDRESS).1) x :=
    fun x => (obsPipeline_storedBalance _ _ _ _ _ p2cond).trans (P1bal x)
  have P2iso : ∀ x, (loadUser (obsPipeline { id := ((getOrCreateUser (getOrCreateUser s e.pfrom).2 e.pto).1).id, balance := ((getOrCreateUser (getOrCreateUser s e.pfrom).2 e.pto).1).balance + e.value, observationCount := ((getOrCreateUser (getOrCreateUser s e.pfrom).2 e.pto).1).observationCount, lastHourTimestamp := ((getOrCreateUser (getOrCreateUser s e.pfrom).2 e.pto).1).lastHourTimestamp } e.timestamp ((getOrCreateUser (getOrCreateUser s e.pfrom).2 e.pto).1).balance (obsPipeline { id := ((getOrCreateUser s e.pfrom).1).id, balance := ((getOrCreateUser s e.pfrom).1).balance - e.value, observationCount := ((getOrCreateUser s e.pfrom).1).observationCount, lastHourTimestamp := ((getOrCreateUser s e.pfrom).1).lastHourTimestamp } e.timestamp ((getOrCreateUser s e.pfrom).1).balance (saveUser (saveUser (saveUser (getOrCreateUser (getOrCreateUser (getOrCreateUser s e.pfrom).2 e.pto).2 ZERO_ADDRESS).2 { id := ((getOrCreateUser s e.pfrom).1).id, balance := ((getOrCreateUser s e.pfrom).1).balance - e.value, observationCount := ((getOrCreateUser s e.pfrom).1).observationCount, lastHourTimestamp := ((getOrCreateUser s e.pfrom).1).lastHourTimestamp }) { id := ((getOrCreateUser (getOrCreateUser s e.pfrom).2 e.pto).1).id, balance := ((getOrCreateUser (getOrCreateUser s e.pfrom).2 e.pto).1).balance + e.value, observationCount := ((getOrCreateUser (getOrCreateUser s e.pfrom).2 e.pto).1).observationCount, lastHourTimestamp := ((getOrCreateUser (getOrCreateUser s e.pfrom).2 e.pto).1).lastHourTimestamp }) (getOrCreateUser (getOrCreateUser (getOrCreateUser s e.pfrom).2 e.pto).2 ZERO_ADDRESS).1))) x).isSome = (loadUser (saveUser (saveUser (saveUser (getOrCreateUser (getOrCreateUser (getOrCreateUser s e.pfrom).2 e.pto).2 ZERO_ADDRESS).2 { id := ((getOrCreateUser s e.pfrom).1).id, balance := ((getOrCreateUser s e.pfrom).1).balance - e.value, observationCount := ((getOrCreateUser s e.pfrom).1).observationCount, lastHourTimestamp := ((getOrCreateUser s e.pfrom).1).lastHourTimestamp }) { id := ((getOrCreateUser (getOrCreateUser s e.pfrom).2 e.pto).1).id, balance := ((getOrCreateUser (getOrCreateUser s e.pfrom).2 e.pto).1).balance + e.value, observationCount := ((getOrCreateUser (getOrCreateUser s e.pfrom).2 e.pto).1).observationCount, lastHourTimestamp := ((getOrCreateUser (getOrCreateUser s e.pfrom).2 e.pto).1).lastHourTimestamp }) (getOrCreateUser (getOrCreateUser (getOrCreateUser s e.pfrom).2 e.pto).2 ZERO_ADDRESS).1) x).isSome :=
    fun x => (obsPipeline_isSome _ _ _ _ _ p2pres).trans (P1iso x)
  have p3cond : storedBalance (obsPipeline { id := ((getOrCreateUser (getOrCreateUser s e.pfrom).2 e.pto).1).id, balance := ((getOrCreateUser (getOrCreateUser s e.pfrom).2 e.pto).1).balance + e.value, observationCount := ((getOrCreateUser (getOrCreateUser s e.pfrom).2 e.pto).1).observationCount, lastHourTimestamp := ((getOrCreateUser (getOrCreateUser s e.pfrom).2 e.pto).1).lastHourTimestamp } e.timestamp ((getOrCreateUser (getOrCreateUser s e.pfrom).2 e.pto).1).balance (obsPipeline { id := ((getOrCreateUser s e.pfrom).1).id, balance := ((getOrCreateUser s e.pfrom).1).balance - e.value, observationCount := ((getOrCreateUser s e.pfrom).1).observationCount, lastHourTimestamp := ((getOrCreateUser s e.pfrom).1).lastHourTimestamp } e.timestamp ((getOrCreateUser s e.pfrom).1).balance (saveUser (saveUser (saveUser (getOrCreateUser (getOrCreateUser (getOrCreateUser s e.pfrom).2 e.pto).2 ZERO_ADDRESS).2 { id := ((getOrCreateUser s e.pfrom).1).id, balance := ((getOrCreateUser s e.pfrom).1).balance - e.value, observationCount := ((getOrCreateUser s e.pfrom).1).observationCount, lastHourTimestamp := ((getOrCreateUser s e.pfrom).1).lastHourTimestamp }) { id := ((getOrCreateUser (getOrCreateUser s e.pfrom).2 e.pto).1).id, balance := ((getOrCreateUser (getOrCreateUser s e.pfrom).2 e.pto).1).balance + e.value, observationCount := ((getOrCreateUser (getOrCreateUser s e.pfrom).2 e.pto).1).observationCount, lastHourTimestamp := ((getOrCreateUser (getOrCreateUser s e.pfrom).2 e.pto).1).lastHourTimestamp }) (getOrCreateUser (getOrCreateUser (getOrCreateUser s e.pfrom).2 e.pto).2 ZERO_ADDRESS).1))) ((getOrCreateUser (getOrCreateUser (getOrCreateUser s e.pfrom).2 e.pto).2 ZERO_ADDRESS).1).id = ((getOrCreateUser (getOrCreateUser (getOrCreateUser s e.pfrom).2 e.pto).2 ZERO_ADDRESS).1).balance := by
    rw [P2bal, balS, f3id, if_pos rfl, f3bal]
  have p3pres : (loadUser (obsPipeline { id := ((getOrCreateUser (getOrCreateUser s e.pfrom).2 e.pto).1).id, balance := ((getOrCreateUser (getOrCreateUser s e.pfrom).2 e.pto).1).balance + e.value, observationCount := ((getOrCreateUser (getOrCreateUser s e.pfrom).2 e.pto).1).observationCount, lastHourTimestamp := ((getOrCreateUser (getOrCreateUser s e.pfrom).2 e.pto).1).lastHourTimestamp } e.timestamp ((getOrCreateUser (getOrCreateUser s e.pfrom).2 e.pto).1).balance (obsPipeline { id := ((getOrCreateUser s e.pfrom).1).id, balance := ((getOrCreateUser s e.pfrom).1).balance - e.value, observationCount := ((getOrCreateUser s e.pfrom).1).observationCount, lastHourTimestamp := ((getOrCreateUser s e.pfrom).1).lastHourTimestamp } e.timestamp ((getOrCreateUser s e.pfrom).1).balance (saveUser (saveUser (saveUser (getOrCreateUser (getOrCreateUser (getOrCreateUser s e.pfrom).2 e.pto).2 ZERO_ADDRESS).2 { id := ((getOrCreateUser s e.pfrom).1).id, balance := ((getOrCreateUser s e.pfrom).1).balance - e.value, observationCount := ((getOrCreateUser s e.pfrom).1).observationCount, lastHourTimestamp := ((getOrCreateUser s e.pfrom).1).lastHourTimestamp }) { id := ((getOrCreateUser (getOrCreateUser s e.pfrom).2 e.pto).1).id, balance := ((getOrCreateUser (getOrCreateUser s e.pfrom).2 e.pto).1).balance + e.value, observationCount := ((getOrCreateUser (getOrCreateUser s e.pfrom).2 e.pto).1).observationCount, lastHourTimestamp := ((getOrCreateUser (getOrCreateUser s e.pfrom).2 e.pto).1).lastHourTimestamp }) (getOrCreateUser (getOrCreateUser (getOrCreateUser s e.pfrom).2 e.pto).2 ZERO_ADDRESS).1))) ((getOrCreateUser (getOrCreateUser (getOrCreateUser s e.pfrom).2 e.pto).2 ZERO_ADDRESS).1).id).isSome = true := by
    rw [P2iso, isoS, f3id]
    exact fpZ
  have P3bal : ∀ x, storedBalance (obsPipeline (getOrCreateUser (getOrCreateUser (getOrCreateUser s e.pfrom).2 e.pto).2 ZERO_ADDRESS).1 e.timestamp ((getOrCreateUser (getOrCreateUser (getOrCreateUser s e.pfrom).2 e.pto).2 ZERO_ADDRESS).1).balance (obsPipeline { id := ((getOrCreateUser (getOrCreateUser s e.pfrom).2 e.pto).1).id, balance := ((getOrCreateUser (getOrCreateUser s e.pfrom).2 e.pto).1).balance + e.value, observationCount := ((getOrCreateUser (getOrCreateUser s e.pfrom).2 e.pto).1).observationCount, lastHourTimestamp := ((getOrCreateUser (getOrCreateUser s e.pfrom).2 e.pto).1).lastHourTimestamp } e.timestamp ((getOrCreateUser (getOrCreateUser s e.pfrom).2 e.pto).1).balance (obsPipeline { id := ((getOrCreateUser s e.pfrom).1).id, balance := ((getOrCreateUser s e.pfrom).1).balance - e.value, observationCount := ((getOrCreateUser s e.pfrom).1).observationCount, lastHourTimestamp := ((getOrCreateUser s e.pfrom).1).lastHourTimestamp } e.timestamp ((getOrCreateUser s e.pfrom).1).balance (saveUser (saveUser (saveUser (getOrCreateUser (getOrCreateUser (getOrCreateUser s e.pfrom).2 e.pto).2 ZERO_ADDRESS).2 { id := ((getOrCreateUser s e.pfrom).1).id, balance := ((getOrCreateUser s e.pfrom).1).balance - e.value, observationCount := ((getOrCreateUser s e.pfrom).1).observationCount, lastHourTimestamp := ((getOrCreateUser s e.pfrom).1).lastHourTimestamp }) { id := ((getOrCreateUser (getOrCreateUser s e.pfrom).2 e.pto).1).id, balance := ((getOrCreateUser (getOrCreateUser s e.pfrom).2 e.pto).1).balance + e.value, observationCount := ((getOrCreateUser (getOrCreateUser s e.pfrom).2 e.pto).1).observationCount, lastHourTimestamp := ((getOrCreateUser (getOrCreateUser s e.pfrom).2 e.pto).1).lastHourTimestamp }) (getOrCreateUser (getOrCreateUser (getOrCreateUser s e.pfrom).2 e.pto).2 ZERO_ADDRESS).1)))) x = storedBalance (saveUser (saveUser (saveUser (getOrCreateUser (getOrCreateUser (getOrCreateUser s e.pfrom).2 e.pto).2 ZERO_ADDRESS).2 { id := ((getOrCreateUser s e.pfrom).1).id, balance := ((getOrCreateUser s e.pfrom).1).balance - e.value, observationCount := ((getOrCreateUser s e.pfrom).1).observationCount, lastHourTimestamp := ((getOrCreateUser s e.pfrom).1).lastHourTimestamp }) { id := ((getOrCreateUser (getOrCreateUser s e.pfrom).2 e.pto).1).id, balance := ((getOrCreateUser (getOrCreateUser s e.pfrom).2 e.pto).1).balance + e.value, observationCount := ((getOrCreateUser (getOrCreateUser s e.pfrom).2 e.pto).1).observationCount, lastHourTimestamp := ((getOrCreateUser (getOrCreateUser s e.pfrom).2 e.pto).1).lastHourTimestamp }) (getOrCreateUser (getOrCreateUser (getOrCreateUser s e.pfrom).2 e.pto).2 ZERO_ADDRESS).1) x :=
    fun x => (obsPipeline_storedBalance _ _ _ _ _ p3cond).trans (P2bal x)
  have P3iso : ∀ x, (loadUser (obsPipeline (getOrCreateUser (getOrCreateUser (getOrCreateUser s e.pfrom).2 e.pto).2 ZERO_ADDRESS).1 e.timestamp ((getOrCreateUser (getOrCreateUser (getOrCreateUser s e.pfrom).2 e.pto).2 ZERO_ADDRESS).1).balance (obsPipeline { id := ((getOrCreateUser (getOrCreateUser s e.pfrom).2 e.pto).1).id, balance := ((getOrCreateUser (getOrCreateUser s e.pfrom).2 e.pto).1).balance + e.value, observationCount := ((getOrCreateUser (getOrCreateUser s e.pfrom).2 e.pto).1).observationCount, lastHourTimestamp := ((getOrCreateUser (getOrCreateUser s e.pfrom).2 e.pto).1).lastHourTimestamp } e.timestamp ((getOrCreateUser (getOrCreateUser s e.pfrom).2 e.pto).1).balance (obsPipeline { id := ((getOrCreateUser s e.pfrom).1).id, balance := ((getOrCreateUser s e.pfrom).1).balance - e.value, observationCount := ((getOrCreateUser s e.pfrom).1).observationCount, lastHourTimestamp := ((getOrCreateUser s e.pfrom).1).lastHourTimestamp } e.timestamp ((getOrCreateUser s e.pfrom).1).balance (saveUser (saveUser (saveUser (getOrCreateUser (getOrCreateUser (getOrCreateUser s e.pfrom).2 e.pto).2 ZERO_ADDRESS).2 { id := ((getOrCreateUser s e.pfrom).1).id, balance := ((getOrCreateUser s e.pfrom).1).balance - e.value, observationCount := ((getOrCreateUser s e.pfrom).1).observationCount, lastHourTimestamp := ((getOrCreateUser s e.pfrom).1).lastHourTimestamp }) { id := ((getOrCreateUser (getOrCreateUser s e.pfrom).2 e.pto).1).id, balance := ((getOrCreateUser (getOrCreateUser s e.pfrom).2 e.pto).1).balance + e.value, observationCount := ((getOrCreateUser (getOrCreateUser s e.pfrom).2 e.pto).1).observationCount, lastHourTimestamp := ((getOrCreateUser (getOrCreateUser s e.pfrom).2 e.pto).1).lastHourTimestamp }) (getOrCreateUser (getOrCreateUser (getOrCreateUser s e.pfrom).2 e.pto).2 ZERO_ADDRESS).1)))) x).isSome = (loadUser (saveUser (saveUser (saveUser (getOrCreateUser (getOrCreateUser (getOrCreateUser s e.pfrom).2 e.pto).2 ZERO_ADDRESS).2 { id := ((getOrCreateUser s e.pfrom).1).id, balance := ((getOrCreateUser s e.pfrom).1).balance - e.value, observationCount := ((getOrCreateUser s e.pfrom).1).observationCount, lastHourTimestamp := ((getOrCreateUser s e.pfrom).1).lastHourTimestamp }) { id := ((getOrCreateUser (getOrCreateUser s e.pfrom).2 e.pto).1).id, balance := ((getOrCreateUser (getOrCreateUser s e.pfrom).2 e.pto).1).balance + e.value, observationCount := ((getOrCreateUser (getOrCreateUser s e.pfrom).2 e.pto).1).observationCount, lastHourTimestamp := ((getOrCreateUser (getOrCreateUser s e.pfrom).2 e.pto).1).lastHourTimestamp }) (getOrCreateUser (getOrCreateUser (getOrCreateUser s e.pfrom).2 e.pto).2 ZERO_ADDRESS).1) x).isSome :=
    fun x => (obsPipeline_isSome _ _ _ _ _ p3pres).trans (P2iso x)
  have Racc : ((obsPipeline (getOrCreateUser (getOrCreateUser (getOrCreateUser s e.pfrom).2 e.pto).2 ZERO_ADDRESS).1 e.timestamp ((getOrCreateUser (getOrCreateUser (getOrCreateUser s e.pfrom).2 e.pto).2 ZERO_ADDRESS).1).balance (obsPipeline { id := ((getOrCreateUser (getOrCreateUser s e.pfrom).2 e.pto).1).id, balance := ((getOrCreateUser (getOrCreateUser s e.pfrom).2 e.pto).1).balance + e.value, observationCount := ((getOrCreateUser (getOrCreateUser s e.pfrom).2 e.pto).1).observationCount, lastHourTimestamp := ((getOrCreateUser (getOrCreateUser s e.pfrom).2 e.pto).1).lastHourTimestamp } e.timestamp ((getOrCreateUser (getOrCreateUser s e.pfrom).2 e.pto).1).balance (obsPipeline { id := ((getOrCreateUser s e.pfrom).1).id, balance := ((getOrCreateUser s e.pfrom).1).balance - e.value, observationCount := ((getOrCreateUser s e.pfrom).1).observationCount, lastHourTimestamp := ((getOrCreateUser s e.pfrom).1).lastHourTimestamp } e.timestamp ((getOrCreateUser s e.pfrom).1).balance (saveUser (saveUser (saveUser (getOrCreateUser (getOrCreateUser (getOrCreateUser s e.pfrom).2 e.pto).2 ZERO_ADDRESS).2 { id := ((getOrCreateUser s e.pfrom).1).id, balance := ((getOrCreateUser s e.pfrom).1).balance - e.value, observationCount := ((getOrCreateUser s e.pfrom).1).observationCount, lastHourTimestamp := ((getOrCreateUser s e.pfrom).1).lastHourTimestamp }) { id := ((getOrCreateUser (getOrCreateUser s e.pfrom).2 e.pto).1).id, balance := ((getOrCreateUser (getOrCreateUser s e.pfrom).2 e.pto).1).balance + e.value, observationCount := ((getOrCreateUser (getOrCreateUser s e.pfrom).2 e.pto).1).observationCount, lastHourTimestamp := ((getOrCreateUser (getOrCreateUser s e.pfrom).2 e.pto).1).lastHourTimestamp }) (getOrCreateUser (getOrCreateUser (getOrCreateUser s e.pfrom).2 e.pto).2 ZERO_ADDRESS).1))))).accounts = ((getOrCreateUser (getOrCreateUser (getOrCreateUser s e.pfrom).2 e.pto).2 ZERO_ADDRESS).2).accounts := by
    rw [obsPipeline_accounts, obsPipeline_accounts, obsPipeline_accounts]
    rfl
  refine ⟨?_, ?_, ?_⟩
  · rw [hres]
    refine accountsOK_of_same _ _ fAOK Racc ?_
    intro x
    rw [P3iso, isoS]
  · rw [hres]
    rw [P3bal, balS, if_pos rfl]
  · rw [hres]
    unfold sumBalances
    rw [Racc]
    have hpt : ∀ x ∈ ((getOrCreateUser (getOrCreateUser (getOrCreateUser s e.pfrom).2 e.pto).2 ZERO_ADDRESS).2).accounts.filter (fun b => b != ZERO_ADDRESS),
        storedBalance (obsPipeline (getOrCreateUser (getOrCreateUser (getOrCreateUser s e.pfrom).2 e.pto).2 ZERO_ADDRESS).1 e.timestamp ((getOrCreateUser (getOrCreateUser (getOrCreateUser s e.pfrom).2 e.pto).2 ZERO_ADDRESS).1).balance (obsPipeline { id := ((getOrCreateUser (getOrCreateUser s e.pfrom).2 e.pto).1).id, balance := ((getOrCreateUser (getOrCreateUser s e.pfrom).2 e.pto).1).balance + e.value, observationCount := ((getOrCreateUser (getOrCreateUser s e.pfrom).2 e.pto).1).observationCount, lastHourTimestamp := ((getOrCreateUser (getOrCreateUser s e.pfrom).2 e.pto).1).lastHourTimestamp } e.timestamp ((getOrCreateUser (getOrCreateUser s e.pfrom).2 e.pto).1).balance (obsPipeline { id := ((getOrCreateUser s e.pfrom).1).id, balance := ((getOrCreateUser s e.pfrom).1).balance - e.value, observationCount := ((getOrCreateUser s e.pfrom).1).observationCount, lastHourTimestamp := ((getOrCreateUser s e.pfrom).1).lastHourTimestamp } e.timestamp ((getOrCreateUser s e.pfrom).1).balance (saveUser (saveUser (saveUser (getOrCreateUser (getOrCreateUser (getOrCreateUser s e.pfrom).2 e.pto).2 ZERO_ADDRESS).2 { id := ((getOrCreateUser s e.pfrom).1).id, balance := ((getOrCreateUser s e.pfrom).1).balance - e.value, observationCount := ((getOrCreateUser s e.pfrom).1).observationCount, lastHourTimestamp := ((getOrCreateUser s e.pfrom).1).lastHourTimestamp }) { id := ((getOrCreateUser (getOrCreateUser s e.pfrom).2 e.pto).1).id, balance := ((getOrCreateUser (getOrCreateUser s e.pfrom).2 e.pto).1).balance + e.value, observationCount := ((getOrCreateUser (getOrCreateUser s e.pfrom).2 e.pto).1).observationCount, lastHourTimestamp := ((getOrCreateUser (getOrCreateUser s e.pfrom).2 e.pto).1).lastHourTimestamp }) (getOrCreateUser (getOrCreateUser (getOrCreateUser s e.pfrom).2 e.pto).2 ZERO_ADDRESS).1)))) x = storedBalance (getOrCreateUser (getOrCreateUser (getOrCreateUser s e.pfrom).2 e.pto).2 ZERO_ADDRESS).2 x +
          (if x = e.pto then e.value else if x = e.pfrom then -e.value else 0) := by
      intro x hx
      have hxZ : x ≠ ZERO_ADDRESS := by
        have := (List.mem_filter.mp hx).2
        intro hxx
        rw [hxx] at this
        simp at this
      rw [P3bal, balS, if_neg hxZ, fbal x]
      by_cases hxT : x = e.pto
      · rw [if_pos hxT, if_pos hxT, hxT]
      · rw [if_neg hxT, if_neg hxT]
        by_cases hxF : x = e.pfrom
        · rw [if_pos hxF, if_pos hxF, hxF]
          ring
        · rw [if_neg hxF, if_neg hxF]
          ring
    rw [sum_map_congr_mem _ _ _ hpt, sum_map_add_split]
    have hTl : e.pto ∈ ((getOrCreateUser (getOrCreateUser (getOrCreateUser s e.pfrom).2 e.pto).2 ZERO_ADDRESS).2).accounts.filter (fun b => b != ZERO_ADDRESS) := by
      refine List.mem_filter.mpr ⟨(fAOK.1 e.pto).mp ?_, by simp [ht0]⟩
      rw [fpT]
    have hFl : e.pfrom ∈ ((getOrCreateUser (getOrCreateUser (getOrCreateUser s e.pfrom).2 e.pto).2 ZERO_ADDRESS).2).accounts.filter (fun b => b != ZERO_ADDRESS) := by
      refine List.mem_filter.mpr ⟨(fAOK.1 e.pfrom).mp ?_, by simp [hf0]⟩
      rw [fpF]
    have hnd : (((getOrCreateUser (getOrCreateUser (getOrCreateUser s e.pfrom).2 e.pto).2 ZERO_ADDRESS).2).accounts.filter (fun b => b != ZERO_ADDRESS)).Nodup :=
      fAOK.2.filter _
    rw [sum_map_support_two _ (fun x => if x = e.pto then e.value else if x = e.pfrom then (-e.value) else 0) e.pto e.pfrom hnd hTl hFl (Ne.symm hne)
      (fun x hx hxT hxF => by simp only [if_neg hxT, if_neg hxF])]
    rw [if_pos rfl, if_neg hne, if_pos rfl]
    have : (List.map (storedBalance (getOrCreateUser (getOrCreateUser (getOrCreateUser s e.pfrom).2 e.pto).2 ZERO_ADDRESS).2)
        (((getOrCreateUser (getOrCreateUser (getOrCreateUser s e.pfrom).2 e.pto).2 ZERO_ADDRESS).2).accounts.filter (fun b => b != ZERO_ADDRESS))).sum = sumBalances (getOrCreateUser (getOrCreateUser (getOrCreateUser s e.pfrom).2 e.pto).2 ZERO_ADDRESS).2 := rfl
    rw [this, fsum]
    rw [show sumBalances s = (List.map (storedBalance s) (List.filter (fun a => a != ZERO_ADDRESS) s.accounts)).sum from rfl]
    ring

/-! ## Preservation of id well-formedness -/

theorem storeIdWF_empty : StoreIdWF emptyStore := by
  intro a u h
  exact Option.noConfusion h

theorem storeIdWF_saveUser (s : Store) (u : User) (h : StoreIdWF s) :
    StoreIdWF (saveUser s u) := by
  intro a w hw
  rw [loadUser_saveUser] at hw
  by_cases ha : a = u.id
  · rw [if_pos ha] at hw
    injection hw with hw
    subst hw
    exact ha.symm
  · rw [if_neg ha] at hw
    exact h a w hw

theorem storeIdWF_createUser (s : Store) (u : User) (h : StoreIdWF s) :
    StoreIdWF (createUser s u) := by
  intro a w hw
  rw [loadUser_createUser] at hw
  by_cases ha : a = u.id
  · rw [if_pos ha] at hw
    injection hw with hw
    subst hw
    exact ha.symm
  · rw [if_neg ha] at hw
    exact h a w hw

theorem storeIdWF_saveObs (s : Store) (a : Addr) (b : Int) (o : HourObservation)
    (h : StoreIdWF s) : StoreIdWF (saveObs s a b o) := fun x u hx => h x u hx

theorem storeIdWF_getOrCreateUser (s : Store) (a : Addr) (h : StoreIdWF s) :
    StoreIdWF (getOrCreateUser s a).2 :=
  (getOrCreateUser_spec s a h).2.2.2.2.2

theorem storeIdWF_obsPipeline (u : User) (t prior : Int) (s : Store) (h : StoreIdWF s) :
    StoreIdWF (obsPipeline u t prior s) := by
  apply storeIdWF_saveObs
  intro a w hw
  rw [getOrCreateHourObservation_loadUser] at hw
  cases hobs : loadObs s u.id (getHourTimestamp t) with
  | some o => rw [hobs] at hw; exact h a w hw
  | none =>
    rw [hobs] at hw
    by_cases ha : a = u.id
    · rw [if_pos ha] at hw
      injection hw with hw
      subst hw
      exact ha.symm
    · rw [if_neg ha] at hw
      exact h a w hw

theorem storeIdWF_regularResult (s : Store) (e : Event) (h : StoreIdWF s) :
    StoreIdWF (regularResult s e) := by
  unfold regularResult
  dsimp only
  apply storeIdWF_obsPipeline
  apply storeIdWF_obsPipeline
  apply storeIdWF_obsPipeline
  apply storeIdWF_saveUser
  apply storeIdWF_saveUser
  apply storeIdWF_saveUser
  exact storeIdWF_getOrCreateUser _ _ (storeIdWF_getOrCreateUser _ _ (storeIdWF_getOrCreateUser _ _ h))

theorem storeIdWF_mintResult (s : Store) (e : Event) (h : StoreIdWF s) :
    StoreIdWF (mintResult s e) := by
  unfold mintResult
  dsimp only
  apply storeIdWF_obsPipeline
  apply storeIdWF_obsPipeline
  apply storeIdWF_saveUser
  apply storeIdWF_saveUser
  exact storeIdWF_getOrCreateUser _ _ (storeIdWF_getOrCreateUser _ _ (storeIdWF_getOrCreateUser _ _ h))

theorem storeIdWF_burnResult (s : Store) (e : Event) (h : StoreIdWF s) :
    StoreIdWF (burnResult s e) := by
  unfold burnResult
  dsimp only
  apply storeIdWF_obsPipeline
  apply storeIdWF_obsPipeline
  apply storeIdWF_saveUser
  apply storeIdWF_saveUser
  exact storeIdWF_getOrCreateUser _ _ (storeIdWF_getOrCreateUser _ _ (storeIdWF_getOrCreateUser _ _ h))

theorem handleTransfer_zero (s : Store) (e : Event) (hv : ¬ 0 < e.value) :
    handleTransfer s e = .ok s := by
  unfold handleTransfer
  rw [if_neg hv]

theorem storeIdWF_handleTransfer (s : Store) (e : Event) (s' : Store)
    (h : StoreIdWF s) (he : handleTransfer s e = .ok s') : StoreIdWF s' := by
  by_cases hv : 0 < e.value
  · by_cases hm : ((getOrCreateUser s e.pfrom).1.id == ZERO_ADDRESS) = true
    · by_cases hb : ((getOrCreateUser (getOrCreateUser s e.pfrom).2 e.pto).1.id ==
          ZERO_ADDRESS) = true
      · rw [handleTransfer_mintburn s e hv hm hb] at he
        exact Except.noConfusion he
      · rw [handleTransfer_mint s e hv hm (Bool.eq_false_iff.mpr hb)] at he
        injection he with he
        subst he
        exact storeIdWF_mintResult s e h
    · by_cases hb : ((getOrCreateUser (getOrCreateUser s e.pfrom).2 e.pto).1.id ==
          ZERO_ADDRESS) = true
      · rw [handleTransfer_burn s e hv (Bool.eq_false_iff.mpr hm) hb] at he
        injection he with he
        subst he
        exact storeIdWF_burnResult s e h
      · rw [handleTransfer_regular s e hv (Bool.eq_false_iff.mpr hm)
          (Bool.eq_false_iff.mpr hb)] at he
        injection he with he
        subst he
        exact storeIdWF_regularResult s e h
  · rw [handleTransfer_zero s e hv] at he
    injection he with he
    subst he
    exact h

theorem storeIdWF_applyHistoryFrom :
    ∀ (es : List Event) (s s' : Store), StoreIdWF s →
      applyHistoryFrom s es = .ok s' → StoreIdWF s' := by
  intro es
  induction es with
  | nil =>
    intro s s' h he
    injection he with he
    subst he
    exact h
  | cons e rest ih =>
    intro s s' h he
    unfold applyHistoryFrom at he
    cases hstep : handleTransfer s e with
    | ok s1 =>
      rw [hstep] at he
      exact ih s1 s' (storeIdWF_handleTransfer s e s1 h hstep) he
    | error err =>
      rw [hstep] at he
      exact Except.noConfusion he

theorem storeIdWF_applyHistory (es : List Event) (s : Store)
    (he : applyHistory es = .ok s) : StoreIdWF s :=
  storeIdWF_applyHistoryFrom es emptyStore s storeIdWF_empty he

/-- Witness for the amended C10 at the store after one mint and a concrete
self transfer. -/
theorem claim_C10_self_transfer_witness :
    ∃ s', handleTransfer c10Store ⟨addrA, addrA, 100, 7200⟩ = Except.ok s' ∧
      storedBalance s' addrA = (if (loadObs c10Store addrA (getHourTimestamp 7200)).isSome
        then storedBalance c10Store addrA + 100 else storedBalance c10Store addrA - 100) ∧
      storedBalance s' ZERO_ADDRESS = storedBalance c10Store ZERO_ADDRESS :=
  claim_C10_self_transfer c10Store addrA 100 7200
    (storeIdWF_applyHistory [⟨ZERO_ADDRESS, addrA, 1000, 3600⟩] c10Store rfl)
    (by decide) (by decide)

/-! ## Claim C8: zero-amount transfers are a complete no-op -/

/-- C8. An applyTransfer event with amount 0 returns without error and
leaves the store untouched: no Account or Checkpoint record is created and
every stored balance and checkpoint is unchanged (the result is the very
same store). -/
theorem claim_C8_zero_transfer (s : Store) (e : Event) (h : e.value = 0) :
    handleTransfer s e = .ok s := by
  unfold handleTransfer
  rw [h]
  simp

/-- Witness for C8 at a concrete store and event. -/
theorem claim_C8_zero_transfer_witness :
    handleTransfer c10Store ⟨addrA, addrB, 0, 5000⟩ = .ok c10Store :=
  claim_C8_zero_transfer c10Store ⟨addrA, addrB, 0, 5000⟩ rfl

/-! ## Claim C9: the alignment error of the metric query -/

theorem hodlWalk_ne_alignment (s : Store) (a : Addr) (T : Int) (fuel : Nat) :
    ∀ cur, hodlWalk s a T fuel cur ≠ .error .alignment := by
  induction fuel with
  | zero => intro cur h; exact absurd h (by simp [hodlWalk])
  | succ n ih =>
    intro cur h
    rw [hodlWalk] at h
    by_cases hc : 0 < cur
    · rw [if_pos hc] at h
      cases hobs : loadObs s a cur with
      | none => rw [hobs] at h; simp at h
      | some o =>
        rw [hobs] at h
        by_cases ht : o.lastTimestamp ≤ T
        · simp only [if_pos ht] at h; exact Except.noConfusion h
        · simp only [if_neg ht] at h; exact ih _ h
    · rw [if_neg hc] at h; exact Except.noConfusion h

/-- C9. For every store, account and timestamp T, the metric query fails
with the alignment error exactly when T is not a multiple of the bucket
size SECONDS_PER_HOUR (3600). -/
theorem claim_C9_alignment (s : Store) (a : Addr) (T : Int) :
    getOrComputeCumulativeHODL s a T = .error .alignment ↔
      ¬ T % SECONDS_PER_HOUR = 0 := by
  unfold getOrComputeCumulativeHODL
  by_cases h : T = getHourTimestamp T
  · rw [if_pos h]
    have hmod : T % SECONDS_PER_HOUR = 0 := (getHourTimestamp_self_iff T).mp h
    simp only [hmod, not_true, iff_false]
    cases hu : loadUser s a with
    | none => simp
    | some user =>
      cases hobs : loadObs s a T with
      | some obs =>
        cases hprev : loadObs s a obs.previousHourTimestamp with
        | some p => simp [hprev]
        | none => simp [hprev]
      | none => exact hodlWalk_ne_alignment s a T _ _
  · rw [if_neg h]
    have hmod : ¬ T % SECONDS_PER_HOUR = 0 := fun hm =>
      h ((getHourTimestamp_self_iff T).mpr hm)
    simp [hmod]

/-! ## Claim C5: the checkpoint update rule -/

/-- C5. updateCheckpoint (getOrCreateHourObservation) behaves as claimed:
when no checkpoint exists at the event's bucket, the newly created
checkpoint's cumulative metric is the previous checkpoint's value plus
priorBalance times the elapsed time when a previous checkpoint exists, and
0 otherwise; when a checkpoint already exists in the bucket, its
cumulative metric grows by priorBalance times the time since its last
event, its last event time becomes the event's timestamp, and its last
balance becomes the account's current (post-mutation) balance. -/
theorem claim_C5_updateCheckpoint (u : User) (t prior : Int) (s : Store) :
    (loadObs s u.id (getHourTimestamp t) = none →
      ((∀ p, 0 < u.observationCount → loadObs s u.id u.lastHourTimestamp = some p →
          (getOrCreateHourObservation u t prior s).1.cumulativeHODL =
            p.cumulativeHODL + prior * (t - p.lastTimestamp)) ∧
       ((u.observationCount ≤ 0 ∨ loadObs s u.id u.lastHourTimestamp = none) →
          (getOrCreateHourObservation u t prior s).1.cumulativeHODL = 0))) ∧
    (∀ c, loadObs s u.id (getHourTimestamp t) = some c →
       (getOrCreateHourObservation u t prior s).1.cumulativeHODL =
           c.cumulativeHODL + prior * (t - c.lastTimestamp) ∧
       (getOrCreateHourObservation u t prior s).1.lastTimestamp = t ∧
       (getOrCreateHourObservation u t prior s).1.lastBalance = u.balance) := by
  constructor
  · intro hnone
    constructor
    · intro p hcount hp
      unfold getOrCreateHourObservation
      simp only [hnone, hp, if_pos hcount]
      ring
    · intro hcase
      unfold getOrCreateHourObservation
      simp only [hnone]
      rcases hcase with hc | hload
      · rw [if_neg (by omega)]
      · by_cases hcount : 0 < u.observationCount
        · simp only [if_pos hcount, hload]
        · rw [if_neg hcount]
  · intro c hc
    unfold getOrCreateHourObservation
    simp only [hc]
    exact ⟨by ring, by simp, by simp⟩

/-! ## Counterexamples -/

/-- C1 fails as stated: after the chronological history [mint 1000 to A at
t=1000, mint 500 to B at t=5000] and at the bucket-aligned timestamp 7200,
the sum of the metric over the non-sentinel accounts is 1100000 while the
sentinel's metric is 7300000 (A's checkpoint lives in bucket 0, which the
backward walk of getOrComputeCumulativeHODL treats as the end-of-chain
marker and never visits). -/
theorem claim_C1_counterexample :
    chronoFromB 0 c1Hist = true ∧
    (7200 : Int) % SECONDS_PER_HOUR = 0 ∧
    applyHistory c1Hist = .ok c1Store ∧
    metricSum c1Store 7200 = .ok 1100000 ∧
    getOrComputeCumulativeHODL c1Store ZERO_ADDRESS 7200 = .ok 7300000 ∧
    metricSum c1Store 7200 ≠ getOrComputeCumulativeHODL c1Store ZERO_ADDRESS 7200 := by
  refine ⟨rfl, by decide, rfl, rfl, rfl, ?_⟩
  intro h
  rw [show metricSum c1Store 7200 = .ok 1100000 from rfl,
    show getOrComputeCumulativeHODL c1Store ZERO_ADDRESS 7200 = .ok 7300000 from rfl] at h
  exact absurd (Except.ok.inj h) (by decide)

/-- C2 fails as stated: after the chronological history [mint 1000 to A at
t=3600, transfer A → A of 100 at t=3600] the store holds A with balance
1100 (the self-transfer's debit is overwritten by the credit on the second
loaded copy) while the sentinel's balance is 1000. -/
theorem claim_C2_counterexample :
    chronoFromB 0 c2Hist = true ∧
    applyHistory c2Hist = .ok c2Store ∧
    storedBalance c2Store ZERO_ADDRESS = 1000 ∧
    sumBalances c2Store = 1100 ∧
    storedBalance c2Store ZERO_ADDRESS ≠ sumBalances c2Store := by
  refine ⟨rfl, rfl, rfl, rfl, ?_⟩
  rw [show storedBalance c2Store ZERO_ADDRESS = 1000 from rfl,
    show sumBalances c2Store = 1100 from rfl]
  decide

/-- C3 fails as stated: after the chronological history [mint 100 to A at
t=3600, transfer A → B of 1000 at t=3600] (an overdraft, which
handleTransfer does not reject), A's balance is -900 and the metric at the
aligned timestamps 3600 and 7200 decreases from 0 to -3240000. -/
theorem claim_C3_counterexample :
    GoodHistoryB c3Hist = true ∧
    noOverdraftB c3Hist = false ∧
    applyHistory c3Hist = .ok c3Store ∧
    (3600 : Int) % SECONDS_PER_HOUR = 0 ∧ (7200 : Int) % SECONDS_PER_HOUR = 0 ∧
    (3600 : Int) ≤ 7200 ∧
    getOrComputeCumulativeHODL c3Store addrA 3600 = .ok 0 ∧
    getOrComputeCumulativeHODL c3Store addrA 7200 = .ok (-3240000) ∧
    ¬ ((0 : Int) ≤ -3240000) := by
  exact ⟨rfl, rfl, rfl, by decide, by decide, by decide, rfl, rfl, by decide⟩

/-- C4 fails as stated: after the chronological history [mint 1000 to A at
t=1000] the walk description of the specification yields 2600000 at the
aligned timestamp 3600 (extrapolating from the bucket-0 checkpoint), while
getOrComputeCumulativeHODL returns 0: its backward walk stops at the
end-of-chain marker 0 without visiting the bucket-0 checkpoint. -/
theorem claim_C4_counterexample :
    chronoFromB 0 c4Hist = true ∧
    (3600 : Int) % SECONDS_PER_HOUR = 0 ∧
    applyHistory c4Hist = .ok c4Store ∧
    getOrComputeCumulativeHODL c4Store addrA 3600 = .ok 0 ∧
    metricAtSpec c4Store addrA 3600 = 2600000 ∧
    getOrComputeCumulativeHODL c4Store addrA 3600 ≠ .ok (metricAtSpec c4Store addrA 3600) := by
  refine ⟨rfl, by decide, rfl, rfl, rfl, ?_⟩
  intro h
  rw [show getOrComputeCumulativeHODL c4Store addrA 3600 = .ok 0 from rfl,
    show metricAtSpec c4Store addrA 3600 = 2600000 from rfl] at h
  exact absurd (Except.ok.inj h) (by decide)

/-- C6 fails as stated: after the chronological history [mint 1000 to A at
t=1000, transfer B → C of 5 at t=5000], A holds the entire supply at every
instant of [3600, 10800) and the sentinel's metric delta over the period
is 9800000 - 2600000 ≠ 0, yet the ratio for A over [3600, 10800] is 0, not
1 (A's only checkpoint sits in bucket 0, invisible to the backward walk,
while the B → C event gives the sentinel a visible later checkpoint). -/
theorem claim_C6_counterexample :
    chronoFromB 0 c6Hist = true ∧
    (3600 : Int) % SECONDS_PER_HOUR = 0 ∧ (10800 : Int) % SECONDS_PER_HOUR = 0 ∧
    (3600 : Int) < 10800 ∧
    (∀ t : Int, 3600 ≤ t → t < 10800 →
       balAt c6Hist addrA t = balAt c6Hist ZERO_ADDRESS t) ∧
    getOrComputeCumulativeHODL c6Store ZERO_ADDRESS 3600 = .ok 2600000 ∧
    getOrComputeCumulativeHODL c6Store ZERO_ADDRESS 10800 = .ok 9800000 ∧
    computeHODLerRatioValue c6Store addrA 3600 10800 = .ok 0 ∧
    (0 : Rat) ≠ 1 := by
  refine ⟨rfl, by decide, by decide, by decide, ?_, rfl, rfl,
    by with_unfolding_all rfl, by norm_num⟩
  intro t h1 h2
  have ha : decide ((1000 : Int) ≤ t) = true := by
    simp only [decide_eq_true_eq]; omega
  by_cases hb : (5000 : Int) ≤ t
  · have hb' : decide ((5000 : Int) ≤ t) = true := by
      simp only [decide_eq_true_eq]; exact hb
    unfold balAt c6Hist
    simp only [List.filter_cons, List.filter_nil, ha, hb']
    rfl
  · have hb' : decide ((5000 : Int) ≤ t) = false := by
      simp only [decide_eq_false_iff_not]; exact hb
    unfold balAt c6Hist
    simp only [List.filter_cons, List.filter_nil, ha, hb']
    rfl

/-- C10 fails as stated: starting from the store produced by [mint 1000 to
A at t=3600], the self-transfer A → A of 100 at t=7200 (a bucket with no
checkpoint for A yet) completes, but leaves A's stored balance at 900 =
prior - amount, not prior + amount: the checkpoint-creation path saves the
debited from-copy of the user record after the credited to-copy was
saved. -/
theorem claim_C10_counterexample :
    storedBalance c10Store addrA = 1000 ∧
    loadObs c10Store addrA (getHourTimestamp 7200) = none ∧
    handleTransfer c10Store c10SelfEvent = .ok c10After ∧
    storedBalance c10After addrA = 900 ∧
    storedBalance c10After addrA ≠ 1000 + 100 := by
  exact ⟨rfl, rfl, rfl, rfl, by decide⟩

/-- Witness for C5: creating a checkpoint in a new bucket for a user with
one prior checkpoint yields the accumulated metric 0 + 1000 * (7200 -
3600) = 3600000. -/
theorem claim_C5_updateCheckpoint_witness :
    0 < c5User.observationCount ∧
    (getOrCreateHourObservation c5User 7200 1000 c10Store).1.cumulativeHODL = 3600000 := by
  refine ⟨by decide, ?_⟩
  have h := ((claim_C5_updateCheckpoint c5User 7200 1000 c10Store).1 (by decide)).1
    ⟨addrA, 3600, 1000, 0, 0, 0⟩ (by decide) (by decide)
  rw [h]
  norm_num


theorem c2_step_mint (s : Store) (e : Event) (hWF : StoreIdWF s) (hA : AccountsOK s)
    (ht0 : e.pto ≠ ZERO_ADDRESS) :
    AccountsOK (mintResult s e) ∧
    storedBalance (mintResult s e) ZERO_ADDRESS = storedBalance s ZERO_ADDRESS + e.value ∧
    sumBalances (mintResult s e) = sumBalances s + e.value := by
  obtain ⟨f1id, f1bal, f2id, f2bal, f3id, f3bal, fbal, fAOK, fsum, fpF, fpT, fpZ, fwf⟩ :=
    tripleCreate_facts s e hWF hA
  have hres : mintResult s e = (obsPipeline { id := ((getOrCreateUser (getOrCreateUser (getOrCreateUser s e.pfrom).2 e.pto).2 ZERO_ADDRESS).1).id, balance := ((getOrCreateUser (getOrCreateUser (getOrCreateUser s e.pfrom).2 e.pto).2 ZERO_ADDRESS).1).balance + e.value, observationCount := ((getOrCreateUser (getOrCreateUser (getOrCreateUser s e.pfrom).2 e.pto).2 ZERO_ADDRESS).1).observationCount, lastHourTimestamp := ((getOrCreateUser (getOrCreateUser (getOrCreateUser s e.pfrom).2 e.pto).2 ZERO_ADDRESS).1).lastHourTimestamp } e.timestamp ((getOrCreateUser (getOrCreateUser (getOrCreateUser s e.pfrom).2 e.pto).2 ZERO_ADDRESS).1).balance (obsPipeline { id := ((getOrCreateUser (getOrCreateUser s e.pfrom).2 e.pto).1).id, balance := ((getOrCreateUser (getOrCreateUser s e.pfrom).2 e.pto).1).balance + e.value, observationCount := ((getOrCreateUser (getOrCreateUser s e.pfrom).2 e.pto).1).observationCount, lastHourTimestamp := ((getOrCreateUser (getOrCreateUser s e.pfrom).2 e.pto).1).lastHourTimestamp } e.timestamp ((getOrCreateUser (getOrCreateUser s e.pfrom).2 e.pto).1).balance (saveUser (saveUser (getOrCreateUser (getOrCreateUser (getOrCreateUser s e.pfrom).2 e.pto).2 ZERO_ADDRESS).2 { id := ((getOrCreateUser (getOrCreateUser s e.pfrom).2 e.pto).1).id, balance := ((getOrCreateUser (getOrCreateUser s e.pfrom).2 e.pto).1).balance + e.value, observationCount := ((getOrCreateUser (getOrCreateUser s e.pfrom).2 e.pto).1).observationCount, lastHourTimestamp := ((getOrCreateUser (getOrCreateUser s e.pfrom).2 e.pto).1).lastHourTimestamp }) { id := ((getOrCreateUser (getOrCreateUser (getOrCreateUser s e.pfrom).2 e.pto).2 ZERO_ADDRESS).1).id, balance := ((getOrCreateUser (getOrCreateUser (getOrCreateUser s e.pfrom).2 e.pto).2 ZERO_ADDRESS).1).balance + e.value, observationCount := ((getOrCreateUser (getOrCreateUser (getOrCreateUser s e.pfrom).2 e.pto).2 ZERO_ADDRESS).1).observationCount, lastHourTimestamp := ((getOrCreateUser (getOrCreateUser (getOrCreateUser s e.pfrom).2 e.pto).2 ZERO_ADDRESS).1).lastHourTimestamp }))) := rfl
  have balS : ∀ x, storedBalance (saveUser (saveUser (getOrCreateUser (getOrCreateUser (getOrCreateUser s e.pfrom).2 e.pto).2 ZERO_ADDRESS).2 { id := ((getOrCreateUser (getOrCreateUser s e.pfrom).2 e.pto).1).id, balance := ((getOrCreateUser (getOrCreateUser s e.pfrom).2 e.pto).1).balance + e.value, observationCount := ((getOrCreateUser (getOrCreateUser s e.pfrom).2 e.pto).1).observationCount, lastHourTimestamp := ((getOrCreateUser (getOrCreateUser s e.pfrom).2 e.pto).1).lastHourTimestamp }) { id := ((getOrCreateUser (getOrCreateUser (getOrCreateUser s e.pfrom).2 e.pto).2 ZERO_ADDRESS).1).id, balance := ((getOrCreateUser (getOrCreateUser (getOrCreateUser s e.pfrom).2 e.pto).2 ZERO_ADDRESS).1).balance + e.value, observationCount := ((getOrCreateUser (getOrCreateUser (getOrCreateUser s e.pfrom).2 e.pto).2 ZERO_ADDRESS).1).observationCount, lastHourTimestamp := ((getOrCreateUser (getOrCreateUser (getOrCreateUser s e.pfrom).2 e.pto).2 ZERO_ADDRESS).1).lastHourTimestamp }) x =
      if x = ZERO_ADDRESS then storedBalance s ZERO_ADDRESS + e.value
      else if x = e.pto then storedBalance s e.pto + e.value
      else storedBalance s x := by
    intro x
    rw [storedBalance_saveUser, storedBalance_saveUser]
    dsimp only
    rw [f2id, f3id, f2bal, f3bal, fbal x]
  have pA0 : (loadUser (getOrCreateUser (getOrCreateUser (getOrCreateUser s e.pfrom).2 e.pto).2 ZERO_ADDRESS).2 ({ id := ((getOrCreateUser (getOrCreateUser s e.pfrom).2 e.pto).1).id, balance := ((getOrCreateUser (getOrCreateUser s e.pfrom).2 e.pto).1).balance + e.value, observationCount := ((getOrCreateUser (getOrCreateUser s e.pfrom).2 e.pto).1).observationCount, lastHourTimestamp := ((getOrCreateUser (getOrCreateUser s e.pfrom).2 e.pto).1).lastHourTimestamp } : User).id).isSome = true := by
    dsimp only
    rw [f2id]
    exact fpT
  have s1iso : ∀ x, (loadUser (saveUser (getOrCreateUser (getOrCreateUser (getOrCreateUser s e.pfrom).2 e.pto).2 ZERO_ADDRESS).2 { id := ((getOrCreateUser (getOrCreateUser s e.pfrom).2 e.pto).1).id, balance := ((getOrCreateUser (getOrCreateUser s e.pfrom).2 e.pto).1).balance + e.value, observationCount := ((getOrCreateUser (getOrCreateUser s e.pfrom).2 e.pto).1).observationCount, lastHourTimestamp := ((getOrCreateUser (getOrCreateUser s e.pfrom).2 e.pto).1).lastHourTimestamp }) x).isSome = (loadUser (getOrCreateUser (getOrCreateUser (getOrCreateUser s e.pfrom).2 e.pto).2 ZERO_ADDRESS).2 x).isSome :=
    fun x => isSome_saveUser _ _ _ pA0
  have pB1 : (loadUser (saveUser (getOrCreateUser (getOrCreateUser (getOrCreateUser s e.pfrom).2 e.pto).2 ZERO_ADDRESS).2 { id := ((getOrCreateUser (getOrCreateUser s e.pfrom).2 e.pto).1).id, balance := ((getOrCreateUser (getOrCreateUser s e.pfrom).2 e.pto).1).balance + e.value, observationCount := ((getOrCreateUser (getOrCreateUser s e.pfrom).2 e.pto).1).observationCount, lastHourTimestamp := ((getOrCreateUser (getOrCreateUser s e.pfrom).2 e.pto).1).lastHourTimestamp }) ({ id := ((getOrCreateUser (getOrCreateUser (getOrCreateUser s e.pfrom).2 e.pto).2 ZERO_ADDRESS).1).id, balance := ((getOrCreateUser (getOrCreateUser (getOrCreateUser s e.pfrom).2 e.pto).2 ZERO_ADDRESS).1).balance + e.value, observationCount := ((getOrCreateUser (getOrCreateUser (getOrCreateUser s e.pfrom).2 e.pto).2 ZERO_ADDRESS).1).observationCount, lastHourTimestamp := ((getOrCreateUser (getOrCreateUser (getOrCreateUser s e.pfrom).2 e.pto).2 ZERO_ADDRESS).1).lastHourTimestamp } : User).id).isSome = true := by
    rw [s1iso]
    dsimp only
    rw [f3id]
    exact fpZ
  have s2iso : ∀ x, (loadUser (saveUser (saveUser (getOrCreateUser (getOrCreateUser (getOrCreateUser s e.pfrom).2 e.pto).2 ZERO_ADDRESS).2 { id := ((getOrCreateUser (getOrCreateUser s e.pfrom).2 e.pto).1).id, balance := ((getOrCreateUser (getOrCreateUser s e.pfrom).2 e.pto).1).balance + e.value, observationCount := ((getOrCreateUser (getOrCreateUser s e.pfrom).2 e.pto).1).observationCount, lastHourTimestamp := ((getOrCreateUser (getOrCreateUser s e.pfrom).2 e.pto).1).lastHourTimestamp }) { id := ((getOrCreateUser (getOrCreateUser (getOrCreateUser s e.pfrom).2 e.pto).2 ZERO_ADDRESS).1).id, balance := ((getOrCreateUser (getOrCreateUser (getOrCreateUser s e.pfrom).2 e.pto).2 ZERO_ADDRESS).1).balance + e.value, observationCount := ((getOrCreateUser (getOrCreateUser (getOrCreateUser s e.pfrom).2 e.pto).2 ZERO_ADDRESS).1).observationCount, lastHourTimestamp := ((getOrCreateUser (getOrCreateUser (getOrCreateUser s e.pfrom).2 e.pto).2 ZERO_ADDRESS).1).lastHourTimestamp }) x).isSome = (loadUser (saveUser (getOrCreateUser (getOrCreateUser (getOrCreateUser s e.pfrom).2 e.pto).2 ZERO_ADDRESS).2 { id := ((getOrCreateUser (getOrCreateUser s e.pfrom).2 e.pto).1).id, balance := ((getOrCreateUser (getOrCreateUser s e.pfrom).2 e.pto).1).balance + e.value, observationCount := ((getOrCreateUser (getOrCreateUser s e.pfrom).2 e.pto).1).observationCount, lastHourTimestamp := ((getOrCreateUser (getOrCreateUser s e.pfrom).2 e.pto).1).lastHourTimestamp }) x).isSome :=
    fun x => isSome_saveUser _ _ _ pB1
  have isoS : ∀ x, (loadUser (saveUser (saveUser (getOrCreateUser (getOrCreateUser (getOrCreateUser s e.pfrom).2 e.pto).2 ZERO_ADDRESS).2 { id := ((getOrCreateUser (getOrCreateUser s e.pfrom).2 e.pto).1).id, balance := ((getOrCreateUser (getOrCreateUser s e.pfrom).2 e.pto).1).balance + e.value, observationCount := ((getOrCreateUser (getOrCreateUser s e.pfrom).2 e.pto).1).observationCount, lastHourTimestamp := ((getOrCreateUser (getOrCreateUser s e.pfrom).2 e.pto).1).lastHourTimestamp }) { id := ((getOrCreateUser (getOrCreateUser (getOrCreateUser s e.pfrom).2 e.pto).2 ZERO_ADDRESS).1).id, balance := ((getOrCreateUser (getOrCreateUser (getOrCreateUser s e.pfrom).2 e.pto).2 ZERO_ADDRESS).1).balance + e.value, observationCount := ((getOrCreateUser (getOrCreateUser (getOrCreateUser s e.pfrom).2 e.pto).2 ZERO_ADDRESS).1).observationCount, lastHourTimestamp := ((getOrCreateUser (getOrCreateUser (getOrCreateUser s e.pfrom).2 e.pto).2 ZERO_ADDRESS).1).lastHourTimestamp }) x).isSome = (loadUser (getOrCreateUser (getOrCreateUser (getOrCreateUser s e.pfrom).2 e.pto).2 ZERO_ADDRESS).2 x).isSome :=
    fun x => (s2iso x).trans (s1iso x)
  have p1cond : storedBalance (saveUser (saveUser (getOrCreateUser (getOrCreateUser (getOrCreateUser s e.pfrom).2 e.pto).2 ZERO_ADDRESS).2 { id := ((getOrCreateUser (getOrCreateUser s e.pfrom).2 e.pto).1).id, balance := ((getOrCreateUser (getOrCreateUser s e.pfrom).2 e.pto).1).balance + e.value, observationCount := ((getOrCreateUser (getOrCreateUser s e.pfrom).2 e.pto).1).observationCount, lastHourTimestamp := ((getOrCreateUser (getOrCreateUser s e.pfrom).2 e.pto).1).lastHourTimestamp }) { id := ((getOrCreateUser (getOrCreateUser (getOrCreateUser s e.pfrom).2 e.pto).2 ZERO_ADDRESS).1).id, balance := ((getOrCreateUser (getOrCreateUser (getOrCreateUser s e.pfrom).2 e.pto).2 ZERO_ADDRESS).1).balance + e.value, observationCount := ((getOrCreateUser (getOrCreateUser (getOrCreateUser s e.pfrom).2 e.pto).2 ZERO_ADDRESS).1).observationCount, lastHourTimestamp := ((getOrCreateUser (getOrCreateUser (getOrCreateUser s e.pfrom).2 e.pto).2 ZERO_ADDRESS).1).lastHourTimestamp }) ({ id := ((getOrCreateUser (getOrCreateUser s e.pfrom).2 e.pto).1).id, balance := ((getOrCreateUser (getOrCreateUser s e.pfrom).2 e.pto).1).balance + e.value, observationCount := ((getOrCreateUser (getOrCreateUser s e.pfrom).2 e.pto).1).observationCount, lastHourTimestamp := ((getOrCreateUser (getOrCreateUser s e.pfrom).2 e.pto).1).lastHourTimestamp } : User).id = ({ id := ((getOrCreateUser (getOrCreateUser s e.pfrom).2 e.pto).1).id, balance := ((getOrCreateUser (getOrCreateUser s e.pfrom).2 e.pto).1).balance + e.value, observationCount := ((getOrCreateUser (getOrCreateUser s e.pfrom).2 e.pto).1).observationCount, lastHourTimestamp := ((getOrCreateUser (getOrCreateUser s e.pfrom).2 e.pto).1).lastHourTimestamp } : User).balance := by
    dsimp only
    rw [balS, f2id, if_neg ht0, if_pos rfl, f2bal]
  have p1pres : (loadUser (saveUser (saveUser (getOrCreateUser (getOrCreateUser (getOrCreateUser s e.pfrom).2 e.pto).2 ZERO_ADDRESS).2 { id := ((getOrCreateUser (getOrCreateUser s e.pfrom).2 e.pto).1).id, balance := ((getOrCreateUser (getOrCreateUser s e.pfrom).2 e.pto).1).balance + e.value, observationCount := ((getOrCreateUser (getOrCreateUser s e.pfrom).2 e.pto).1).observationCount, lastHourTimestamp := ((getOrCreateUser (getOrCreateUser s e.pfrom).2 e.pto).1).lastHourTimestamp }) { id := ((getOrCreateUser (getOrCreateUser (getOrCreateUser s e.pfrom).2 e.pto).2 ZERO_ADDRESS).1).id, balance := ((getOrCreateUser (getOrCreateUser (getOrCreateUser s e.pfrom).2 e.pto).2 ZERO_ADDRESS).1).balance + e.value, observationCount := ((getOrCreateUser (getOrCreateUser (getOrCreateUser s e.pfrom).2 e.pto).2 ZERO_ADDRESS).1).observationCount, lastHourTimestamp := ((getOrCreateUser (getOrCreateUser (getOrCreateUser s e.pfrom).2 e.pto).2 ZERO_ADDRESS).1).lastHourTimestamp }) ({ id := ((getOrCreateUser (getOrCreateUser s e.pfrom).2 e.pto).1).id, balance := ((getOrCreateUser (getOrCreateUser s e.pfrom).2 e.pto).1).balance + e.value, observationCount := ((getOrCreateUser (getOrCreateUser s e.pfrom).2 e.pto).1).observationCount, lastHourTimestamp := ((getOrCreateUser (getOrCreateUser s e.pfrom).2 e.pto).1).lastHourTimestamp } : User).id).isSome = true := by
    dsimp only
    rw [isoS, f2id]
    exact fpT
  have P1bal : ∀ x, storedBalance (obsPipeline { id := ((getOrCreateUser (getOrCreateUser s e.pfrom).2 e.pto).1).id, balance := ((getOrCreateUser (getOrCreateUser s e.pfrom).2 e.pto).1).balance + e.value, observationCount := ((getOrCreateUser (getOrCreateUser s e.pfrom).2 e.pto).1).observationCount, lastHourTimestamp := ((getOrCreateUser (getOrCreateUser s e.pfrom).2 e.pto).1).lastHourTimestamp } e.timestamp ((getOrCreateUser (getOrCreateUser s e.pfrom).2 e.pto).1).balance (saveUser (saveUser (getOrCreateUser (getOrCreateUser (getOrCreateUser s e.pfrom).2 e.pto).2 ZERO_ADDRESS).2 { id := ((getOrCreateUser (getOrCreateUser s e.pfrom).2 e.pto).1).id, balance := ((getOrCreateUser (getOrCreateUser s e.pfrom).2 e.pto).1).balance + e.value, observationCount := ((getOrCreateUser (getOrCreateUser s e.pfrom).2 e.pto).1).observationCount, lastHourTimestamp := ((getOrCreateUser (getOrCreateUser s e.pfrom).2 e.pto).1).lastHourTimestamp }) { id := ((getOrCreateUser (getOrCreateUser (getOrCreateUser s e.pfrom).2 e.pto).2 ZERO_ADDRESS).1).id, balance := ((getOrCreateUser (getOrCreateUser (getOrCreateUser s e.pfrom).2 e.pto).2 ZERO_ADDRESS).1).balance + e.value, observationCount := ((getOrCreateUser (getOrCreateUser (getOrCreateUser s e.pfrom).2 e.pto).2 ZERO_ADDRESS).1).observationCount, lastHourTimestamp := ((getOrCreateUser (getOrCreateUser (getOrCreateUser s e.pfrom).2 e.pto).2 ZERO_ADDRESS).1).lastHourTimestamp })) x = storedBalance (saveUser (saveUser (getOrCreateUser (getOrCreateUser (getOrCreateUser s e.pfrom).2 e.pto).2 ZERO_ADDRESS).2 { id := ((getOrCreateUser (getOrCreateUser s e.pfrom).2 e.pto).1).id, balance := ((getOrCreateUser (getOrCreateUser s e.pfrom).2 e.pto).1).balance + e.value, observationCount := ((getOrCreateUser (getOrCreateUser s e.pfrom).2 e.pto).1).observationCount, lastHourTimestamp := ((getOrCreateUser (getOrCreateUser s e.pfrom).2 e.pto).1).lastHourTimestamp }) { id := ((getOrCreateUser (getOrCreateUser (getOrCreateUser s e.pfrom).2 e.pto).2 ZERO_ADDRESS).1).id, balance := ((getOrCreateUser (getOrCreateUser (getOrCreateUser s e.pfrom).2 e.pto).2 ZERO_ADDRESS).1).balance + e.value, observationCount := ((getOrCreateUser (getOrCreateUser (getOrCreateUser s e.pfrom).2 e.pto).2 ZERO_ADDRESS).1).observationCount, lastHourTimestamp := ((getOrCreateUser (getOrCreateUser (getOrCreateUser s e.pfrom).2 e.pto).2 ZERO_ADDRESS).1).lastHourTimestamp }) x :=
    fun x => obsPipeline_storedBalance _ _ _ _ _ p1cond
  have P1iso : ∀ x, (loadUser (obsPipeline { id := ((getOrCreateUser (getOrCreateUser s e.pfrom).2 e.pto).1).id, balance := ((getOrCreateUser (getOrCreateUser s e.pfrom).2 e.pto).1).balance + e.value, observationCount := ((getOrCreateUser (getOrCreateUser s e.pfrom).2 e.pto).1).observationCount, lastHourTimestamp := ((getOrCreateUser (getOrCreateUser s e.pfrom).2 e.pto).1).lastHourTimestamp } e.timestamp ((getOrCreateUser (getOrCreateUser s e.pfrom).2 e.pto).1).balance (saveUser (saveUser (getOrCreateUser (getOrCreateUser (getOrCreateUser s e.pfrom).2 e.pto).2 ZERO_ADDRESS).2 { id := ((getOrCreateUser (getOrCreateUser s e.pfrom).2 e.pto).1).id, balance := ((getOrCreateUser (getOrCreateUser s e.pfrom).2 e.pto).1).balance + e.value, observationCount := ((getOrCreateUser (getOrCreateUser s e.pfrom).2 e.pto).1).observationCount, lastHourTimestamp := ((getOrCreateUser (getOrCreateUser s e.pfrom).2 e.pto).1).lastHourTimestamp }) { id := ((getOrCreateUser (getOrCreateUser (getOrCreateUser s e.pfrom).2 e.pto).2 ZERO_ADDRESS).1).id, balance := ((getOrCreateUser (getOrCreateUser (getOrCreateUser s e.pfrom).2 e.pto).2 ZERO_ADDRESS).1).balance + e.value, observationCount := ((getOrCreateUser (getOrCreateUser (getOrCreateUser s e.pfrom).2 e.pto).2 ZERO_ADDRESS).1).observationCount, lastHourTimestamp := ((getOrCreateUser (getOrCreateUser (getOrCreateUser s e.pfrom).2 e.pto).2 ZERO_ADDRESS).1).lastHourTimestamp })) x).isSome = (loadUser (saveUser (saveUser (getOrCreateUser (getOrCreateUser (getOrCreateUser s e.pfrom).2 e.pto).2 ZERO_ADDRESS).2 { id := ((getOrCreateUser (getOrCreateUser s e.pfrom).2 e.pto).1).id, balance := ((getOrCreateUser (getOrCreateUser s e.pfrom).2 e.pto).1).balance + e.value, observationCount := ((getOrCreateUser (getOrCreateUser s e.pfrom).2 e.pto).1).observationCount, lastHourTimestamp := ((getOrCreateUser (getOrCreateUser s e.pfrom).2 e.pto).1).lastHourTimestamp }) { id := ((getOrCreateUser (getOrCreateUser (getOrCreateUser s e.pfrom).2 e.pto).2 ZERO_ADDRESS).1).id, balance := ((getOrCreateUser (getOrCreateUser (getOrCreateUser s e.pfrom).2 e.pto).2 ZERO_ADDRESS).1).balance + e.value, observationCount := ((getOrCreateUser (getOrCreateUser (getOrCreateUser s e.pfrom).2 e.pto).2 ZERO_ADDRESS).1).observationCount, lastHourTimestamp := ((getOrCreateUser (getOrCreateUser (getOrCreateUser s e.pfrom).2 e.pto).2 ZERO_ADDRESS).1).lastHourTimestamp }) x).isSome :=
    fun x => obsPipeline_isSome _ _ _ _ _ p1pres
  have p2cond : storedBalance (obsPipeline { id := ((getOrCreateUser (getOrCreateUser s e.pfrom).2 e.pto).1).id, balance := ((getOrCreateUser (getOrCreateUser s e.pfrom).2 e.pto).1).balance + e.value, observationCount := ((getOrCreateUser (getOrCreateUser s e.pfrom).2 e.pto).1).observationCount, lastHourTimestamp := ((getOrCreateUser (getOrCreateUser s e.pfrom).2 e.pto).1).lastHourTimestamp } e.timestamp ((getOrCreateUser (getOrCreateUser s e.pfrom).2 e.pto).1).balance (saveUser (saveUser (getOrCreateUser (getOrCreateUser (getOrCreateUser s e.pfrom).2 e.pto).2 ZERO_ADDRESS).2 { id := ((getOrCreateUser (getOrCreateUser s e.pfrom).2 e.pto).1).id, balance := ((getOrCreateUser (getOrCreateUser s e.pfrom).2 e.pto).1).balance + e.value, observationCount := ((getOrCreateUser (getOrCreateUser s e.pfrom).2 e.pto).1).observationCount, lastHourTimestamp := ((getOrCreateUser (getOrCreateUser s e.pfrom).2 e.pto).1).lastHourTimestamp }) { id := ((getOrCreateUser (getOrCreateUser (getOrCreateUser s e.pfrom).2 e.pto).2 ZERO_ADDRESS).1).id, balance := ((getOrCreateUser (getOrCreateUser (getOrCreateUser s e.pfrom).2 e.pto).2 ZERO_ADDRESS).1).balance + e.value, observationCount := ((getOrCreateUser (getOrCreateUser (getOrCreateUser s e.pfrom).2 e.pto).2 ZERO_ADDRESS).1).observationCount, lastHourTimestamp := ((getOrCreateUser (getOrCreateUser (getOrCreateUser s e.pfrom).2 e.pto).2 ZERO_ADDRESS).1).lastHourTimestamp })) ({ id := ((getOrCreateUser (getOrCreateUser (getOrCreateUser s e.pfrom).2 e.pto).2 ZERO_ADDRESS).1).id, balance := ((getOrCreateUser (getOrCreateUser (getOrCreateUser s e.pfrom).2 e.pto).2 ZERO_ADDRESS).1).balance + e.value, observationCount := ((getOrCreateUser (getOrCreateUser (getOrCreateUser s e.pfrom).2 e.pto).2 ZERO_ADDRESS).1).observationCount, lastHourTimestamp := ((getOrCreateUser (getOrCreateUser (getOrCreateUser s e.pfrom).2 e.pto).2 ZERO_ADDRESS).1).lastHourTimestamp } : User).id = ({ id := ((getOrCreateUser (getOrCreateUser (getOrCreateUser s e.pfrom).2 e.pto).2 ZERO_ADDRESS).1).id, balance := ((getOrCreateUser (getOrCreateUser (getOrCreateUser s e.pfrom).2 e.pto).2 ZERO_ADDRESS).1).balance + e.value, observationCount := ((getOrCreateUser (getOrCreateUser (getOrCreateUser s e.pfrom).2 e.pto).2 ZERO_ADDRESS).1).observationCount, lastHourTimestamp := ((getOrCreateUser (getOrCreateUser (getOrCreateUser s e.pfrom).2 e.pto).2 ZERO_ADDRESS).1).lastHourTimestamp } : User).balance := by
    dsimp only
    rw [P1bal, balS, f3id, if_pos rfl, f3bal]
  have p2pres : (loadUser (obsPipeline { id := ((getOrCreateUser (getOrCreateUser s e.pfrom).2 e.pto).1).id, balance := ((getOrCreateUser (getOrCreateUser s e.pfrom).2 e.pto).1).balance + e.value, observationCount := ((getOrCreateUser (getOrCreateUser s e.pfrom).2 e.pto).1).observationCount, lastHourTimestamp := ((getOrCreateUser (getOrCreateUser s e.pfrom).2 e.pto).1).lastHourTimestamp } e.timestamp ((getOrCreateUser (getOrCreateUser s e.pfrom).2 e.pto).1).balance (saveUser (saveUser (getOrCreateUser (getOrCreateUser (getOrCreateUser s e.pfrom).2 e.pto).2 ZERO_ADDRESS).2 { id := ((getOrCreateUser (getOrCreateUser s e.pfrom).2 e.pto).1).id, balance := ((getOrCreateUser (getOrCreateUser s e.pfrom).2 e.pto).1).balance + e.value, observationCount := ((getOrCreateUser (getOrCreateUser s e.pfrom).2 e.pto).1).observationCount, lastHourTimestamp := ((getOrCreateUser (getOrCreateUser s e.pfrom).2 e.pto).1).lastHourTimestamp }) { id := ((getOrCreateUser (getOrCreateUser (getOrCreateUser s e.pfrom).2 e.pto).2 ZERO_ADDRESS).1).id, balance := ((getOrCreateUser (getOrCreateUser (getOrCreateUser s e.pfrom).2 e.pto).2 ZERO_ADDRESS).1).balance + e.value, observationCount := ((getOrCreateUser (getOrCreateUser (getOrCreateUser s e.pfrom).2 e.pto).2 ZERO_ADDRESS).1).observationCount, lastHourTimestamp := ((getOrCreateUser (getOrCreateUser (getOrCreateUser s e.pfrom).2 e.pto).2 ZERO_ADDRESS).1).lastHourTimestamp })) ({ id := ((getOrCreateUser (getOrCreateUser (getOrCreateUser s e.pfrom).2 e.pto).2 ZERO_ADDRESS).1).id, balance := ((getOrCreateUser (getOrCreateUser (getOrCreateUser s e.pfrom).2 e.pto).2 ZERO_ADDRESS).1).balance + e.value, observationCount := ((getOrCreateUser (getOrCreateUser (getOrCreateUser s e.pfrom).2 e.pto).2 ZERO_ADDRESS).1).observationCount, lastHourTimestamp := ((getOrCreateUser (getOrCreateUser (getOrCreateUser s e.pfrom).2 e.pto).2 ZERO_ADDRESS).1).lastHourTimestamp } : User).id).isSome = true := by
    dsimp only
    rw [P1iso, isoS, f3id]
    exact fpZ
  have P2bal : ∀ x, storedBalance (obsPipeline { id := ((getOrCreateUser (getOrCreateUser (getOrCreateUser s e.pfrom).2 e.pto).2 ZERO_ADDRESS).1).id, balance := ((getOrCreateUser (getOrCreateUser (getOrCreateUser s e.pfrom).2 e.pto).2 ZERO_ADDRESS).1).balance + e.value, observationCount := ((getOrCreateUser (getOrCreateUser (getOrCreateUser s e.pfrom).2 e.pto).2 ZERO_ADDRESS).1).observationCount, lastHourTimestamp := ((getOrCreateUser (getOrCreateUser (getOrCreateUser s e.pfrom).2 e.pto).2 ZERO_ADDRESS).1).lastHourTimestamp } e.timestamp ((getOrCreateUser (getOrCreateUser (getOrCreateUser s e.pfrom).2 e.pto).2 ZERO_ADDRESS).1).balance (obsPipeline { id := ((getOrCreateUser (getOrCreateUser s e.pfrom).2 e.pto).1).id, balance := ((getOrCreateUser (getOrCreateUser s e.pfrom).2 e.pto).1).balance + e.value, observationCount := ((getOrCreateUser (getOrCreateUser s e.pfrom).2 e.pto).1).observationCount, lastHourTimestamp := ((getOrCreateUser (getOrCreateUser s e.pfrom).2 e.pto).1).lastHourTimestamp } e.timestamp ((getOrCreateUser (getOrCreateUser s e.pfrom).2 e.pto).1).balance (saveUser (saveUser (getOrCreateUser (getOrCreateUser (getOrCreateUser s e.pfrom).2 e.pto).2 ZERO_ADDRESS).2 { id := ((getOrCreateUser (getOrCreateUser s e.pfrom).2 e.pto).1).id, balance := ((getOrCreateUser (getOrCreateUser s e.pfrom).2 e.pto).1).balance + e.value, observationCount := ((getOrCreateUser (getOrCreateUser s e.pfrom).2 e.pto).1).observationCount, lastHourTimestamp := ((getOrCreateUser (getOrCreateUser s e.pfrom).2 e.pto).1).lastHourTimestamp }) { id := ((getOrCreateUser (getOrCreateUser (getOrCreateUser s e.pfrom).2 e.pto).2 ZERO_ADDRESS).1).id, balance := ((getOrCreateUser (getOrCreateUser (getOrCreateUser s e.pfrom).2 e.pto).2 ZERO_ADDRESS).1).balance + e.value, observationCount := ((getOrCreateUser (getOrCreateUser (getOrCreateUser s e.pfrom).2 e.pto).2 ZERO_ADDRESS).1).observationCount, lastHourTimestamp := ((getOrCreateUser (getOrCreateUser (getOrCreateUser s e.pfrom).2 e.pto).2 ZERO_ADDRESS).1).lastHourTimestamp }))) x = storedBalance (saveUser (saveUser (getOrCreateUser (getOrCreateUser (getOrCreateUser s e.pfrom).2 e.pto).2 ZERO_ADDRESS).2 { id := ((getOrCreateUser (getOrCreateUser s e.pfrom).2 e.pto).1).id, balance := ((getOrCreateUser (getOrCreateUser s e.pfrom).2 e.pto).1).balance + e.value, observationCount := ((getOrCreateUser (getOrCreateUser s e.pfrom).2 e.pto).1).observationCount, lastHourTimestamp := ((getOrCreateUser (getOrCreateUser s e.pfrom).2 e.pto).1).lastHourTimestamp }) { id := ((getOrCreateUser (getOrCreateUser (getOrCreateUser s e.pfrom).2 e.pto).2 ZERO_ADDRESS).1).id, balance := ((getOrCreateUser (getOrCreateUser (getOrCreateUser s e.pfrom).2 e.pto).2 ZERO_ADDRESS).1).balance + e.value, observationCount := ((getOrCreateUser (getOrCreateUser (getOrCreateUser s e.pfrom).2 e.pto).2 ZERO_ADDRESS).1).observationCount, lastHourTimestamp := ((getOrCreateUser (getOrCreateUser (getOrCreateUser s e.pfrom).2 e.pto).2 ZERO_ADDRESS).1).lastHourTimestamp }) x :=
    fun x => (obsPipeline_storedBalance _ _ _ _ _ p2cond).trans (P1bal x)
  have P2iso : ∀ x, (loadUser (obsPipeline { id := ((getOrCreateUser (getOrCreateUser (getOrCreateUser s e.pfrom).2 e.pto).2 ZERO_ADDRESS).1).id, balance := ((getOrCreateUser (getOrCreateUser (getOrCreateUser s e.pfrom).2 e.pto).2 ZERO_ADDRESS).1).balance + e.value, observationCount := ((getOrCreateUser (getOrCreateUser (getOrCreateUser s e.pfrom).2 e.pto).2 ZERO_ADDRESS).1).observationCount, lastHourTimestamp := ((getOrCreateUser (getOrCreateUser (getOrCreateUser s e.pfrom).2 e.pto).2 ZERO_ADDRESS).1).lastHourTimestamp } e.timestamp ((getOrCreateUser (getOrCreateUser (getOrCreateUser s e.pfrom).2 e.pto).2 ZERO_ADDRESS).1).balance (obsPipeline { id := ((getOrCreateUser (getOrCreateUser s e.pfrom).2 e.pto).1).id, balance := ((getOrCreateUser (getOrCreateUser s e.pfrom).2 e.pto).1).balance + e.value, observationCount := ((getOrCreateUser (getOrCreateUser s e.pfrom).2 e.pto).1).observationCount, lastHourTimestamp := ((getOrCreateUser (getOrCreateUser s e.pfrom).2 e.pto).1).lastHourTimestamp } e.timestamp ((getOrCreateUser (getOrCreateUser s e.pfrom).2 e.pto).1).balance (saveUser (saveUser (getOrCreateUser (getOrCreateUser (getOrCreateUser s e.pfrom).2 e.pto).2 ZERO_ADDRESS).2 { id := ((getOrCreateUser (getOrCreateUser s e.pfrom).2 e.pto).1).id, balance := ((getOrCreateUser (getOrCreateUser s e.pfrom).2 e.pto).1).balance + e.value, observationCount := ((getOrCreateUser (getOrCreateUser s e.pfrom).2 e.pto).1).observationCount, lastHourTimestamp := ((getOrCreateUser (getOrCreateUser s e.pfrom).2 e.pto).1).lastHourTimestamp }) { id := ((getOrCreateUser (getOrCreateUser (getOrCreateUser s e.pfrom).2 e.pto).2 ZERO_ADDRESS).1).id, balance := ((getOrCreateUser (getOrCreateUser (getOrCreateUser s e.pfrom).2 e.pto).2 ZERO_ADDRESS).1).balance + e.value, observationCount := ((getOrCreateUser (getOrCreateUser (getOrCreateUser s e.pfrom).2 e.pto).2 ZERO_ADDRESS).1).observationCount, lastHourTimestamp := ((getOrCreateUser (getOrCreateUser (getOrCreateUser s e.pfrom).2 e.pto).2 ZERO_ADDRESS).1).lastHourTimestamp }))) x).isSome = (loadUser (saveUser (saveUser (getOrCreateUser (getOrCreateUser (getOrCreateUser s e.pfrom).2 e.pto).2 ZERO_ADDRESS).2 { id := ((getOrCreateUser (getOrCreateUser s e.pfrom).2 e.pto).1).id, balance := ((getOrCreateUser (getOrCreateUser s e.pfrom).2 e.pto).1).balance + e.value, observationCount := ((getOrCreateUser (getOrCreateUser s e.pfrom).2 e.pto).1).observationCount, lastHourTimestamp := ((getOrCreateUser (getOrCreateUser s e.pfrom).2 e.pto).1).lastHourTimestamp }) { id := ((getOrCreateUser (getOrCreateUser (getOrCreateUser s e.pfrom).2 e.pto).2 ZERO_ADDRESS).1).id, balance := ((getOrCreateUser (getOrCreateUser (getOrCreateUser s e.pfrom).2 e.pto).2 ZERO_ADDRESS).1).balance + e.value, observationCount := ((getOrCreateUser (getOrCreateUser (getOrCreateUser s e.pfrom).2 e.pto).2 ZERO_ADDRESS).1).observationCount, lastHourTimestamp := ((getOrCreateUser (getOrCreateUser (getOrCreateUser s e.pfrom).2 e.pto).2 ZERO_ADDRESS).1).lastHourTimestamp }) x).isSome :=
    fun x => (obsPipeline_isSome _ _ _ _ _ p2pres).trans (P1iso x)
  have Racc : ((obsPipeline { id := ((getOrCreateUser (getOrCreateUser (getOrCreateUser s e.pfrom).2 e.pto).2 ZERO_ADDRESS).1).id, balance := ((getOrCreateUser (getOrCreateUser (getOrCreateUser s e.pfrom).2 e.pto).2 ZERO_ADDRESS).1).balance + e.value, observationCount := ((getOrCreateUser (getOrCreateUser (getOrCreateUser s e.pfrom).2 e.pto).2 ZERO_ADDRESS).1).observationCount, lastHourTimestamp := ((getOrCreateUser (getOrCreateUser (getOrCreateUser s e.pfrom).2 e.pto).2 ZERO_ADDRESS).1).lastHourTimestamp } e.timestamp ((getOrCreateUser (getOrCreateUser (getOrCreateUser s e.pfrom).2 e.pto).2 ZERO_ADDRESS).1).balance (obsPipeline { id := ((getOrCreateUser (getOrCreateUser s e.pfrom).2 e.pto).1).id, balance := ((getOrCreateUser (getOrCreateUser s e.pfrom).2 e.pto).1).balance + e.value, observationCount := ((getOrCreateUser (getOrCreateUser s e.pfrom).2 e.pto).1).observationCount, lastHourTimestamp := ((getOrCreateUser (getOrCreateUser s e.pfrom).2 e.pto).1).lastHourTimestamp } e.timestamp ((getOrCreateUser (getOrCreateUser s e.pfrom).2 e.pto).1).balance (saveUser (saveUser (getOrCreateUser (getOrCreateUser (getOrCreateUser s e.pfrom).2 e.pto).2 ZERO_ADDRESS).2 { id := ((getOrCreateUser (getOrCreateUser s e.pfrom).2 e.pto).1).id, balance := ((getOrCreateUser (getOrCreateUser s e.pfrom).2 e.pto).1).balance + e.value, observationCount := ((getOrCreateUser (getOrCreateUser s e.pfrom).2 e.pto).1).observationCount, lastHourTimestamp := ((getOrCreateUser (getOrCreateUser s e.pfrom).2 e.pto).1).lastHourTimestamp }) { id := ((getOrCreateUser (getOrCreateUser (getOrCreateUser s e.pfrom).2 e.pto).2 ZERO_ADDRESS).1).id, balance := ((getOrCreateUser (getOrCreateUser (getOrCreateUser s e.pfrom).2 e.pto).2 ZERO_ADDRESS).1).balance + e.value, observationCount := ((getOrCreateUser (getOrCreateUser (getOrCreateUser s e.pfrom).2 e.pto).2 ZERO_ADDRESS).1).observationCount, lastHourTimestamp := ((getOrCreateUser (getOrCreateUser (getOrCreateUser s e.pfrom).2 e.pto).2 ZERO_ADDRESS).1).lastHourTimestamp })))).accounts = ((getOrCreateUser (getOrCreateUser (getOrCreateUser s e.pfrom).2 e.pto).2 ZERO_ADDRESS).2).accounts := by
    rw [obsPipeline_accounts, obsPipeline_accounts]
    rfl
  refine ⟨?_, ?_, ?_⟩
  · rw [hres]
    refine accountsOK_of_same _ _ fAOK Racc ?_
    intro x
    rw [P2iso, isoS]
  · rw [hres]
    rw [P2bal, balS, if_pos rfl]
  · rw [hres]
    unfold sumBalances
    rw [Racc]
    have hpt : ∀ x ∈ List.filter (fun b => b != ZERO_ADDRESS) ((getOrCreateUser (getOrCreateUser (getOrCreateUser s e.pfrom).2 e.pto).2 ZERO_ADDRESS).2).accounts,
        storedBalance (obsPipeline { id := ((getOrCreateUser (getOrCreateUser (getOrCreateUser s e.pfrom).2 e.pto).2 ZERO_ADDRESS).1).id, balance := ((getOrCreateUser (getOrCreateUser (getOrCreateUser s e.pfrom).2 e.pto).2 ZERO_ADDRESS).1).balance + e.value, observationCount := ((getOrCreateUser (getOrCreateUser (getOrCreateUser s e.pfrom).2 e.pto).2 ZERO_ADDRESS).1).observationCount, lastHourTimestamp := ((getOrCreateUser (getOrCreateUser (getOrCreateUser s e.pfrom).2 e.pto).2 ZERO_ADDRESS).1).lastHourTimestamp } e.timestamp ((getOrCreateUser (getOrCreateUser (getOrCreateUser s e.pfrom).2 e.pto).2 ZERO_ADDRESS).1).balance (obsPipeline { id := ((getOrCreateUser (getOrCreateUser s e.pfrom).2 e.pto).1).id, balance := ((getOrCreateUser (getOrCreateUser s e.pfrom).2 e.pto).1).balance + e.value, observationCount := ((getOrCreateUser (getOrCreateUser s e.pfrom).2 e.pto).1).observationCount, lastHourTimestamp := ((getOrCreateUser (getOrCreateUser s e.pfrom).2 e.pto).1).lastHourTimestamp } e.timestamp ((getOrCreateUser (getOrCreateUser s e.pfrom).2 e.pto).1).balance (saveUser (saveUser (getOrCreateUser (getOrCreateUser (getOrCreateUser s e.pfrom).2 e.pto).2 ZERO_ADDRESS).2 { id := ((getOrCreateUser (getOrCreateUser s e.pfrom).2 e.pto).1).id, balance := ((getOrCreateUser (getOrCreateUser s e.pfrom).2 e.pto).1).balance + e.value, observationCount := ((getOrCreateUser (getOrCreateUser s e.pfrom).2 e.pto).1).observationCount, lastHourTimestamp := ((getOrCreateUser (getOrCreateUser s e.pfrom).2 e.pto).1).lastHourTimestamp }) { id := ((getOrCreateUser (getOrCreateUser (getOrCreateUser s e.pfrom).2 e.pto).2 ZERO_ADDRESS).1).id, balance := ((getOrCreateUser (getOrCreateUser (getOrCreateUser s e.pfrom).2 e.pto).2 ZERO_ADDRESS).1).balance + e.value, observationCount := ((getOrCreateUser (getOrCreateUser (getOrCreateUser s e.pfrom).2 e.pto).2 ZERO_ADDRESS).1).observationCount, lastHourTimestamp := ((getOrCreateUser (getOrCreateUser (getOrCreateUser s e.pfrom).2 e.pto).2 ZERO_ADDRESS).1).lastHourTimestamp }))) x = storedBalance (getOrCreateUser (getOrCreateUser (getOrCreateUser s e.pfrom).2 e.pto).2 ZERO_ADDRESS).2 x +
          (if x = e.pto then e.value else 0) := by
      intro x hx
      have hxZ : x ≠ ZERO_ADDRESS := by
        have := (List.mem_filter.mp hx).2
        intro hxx
        rw [hxx] at this
        simp at this
      rw [P2bal, balS, if_neg hxZ, fbal x]
      by_cases hxT : x = e.pto
      · rw [if_pos hxT, if_pos hxT, hxT]
      · rw [if_neg hxT, if_neg hxT]
        ring
    rw [sum_map_congr_mem _ _ _ hpt, sum_map_add_split]
    have hTl : e.pto ∈ List.filter (fun b => b != ZERO_ADDRESS) ((getOrCreateUser (getOrCreateUser (getOrCreateUser s e.pfrom).2 e.pto).2 ZERO_ADDRESS).2).accounts := by
      refine List.mem_filter.mpr ⟨(fAOK.1 e.pto).mp ?_, by simp [ht0]⟩
      rw [fpT]
    have hnd : (List.filter (fun b => b != ZERO_ADDRESS) ((getOrCreateUser (getOrCreateUser (getOrCreateUser s e.pfrom).2 e.pto).2 ZERO_ADDRESS).2).accounts).Nodup :=
      fAOK.2.filter _
    rw [sum_map_support_one _ (fun x => if x = e.pto then e.value else 0) e.pto hnd hTl
      (fun x hx hxT => by simp only [if_neg hxT])]
    rw [if_pos rfl]
    have : (List.map (storedBalance (getOrCreateUser (getOrCreateUser (getOrCreateUser s e.pfrom).2 e.pto).2 ZERO_ADDRESS).2) (List.filter (fun b => b != ZERO_ADDRESS) ((getOrCreateUser (getOrCreateUser (getOrCreateUser s e.pfrom).2 e.pto).2 ZERO_ADDRESS).2).accounts)).sum = sumBalances (getOrCreateUser (getOrCreateUser (getOrCreateUser s e.pfrom).2 e.pto).2 ZERO_ADDRESS).2 := rfl
    rw [this, fsum]
    rw [show sumBalances s = (List.map (storedBalance s) (List.filter (fun a => a != ZERO_ADDRESS) s.accounts)).sum from rfl]

theorem c2_step_burn (s : Store) (e : Event) (hWF : StoreIdWF s) (hA : AccountsOK s)
    (hf0 : e.pfrom ≠ ZERO_ADDRESS) :
    AccountsOK (burnResult s e) ∧
    storedBalance (burnResult s e) ZERO_ADDRESS = storedBalance s ZERO_ADDRESS - e.value ∧
    sumBalances (burnResult s e) = sumBalances s - e.value := by
  obtain ⟨f1id, f1bal, f2id, f2bal, f3id, f3bal, fbal, fAOK, fsum, fpF, fpT, fpZ, fwf⟩ :=
    tripleCreate_facts s e hWF hA
  have hres : burnResult s e = (obsPipeline { id := ((getOrCreateUser (getOrCreateUser (getOrCreateUser s e.pfrom).2 e.pto).2 ZERO_ADDRESS).1).id, balance := ((getOrCreateUser (getOrCreateUser (getOrCreateUser s e.pfrom).2 e.pto).2 ZERO_ADDRESS).1).balance - e.value, observationCount := ((getOrCreateUser (getOrCreateUser (getOrCreateUser s e.pfrom).2 e.pto).2 ZERO_ADDRESS).1).observationCount, lastHourTimestamp := ((getOrCreateUser (getOrCreateUser (getOrCreateUser s e.pfrom).2 e.pto).2 ZERO_ADDRESS).1).lastHourTimestamp } e.timestamp ((getOrCreateUser (getOrCreateUser (getOrCreateUser s e.pfrom).2 e.pto).2 ZERO_ADDRESS).1).balance (obsPipeline { id := ((getOrCreateUser s e.pfrom).1).id, balance := ((getOrCreateUser s e.pfrom).1).balance - e.value, observationCount := ((getOrCreateUser s e.pfrom).1).observationCount, lastHourTimestamp := ((getOrCreateUser s e.pfrom).1).lastHourTimestamp } e.timestamp ((getOrCreateUser s e.pfrom).1).balance (saveUser (saveUser (getOrCreateUser (getOrCreateUser (getOrCreateUser s e.pfrom).2 e.pto).2 ZERO_ADDRESS).2 { id := ((getOrCreateUser s e.pfrom).1).id, balance := ((getOrCreateUser s e.pfrom).1).balance - e.value, observationCount := ((getOrCreateUser s e.pfrom).1).observationCount, lastHourTimestamp := ((getOrCreateUser s e.pfrom).1).lastHourTimestamp }) { id := ((getOrCreateUser (getOrCreateUser (getOrCreateUser s e.pfrom).2 e.pto).2 ZERO_ADDRESS).1).id, balance := ((getOrCreateUser (getOrCreateUser (getOrCreateUser s e.pfrom).2 e.pto).2 ZERO_ADDRESS).1).balance - e.value, observationCount := ((getOrCreateUser (getOrCreateUser (getOrCreateUser s e.pfrom).2 e.pto).2 ZERO_ADDRESS).1).observationCount, lastHourTimestamp := ((getOrCreateUser (getOrCreateUser (getOrCreateUser s e.pfrom).2 e.pto).2 ZERO_ADDRESS).1).lastHourTimestamp }))) := rfl
  have balS : ∀ x, storedBalance (saveUser (saveUser (getOrCreateUser (getOrCreateUser (getOrCreateUser s e.pfrom).2 e.pto).2 ZERO_ADDRESS).2 { id := ((getOrCreateUser s e.pfrom).1).id, balance := ((getOrCreateUser s e.pfrom).1).balance - e.value, observationCount := ((getOrCreateUser s e.pfrom).1).observationCount, lastHourTimestamp := ((getOrCreateUser s e.pfrom).1).lastHourTimestamp }) { id := ((getOrCreateUser (getOrCreateUser (getOrCreateUser s e.pfrom).2 e.pto).2 ZERO_ADDRESS).1).id, balance := ((getOrCreateUser (getOrCreateUser (getOrCreateUser s e.pfrom).2 e.pto).2 ZERO_ADDRESS).1).balance - e.value, observationCount := ((getOrCreateUser (getOrCreateUser (getOrCreateUser s e.pfrom).2 e.pto).2 ZERO_ADDRESS).1).observationCount, lastHourTimestamp := ((getOrCreateUser (getOrCreateUser (getOrCreateUser s e.pfrom).2 e.pto).2 ZERO_ADDRESS).1).lastHourTimestamp }) x =
      if x = ZERO_ADDRESS then storedBalance s ZERO_ADDRESS - e.value
      else if x = e.pfrom then storedBalance s e.pfrom - e.value
      else storedBalance s x := by
    intro x
    rw [storedBalance_saveUser, storedBalance_saveUser]
    dsimp only
    rw [f1id, f3id, f1bal, f3bal, fbal x]
  have pA0 : (loadUser (getOrCreateUser (getOrCreateUser (getOrCreateUser s e.pfrom).2 e.pto).2 ZERO_ADDRESS).2 ({ id := ((getOrCreateUser s e.pfrom).1).id, balance := ((getOrCreateUser s e.pfrom).1).balance - e.value, observationCount := ((getOrCreateUser s e.pfrom).1).observationCount, lastHourTimestamp := ((getOrCreateUser s e.pfrom).1).lastHourTimestamp } : User).id).isSome = true := by
    dsimp only
    rw [f1id]
    exact fpF
  have s1iso : ∀ x, (loadUser (saveUser (getOrCreateUser (getOrCreateUser (getOrCreateUser s e.pfrom).2 e.pto).2 ZERO_ADDRESS).2 { id := ((getOrCreateUser s e.pfrom).1).id, balance := ((getOrCreateUser s e.pfrom).1).balance - e.value, observationCount := ((getOrCreateUser s e.pfrom).1).observationCount, lastHourTimestamp := ((getOrCreateUser s e.pfrom).1).lastHourTimestamp }) x).isSome = (loadUser (getOrCreateUser (getOrCreateUser (getOrCreateUser s e.pfrom).2 e.pto).2 ZERO_ADDRESS).2 x).isSome :=
    fun x => isSome_saveUser _ _ _ pA0
  have pB1 : (loadUser (saveUser (getOrCreateUser (getOrCreateUser (getOrCreateUser s e.pfrom).2 e.pto).2 ZERO_ADDRESS).2 { id := ((getOrCreateUser s e.pfrom).1).id, balance := ((getOrCreateUser s e.pfrom).1).balance - e.value, observationCount := ((getOrCreateUser s e.pfrom).1).observationCount, lastHourTimestamp := ((getOrCreateUser s e.pfrom).1).lastHourTimestamp }) ({ id := ((getOrCreateUser (getOrCreateUser (getOrCreateUser s e.pfrom).2 e.pto).2 ZERO_ADDRESS).1).id, balance := ((getOrCreateUser (getOrCreateUser (getOrCreateUser s e.pfrom).2 e.pto).2 ZERO_ADDRESS).1).balance - e.value, observationCount := ((getOrCreateUser (getOrCreateUser (getOrCreateUser s e.pfrom).2 e.pto).2 ZERO_ADDRESS).1).observationCount, lastHourTimestamp := ((getOrCreateUser (getOrCreateUser (getOrCreateUser s e.pfrom).2 e.pto).2 ZERO_ADDRESS).1).lastHourTimestamp } : User).id).isSome = true := by
    rw [s1iso]
    dsimp only
    rw [f3id]
    exact fpZ
  have s2iso : ∀ x, (loadUser (saveUser (saveUser (getOrCreateUser (getOrCreateUser (getOrCreateUser s e.pfrom).2 e.pto).2 ZERO_ADDRESS).2 { id := ((getOrCreateUser s e.pfrom).1).id, balance := ((getOrCreateUser s e.pfrom).1).balance - e.value, observationCount := ((getOrCreateUser s e.pfrom).1).observationCount, lastHourTimestamp := ((getOrCreateUser s e.pfrom).1).lastHourTimestamp }) { id := ((getOrCreateUser (getOrCreateUser (getOrCreateUser s e.pfrom).2 e.pto).2 ZERO_ADDRESS).1).id, balance := ((getOrCreateUser (getOrCreateUser (getOrCreateUser s e.pfrom).2 e.pto).2 ZERO_ADDRESS).1).balance - e.value, observationCount := ((getOrCreateUser (getOrCreateUser (getOrCreateUser s e.pfrom).2 e.pto).2 ZERO_ADDRESS).1).observationCount, lastHourTimestamp := ((getOrCreateUser (getOrCreateUser (getOrCreateUser s e.pfrom).2 e.pto).2 ZERO_ADDRESS).1).lastHourTimestamp }) x).isSome = (loadUser (saveUser (getOrCreateUser (getOrCreateUser (getOrCreateUser s e.pfrom).2 e.pto).2 ZERO_ADDRESS).2 { id := ((getOrCreateUser s e.pfrom).1).id, balance := ((getOrCreateUser s e.pfrom).1).balance - e.value, observationCount := ((getOrCreateUser s e.pfrom).1).observationCount, lastHourTimestamp := ((getOrCreateUser s e.pfrom).1).lastHourTimestamp }) x).isSome :=
    fun x => isSome_saveUser _ _ _ pB1
  have isoS : ∀ x, (loadUser (saveUser (saveUser (getOrCreateUser (getOrCreateUser (getOrCreateUser s e.pfrom).2 e.pto).2 ZERO_ADDRESS).2 { id := ((getOrCreateUser s e.pfrom).1).id, balance := ((getOrCreateUser s e.pfrom).1).balance - e.value, observationCount := ((getOrCreateUser s e.pfrom).1).observationCount, lastHourTimestamp := ((getOrCreateUser s e.pfrom).1).lastHourTimestamp }) { id := ((getOrCreateUser (getOrCreateUser (getOrCreateUser s e.pfrom).2 e.pto).2 ZERO_ADDRESS).1).id, balance := ((getOrCreateUser (getOrCreateUser (getOrCreateUser s e.pfrom).2 e.pto).2 ZERO_ADDRESS).1).balance - e.value, observationCount := ((getOrCreateUser (getOrCreateUser (getOrCreateUser s e.pfrom).2 e.pto).2 ZERO_ADDRESS).1).observationCount, lastHourTimestamp := ((getOrCreateUser (getOrCreateUser (getOrCreateUser s e.pfrom).2 e.pto).2 ZERO_ADDRESS).1).lastHourTimestamp }) x).isSome = (loadUser (getOrCreateUser (getOrCreateUser (getOrCreateUser s e.pfrom).2 e.pto).2 ZERO_ADDRESS).2 x).isSome :=
    fun x => (s2iso x).trans (s1iso x)
  have p1cond : storedBalance (saveUser (saveUser (getOrCreateUser (getOrCreateUser (getOrCreateUser s e.pfrom).2 e.pto).2 ZERO_ADDRESS).2 { id := ((getOrCreateUser s e.pfrom).1).id, balance := ((getOrCreateUser s e.pfrom).1).balance - e.value, observationCount := ((getOrCreateUser s e.pfrom).1).observationCount, lastHourTimestamp := ((getOrCreateUser s e.pfrom).1).lastHourTimestamp }) { id := ((getOrCreateUser (getOrCreateUser (getOrCreateUser s e.pfrom).2 e.pto).2 ZERO_ADDRESS).1).id, balance := ((getOrCreateUser (getOrCreateUser (getOrCreateUser s e.pfrom).2 e.pto).2 ZERO_ADDRESS).1).balance - e.value, observationCount := ((getOrCreateUser (getOrCreateUser (getOrCreateUser s e.pfrom).2 e.pto).2 ZERO_ADDRESS).1).observationCount, lastHourTimestamp := ((getOrCreateUser (getOrCreateUser (getOrCreateUser s e.pfrom).2 e.pto).2 ZERO_ADDRESS).1).lastHourTimestamp }) ({ id := ((getOrCreateUser s e.pfrom).1).id, balance := ((getOrCreateUser s e.pfrom).1).balance - e.value, observationCount := ((getOrCreateUser s e.pfrom).1).observationCount, lastHourTimestamp := ((getOrCreateUser s e.pfrom).1).lastHourTimestamp } : User).id = ({ id := ((getOrCreateUser s e.pfrom).1).id, balance := ((getOrCreateUser s e.pfrom).1).balance - e.value, observationCount := ((getOrCreateUser s e.pfrom).1).observationCount, lastHourTimestamp := ((getOrCreateUser s e.pfrom).1).lastHourTimestamp } : User).balance := by
    dsimp only
    rw [balS, f1id, if_neg hf0, if_pos rfl, f1bal]
  have p1pres : (loadUser (saveUser (saveUser (getOrCreateUser (getOrCreateUser (getOrCreateUser s e.pfrom).2 e.pto).2 ZERO_ADDRESS).2 { id := ((getOrCreateUser s e.pfrom).1).id, balance := ((getOrCreateUser s e.pfrom).1).balance - e.value, observationCount := ((getOrCreateUser s e.pfrom).1).observationCount, lastHourTimestamp := ((getOrCreateUser s e.pfrom).1).lastHourTimestamp }) { id := ((getOrCreateUser (getOrCreateUser (getOrCreateUser s e.pfrom).2 e.pto).2 ZERO_ADDRESS).1).id, balance := ((getOrCreateUser (getOrCreateUser (getOrCreateUser s e.pfrom).2 e.pto).2 ZERO_ADDRESS).1).balance - e.value, observationCount := ((getOrCreateUser (getOrCreateUser (getOrCreateUser s e.pfrom).2 e.pto).2 ZERO_ADDRESS).1).observationCount, lastHourTimestamp := ((getOrCreateUser (getOrCreateUser (getOrCreateUser s e.pfrom).2 e.pto).2 ZERO_ADDRESS).1).lastHourTimestamp }) ({ id := ((getOrCreateUser s e.pfrom).1).id, balance := ((getOrCreateUser s e.pfrom).1).balance - e.value, observationCount := ((getOrCreateUser s e.pfrom).1).observationCount, lastHourTimestamp := ((getOrCreateUser s e.pfrom).1).lastHourTimestamp } : User).id).isSome = true := by
    dsimp only
    rw [isoS, f1id]
    exact fpF
  have P1bal : ∀ x, storedBalance (obsPipeline { id := ((getOrCreateUser s e.pfrom).1).id, balance := ((getOrCreateUser s e.pfrom).1).balance - e.value, observationCount := ((getOrCreateUser s e.pfrom).1).observationCount, lastHourTimestamp := ((getOrCreateUser s e.pfrom).1).lastHourTimestamp } e.timestamp ((getOrCreateUser s e.pfrom).1).balance (saveUser (saveUser (getOrCreateUser (getOrCreateUser (getOrCreateUser s e.pfrom).2 e.pto).2 ZERO_ADDRESS).2 { id := ((getOrCreateUser s e.pfrom).1).id, balance := ((getOrCreateUser s e.pfrom).1).balance - e.value, observationCount := ((getOrCreateUser s e.pfrom).1).observationCount, lastHourTimestamp := ((getOrCreateUser s e.pfrom).1).lastHourTimestamp }) { id := ((getOrCreateUser (getOrCreateUser (getOrCreateUser s e.pfrom).2 e.pto).2 ZERO_ADDRESS).1).id, balance := ((getOrCreateUser (getOrCreateUser (getOrCreateUser s e.pfrom).2 e.pto).2 ZERO_ADDRESS).1).balance - e.value, observationCount := ((getOrCreateUser (getOrCreateUser (getOrCreateUser s e.pfrom).2 e.pto).2 ZERO_ADDRESS).1).observationCount, lastHourTimestamp := ((getOrCreateUser (getOrCreateUser (getOrCreateUser s e.pfrom).2 e.pto).2 ZERO_ADDRESS).1).lastHourTimestamp })) x = storedBalance (saveUser (saveUser (getOrCreateUser (getOrCreateUser (getOrCreateUser s e.pfrom).2 e.pto).2 ZERO_ADDRESS).2 { id := ((getOrCreateUser s e.pfrom).1).id, balance := ((getOrCreateUser s e.pfrom).1).balance - e.value, observationCount := ((getOrCreateUser s e.pfrom).1).observationCount, lastHourTimestamp := ((getOrCreateUser s e.pfrom).1).lastHourTimestamp }) { id := ((getOrCreateUser (getOrCreateUser (getOrCreateUser s e.pfrom).2 e.pto).2 ZERO_ADDRESS).1).id, balance := ((getOrCreateUser (getOrCreateUser (getOrCreateUser s e.pfrom).2 e.pto).2 ZERO_ADDRESS).1).balance - e.value, observationCount := ((getOrCreateUser (getOrCreateUser (getOrCreateUser s e.pfrom).2 e.pto).2 ZERO_ADDRESS).1).observationCount, lastHourTimestamp := ((getOrCreateUser (getOrCreateUser (getOrCreateUser s e.pfrom).2 e.pto).2 ZERO_ADDRESS).1).lastHourTimestamp }) x :=
    fun x => obsPipeline_storedBalance _ _ _ _ _ p1cond
  have P1iso : ∀ x, (loadUser (obsPipeline { id := ((getOrCreateUser s e.pfrom).1).id, balance := ((getOrCreateUser s e.pfrom).1).balance - e.value, observationCount := ((getOrCreateUser s e.pfrom).1).observationCount, lastHourTimestamp := ((getOrCreateUser s e.pfrom).1).lastHourTimestamp } e.timestamp ((getOrCreateUser s e.pfrom).1).balance (saveUser (saveUser (getOrCreateUser (getOrCreateUser (getOrCreateUser s e.pfrom).2 e.pto).2 ZERO_ADDRESS).2 { id := ((getOrCreateUser s e.pfrom).1).id, balance := ((getOrCreateUser s e.pfrom).1).balance - e.value, observationCount := ((getOrCreateUser s e.pfrom).1).observationCount, lastHourTimestamp := ((getOrCreateUser s e.pfrom).1).lastHourTimestamp }) { id := ((getOrCreateUser (getOrCreateUser (getOrCreateUser s e.pfrom).2 e.pto).2 ZERO_ADDRESS).1).id, balance := ((getOrCreateUser (getOrCreateUser (getOrCreateUser s e.pfrom).2 e.pto).2 ZERO_ADDRESS).1).balance - e.value, observationCount := ((getOrCreateUser (getOrCreateUser (getOrCreateUser s e.pfrom).2 e.pto).2 ZERO_ADDRESS).1).observationCount, lastHourTimestamp := ((getOrCreateUser (getOrCreateUser (getOrCreateUser s e.pfrom).2 e.pto).2 ZERO_ADDRESS).1).lastHourTimestamp })) x).isSome = (loadUser (saveUser (saveUser (getOrCreateUser (getOrCreateUser (getOrCreateUser s e.pfrom).2 e.pto).2 ZERO_ADDRESS).2 { id := ((getOrCreateUser s e.pfrom).1).id, balance := ((getOrCreateUser s e.pfrom).1).balance - e.value, observationCount := ((getOrCreateUser s e.pfrom).1).observationCount, lastHourTimestamp := ((getOrCreateUser s e.pfrom).1).lastHourTimestamp }) { id := ((getOrCreateUser (getOrCreateUser (getOrCreateUser s e.pfrom).2 e.pto).2 ZERO_ADDRESS).1).id, balance := ((getOrCreateUser (getOrCreateUser (getOrCreateUser s e.pfrom).2 e.pto).2 ZERO_ADDRESS).1).balance - e.value, observationCount := ((getOrCreateUser (getOrCreateUser (getOrCreateUser s e.pfrom).2 e.pto).2 ZERO_ADDRESS).1).observationCount, lastHourTimestamp := ((getOrCreateUser (getOrCreateUser (getOrCreateUser s e.pfrom).2 e.pto).2 ZERO_ADDRESS).1).lastHourTimestamp }) x).isSome :=
    fun x => obsPipeline_isSome _ _ _ _ _ p1pres
  have p2cond : storedBalance (obsPipeline { id := ((getOrCreateUser s e.pfrom).1).id, balance := ((getOrCreateUser s e.pfrom).1).balance - e.value, observationCount := ((getOrCreateUser s e.pfrom).1).observationCount, lastHourTimestamp := ((getOrCreateUser s e.pfrom).1).lastHourTimestamp } e.timestamp ((getOrCreateUser s e.pfrom).1).balance (saveUser (saveUser (getOrCreateUser (getOrCreateUser (getOrCreateUser s e.pfrom).2 e.pto).2 ZERO_ADDRESS).2 { id := ((getOrCreateUser s e.pfrom).1).id, balance := ((getOrCreateUser s e.pfrom).1).balance - e.value, observationCount := ((getOrCreateUser s e.pfrom).1).observationCount, lastHourTimestamp := ((getOrCreateUser s e.pfrom).1).lastHourTimestamp }) { id := ((getOrCreateUser (getOrCreateUser (getOrCreateUser s e.pfrom).2 e.pto).2 ZERO_ADDRESS).1).id, balance := ((getOrCreateUser (getOrCreateUser (getOrCreateUser s e.pfrom).2 e.pto).2 ZERO_ADDRESS).1).balance - e.value, observationCount := ((getOrCreateUser (getOrCreateUser (getOrCreateUser s e.pfrom).2 e.pto).2 ZERO_ADDRESS).1).observationCount, lastHourTimestamp := ((getOrCreateUser (getOrCreateUser (getOrCreateUser s e.pfrom).2 e.pto).2 ZERO_ADDRESS).1).lastHourTimestamp })) ({ id := ((getOrCreateUser (getOrCreateUser (getOrCreateUser s e.pfrom).2 e.pto).2 ZERO_ADDRESS).1).id, balance := ((getOrCreateUser (getOrCreateUser (getOrCreateUser s e.pfrom).2 e.pto).2 ZERO_ADDRESS).1).balance - e.value, observationCount := ((getOrCreateUser (getOrCreateUser (getOrCreateUser s e.pfrom).2 e.pto).2 ZERO_ADDRESS).1).observationCount, lastHourTimestamp := ((getOrCreateUser (getOrCreateUser (getOrCreateUser s e.pfrom).2 e.pto).2 ZERO_ADDRESS).1).lastHourTimestamp } : User).id = ({ id := ((getOrCreateUser (getOrCreateUser (getOrCreateUser s e.pfrom).2 e.pto).2 ZERO_ADDRESS).1).id, balance := ((getOrCreateUser (getOrCreateUser (getOrCreateUser s e.pfrom).2 e.pto).2 ZERO_ADDRESS).1).balance - e.value, observationCount := ((getOrCreateUser (getOrCreateUser (getOrCreateUser s e.pfrom).2 e.pto).2 ZERO_ADDRESS).1).observationCount, lastHourTimestamp := ((getOrCreateUser (getOrCreateUser (getOrCreateUser s e.pfrom).2 e.pto).2 ZERO_ADDRESS).1).lastHourTimestamp } : User).balance := by
    dsimp only
    rw [P1bal, balS, f3id, if_pos rfl, f3bal]
  have p2pres : (loadUser (obsPipeline { id := ((getOrCreateUser s e.pfrom).1).id, balance := ((getOrCreateUser s e.pfrom).1).balance - e.value, observationCount := ((getOrCreateUser s e.pfrom).1).observationCount, lastHourTimestamp := ((getOrCreateUser s e.pfrom).1).lastHourTimestamp } e.timestamp ((getOrCreateUser s e.pfrom).1).balance (saveUser (saveUser (getOrCreateUser (getOrCreateUser (getOrCreateUser s e.pfrom).2 e.pto).2 ZERO_ADDRESS).2 { id := ((getOrCreateUser s e.pfrom).1).id, balance := ((getOrCreateUser s e.pfrom).1).balance - e.value, observationCount := ((getOrCreateUser s e.pfrom).1).observationCount, lastHourTimestamp := ((getOrCreateUser s e.pfrom).1).lastHourTimestamp }) { id := ((getOrCreateUser (getOrCreateUser (getOrCreateUser s e.pfrom).2 e.pto).2 ZERO_ADDRESS).1).id, balance := ((getOrCreateUser (getOrCreateUser (getOrCreateUser s e.pfrom).2 e.pto).2 ZERO_ADDRESS).1).balance - e.value, observationCount := ((getOrCreateUser (getOrCreateUser (getOrCreateUser s e.pfrom).2 e.pto).2 ZERO_ADDRESS).1).observationCount, lastHourTimestamp := ((getOrCreateUser (getOrCreateUser (getOrCreateUser s e.pfrom).2 e.pto).2 ZERO_ADDRESS).1).lastHourTimestamp })) ({ id := ((getOrCreateUser (getOrCreateUser (getOrCreateUser s e.pfrom).2 e.pto).2 ZERO_ADDRESS).1).id, balance := ((getOrCreateUser (getOrCreateUser (getOrCreateUser s e.pfrom).2 e.pto).2 ZERO_ADDRESS).1).balance - e.value, observationCount := ((getOrCreateUser (getOrCreateUser (getOrCreateUser s e.pfrom).2 e.pto).2 ZERO_ADDRESS).1).observationCount, lastHourTimestamp := ((getOrCreateUser (getOrCreateUser (getOrCreateUser s e.pfrom).2 e.pto).2 ZERO_ADDRESS).1).lastHourTimestamp } : User).id).isSome = true := by
    dsimp only
    rw [P1iso, isoS, f3id]
    exact fpZ
  have P2bal : ∀ x, storedBalance (obsPipeline { id := ((getOrCreateUser (getOrCreateUser (getOrCreateUser s e.pfrom).2 e.pto).2 ZERO_ADDRESS).1).id, balance := ((getOrCreateUser (getOrCreateUser (getOrCreateUser s e.pfrom).2 e.pto).2 ZERO_ADDRESS).1).balance - e.value, observationCount := ((getOrCreateUser (getOrCreateUser (getOrCreateUser s e.pfrom).2 e.pto).2 ZERO_ADDRESS).1).observationCount, lastHourTimestamp := ((getOrCreateUser (getOrCreateUser (getOrCreateUser s e.pfrom).2 e.pto).2 ZERO_ADDRESS).1).lastHourTimestamp } e.timestamp ((getOrCreateUser (getOrCreateUser (getOrCreateUser s e.pfrom).2 e.pto).2 ZERO_ADDRESS).1).balance (obsPipeline { id := ((getOrCreateUser s e.pfrom).1).id, balance := ((getOrCreateUser s e.pfrom).1).balance - e.value, observationCount := ((getOrCreateUser s e.pfrom).1).observationCount, lastHourTimestamp := ((getOrCreateUser s e.pfrom).1).lastHourTimestamp } e.timestamp ((getOrCreateUser s e.pfrom).1).balance (saveUser (saveUser (getOrCreateUser (getOrCreateUser (getOrCreateUser s e.pfrom).2 e.pto).2 ZERO_ADDRESS).2 { id := ((getOrCreateUser s e.pfrom).1).id, balance := ((getOrCreateUser s e.pfrom).1).balance - e.value, observationCount := ((getOrCreateUser s e.pfrom).1).observationCount, lastHourTimestamp := ((getOrCreateUser s e.pfrom).1).lastHourTimestamp }) { id := ((getOrCreateUser (getOrCreateUser (getOrCreateUser s e.pfrom).2 e.pto).2 ZERO_ADDRESS).1).id, balance := ((getOrCreateUser (getOrCreateUser (getOrCreateUser s e.pfrom).2 e.pto).2 ZERO_ADDRESS).1).balance - e.value, observationCount := ((getOrCreateUser (getOrCreateUser (getOrCreateUser s e.pfrom).2 e.pto).2 ZERO_ADDRESS).1).observationCount, lastHourTimestamp := ((getOrCreateUser (getOrCreateUser (getOrCreateUser s e.pfrom).2 e.pto).2 ZERO_ADDRESS).1).lastHourTimestamp }))) x = storedBalance (saveUser (saveUser (getOrCreateUser (getOrCreateUser (getOrCreateUser s e.pfrom).2 e.pto).2 ZERO_ADDRESS).2 { id := ((getOrCreateUser s e.pfrom).1).id, balance := ((getOrCreateUser s e.pfrom).1).balance - e.value, observationCount := ((getOrCreateUser s e.pfrom).1).observationCount, lastHourTimestamp := ((getOrCreateUser s e.pfrom).1).lastHourTimestamp }) { id := ((getOrCreateUser (getOrCreateUser (getOrCreateUser s e.pfrom).2 e.pto).2 ZERO_ADDRESS).1).id, balance := ((getOrCreateUser (getOrCreateUser (getOrCreateUser s e.pfrom).2 e.pto).2 ZERO_ADDRESS).1).balance - e.value, observationCount := ((getOrCreateUser (getOrCreateUser (getOrCreateUser s e.pfrom).2 e.pto).2 ZERO_ADDRESS).1).observationCount, lastHourTimestamp := ((getOrCreateUser (getOrCreateUser (getOrCreateUser s e.pfrom).2 e.pto).2 ZERO_ADDRESS).1).lastHourTimestamp }) x :=
    fun x => (obsPipeline_storedBalance _ _ _ _ _ p2cond).trans (P1bal x)
  have P2iso : ∀ x, (loadUser (obsPipeline { id := ((getOrCreateUser (getOrCreateUser (getOrCreateUser s e.pfrom).2 e.pto).2 ZERO_ADDRESS).1).id, balance := ((getOrCreateUser (getOrCreateUser (getOrCreateUser s e.pfrom).2 e.pto).2 ZERO_ADDRESS).1).balance - e.value, observationCount := ((getOrCreateUser (getOrCreateUser (getOrCreateUser s e.pfrom).2 e.pto).2 ZERO_ADDRESS).1).observationCount, lastHourTimestamp := ((getOrCreateUser (getOrCreateUser (getOrCreateUser s e.pfrom).2 e.pto).2 ZERO_ADDRESS).1).lastHourTimestamp } e.timestamp ((getOrCreateUser (getOrCreateUser (getOrCreateUser s e.pfrom).2 e.pto).2 ZERO_ADDRESS).1).balance (obsPipeline { id := ((getOrCreateUser s e.pfrom).1).id, balance := ((getOrCreateUser s e.pfrom).1).balance - e.value, observationCount := ((getOrCreateUser s e.pfrom).1).observationCount, lastHourTimestamp := ((getOrCreateUser s e.pfrom).1).lastHourTimestamp } e.timestamp ((getOrCreateUser s e.pfrom).1).balance (saveUser (saveUser (getOrCreateUser (getOrCreateUser (getOrCreateUser s e.pfrom).2 e.pto).2 ZERO_ADDRESS).2 { id := ((getOrCreateUser s e.pfrom).1).id, balance := ((getOrCreateUser s e.pfrom).1).balance - e.value, observationCount := ((getOrCreateUser s e.pfrom).1).observationCount, lastHourTimestamp := ((getOrCreateUser s e.pfrom).1).lastHourTimestamp }) { id := ((getOrCreateUser (getOrCreateUser (getOrCreateUser s e.pfrom).2 e.pto).2 ZERO_ADDRESS).1).id, balance := ((getOrCreateUser (getOrCreateUser (getOrCreateUser s e.pfrom).2 e.pto).2 ZERO_ADDRESS).1).balance - e.value, observationCount := ((getOrCreateUser (getOrCreateUser (getOrCreateUser s e.pfrom).2 e.pto).2 ZERO_ADDRESS).1).observationCount, lastHourTimestamp := ((getOrCreateUser (getOrCreateUser (getOrCreateUser s e.pfrom).2 e.pto).2 ZERO_ADDRESS).1).lastHourTimestamp }))) x).isSome = (loadUser (saveUser (saveUser (getOrCreateUser (getOrCreateUser (getOrCreateUser s e.pfrom).2 e.pto).2 ZERO_ADDRESS).2 { id := ((getOrCreateUser s e.pfrom).1).id, balance := ((getOrCreateUser s e.pfrom).1).balance - e.value, observationCount := ((getOrCreateUser s e.pfrom).1).observationCount, lastHourTimestamp := ((getOrCreateUser s e.pfrom).1).lastHourTimestamp }) { id := ((getOrCreateUser (getOrCreateUser (getOrCreateUser s e.pfrom).2 e.pto).2 ZERO_ADDRESS).1).id, balance := ((getOrCreateUser (getOrCreateUser (getOrCreateUser s e.pfrom).2 e.pto).2 ZERO_ADDRESS).1).balance - e.value, observationCount := ((getOrCreateUser (getOrCreateUser (getOrCreateUser s e.pfrom).2 e.pto).2 ZERO_ADDRESS).1).observationCount, lastHourTimestamp := ((getOrCreateUser (getOrCreateUser (getOrCreateUser s e.pfrom).2 e.pto).2 ZERO_ADDRESS).1).lastHourTimestamp }) x).isSome :=
    fun x => (obsPipeline_isSome _ _ _ _ _ p2pres).trans (P1iso x)
  have Racc : ((obsPipeline { id := ((getOrCreateUser (getOrCreateUser (getOrCreateUser s e.pfrom).2 e.pto).2 ZERO_ADDRESS).1).id, balance := ((getOrCreateUser (getOrCreateUser (getOrCreateUser s e.pfrom).2 e.pto).2 ZERO_ADDRESS).1).balance - e.value, observationCount := ((getOrCreateUser (getOrCreateUser (getOrCreateUser s e.pfrom).2 e.pto).2 ZERO_ADDRESS).1).observationCount, lastHourTimestamp := ((getOrCreateUser (getOrCreateUser (getOrCreateUser s e.pfrom).2 e.pto).2 ZERO_ADDRESS).1).lastHourTimestamp } e.timestamp ((getOrCreateUser (getOrCreateUser (getOrCreateUser s e.pfrom).2 e.pto).2 ZERO_ADDRESS).1).balance (obsPipeline { id := ((getOrCreateUser s e.pfrom).1).id, balance := ((getOrCreateUser s e.pfrom).1).balance - e.value, observationCount := ((getOrCreateUser s e.pfrom).1).observationCount, lastHourTimestamp := ((getOrCreateUser s e.pfrom).1).lastHourTimestamp } e.timestamp ((getOrCreateUser s e.pfrom).1).balance (saveUser (saveUser (getOrCreateUser (getOrCreateUser (getOrCreateUser s e.pfrom).2 e.pto).2 ZERO_ADDRESS).2 { id := ((getOrCreateUser s e.pfrom).1).id, balance := ((getOrCreateUser s e.pfrom).1).balance - e.value, observationCount := ((getOrCreateUser s e.pfrom).1).observationCount, lastHourTimestamp := ((getOrCreateUser s e.pfrom).1).lastHourTimestamp }) { id := ((getOrCreateUser (getOrCreateUser (getOrCreateUser s e.pfrom).2 e.pto).2 ZERO_ADDRESS).1).id, balance := ((getOrCreateUser (getOrCreateUser (getOrCreateUser s e.pfrom).2 e.pto).2 ZERO_ADDRESS).1).balance - e.value, observationCount := ((getOrCreateUser (getOrCreateUser (getOrCreateUser s e.pfrom).2 e.pto).2 ZERO_ADDRESS).1).observationCount, lastHourTimestamp := ((getOrCreateUser (getOrCreateUser (getOrCreateUser s e.pfrom).2 e.pto).2 ZERO_ADDRESS).1).lastHourTimestamp })))).accounts = ((getOrCreateUser (getOrCreateUser (getOrCreateUser s e.pfrom).2 e.pto).2 ZERO_ADDRESS).2).accounts := by
    rw [obsPipeline_accounts, obsPipeline_accounts]
    rfl
  refine ⟨?_, ?_, ?_⟩
  · rw [hres]
    refine accountsOK_of_same _ _ fAOK Racc ?_
    intro x
    rw [P2iso, isoS]
  · rw [hres]
    rw [P2bal, balS, if_pos rfl]
  · rw [hres]
    unfold sumBalances
    rw [Racc]
    have hpt : ∀ x ∈ List.filter (fun b => b != ZERO_ADDRESS) ((getOrCreateUser (getOrCreateUser (getOrCreateUser s e.pfrom).2 e.pto).2 ZERO_ADDRESS).2).accounts,
        storedBalance (obsPipeline { id := ((getOrCreateUser (getOrCreateUser (getOrCreateUser s e.pfrom).2 e.pto).2 ZERO_ADDRESS).1).id, balance := ((getOrCreateUser (getOrCreateUser (getOrCreateUser s e.pfrom).2 e.pto).2 ZERO_ADDRESS).1).balance - e.value, observationCount := ((getOrCreateUser (getOrCreateUser (getOrCreateUser s e.pfrom).2 e.pto).2 ZERO_ADDRESS).1).observationCount, lastHourTimestamp := ((getOrCreateUser (getOrCreateUser (getOrCreateUser s e.pfrom).2 e.pto).2 ZERO_ADDRESS).1).lastHourTimestamp } e.timestamp ((getOrCreateUser (getOrCreateUser (getOrCreateUser s e.pfrom).2 e.pto).2 ZERO_ADDRESS).1).balance (obsPipeline { id := ((getOrCreateUser s e.pfrom).1).id, balance := ((getOrCreateUser s e.pfrom).1).balance - e.value, observationCount := ((getOrCreateUser s e.pfrom).1).observationCount, lastHourTimestamp := ((getOrCreateUser s e.pfrom).1).lastHourTimestamp } e.timestamp ((getOrCreateUser s e.pfrom).1).balance (saveUser (saveUser (getOrCreateUser (getOrCreateUser (getOrCreateUser s e.pfrom).2 e.pto).2 ZERO_ADDRESS).2 { id := ((getOrCreateUser s e.pfrom).1).id, balance := ((getOrCreateUser s e.pfrom).1).balance - e.value, observationCount := ((getOrCreateUser s e.pfrom).1).observationCount, lastHourTimestamp := ((getOrCreateUser s e.pfrom).1).lastHourTimestamp }) { id := ((getOrCreateUser (getOrCreateUser (getOrCreateUser s e.pfrom).2 e.pto).2 ZERO_ADDRESS).1).id, balance := ((getOrCreateUser (getOrCreateUser (getOrCreateUser s e.pfrom).2 e.pto).2 ZERO_ADDRESS).1).balance - e.value, observationCount := ((getOrCreateUser (getOrCreateUser (getOrCreateUser s e.pfrom).2 e.pto).2 ZERO_ADDRESS).1).observationCount, lastHourTimestamp := ((getOrCreateUser (getOrCreateUser (getOrCreateUser s e.pfrom).2 e.pto).2 ZERO_ADDRESS).1).lastHourTimestamp }))) x = storedBalance (getOrCreateUser (getOrCreateUser (getOrCreateUser s e.pfrom).2 e.pto).2 ZERO_ADDRESS).2 x +
          (if x = e.pfrom then (-e.value) else 0) := by
      intro x hx
      have hxZ : x ≠ ZERO_ADDRESS := by
        have := (List.mem_filter.mp hx).2
        intro hxx
        rw [hxx] at this
        simp at this
      rw [P2bal, balS, if_neg hxZ, fbal x]
      by_cases hxT : x = e.pfrom
      · rw [if_pos hxT, if_pos hxT, hxT]
        ring
      · rw [if_neg hxT, if_neg hxT]
        ring
    rw [sum_map_congr_mem _ _ _ hpt, sum_map_add_split]
    have hTl : e.pfrom ∈ List.filter (fun b => b != ZERO_ADDRESS) ((getOrCreateUser (getOrCreateUser (getOrCreateUser s e.pfrom).2 e.pto).2 ZERO_ADDRESS).2).accounts := by
      refine List.mem_filter.mpr ⟨(fAOK.1 e.pfrom).mp ?_, by simp [hf0]⟩
      rw [fpF]
    have hnd : (List.filter (fun b => b != ZERO_ADDRESS) ((getOrCreateUser (getOrCreateUser (getOrCreateUser s e.pfrom).2 e.pto).2 ZERO_ADDRESS).2).accounts).Nodup :=
      fAOK.2.filter _
    rw [sum_map_support_one _ (fun x => if x = e.pfrom then (-e.value) else 0) e.pfrom hnd hTl
      (fun x hx hxT => by simp only [if_neg hxT])]
    rw [if_pos rfl]
    have : (List.map (storedBalance (getOrCreateUser (getOrCreateUser (getOrCreateUser s e.pfrom).2 e.pto).2 ZERO_ADDRESS).2) (List.filter (fun b => b != ZERO_ADDRESS) ((getOrCreateUser (getOrCreateUser (getOrCreateUser s e.pfrom).2 e.pto).2 ZERO_ADDRESS).2).accounts)).sum = sumBalances (getOrCreateUser (getOrCreateUser (getOrCreateUser s e.pfrom).2 e.pto).2 ZERO_ADDRESS).2 := rfl
    rw [this, fsum]
    rw [show sumBalances s = (List.map (storedBalance s) (List.filter (fun a => a != ZERO_ADDRESS) s.accounts)).sum from rfl]
    ring


theorem accountsOK_empty : AccountsOK emptyStore := by
  refine ⟨fun a => ?_, List.nodup_nil⟩
  simp [emptyStore, loadUser]

theorem c2_invariant_step (s s' : Store) (e : Event) (hWF : StoreIdWF s) (hA : AccountsOK s)
    (hZ : storedBalance s ZERO_ADDRESS = sumBalances s)
    (hne : e.pfrom ≠ e.pto) (h : handleTransfer s e = .ok s') :
    StoreIdWF s' ∧ AccountsOK s' ∧ storedBalance s' ZERO_ADDRESS = sumBalances s' := by
  refine ⟨storeIdWF_handleTransfer s e s' hWF h, ?_⟩
  by_cases hv : 0 < e.value
  · obtain ⟨f1id, f1bal, f2id, f2bal, f3id, f3bal, fbal, fAOK, fsum, fpF, fpT, fpZ, fwf⟩ :=
      tripleCreate_facts s e hWF hA
    by_cases hf : e.pfrom = ZERO_ADDRESS
    · by_cases hb : e.pto = ZERO_ADDRESS
      · exact absurd (hf.trans hb.symm) hne
      · have hfb : ((getOrCreateUser s e.pfrom).1.id == ZERO_ADDRESS) = true := by
          rw [f1id]
          exact beq_iff_eq.mpr hf
        have hbb : ((getOrCreateUser (getOrCreateUser s e.pfrom).2 e.pto).1.id ==
            ZERO_ADDRESS) = false := by
          rw [f2id]
          exact beq_eq_false_iff_ne.mpr hb
        rw [handleTransfer_mint s e hv hfb hbb] at h
        injection h with h
        subst h
        obtain ⟨mA, mZ, mS⟩ := c2_step_mint s e hWF hA hb
        refine ⟨mA, ?_⟩
        rw [mZ, mS, hZ]
    · by_cases hb : e.pto = ZERO_ADDRESS
      · have hfb : ((getOrCreateUser s e.pfrom).1.id == ZERO_ADDRESS) = false := by
          rw [f1id]
          exact beq_eq_false_iff_ne.mpr hf
        have hbb : ((getOrCreateUser (getOrCreateUser s e.pfrom).2 e.pto).1.id ==
            ZERO_ADDRESS) = true := by
          rw [f2id]
          exact beq_iff_eq.mpr hb
        rw [handleTransfer_burn s e hv hfb hbb] at h
        injection h with h
        subst h
        obtain ⟨mA, mZ, mS⟩ := c2_step_burn s e hWF hA hf
        refine ⟨mA, ?_⟩
        rw [mZ, mS, hZ]
      · have hfb : ((getOrCreateUser s e.pfrom).1.id == ZERO_ADDRESS) = false := by
          rw [f1id]
          exact beq_eq_false_iff_ne.mpr hf
        have hbb : ((getOrCreateUser (getOrCreateUser s e.pfrom).2 e.pto).1.id ==
            ZERO_ADDRESS) = false := by
          rw [f2id]
          exact beq_eq_false_iff_ne.mpr hb
        rw [handleTransfer_regular s e hv hfb hbb] at h
        injection h with h
        subst h
        obtain ⟨mA, mZ, mS⟩ := c2_step_regular s e hWF hA hne hf hb
        refine ⟨mA, ?_⟩
        rw [mZ, mS, hZ]
  · rw [handleTransfer_zero s e hv] at h
    injection h with h
    subst h
    exact ⟨hA, hZ⟩

theorem c2_invariant_run :
    ∀ (es : List Event) (s s' : Store), StoreIdWF s → AccountsOK s →
      storedBalance s ZERO_ADDRESS = sumBalances s → noSelfB es = true →
      applyHistoryFrom s es = .ok s' →
      StoreIdWF s' ∧ AccountsOK s' ∧ storedBalance s' ZERO_ADDRESS = sumBalances s' := by
  intro es
  induction es with
  | nil =>
    intro s s' h1 h2 h3 _ he
    injection he with he
    subst he
    exact ⟨h1, h2, h3⟩
  | cons e rest ih =>
    intro s s' h1 h2 h3 hns he
    unfold noSelfB at hns
    rw [List.all_cons, Bool.and_eq_true] at hns
    have hnse : e.pfrom ≠ e.pto := by
      have := hns.1
      simpa using this
    unfold applyHistoryFrom at he
    cases hstep : handleTransfer s e with
    | ok s1 =>
      rw [hstep] at he
      obtain ⟨w1, w2, w3⟩ := c2_invariant_step s s1 e h1 h2 h3 hnse hstep
      exact ih s1 s' w1 w2 w3 hns.2 he
    | error err =>
      rw [hstep] at he
      exact Except.noConfusion he


/-- C2: after every prefix of a chronologically ordered transfer history that
handleTransfer processes without error, the sentinel (zero-address) account's
stored balance equals the sum of the stored balances of all non-sentinel
accounts.  Amended: the history must contain no self-transfers (from == to
breaks the invariant because the two independently loaded copies of the same
user record clobber each other on save). -/
theorem claim_C2_sentinel_sum (es p rest : List Event) (hpre : es = p ++ rest)
    (hchrono : chronoFromB 0 es = true) (hns : noSelfB es = true) (s : Store)
    (h : applyHistory p = .ok s) :
    storedBalance s ZERO_ADDRESS = sumBalances s := by
  have hnsp : noSelfB p = true := by
    unfold noSelfB at hns ⊢
    rw [hpre, List.all_append, Bool.and_eq_true] at hns
    exact hns.1
  exact (c2_invariant_run p emptyStore s storeIdWF_empty accountsOK_empty rfl hnsp h).2.2

theorem claim_C2_sentinel_sum_witness :
    storedBalance wStore ZERO_ADDRESS = sumBalances wStore :=
  claim_C2_sentinel_sum wHist wHist [] (List.append_nil wHist).symm (by decide)
    (by decide) wStore (by rfl)


theorem except_bind_error {α β : Type} (e : QueryError) (f : α → Except QueryError β) :
    (Except.error e >>= f) = Except.error e := rfl

theorem except_bind_ok {α β : Type} (v : α) (f : α → Except QueryError β) :
    (Except.ok v >>= f) = f v := rfl

theorem hodlWalk_error_cases (s : Store) (a : Addr) (T : Int) (fuel : Nat) :
    ∀ cur err, hodlWalk s a T fuel cur = .error err →
      err = .invariantViolation ∨ err = .outOfFuel := by
  induction fuel with
  | zero =>
    intro cur err h
    rw [hodlWalk] at h
    injection h with h
    exact Or.inr h.symm
  | succ n ih =>
    intro cur err h
    rw [hodlWalk] at h
    by_cases hc : 0 < cur
    · rw [if_pos hc] at h
      cases hobs : loadObs s a cur with
      | none =>
        rw [hobs] at h
        dsimp only at h
        injection h with h
        exact Or.inl h.symm
      | some o =>
        rw [hobs] at h
        dsimp only at h
        by_cases ht : o.lastTimestamp ≤ T
        · rw [if_pos ht] at h
          exact Except.noConfusion h
        · rw [if_neg ht] at h
          exact ih _ _ h
    · rw [if_neg hc] at h
      exact Except.noConfusion h

theorem metric_error_cases (s : Store) (a : Addr) (T : Int) (err : QueryError)
    (h : getOrComputeCumulativeHODL s a T = .error err) :
    err = .alignment ∨ err = .invariantViolation ∨ err = .outOfFuel := by
  unfold getOrComputeCumulativeHODL at h
  by_cases ha : T = getHourTimestamp T
  · rw [if_pos ha] at h
    cases hu : loadUser s a with
    | none =>
      rw [hu] at h
      dsimp only at h
      exact Except.noConfusion h
    | some u =>
      rw [hu] at h
      dsimp only at h
      cases ho : loadObs s a T with
      | some obs =>
        rw [ho] at h
        dsimp only at h
        cases hp : loadObs s a obs.previousHourTimestamp with
        | some p =>
          rw [hp] at h
          dsimp only at h
          exact Except.noConfusion h
        | none =>
          rw [hp] at h
          dsimp only at h
          exact Except.noConfusion h
      | none =>
        rw [ho] at h
        dsimp only at h
        rcases hodlWalk_error_cases s a T _ _ _ h with h1 | h1
        · exact Or.inr (Or.inl h1)
        · exact Or.inr (Or.inr h1)
  · rw [if_neg ha] at h
    injection h with h
    exact Or.inl h.symm

theorem metric_ne_range (s : Store) (a : Addr) (T : Int) :
    getOrComputeCumulativeHODL s a T ≠ .error .range := by
  intro h
  rcases metric_error_cases s a T _ h with h1 | h1 | h1 <;> exact QueryError.noConfusion h1


theorem metric_ne_div (s : Store) (a : Addr) (T : Int) :
    getOrComputeCumulativeHODL s a T ≠ .error .divisionByZero := by
  intro h
  rcases metric_error_cases s a T _ h with h1 | h1 | h1 <;> exact QueryError.noConfusion h1

/-- C7: computeHODLerRatio fails with the range error exactly when
endTimestamp ≤ startTimestamp; when the endpoints are properly ordered and
the four metric queries succeed, it fails with division-by-zero exactly
when the sentinel's metric delta over the period is zero, and otherwise
returns the user's metric delta divided by the sentinel's metric delta. -/
theorem claim_C7_ratio_contract (s : Store) (a : Addr) (t1 t2 : Int) :
    (computeHODLerRatioValue s a t1 t2 = .error .range ↔ t2 ≤ t1) ∧
    (∀ uS uE tS tE : Int,
      getOrComputeCumulativeHODL s a t1 = .ok uS →
      getOrComputeCumulativeHODL s a t2 = .ok uE →
      getOrComputeCumulativeHODL s ZERO_ADDRESS t1 = .ok tS →
      getOrComputeCumulativeHODL s ZERO_ADDRESS t2 = .ok tE →
      ¬ t2 ≤ t1 →
      ((computeHODLerRatioValue s a t1 t2 = .error .divisionByZero ↔ tE - tS = 0) ∧
       (tE - tS ≠ 0 →
         computeHODLerRatioValue s a t1 t2 =
           .ok (((uE - uS : Int) : Rat) / ((tE - tS : Int) : Rat))))) := by
  constructor
  · constructor
    · intro h
      by_cases h12 : t2 ≤ t1
      · exact h12
      · exfalso
        unfold computeHODLerRatioValue at h
        rw [if_neg h12] at h
        cases m1 : getOrComputeCumulativeHODL s a t1 with
        | error e1 =>
          rw [m1, except_bind_error] at h
          injection h with h
          exact metric_ne_range s a t1 (h ▸ m1)
        | ok uS =>
          rw [m1] at h
          simp only [except_bind_ok] at h
          cases m2 : getOrComputeCumulativeHODL s a t2 with
          | error e2 =>
            rw [m2, except_bind_error] at h
            injection h with h
            exact metric_ne_range s a t2 (h ▸ m2)
          | ok uE =>
            rw [m2] at h
            simp only [except_bind_ok] at h
            cases m3 : getOrComputeCumulativeHODL s ZERO_ADDRESS t1 with
            | error e3 =>
              rw [m3, except_bind_error] at h
              injection h with h
              exact metric_ne_range s ZERO_ADDRESS t1 (h ▸ m3)
            | ok tS =>
              rw [m3] at h
              simp only [except_bind_ok] at h
              cases m4 : getOrComputeCumulativeHODL s ZERO_ADDRESS t2 with
              | error e4 =>
                rw [m4, except_bind_error] at h
                injection h with h
                exact metric_ne_range s ZERO_ADDRESS t2 (h ▸ m4)
              | ok tE =>
                rw [m4] at h
                simp only [except_bind_ok] at h
                by_cases hz : tE - tS = 0
                · rw [if_pos hz] at h
                  injection h with h
                  exact QueryError.noConfusion h
                · rw [if_neg hz] at h
                  exact Except.noConfusion h
    · intro h12
      unfold computeHODLerRatioValue
      rw [if_pos h12]
  · intro uS uE tS tE m1 m2 m3 m4 h12
    have hre : computeHODLerRatioValue s a t1 t2 =
        if tE - tS = 0 then .error .divisionByZero
        else .ok (((uE - uS : Int) : Rat) / ((tE - tS : Int) : Rat)) := by
      unfold computeHODLerRatioValue
      rw [if_neg h12, m1]
      simp only [except_bind_ok]
      rw [m2]
      simp only [except_bind_ok]
      rw [m3]
      simp only [except_bind_ok]
      rw [m4]
      simp only [except_bind_ok]
    constructor
    · constructor
      · intro h
        by_cases hz : tE - tS = 0
        · exact hz
        · rw [hre, if_neg hz] at h
          exact Except.noConfusion h
      · intro hz
        rw [hre, if_pos hz]
    · intro hz
      rw [hre, if_neg hz]

theorem claim_C7_ratio_contract_witness :
    computeHODLerRatioValue wStore addrA 3600 7200 =
      .ok (((2880000 - 0 : Int) : Rat) / ((3600000 - 0 : Int) : Rat)) :=
  ((claim_C7_ratio_contract wStore addrA 3600 7200).2 0 2880000 0 3600000
    rfl rfl rfl rfl (by decide)).2 (by decide)


/-! ## Reference layer: timestamps, balances and the metric as an instant sum -/

/-- The timestamp of the last event (L when the list is empty). -/
def endTime : Int → List Event → Int
  | L, [] => L
  | _, e :: rest => endTime e.timestamp rest

theorem chronoFromB_cons {L : Int} {e : Event} {rest : List Event} :
    chronoFromB L (e :: rest) = true ↔
      L ≤ e.timestamp ∧ chronoFromB e.timestamp rest = true := by
  simp only [chronoFromB, Bool.and_eq_true, decide_eq_true_iff]

theorem chronoFromB_mono {L L' : Int} (h : L' ≤ L) :
    ∀ {es : List Event}, chronoFromB L es = true → chronoFromB L' es = true := by
  intro es
  cases es with
  | nil => intro hc; exact hc
  | cons e rest =>
    intro hc
    rcases chronoFromB_cons.mp hc with ⟨h1, h2⟩
    exact chronoFromB_cons.mpr ⟨le_trans h h1, h2⟩

theorem chronoFromB_all_ge {L : Int} :
    ∀ {es : List Event}, chronoFromB L es = true → ∀ e ∈ es, L ≤ e.timestamp := by
  intro es
  induction es generalizing L with
  | nil => intro _ e he; cases he
  | cons f rest ih =>
    intro hc e he
    rcases chronoFromB_cons.mp hc with ⟨h1, h2⟩
    rcases List.mem_cons.mp he with rfl | he'
    · exact h1
    · exact le_trans h1 (ih h2 e he')

theorem le_endTime {L : Int} :
    ∀ {es : List Event}, chronoFromB L es = true → L ≤ endTime L es := by
  intro es
  induction es generalizing L with
  | nil => intro _; exact le_refl L
  | cons e rest ih =>
    intro hc
    rcases chronoFromB_cons.mp hc with ⟨h1, h2⟩
    exact le_trans h1 (ih h2)

theorem chronoFromB_append {e : Event} :
    ∀ {es : List Event} {L : Int}, chronoFromB L (es ++ [e]) = true ↔
      chronoFromB L es = true ∧ endTime L es ≤ e.timestamp := by
  intro es
  induction es with
  | nil =>
    intro L
    constructor
    · intro hc
      exact ⟨rfl, (chronoFromB_cons.mp hc).1⟩
    · intro ⟨_, hL⟩
      exact chronoFromB_cons.mpr ⟨hL, rfl⟩
  | cons f rest ih =>
    intro L
    constructor
    · intro hc
      rcases chronoFromB_cons.mp hc with ⟨h1, h2⟩
      rcases ih.mp h2 with ⟨h3, h4⟩
      exact ⟨chronoFromB_cons.mpr ⟨h1, h3⟩, h4⟩
    · intro ⟨hc, hL⟩
      rcases chronoFromB_cons.mp hc with ⟨h1, h2⟩
      exact chronoFromB_cons.mpr ⟨h1, ih.mpr ⟨h2, hL⟩⟩

theorem goodHistoryB_append {es : List Event} {e : Event}
    (h : GoodHistoryB (es ++ [e]) = true) :
    GoodHistoryB es = true ∧ goodEventB e = true ∧ endTime 0 es ≤ e.timestamp := by
  unfold GoodHistoryB at h ⊢
  rw [Bool.and_eq_true, List.all_append] at h
  rcases h with ⟨ha, hc⟩
  rw [Bool.and_eq_true] at ha
  rcases chronoFromB_append.mp hc with ⟨hc1, hc2⟩
  refine ⟨?_, ?_, hc2⟩
  · rw [Bool.and_eq_true]
    exact ⟨ha.1, hc1⟩
  · have := ha.2
    rw [List.all_cons, Bool.and_eq_true] at this
    exact this.1

theorem goodEventB_spec {e : Event} (h : goodEventB e = true) :
    0 ≤ e.value ∧ SECONDS_PER_HOUR ≤ e.timestamp ∧ e.pfrom ≠ e.pto := by
  unfold goodEventB at h
  rw [Bool.and_eq_true, Bool.and_eq_true] at h
  refine ⟨of_decide_eq_true h.1.1, of_decide_eq_true h.1.2, ?_⟩
  simpa using h.2

theorem foldl_add_shift (f : Event → Int) :
    ∀ (l : List Event) (x : Int),
      l.foldl (fun b e => b + f e) x = x + l.foldl (fun b e => b + f e) 0 := by
  intro l
  induction l with
  | nil => intro x; simp
  | cons e rest ih =>
    intro x
    rw [List.foldl_cons, List.foldl_cons, ih, ih (0 + f e)]
    ring

theorem balanceOf_nil (a : Addr) : balanceOf [] a = 0 := rfl

theorem balanceOf_cons (e : Event) (es : List Event) (a : Addr) :
    balanceOf (e :: es) a = delta e a + balanceOf es a := by
  unfold balanceOf
  rw [List.foldl_cons, foldl_add_shift]
  ring

theorem balanceOf_append (l1 l2 : List Event) (a : Addr) :
    balanceOf (l1 ++ l2) a = balanceOf l1 a + balanceOf l2 a := by
  unfold balanceOf
  rw [List.foldl_append, foldl_add_shift]


theorem balAt_def (es : List Event) (a : Addr) (t : Int) :
    balAt es a t = balanceOf (es.filter (fun e => decide (e.timestamp ≤ t))) a := rfl

theorem filter_time_nil {t : Int} :
    ∀ {es : List Event} {L : Int}, chronoFromB L es = true → t < L →
      es.filter (fun e => decide (e.timestamp ≤ t)) = [] := by
  intro es
  induction es with
  | nil => intro L _ _; rfl
  | cons e rest ih =>
    intro L hc ht
    rcases chronoFromB_cons.mp hc with ⟨h1, h2⟩
    rw [List.filter_cons]
    have hne : (decide (e.timestamp ≤ t)) = false := by
      simp only [decide_eq_false_iff_not]
      omega
    rw [hne, if_neg Bool.false_ne_true]
    exact ih h2 (by omega)

/-- The time-weighted metric accumulator equals a sum of the running
balance over the integer instants of [lastT, T). -/
theorem hodlFrom_eq_sum (a : Addr) (T : Int) :
    ∀ (es : List Event) (bal lastT : Int), chronoFromB lastT es = true → lastT ≤ T →
      hodlFrom a T bal lastT es =
        ∑ t ∈ Finset.Ico lastT T,
          (bal + balanceOf (es.filter (fun e => decide (e.timestamp ≤ t))) a) := by
  intro es
  induction es with
  | nil =>
    intro bal lastT _ hT
    rw [hodlFrom]
    simp only [List.filter_nil]
    rw [Finset.sum_const, Int.card_Ico, nsmul_eq_mul,
      Int.toNat_of_nonneg (sub_nonneg.mpr hT)]
    unfold balanceOf
    simp only [List.foldl_nil]
    ring
  | cons e rest ih =>
    intro bal lastT hc hT
    rcases chronoFromB_cons.mp hc with ⟨h1, h2⟩
    rw [hodlFrom]
    by_cases he : e.timestamp ≤ T
    · rw [if_pos he]
      rw [ih (bal + delta e a) e.timestamp h2 he]
      rw [← Finset.Ico_union_Ico_eq_Ico h1 he,
        Finset.sum_union (Finset.Ico_disjoint_Ico_consecutive lastT e.timestamp T)]
      have hlow : ∀ t ∈ Finset.Ico lastT e.timestamp,
          (bal + balanceOf ((e :: rest).filter (fun f => decide (f.timestamp ≤ t))) a) = bal := by
        intro t ht
        rcases Finset.mem_Ico.mp ht with ⟨_, ht2⟩
        rw [List.filter_cons]
        have hne : (decide (e.timestamp ≤ t)) = false := by
          simp only [decide_eq_false_iff_not]
          omega
        rw [hne, if_neg Bool.false_ne_true, filter_time_nil h2 ht2]
        rw [balanceOf_nil]
        ring
      have hhigh : ∀ t ∈ Finset.Ico e.timestamp T,
          (bal + balanceOf ((e :: rest).filter (fun f => decide (f.timestamp ≤ t))) a) =
            (bal + delta e a + balanceOf (rest.filter (fun f => decide (f.timestamp ≤ t))) a) := by
        intro t ht
        rcases Finset.mem_Ico.mp ht with ⟨ht1, _⟩
        rw [List.filter_cons]
        have hyes : (decide (e.timestamp ≤ t)) = true := decide_eq_true ht1
        rw [hyes, if_pos rfl, balanceOf_cons]
        ring
      rw [Finset.sum_congr rfl hlow, Finset.sum_congr rfl hhigh]
      rw [Finset.sum_const, Int.card_Ico, nsmul_eq_mul,
        Int.toNat_of_nonneg (sub_nonneg.mpr h1)]
      ring
    · rw [if_neg he]
      have hconst : ∀ t ∈ Finset.Ico lastT T,
          (bal + balanceOf ((e :: rest).filter (fun f => decide (f.timestamp ≤ t))) a) = bal := by
        intro t ht
        rcases Finset.mem_Ico.mp ht with ⟨_, ht2⟩
        rw [List.filter_cons]
        have hne : (decide (e.timestamp ≤ t)) = false := by
          simp only [decide_eq_false_iff_not]
          omega
        rw [hne, if_neg Bool.false_ne_true, filter_time_nil h2 (by omega)]
        rw [balanceOf_nil]
        ring
      rw [Finset.sum_congr rfl hconst]
      rw [Finset.sum_const, Int.card_Ico, nsmul_eq_mul,
        Int.toNat_of_nonneg (sub_nonneg.mpr hT)]
      ring

/-- The reference metric is the sum of the account balance over the
integer instants of [0, T). -/
theorem trueHODL_eq_sum (es : List Event) (a : Addr) (T : Int)
    (hc : chronoFromB 0 es = true) (hT : 0 ≤ T) :
    trueHODL es a T = ∑ t ∈ Finset.Ico (0 : Int) T, balAt es a t := by
  unfold trueHODL
  rw [hodlFrom_eq_sum a T es 0 0 hc hT]
  refine Finset.sum_congr rfl ?_
  intro t _
  rw [balAt_def]
  ring

theorem trueHODL_of_neg (es : List Event) (a : Addr) (T : Int)
    (hc : chronoFromB 0 es = true) (hT : T < 0) : trueHODL es a T = 0 := by
  unfold trueHODL
  cases es with
  | nil =>
    rw [hodlFrom]
    ring
  | cons e rest =>
    rw [hodlFrom]
    rcases chronoFromB_cons.mp hc with ⟨h1, _⟩
    rw [if_neg (by omega)]
    ring


theorem delta_of_nonpos (e : Event) (a : Addr) (hv : ¬ 0 < e.value) : delta e a = 0 := by
  unfold delta
  rw [if_neg hv]

theorem delta_of_not_touches {e : Event} {a : Addr} (h : ¬ touches e a) :
    delta e a = 0 := by
  by_cases hv : 0 < e.value
  · unfold delta
    rw [if_pos hv]
    have h2 : ¬ (a = ZERO_ADDRESS ∨ (a = e.pfrom ∧ e.pfrom ≠ ZERO_ADDRESS) ∨
        (a = e.pto ∧ e.pto ≠ ZERO_ADDRESS)) := fun hx => h ⟨hv, hx⟩
    rw [not_or, not_or] at h2
    rw [if_neg h2.2.1, if_neg h2.2.2, if_neg h2.1]
    ring
  · exact delta_of_nonpos e a hv

theorem delta_zero_addr (e : Event) (hv : 0 < e.value) :
    delta e ZERO_ADDRESS =
      (if e.pfrom = ZERO_ADDRESS then e.value
       else if e.pto = ZERO_ADDRESS then -e.value else 0) := by
  unfold delta
  rw [if_pos hv]
  rw [if_neg (fun hx : ZERO_ADDRESS = e.pfrom ∧ e.pfrom ≠ ZERO_ADDRESS => hx.2 hx.1.symm)]
  rw [if_neg (fun hx : ZERO_ADDRESS = e.pto ∧ e.pto ≠ ZERO_ADDRESS => hx.2 hx.1.symm)]
  rw [if_pos rfl]
  ring

theorem delta_pfrom (e : Event) (hv : 0 < e.value) (hfz : e.pfrom ≠ ZERO_ADDRESS)
    (hne : e.pfrom ≠ e.pto) : delta e e.pfrom = -e.value := by
  unfold delta
  rw [if_pos hv, if_pos ⟨rfl, hfz⟩, if_neg (fun hx : e.pfrom = e.pto ∧ _ => hne hx.1),
    if_neg hfz]
  ring

theorem delta_pto (e : Event) (hv : 0 < e.value) (htz : e.pto ≠ ZERO_ADDRESS)
    (hne : e.pfrom ≠ e.pto) : delta e e.pto = e.value := by
  unfold delta
  rw [if_pos hv, if_neg (fun hx : e.pto = e.pfrom ∧ _ => hne hx.1.symm),
    if_pos ⟨rfl, htz⟩, if_neg htz]
  ring

theorem delta_other (e : Event) (a : Addr) (haf : a ≠ e.pfrom) (hat : a ≠ e.pto)
    (haz : a ≠ ZERO_ADDRESS) : delta e a = 0 := by
  by_cases hv : 0 < e.value
  · unfold delta
    rw [if_pos hv, if_neg (fun hx : a = e.pfrom ∧ _ => haf hx.1),
      if_neg (fun hx : a = e.pto ∧ _ => hat hx.1), if_neg haz]
    ring
  · exact delta_of_nonpos e a hv

theorem sum_delta_eq (e : Event) (S : Finset Addr) (hZ : ZERO_ADDRESS ∉ S)
    (hf : 0 < e.value → e.pfrom ≠ ZERO_ADDRESS → e.pfrom ∈ S)
    (ht : 0 < e.value → e.pto ≠ ZERO_ADDRESS → e.pto ∈ S)
    (hne : e.pfrom ≠ e.pto) :
    (∑ a ∈ S, delta e a) = delta e ZERO_ADDRESS := by
  by_cases hv : 0 < e.value
  · have hpt : ∀ a ∈ S, delta e a =
        (if a = e.pfrom then -e.value else 0) + (if a = e.pto then e.value else 0) := by
      intro a ha
      have haz : a ≠ ZERO_ADDRESS := fun hx => hZ (hx ▸ ha)
      by_cases haf : a = e.pfrom
      · subst haf
        rw [delta_pfrom e hv haz hne, if_pos rfl, if_neg hne]
        ring
      · by_cases hat : a = e.pto
        · subst hat
          rw [delta_pto e hv haz hne, if_neg (fun hx => hne hx.symm), if_pos rfl]
          ring
        · rw [delta_other e a haf hat haz, if_neg haf, if_neg hat]
          ring
    rw [Finset.sum_congr rfl hpt, Finset.sum_add_distrib]
    rw [Finset.sum_ite_eq' S e.pfrom (fun x => -e.value),
      Finset.sum_ite_eq' S e.pto (fun x => e.value)]
    rw [delta_zero_addr e hv]
    by_cases hfz : e.pfrom = ZERO_ADDRESS
    · have htz : e.pto ≠ ZERO_ADDRESS := fun hx => hne (hfz.trans hx.symm)
      rw [if_neg (fun hx => hZ (hfz ▸ hx)), if_pos (ht hv htz), if_pos hfz]
      ring
    · by_cases htz : e.pto = ZERO_ADDRESS
      · rw [if_pos (hf hv hfz), if_neg (fun hx => hZ (htz ▸ hx)), if_neg hfz, if_pos htz]
        ring
      · rw [if_pos (hf hv hfz), if_pos (ht hv htz), if_neg hfz, if_neg htz]
        ring
  · have h0 : ∀ a ∈ S, delta e a = 0 := fun a _ => delta_of_nonpos e a hv
    rw [Finset.sum_congr rfl h0, Finset.sum_const_zero, delta_of_nonpos e ZERO_ADDRESS hv]

theorem sum_balanceOf (S : Finset Addr) (hZ : ZERO_ADDRESS ∉ S) :
    ∀ (es : List Event), (∀ e ∈ es, e.pfrom ≠ e.pto) →
      (∀ e ∈ es, 0 < e.value → e.pfrom ≠ ZERO_ADDRESS → e.pfrom ∈ S) →
      (∀ e ∈ es, 0 < e.value → e.pto ≠ ZERO_ADDRESS → e.pto ∈ S) →
      (∑ a ∈ S, balanceOf es a) = balanceOf es ZERO_ADDRESS := by
  intro es
  induction es with
  | nil =>
    intro _ _ _
    rw [balanceOf_nil]
    have h0 : ∀ a ∈ S, balanceOf [] a = 0 := fun a _ => balanceOf_nil a
    rw [Finset.sum_congr rfl h0, Finset.sum_const_zero]
  | cons e rest ih =>
    intro hgood hf hgt
    have hpt : ∀ a ∈ S, balanceOf (e :: rest) a = delta e a + balanceOf rest a :=
      fun a _ => balanceOf_cons e rest a
    rw [Finset.sum_congr rfl hpt, Finset.sum_add_distrib, balanceOf_cons]
    rw [sum_delta_eq e S hZ (hf e (List.mem_cons_self e rest))
      (hgt e (List.mem_cons_self e rest)) (hgood e (List.mem_cons_self e rest))]
    rw [ih (fun f hfm => hgood f (List.mem_cons_of_mem e hfm))
      (fun f hfm => hf f (List.mem_cons_of_mem e hfm))
      (fun f hfm => hgt f (List.mem_cons_of_mem e hfm))]

theorem sum_balAt (S : Finset Addr) (hZ : ZERO_ADDRESS ∉ S) (es : List Event) (t : Int)
    (hgood : ∀ e ∈ es, e.pfrom ≠ e.pto)
    (hf : ∀ e ∈ es, 0 < e.value → e.pfrom ≠ ZERO_ADDRESS → e.pfrom ∈ S)
    (hgt : ∀ e ∈ es, 0 < e.value → e.pto ≠ ZERO_ADDRESS → e.pto ∈ S) :
    (∑ a ∈ S, balAt es a t) = balAt es ZERO_ADDRESS t := by
  have hmem : ∀ e ∈ es.filter (fun f => decide (f.timestamp ≤ t)), e ∈ es :=
    fun e he => (List.mem_filter.mp he).1
  have hpt : ∀ a ∈ S, balAt es a t =
      balanceOf (es.filter (fun f => decide (f.timestamp ≤ t))) a := fun a _ => rfl
  rw [Finset.sum_congr rfl hpt, balAt_def]
  exact sum_balanceOf S hZ _ (fun e he => hgood e (hmem e he))
    (fun e he => hf e (hmem e he)) (fun e he => hgt e (hmem e he))

theorem sum_trueHODL (S : Finset Addr) (hZ : ZERO_ADDRESS ∉ S) (es : List Event) (T : Int)
    (hc : chronoFromB 0 es = true) (hT : 0 ≤ T)
    (hgood : ∀ e ∈ es, e.pfrom ≠ e.pto)
    (hf : ∀ e ∈ es, 0 < e.value → e.pfrom ≠ ZERO_ADDRESS → e.pfrom ∈ S)
    (hgt : ∀ e ∈ es, 0 < e.value → e.pto ≠ ZERO_ADDRESS → e.pto ∈ S) :
    (∑ a ∈ S, trueHODL es a T) = trueHODL es ZERO_ADDRESS T := by
  have hpt : ∀ a ∈ S, trueHODL es a T = ∑ t ∈ Finset.Ico (0 : Int) T, balAt es a t :=
    fun a _ => trueHODL_eq_sum es a T hc hT
  rw [Finset.sum_congr rfl hpt, Finset.sum_comm, trueHODL_eq_sum es ZERO_ADDRESS T hc hT]
  refine Finset.sum_congr rfl ?_
  intro t _
  exact sum_balAt S hZ es t hgood hf hgt

theorem sum_Ico_ite_ge (L c T d : Int) (h1 : L ≤ c) (h2 : c ≤ T) :
    (∑ t ∈ Finset.Ico L T, if c ≤ t then d else 0) = d * (T - c) := by
  rw [← Finset.Ico_union_Ico_eq_Ico h1 h2,
    Finset.sum_union (Finset.Ico_disjoint_Ico_consecutive L c T)]
  have hl : ∀ t ∈ Finset.Ico L c, (if c ≤ t then d else 0) = 0 := by
    intro t htm
    rcases Finset.mem_Ico.mp htm with ⟨_, hlt⟩
    rw [if_neg (by omega)]
  have hh : ∀ t ∈ Finset.Ico c T, (if c ≤ t then d else 0) = d := by
    intro t htm
    rcases Finset.mem_Ico.mp htm with ⟨hge, _⟩
    rw [if_pos hge]
  rw [Finset.sum_congr rfl hl, Finset.sum_congr rfl hh, Finset.sum_const_zero,
    Finset.sum_const, Int.card_Ico, nsmul_eq_mul, Int.toNat_of_nonneg (by omega)]
  ring

theorem hodlFrom_append_gt (a : Addr) (T : Int) (e : Event) (hT : T < e.timestamp) :
    ∀ (es : List Event) (bal lastT : Int),
      hodlFrom a T bal lastT (es ++ [e]) = hodlFrom a T bal lastT es := by
  intro es
  induction es with
  | nil =>
    intro bal lastT
    rw [List.nil_append, hodlFrom, hodlFrom, if_neg (by omega)]
  | cons f rest ih =>
    intro bal lastT
    rw [List.cons_append, hodlFrom, hodlFrom]
    by_cases hf : f.timestamp ≤ T
    · rw [if_pos hf, if_pos hf, ih]
    · rw [if_neg hf, if_neg hf]

theorem trueHODL_append_gt (es : List Event) (e : Event) (a : Addr) (T : Int)
    (hT : T < e.timestamp) : trueHODL (es ++ [e]) a T = trueHODL es a T := by
  unfold trueHODL
  rw [hodlFrom_append_gt a T e hT]

theorem balAt_append_single (es : List Event) (e : Event) (a : Addr) (t : Int) :
    balAt (es ++ [e]) a t =
      balAt es a t + (if e.timestamp ≤ t then delta e a else 0) := by
  rw [balAt_def, balAt_def, List.filter_append, balanceOf_append]
  by_cases h : e.timestamp ≤ t
  · rw [if_pos h, List.filter_cons, if_pos (by simpa using h), List.filter_nil,
      balanceOf_cons, balanceOf_nil]
    ring
  · rw [if_neg h, List.filter_cons, if_neg (by simpa using h), List.filter_nil,
      balanceOf_nil]

theorem trueHODL_append_le (es : List Event) (e : Event) (a : Addr) (T : Int)
    (hc : chronoFromB 0 (es ++ [e]) = true) (h0 : 0 ≤ e.timestamp)
    (hT : e.timestamp ≤ T) :
    trueHODL (es ++ [e]) a T = trueHODL es a T + delta e a * (T - e.timestamp) := by
  have hc1 : chronoFromB 0 es = true := (chronoFromB_append.mp hc).1
  have hT0 : 0 ≤ T := le_trans h0 hT
  rw [trueHODL_eq_sum _ a T hc hT0, trueHODL_eq_sum _ a T hc1 hT0]
  have hpt : ∀ t ∈ Finset.Ico (0 : Int) T, balAt (es ++ [e]) a t =
      balAt es a t + (if e.timestamp ≤ t then delta e a else 0) :=
    fun t _ => balAt_append_single es e a t
  rw [Finset.sum_congr rfl hpt, Finset.sum_add_distrib,
    sum_Ico_ite_ge 0 e.timestamp T (delta e a) h0 hT]


/-! ## Abstract model invariants -/

theorem getHourTimestamp_hour : getHourTimestamp SECONDS_PER_HOUR = SECONDS_PER_HOUR := by
  decide

theorem seconds_le_of_bucket {u : Int} (h : SECONDS_PER_HOUR ≤ getHourTimestamp u) :
    SECONDS_PER_HOUR ≤ u := by
  by_contra hlt
  push_neg at hlt
  by_cases h0 : 0 ≤ u
  · have := getHourTimestamp_le u h0
    omega
  · push_neg at h0
    have hneg : u.tdiv SECONDS_PER_HOUR ≤ 0 := by
      have h1 : u = -(-u) := by ring
      have h2 : (0:Int) ≤ (-u).tdiv SECONDS_PER_HOUR :=
        Int.tdiv_nonneg (by omega) (by norm_num [SECONDS_PER_HOUR])
      calc u.tdiv SECONDS_PER_HOUR = (-(-u)).tdiv SECONDS_PER_HOUR := by rw [← h1]
        _ = -((-u).tdiv SECONDS_PER_HOUR) := Int.neg_tdiv _ _
        _ ≤ 0 := by omega
    unfold getHourTimestamp at h
    unfold SECONDS_PER_HOUR at h hneg
    omega

theorem bucket_ge_hour {t : Int} (h : SECONDS_PER_HOUR ≤ t) :
    SECONDS_PER_HOUR ≤ getHourTimestamp t := by
  have := getHourTimestamp_mono (by norm_num [SECONDS_PER_HOUR] : (0:Int) ≤ SECONDS_PER_HOUR) h
  rw [getHourTimestamp_hour] at this
  exact this

theorem entryWF_bounds {c : ChainEntry} (h : EntryWF c) :
    SECONDS_PER_HOUR ≤ c.lastTimestamp ∧ c.bucket ≤ c.lastTimestamp ∧
    c.lastTimestamp < c.bucket + SECONDS_PER_HOUR ∧ c.bucket % SECONDS_PER_HOUR = 0 := by
  rcases h with ⟨hb, hge⟩
  have hlast : SECONDS_PER_HOUR ≤ c.lastTimestamp := seconds_le_of_bucket (hb ▸ hge)
  have h0 : (0:Int) ≤ c.lastTimestamp := by unfold SECONDS_PER_HOUR at hlast; omega
  refine ⟨hlast, ?_, ?_, ?_⟩
  · rw [hb]
    exact getHourTimestamp_le _ h0
  · rw [hb]
    exact lt_getHourTimestamp_add _ h0
  · rw [hb]
    exact getHourTimestamp_dvd _ h0

theorem endTime_append (e : Event) : ∀ (es : List Event) (L : Int),
    endTime L (es ++ [e]) = e.timestamp := by
  intro es
  induction es with
  | nil => intro L; rfl
  | cons f rest ih => intro L; exact ih f.timestamp

theorem headLastLE_mono {A : AAcc} {u v : Int} (h : headLastLE A u) (huv : u ≤ v) :
    headLastLE A v := by
  unfold headLastLE at h ⊢
  cases hc : A.chain with
  | nil => trivial
  | cons c rest =>
    rw [hc] at h
    omega

theorem goodHistoryB_parts {es : List Event} (h : GoodHistoryB es = true) :
    es.all goodEventB = true ∧ chronoFromB 0 es = true := by
  unfold GoodHistoryB at h
  rw [Bool.and_eq_true] at h
  exact h

theorem aexec_append (es : List Event) (e : Event) (a : Addr) :
    aexec (es ++ [e]) a = astepAcc (aexec es a) e a := by
  unfold aexec aexecFrom
  rw [List.foldl_append, List.foldl_cons, List.foldl_nil]

/-- The core invariance of one abstract checkpoint step: well-formedness is
preserved, the head timestamp becomes the event time, and the walk value at
every aligned timestamp changes by exactly the balance delta integrated from
the event time. -/
theorem astepRaw_WF (A : AAcc) (t d : Int) (hWF : AAccWF A) (hle : headLastLE A t)
    (ht : SECONDS_PER_HOUR ≤ t) :
    AAccWF (astepRaw A t d) ∧ headLastLE (astepRaw A t d) t ∧
    (∀ T, T = getHourTimestamp T → t ≤ T →
        walkCE T (astepRaw A t d).chain = walkCE T A.chain + d * (T - t)) ∧
    (∀ T, T = getHourTimestamp T → T < t →
        walkCE T (astepRaw A t d).chain = walkCE T A.chain) := by
  have hbt : SECONDS_PER_HOUR ≤ getHourTimestamp t := bucket_ge_hour ht
  have hbtd : getHourTimestamp t % SECONDS_PER_HOUR = 0 :=
    getHourTimestamp_dvd t (by unfold SECONDS_PER_HOUR at ht; omega)
  have hble : getHourTimestamp t ≤ t :=
    getHourTimestamp_le t (by unfold SECONDS_PER_HOUR at ht; omega)
  have hblt : t < getHourTimestamp t + SECONDS_PER_HOUR :=
    lt_getHourTimestamp_add t (by unfold SECONDS_PER_HOUR at ht; omega)
  unfold astepRaw
  cases hc : A.chain with
  | nil =>
    have hb0 : A.balance = 0 := by
      have := hWF.2
      rw [hc] at this
      exact this
    dsimp only
    refine ⟨⟨⟨⟨rfl, hbt⟩, trivial, fun _ => rfl⟩, rfl⟩, le_refl t, ?_, ?_⟩
    · intro T hal hT
      rw [walkCE, walkCE, if_pos hT, hb0]
      dsimp only
      ring
    · intro T hal hT
      rw [walkCE, walkCE, if_neg (by omega : ¬ (t ≤ T))]
      rfl
  | cons c rest =>
    have hcw : ChainWF (c :: rest) := by
      have := hWF.1
      rw [hc] at this
      exact this
    have hbal : c.lastBalance = A.balance := by
      have := hWF.2
      rw [hc] at this
      exact this
    have hlet : c.lastTimestamp ≤ t := by
      unfold headLastLE at hle
      rw [hc] at hle
      exact hle
    rcases hcw with ⟨hE, hR, hI⟩
    rcases entryWF_bounds hE with ⟨hl1, hl2, hl3, hl4⟩
    have hbb : c.bucket ≤ getHourTimestamp t := by
      rw [hE.1]
      exact getHourTimestamp_mono (by unfold SECONDS_PER_HOUR at hl1; omega) hlet
    by_cases heq : c.bucket = getHourTimestamp t
    · dsimp only
      rw [if_pos heq]
      refine ⟨⟨⟨⟨rfl, hbt⟩, hR, ?_⟩, rfl⟩, le_refl t, ?_, ?_⟩
      · cases rest with
        | nil =>
          dsimp only
          intro hteq
          have hteq2 : t = getHourTimestamp t := hteq
          have hcl : c.lastTimestamp = c.bucket := by omega
          have hcum := hI hcl
          rw [hcum]
          have hz : t - c.lastTimestamp = 0 := by omega
          rw [hz]
          ring
        | cons cq restq =>
          dsimp only
          refine ⟨?_, ?_⟩
          · have h1 := hI.1
            show cq.bucket + SECONDS_PER_HOUR ≤ getHourTimestamp t
            omega
          · intro hteq
            have hteq2 : t = getHourTimestamp t := hteq
            have hcl : c.lastTimestamp = c.bucket := by omega
            have hcum := hI.2 hcl
            rw [hcum]
            have hz : t - c.lastTimestamp = 0 := by omega
            rw [hz, ← heq]
            ring
      · intro T hal hT
        rw [walkCE, walkCE, if_pos (by omega : t ≤ T), if_pos (by omega : c.lastTimestamp ≤ T),
          hbal]
        dsimp only
        ring
      · intro T hal hT
        rw [walkCE, walkCE, if_neg (by omega : ¬ (t ≤ T))]
        by_cases hcl : c.lastTimestamp ≤ T
        · rw [if_pos hcl]
          have hb0 : (0:Int) ≤ c.bucket := by
            have := hE.2
            unfold SECONDS_PER_HOUR at this
            omega
          have hT2 : T < c.bucket + SECONDS_PER_HOUR := by
            rw [heq]
            omega
          have hTb : T = c.bucket :=
            hal.trans (getHourTimestamp_of_between hl4 (le_trans hl2 hcl) hT2 hb0)
          have hclT : c.lastTimestamp = T := by omega
          rw [hclT, sub_self, mul_zero, add_zero]
          cases rest with
          | nil =>
            rw [hI (by omega)]
            rfl
          | cons cp restp =>
            rcases hR with ⟨hEp, hRp, hIp⟩
            rcases entryWF_bounds hEp with ⟨hp1, hp2, hp3, hp4⟩
            have hplt : cp.lastTimestamp ≤ T := by
              have := hI.1
              omega
            rw [walkCE, if_pos hplt, hI.2 (by omega), ← hTb]
            ring
        · rw [if_neg hcl]
    · dsimp only
      rw [if_neg heq]
      have hstep : c.bucket + SECONDS_PER_HOUR ≤ getHourTimestamp t := by
        unfold SECONDS_PER_HOUR at hl4 hbtd ⊢
        omega
      refine ⟨⟨⟨⟨rfl, hbt⟩, ⟨hE, hR, hI⟩, ?_⟩, rfl⟩, le_refl t, ?_, ?_⟩
      · refine ⟨hstep, ?_⟩
        intro hteq
        rw [hbal, ← hteq]
      · intro T hal hT
        rw [walkCE, walkCE, if_pos (by omega : t ≤ T), if_pos (by omega : c.lastTimestamp ≤ T),
          hbal]
        dsimp only
        ring
      · intro T hal hT
        rw [walkCE, if_neg (by omega : ¬ (t ≤ T))]


theorem astepAcc_touch {A : AAcc} {e : Event} {a : Addr} (h : touches e a) :
    astepAcc A e a = astepRaw A e.timestamp (delta e a) := by
  unfold astepAcc
  rw [if_pos h]

theorem astepAcc_no {A : AAcc} {e : Event} {a : Addr} (h : ¬ touches e a) :
    astepAcc A e a = A := by
  unfold astepAcc
  rw [if_neg h]

/-- Abstract soundness: after any good history the per-account abstract state
is well formed, its head is no newer than the last event, and the backward
walk at every aligned timestamp computes the reference metric. -/
theorem abstract_correct (a : Addr) :
    ∀ (es : List Event), GoodHistoryB es = true →
      AAccWF (aexec es a) ∧ headLastLE (aexec es a) (endTime 0 es) ∧
      (∀ T, T = getHourTimestamp T → walkCE T (aexec es a).chain = trueHODL es a T) := by
  intro es
  induction es using List.reverseRecOn with
  | nil =>
    intro _
    refine ⟨⟨trivial, rfl⟩, trivial, ?_⟩
    intro T _
    show (0:Int) = trueHODL [] a T
    unfold trueHODL
    rw [hodlFrom]
    ring
  | append_singleton es e ih =>
    intro hG
    rcases goodHistoryB_append hG with ⟨hG1, hge, hle⟩
    rcases goodEventB_spec hge with ⟨hv0, ht36, hfne⟩
    rcases ih hG1 with ⟨ihWF, ihHead, ihWalk⟩
    have hchrono : chronoFromB 0 (es ++ [e]) = true := (goodHistoryB_parts hG).2
    have h0e : (0:Int) ≤ e.timestamp := by unfold SECONDS_PER_HOUR at ht36; omega
    rw [aexec_append, endTime_append]
    by_cases htch : touches e a
    · rw [astepAcc_touch htch]
      have hhle : headLastLE (aexec es a) e.timestamp :=
        headLastLE_mono ihHead hle
      rcases astepRaw_WF (aexec es a) e.timestamp (delta e a) ihWF hhle ht36 with
        ⟨w1, w2, w3, w4⟩
      refine ⟨w1, w2, ?_⟩
      intro T hal
      by_cases hTt : e.timestamp ≤ T
      · rw [w3 T hal hTt, ihWalk T hal, trueHODL_append_le es e a T hchrono h0e hTt]
      · rw [w4 T hal (by omega), ihWalk T hal, trueHODL_append_gt es e a T (by omega)]
    · rw [astepAcc_no htch]
      refine ⟨ihWF, headLastLE_mono ihHead hle, ?_⟩
      intro T hal
      rw [ihWalk T hal]
      by_cases hTt : e.timestamp ≤ T
      · rw [trueHODL_append_le es e a T hchrono h0e hTt, delta_of_not_touches htch]
        ring
      · rw [trueHODL_append_gt es e a T (by omega)]


/-! ## Store refinement: per-account effect of the checkpoint pipeline -/

theorem loadObs_saveObs_self (s : Store) (a : Addr) (b : Int) (o : HourObservation)
    (y : Int) : loadObs (saveObs s a b o) a y = if y = b then some o else loadObs s a y := by
  by_cases hy : y = b
  · rw [if_pos hy, hy]
    exact loadObs_saveObs_same s a b o
  · rw [if_neg hy]
    exact loadObs_saveObs_other s a b o a y (Or.inr hy)

theorem astepRaw_balance (A : AAcc) (t d : Int) :
    (astepRaw A t d).balance = A.balance + d := by
  unfold astepRaw
  cases hc : A.chain with
  | nil => rfl
  | cons c rest =>
    dsimp only
    by_cases heq : c.bucket = getHourTimestamp t
    · rw [if_pos heq]
    · rw [if_neg heq]

theorem chainWF_tail_lt :
    ∀ (rest : List ChainEntry) (c : ChainEntry), ChainWF (c :: rest) →
      ∀ b ∈ rest.map ChainEntry.bucket, b + SECONDS_PER_HOUR ≤ c.bucket := by
  intro rest
  induction rest with
  | nil =>
    intro c _ b hb
    cases hb
  | cons cq restq ih =>
    intro c hWF b hb
    rcases hWF with ⟨hE, hR, hI⟩
    rcases List.mem_cons.mp hb with rfl | hb'
    · exact hI.1
    · have h1 := ih cq hR b hb'
      have h2 := hI.1
      unfold SECONDS_PER_HOUR at h1 h2 ⊢
      omega

theorem chainInStore_mono (s s' : Store) (a : Addr) :
    ∀ (ch : List ChainEntry),
      (∀ y, y ∈ ch.map ChainEntry.bucket → loadObs s' a y = loadObs s a y) →
      ChainInStore s a ch → ChainInStore s' a ch := by
  intro ch
  induction ch with
  | nil =>
    intro _ _
    trivial
  | cons c rest ih =>
    intro hkeep hc
    rcases hc with ⟨⟨o, ho, hm⟩, hrest⟩
    refine ⟨⟨o, ?_, hm⟩, ?_⟩
    · rw [hkeep c.bucket (List.mem_map_of_mem ChainEntry.bucket (List.mem_cons_self c rest))]
      exact ho
    · exact ih (fun y hy => hkeep y (by
        rcases List.mem_map.mp hy with ⟨cc, hcc, hcb⟩
        exact hcb ▸ List.mem_map_of_mem ChainEntry.bucket (List.mem_cons_of_mem c hcc))) hrest

theorem obsPipeline_update_char (u : User) (t prior : Int) (s : Store)
    (obs : HourObservation) (hobs : loadObs s u.id (getHourTimestamp t) = some obs) :
    ∀ y, loadObs (obsPipeline u t prior s) u.id y =
      if y = getHourTimestamp t then
        some { obs with
          cumulativeHODL := obs.cumulativeHODL + (t - obs.lastTimestamp) * prior,
          lastTimestamp := t, lastBalance := u.balance }
      else loadObs s u.id y := by
  intro y
  unfold obsPipeline getOrCreateHourObservation
  dsimp only
  rw [hobs]
  dsimp only
  rw [loadObs_saveObs_self]

theorem obsPipeline_create_char_first (u : User) (t prior : Int) (s : Store)
    (hnone : loadObs s u.id (getHourTimestamp t) = none)
    (hcnt : ¬ 0 < u.observationCount) :
    ∀ y, loadObs (obsPipeline u t prior s) u.id y =
      if y = getHourTimestamp t then
        some ⟨u.id, t, u.balance, 0, 0, 0⟩
      else loadObs s u.id y := by
  intro y
  unfold obsPipeline getOrCreateHourObservation
  dsimp only
  rw [hnone]
  dsimp only
  rw [if_neg hcnt]
  dsimp only
  rw [loadObs_saveObs_self, loadObs_saveUser]

theorem obsPipeline_create_char_link (u : User) (t prior : Int) (s : Store)
    (lastObs : HourObservation)
    (hnone : loadObs s u.id (getHourTimestamp t) = none)
    (hcnt : 0 < u.observationCount)
    (hlast : loadObs s u.id u.lastHourTimestamp = some lastObs) :
    ∀ y, loadObs (obsPipeline u t prior s) u.id y =
      if y = getHourTimestamp t then
        some ⟨u.id, t, u.balance,
          lastObs.cumulativeHODL + (t - lastObs.lastTimestamp) * prior,
          getHourTimestamp lastObs.lastTimestamp, 0⟩
      else if y = u.lastHourTimestamp then
        some { lastObs with nextHourTimestamp := getHourTimestamp t }
      else loadObs s u.id y := by
  intro y
  unfold obsPipeline getOrCreateHourObservation
  dsimp only
  rw [hnone]
  dsimp only
  rw [if_pos hcnt, hlast]
  dsimp only
  rw [loadObs_saveObs_self, loadObs_saveUser]
  by_cases hy : y = getHourTimestamp t
  · rw [if_pos hy, if_pos hy]
  · rw [if_neg hy, if_neg hy, loadObs_saveObs_self]


theorem user_eq_mk (u : User) (b cnt lh : Int) (h1 : u.balance = b)
    (h2 : u.observationCount = cnt) (h3 : u.lastHourTimestamp = lh) :
    u = ⟨u.id, b, cnt, lh⟩ := by
  rw [← h1, ← h2, ← h3]

/-- Effect of one checkpoint pipeline call on the slice of its own account:
the stored observation table and user record realize exactly one abstract
step. -/
theorem pipeline_step (s : Store) (A : AAcc) (u : User) (t prior d : Int)
    (hubal : u.balance = A.balance + d)
    (hcnt : u.observationCount = (A.chain.length : Int))
    (hulast : u.lastHourTimestamp = prevBucketOf A.chain)
    (hprior : prior = A.balance)
    (hWF : AAccWF A)
    (hhead : headLastLE A t)
    (ht : SECONDS_PER_HOUR ≤ t)
    (hload : loadUser s u.id = some u)
    (hiso : ∀ b, (loadObs s u.id b).isSome ↔ b ∈ A.chain.map ChainEntry.bucket)
    (hcis : ChainInStore s u.id A.chain) :
    (∀ b, (loadObs (obsPipeline u t prior s) u.id b).isSome ↔
        b ∈ (astepRaw A t d).chain.map ChainEntry.bucket) ∧
    ChainInStore (obsPipeline u t prior s) u.id (astepRaw A t d).chain ∧
    loadUser (obsPipeline u t prior s) u.id =
      some ⟨u.id, (astepRaw A t d).balance, ((astepRaw A t d).chain.length : Int),
        prevBucketOf (astepRaw A t d).chain⟩ := by
  cases hc : A.chain with
  | nil =>
    have hnone : loadObs s u.id (getHourTimestamp t) = none := by
      cases ho : loadObs s u.id (getHourTimestamp t) with
      | none => rfl
      | some o =>
        have := (hiso (getHourTimestamp t)).mp (by rw [ho]; rfl)
        rw [hc] at this
        simp at this
    have hcnt0 : ¬ 0 < u.observationCount := by
      rw [hcnt, hc]
      simp
    have hA' : astepRaw A t d = ⟨A.balance + d, [⟨getHourTimestamp t, t, A.balance + d, 0⟩]⟩ := by
      unfold astepRaw
      rw [hc]
    have hchar := obsPipeline_create_char_first u t prior s hnone hcnt0
    refine ⟨?_, ?_, ?_⟩
    · intro b
      rw [hchar b, hA']
      simp only [List.map_cons, List.map_nil, List.mem_singleton]
      by_cases hb : b = getHourTimestamp t
      · rw [if_pos hb]
        simp [hb]
      · rw [if_neg hb]
        constructor
        · intro hsome
          have := (hiso b).mp hsome
          rw [hc] at this
          simp at this
        · intro hb2
          exact absurd hb2 hb
    · rw [hA']
      refine ⟨⟨⟨u.id, t, u.balance, 0, 0, 0⟩, ?_, ?_⟩, trivial⟩
      · rw [hchar (getHourTimestamp t), if_pos rfl]
      · exact ⟨rfl, rfl, hubal, rfl, rfl⟩
    · rw [obsPipeline_loadUser_none_self u t prior s hnone, hA']
      rw [Option.some.injEq, User.mk.injEq]
      refine ⟨rfl, hubal, ?_, rfl⟩
      rw [hcnt, hc]
      simp
  | cons c rest =>
    have hCW : ChainWF (c :: rest) := by
      have := hWF.1
      rw [hc] at this
      exact this
    have hABal : c.lastBalance = A.balance := by
      have := hWF.2
      rw [hc] at this
      exact this
    have hheadle : c.lastTimestamp ≤ t := by
      unfold headLastLE at hhead
      rw [hc] at hhead
      exact hhead
    rcases hCW with ⟨hE, hR, hI⟩
    rcases entryWF_bounds hE with ⟨hl1, hl2, hl3, hl4⟩
    have hbb : c.bucket ≤ getHourTimestamp t := by
      rw [hE.1]
      exact getHourTimestamp_mono (by unfold SECONDS_PER_HOUR at hl1; omega) hheadle
    have htail := chainWF_tail_lt rest c ⟨hE, hR, hI⟩
    rw [hc] at hcis
    rcases hcis with ⟨⟨o, hoload, homatch⟩, hrest⟩
    rcases homatch with ⟨hmu, hmt, hmb, hmc, hmp⟩
    by_cases heq : c.bucket = getHourTimestamp t
    · have hobs : loadObs s u.id (getHourTimestamp t) = some o := heq ▸ hoload
      have hA' : astepRaw A t d = ⟨A.balance + d,
          ⟨getHourTimestamp t, t, A.balance + d,
            c.cum + (t - c.lastTimestamp) * A.balance⟩ :: rest⟩ := by
        unfold astepRaw
        rw [hc]
        dsimp only
        rw [if_pos heq]
      have hchar := obsPipeline_update_char u t prior s o hobs
      refine ⟨?_, ?_, ?_⟩
      · intro b
        rw [hchar b, hA']
        simp only [List.map_cons, List.mem_cons]
        by_cases hb : b = getHourTimestamp t
        · rw [if_pos hb]
          simp [hb]
        · rw [if_neg hb]
          have hiso2 := hiso b
          rw [hc] at hiso2
          simp only [List.map_cons, List.mem_cons] at hiso2
          constructor
          · intro hsome
            rcases hiso2.mp hsome with h1 | h1
            · exact absurd (h1.trans heq) hb
            · exact Or.inr h1
          · intro hmem
            rcases hmem with h1 | h1
            · exact absurd h1 hb
            · exact hiso2.mpr (Or.inr h1)
      · rw [hA']
        refine ⟨⟨{ o with
            cumulativeHODL := o.cumulativeHODL + (t - o.lastTimestamp) * prior,
            lastTimestamp := t, lastBalance := u.balance }, ?_, ?_⟩, ?_⟩
        · rw [hchar (getHourTimestamp t), if_pos rfl]
        · refine ⟨hmu, rfl, hubal, ?_, hmp⟩
          rw [hmc, hmt, hprior]
        · refine chainInStore_mono s _ u.id rest ?_ hrest
          intro y hy
          have hlt := htail y hy
          rw [hchar y, if_neg (by unfold SECONDS_PER_HOUR at hlt; omega)]
      · rw [obsPipeline_loadUser_some u t prior s u.id (by rw [hobs]; rfl), hload, hA']
        simp only [Option.some.injEq]
        refine user_eq_mk u _ _ _ ?_ ?_ ?_
        · exact hubal
        · rw [hcnt, hc]
          simp
        · rw [hulast, hc]
          exact heq
    · have hnone : loadObs s u.id (getHourTimestamp t) = none := by
        cases ho2 : loadObs s u.id (getHourTimestamp t) with
        | none => rfl
        | some o2 =>
          have := (hiso (getHourTimestamp t)).mp (by rw [ho2]; rfl)
          rw [hc] at this
          simp only [List.map_cons, List.mem_cons] at this
          rcases this with h1 | h1
          · exact absurd h1.symm heq
          · have := htail _ h1
            unfold SECONDS_PER_HOUR at this
            omega
      have hcntpos : 0 < u.observationCount := by
        rw [hcnt, hc]
        simp
      have hlastobs : loadObs s u.id u.lastHourTimestamp = some o := by
        rw [hulast, hc]
        exact hoload
      have hA' : astepRaw A t d = ⟨A.balance + d,
          ⟨getHourTimestamp t, t, A.balance + d,
            c.cum + (t - c.lastTimestamp) * A.balance⟩ :: c :: rest⟩ := by
        unfold astepRaw
        rw [hc]
        dsimp only
        rw [if_neg heq]
      have hchar := obsPipeline_create_char_link u t prior s o hnone hcntpos hlastobs
      have hulc : u.lastHourTimestamp = c.bucket := by
        rw [hulast, hc]
        rfl
      refine ⟨?_, ?_, ?_⟩
      · intro b
        rw [hchar b, hA']
        simp only [List.map_cons, List.mem_cons]
        by_cases hb : b = getHourTimestamp t
        · rw [if_pos hb]
          simp [hb]
        · rw [if_neg hb]
          by_cases hb2 : b = u.lastHourTimestamp
          · rw [if_pos hb2]
            simp only [Option.isSome_some, true_iff]
            right
            left
            rw [hb2, hulc]
          · rw [if_neg hb2]
            have hiso2 := hiso b
            rw [hc] at hiso2
            simp only [List.map_cons, List.mem_cons] at hiso2
            constructor
            · intro hsome
              rcases hiso2.mp hsome with h1 | h1
              · exact Or.inr (Or.inl h1)
              · exact Or.inr (Or.inr h1)
            · intro hmem
              rcases hmem with h1 | h1 | h1
              · exact absurd h1 hb
              · exact hiso2.mpr (Or.inl h1)
              · exact hiso2.mpr (Or.inr h1)
      · rw [hA']
        refine ⟨⟨⟨u.id, t, u.balance,
            o.cumulativeHODL + (t - o.lastTimestamp) * prior,
            getHourTimestamp o.lastTimestamp, 0⟩, ?_, ?_⟩,
          ⟨{ o with nextHourTimestamp := getHourTimestamp t }, ?_, ?_⟩, ?_⟩
        · rw [hchar (getHourTimestamp t), if_pos rfl]
        · refine ⟨rfl, rfl, hubal, ?_, ?_⟩
          · rw [hmc, hmt, hprior]
          · rw [hmt, ← hE.1]
            rfl
        · rw [hchar c.bucket, if_neg (by omega), if_pos hulc.symm]
        · exact ⟨hmu, hmt, hmb, hmc, hmp⟩
        · refine chainInStore_mono s _ u.id rest ?_ hrest
          intro y hy
          have hlt := htail y hy
          rw [hchar y, if_neg (by unfold SECONDS_PER_HOUR at hlt; omega),
            if_neg (by rw [hulc]; unfold SECONDS_PER_HOUR at hlt; omega)]
      · rw [obsPipeline_loadUser_none_self u t prior s hnone, hA']
        rw [Option.some.injEq, User.mk.injEq]
        refine ⟨rfl, hubal, ?_, rfl⟩
        rw [hcnt, hc]
        simp [List.length_cons]


theorem astepRaw_chain_ne (A : AAcc) (t d : Int) : (astepRaw A t d).chain ≠ [] := by
  unfold astepRaw
  cases hc : A.chain with
  | nil => simp
  | cons c rest =>
    dsimp only
    by_cases heq : c.bucket = getHourTimestamp t
    · rw [if_pos heq]
      simp
    · rw [if_neg heq]
      simp

theorem touches_cases {e : Event} {x : Addr} (h : touches e x) :
    x = ZERO_ADDRESS ∨ x = e.pfrom ∨ x = e.pto := by
  rcases h.2 with h1 | h1 | h1
  · exact Or.inl h1
  · exact Or.inr (Or.inl h1.1)
  · exact Or.inr (Or.inr h1.1)

theorem touches_pfrom {e : Event} (hv : 0 < e.value) (hf0 : e.pfrom ≠ ZERO_ADDRESS) :
    touches e e.pfrom := ⟨hv, Or.inr (Or.inl ⟨rfl, hf0⟩)⟩

theorem touches_pto {e : Event} (hv : 0 < e.value) (ht0 : e.pto ≠ ZERO_ADDRESS) :
    touches e e.pto := ⟨hv, Or.inr (Or.inr ⟨rfl, ht0⟩)⟩

theorem touches_zero {e : Event} (hv : 0 < e.value) : touches e ZERO_ADDRESS :=
  ⟨hv, Or.inl rfl⟩

theorem accMatches_congr (s s' : Store) (a : Addr) (A : AAcc)
    (hu : loadUser s' a = loadUser s a)
    (ho : ∀ y, loadObs s' a y = loadObs s a y)
    (h : AccMatches s a A) : AccMatches s' a A := by
  rcases h with ⟨hiso, hcis, hrec⟩
  refine ⟨fun b => (ho b) ▸ hiso b,
    chainInStore_mono s s' a A.chain (fun y _ => ho y) hcis, ?_⟩
  cases hch : A.chain with
  | nil =>
    rw [hch] at hrec
    rw [hu]
    exact hrec
  | cons c rest =>
    rw [hch] at hrec
    rw [hu]
    exact hrec

theorem accMatches_build (s : Store) (a : Addr) (A' : AAcc)
    (hchne : A'.chain ≠ [])
    (hiso : ∀ b, (loadObs s a b).isSome ↔ b ∈ A'.chain.map ChainEntry.bucket)
    (hcis : ChainInStore s a A'.chain)
    (hload : loadUser s a = some ⟨a, A'.balance, (A'.chain.length : Int),
      prevBucketOf A'.chain⟩) :
    AccMatches s a A' := by
  refine ⟨hiso, hcis, ?_⟩
  cases hch : A'.chain with
  | nil => exact absurd hch hchne
  | cons c rest =>
    rw [hch] at hload
    exact hload

theorem accMatches_none (s : Store) (a : Addr) (A : AAcc) (h : AccMatches s a A)
    (hch : A.chain = []) : loadUser s a = none := by
  have hrec := h.2.2
  rw [hch] at hrec
  exact hrec

theorem accMatches_some (s : Store) (a : Addr) (A : AAcc) (h : AccMatches s a A)
    (c : ChainEntry) (rest : List ChainEntry) (hch : A.chain = c :: rest) :
    loadUser s a = some ⟨a, A.balance, (A.chain.length : Int), c.bucket⟩ := by
  have hrec := h.2.2
  rw [hch] at hrec
  rw [hch]
  exact hrec

theorem gocu_of_accMatches (s : Store) (a : Addr) (A : AAcc)
    (hm : AccMatches s a A) (hWFA : AAccWF A) :
    (getOrCreateUser s a).1 =
      ⟨a, A.balance, (A.chain.length : Int), prevBucketOf A.chain⟩ := by
  cases hch : A.chain with
  | nil =>
    have hrec := accMatches_none s a A hm hch
    have hb0 : A.balance = 0 := by
      have hx := hWFA.2
      rw [hch] at hx
      exact hx
    unfold getOrCreateUser
    rw [hrec]
    dsimp only
    rw [User.mk.injEq]
    refine ⟨rfl, hb0.symm, by simp, rfl⟩
  | cons c rest =>
    have hrec := accMatches_some s a A hm c rest hch
    rw [hch] at hrec
    rw [getOrCreateUser_of_some s a _ hrec]
    rfl

/-- pipeline_step keyed by an explicit address equal to the copy id. -/
theorem pipeline_step_at (s : Store) (a : Addr) (A : AAcc) (u : User) (t prior d : Int)
    (hid : u.id = a)
    (hubal : u.balance = A.balance + d)
    (hcnt : u.observationCount = (A.chain.length : Int))
    (hulast : u.lastHourTimestamp = prevBucketOf A.chain)
    (hprior : prior = A.balance)
    (hWF : AAccWF A)
    (hhead : headLastLE A t)
    (ht : SECONDS_PER_HOUR ≤ t)
    (hload : loadUser s a = some u)
    (hiso : ∀ b, (loadObs s a b).isSome ↔ b ∈ A.chain.map ChainEntry.bucket)
    (hcis : ChainInStore s a A.chain) :
    (∀ b, (loadObs (obsPipeline u t prior s) a b).isSome ↔
        b ∈ (astepRaw A t d).chain.map ChainEntry.bucket) ∧
    ChainInStore (obsPipeline u t prior s) a (astepRaw A t d).chain ∧
    loadUser (obsPipeline u t prior s) a =
      some ⟨a, (astepRaw A t d).balance, ((astepRaw A t d).chain.length : Int),
        prevBucketOf (astepRaw A t d).chain⟩ := by
  subst hid
  exact pipeline_step s A u t prior d hubal hcnt hulast hprior hWF hhead ht hload hiso hcis

theorem accMatches_step (s s' : Store) (a : Addr) (A : AAcc) (u : User) (t prior d : Int)
    (hid : u.id = a)
    (hubal : u.balance = A.balance + d)
    (hcnt : u.observationCount = (A.chain.length : Int))
    (hulast : u.lastHourTimestamp = prevBucketOf A.chain)
    (hprior : prior = A.balance)
    (hWF : AAccWF A)
    (hhead : headLastLE A t)
    (ht : SECONDS_PER_HOUR ≤ t)
    (hload : loadUser s a = some u)
    (hiso : ∀ b, (loadObs s a b).isSome ↔ b ∈ A.chain.map ChainEntry.bucket)
    (hcis : ChainInStore s a A.chain)
    (hu' : loadUser s' a = loadUser (obsPipeline u t prior s) a)
    (ho' : ∀ y, loadObs s' a y = loadObs (obsPipeline u t prior s) a y) :
    AccMatches s' a (astepRaw A t d) := by
  rcases pipeline_step_at s a A u t prior d hid hubal hcnt hulast hprior hWF hhead ht
    hload hiso hcis with ⟨w1, w2, w3⟩
  exact accMatches_congr _ s' a _ hu' ho'
    (accMatches_build _ a _ (astepRaw_chain_ne A t d) w1 w2 w3)


theorem rel_step_regular (s : Store) (es : List Event) (e : Event)
    (hWF : StoreIdWF s)
    (hrel : ∀ x, AccMatches s x (aexec es x))
    (habsWF : ∀ x, AAccWF (aexec es x))
    (habsHead : ∀ x, headLastLE (aexec es x) e.timestamp)
    (ht : SECONDS_PER_HOUR ≤ e.timestamp) (hv : 0 < e.value)
    (hne : e.pfrom ≠ e.pto) (hf0 : e.pfrom ≠ ZERO_ADDRESS) (ht0 : e.pto ≠ ZERO_ADDRESS) :
    ∀ x, AccMatches (regularResult s e) x (aexec (es ++ [e]) x) := by
  have hres : regularResult s e = (obsPipeline (getOrCreateUser (getOrCreateUser (getOrCreateUser s e.pfrom).2 e.pto).2 ZERO_ADDRESS).1 e.timestamp ((getOrCreateUser (getOrCreateUser (getOrCreateUser s e.pfrom).2 e.pto).2 ZERO_ADDRESS).1).balance (obsPipeline { id := ((getOrCreateUser (getOrCreateUser s e.pfrom).2 e.pto).1).id, balance := ((getOrCreateUser (getOrCreateUser s e.pfrom).2 e.pto).1).balance + e.value, observationCount := ((getOrCreateUser (getOrCreateUser s e.pfrom).2 e.pto).1).observationCount, lastHourTimestamp := ((getOrCreateUser (getOrCreateUser s e.pfrom).2 e.pto).1).lastHourTimestamp } e.timestamp ((getOrCreateUser (getOrCreateUser s e.pfrom).2 e.pto).1).balance (obsPipeline { id := ((getOrCreateUser s e.pfrom).1).id, balance := ((getOrCreateUser s e.pfrom).1).balance - e.value, observationCount := ((getOrCreateUser s e.pfrom).1).observationCount, lastHourTimestamp := ((getOrCreateUser s e.pfrom).1).lastHourTimestamp } e.timestamp ((getOrCreateUser s e.pfrom).1).balance (saveUser (saveUser (saveUser (getOrCreateUser (getOrCreateUser (getOrCreateUser s e.pfrom).2 e.pto).2 ZERO_ADDRESS).2 { id := ((getOrCreateUser s e.pfrom).1).id, balance := ((getOrCreateUser s e.pfrom).1).balance - e.value, observationCount := ((getOrCreateUser s e.pfrom).1).observationCount, lastHourTimestamp := ((getOrCreateUser s e.pfrom).1).lastHourTimestamp }) { id := ((getOrCreateUser (getOrCreateUser s e.pfrom).2 e.pto).1).id, balance := ((getOrCreateUser (getOrCreateUser s e.pfrom).2 e.pto).1).balance + e.value, observationCount := ((getOrCreateUser (getOrCreateUser s e.pfrom).2 e.pto).1).observationCount, lastHourTimestamp := ((getOrCreateUser (getOrCreateUser s e.pfrom).2 e.pto).1).lastHourTimestamp }) (getOrCreateUser (getOrCreateUser (getOrCreateUser s e.pfrom).2 e.pto).2 ZERO_ADDRESS).1)))) := rfl
  have spec1 := getOrCreateUser_spec s e.pfrom hWF
  have wf1 : StoreIdWF (getOrCreateUser s e.pfrom).2 := spec1.2.2.2.2.2
  have spec2 := getOrCreateUser_spec (getOrCreateUser s e.pfrom).2 e.pto wf1
  have wf2 : StoreIdWF (getOrCreateUser (getOrCreateUser s e.pfrom).2 e.pto).2 := spec2.2.2.2.2.2
  have spec3 := getOrCreateUser_spec (getOrCreateUser (getOrCreateUser s e.pfrom).2 e.pto).2 ZERO_ADDRESS wf2
  have hFRpid : ({ id := ((getOrCreateUser s e.pfrom).1).id, balance := ((getOrCreateUser s e.pfrom).1).balance - e.value, observationCount := ((getOrCreateUser s e.pfrom).1).observationCount, lastHourTimestamp := ((getOrCreateUser s e.pfrom).1).lastHourTimestamp } : User).id = e.pfrom := spec1.1
  have hTRpid : ({ id := ((getOrCreateUser (getOrCreateUser s e.pfrom).2 e.pto).1).id, balance := ((getOrCreateUser (getOrCreateUser s e.pfrom).2 e.pto).1).balance + e.value, observationCount := ((getOrCreateUser (getOrCreateUser s e.pfrom).2 e.pto).1).observationCount, lastHourTimestamp := ((getOrCreateUser (getOrCreateUser s e.pfrom).2 e.pto).1).lastHourTimestamp } : User).id = e.pto := spec2.1
  have rFR : ((getOrCreateUser s e.pfrom).1 : User) = ⟨e.pfrom, (aexec es e.pfrom).balance,
      ((aexec es e.pfrom).chain.length : Int), prevBucketOf (aexec es e.pfrom).chain⟩ :=
    gocu_of_accMatches s e.pfrom _ (hrel e.pfrom) (habsWF e.pfrom)
  have mT1 : AccMatches (getOrCreateUser s e.pfrom).2 e.pto (aexec es e.pto) :=
    accMatches_congr s (getOrCreateUser s e.pfrom).2 e.pto _ (spec1.2.2.2.1 e.pto (Ne.symm hne))
      (fun y => spec1.2.2.2.2.1 e.pto y) (hrel e.pto)
  have rTR : ((getOrCreateUser (getOrCreateUser s e.pfrom).2 e.pto).1 : User) = ⟨e.pto, (aexec es e.pto).balance,
      ((aexec es e.pto).chain.length : Int), prevBucketOf (aexec es e.pto).chain⟩ :=
    gocu_of_accMatches (getOrCreateUser s e.pfrom).2 e.pto _ mT1 (habsWF e.pto)
  have mZ1 : AccMatches (getOrCreateUser s e.pfrom).2 ZERO_ADDRESS (aexec es ZERO_ADDRESS) :=
    accMatches_congr s (getOrCreateUser s e.pfrom).2 ZERO_ADDRESS _ (spec1.2.2.2.1 ZERO_ADDRESS (Ne.symm hf0))
      (fun y => spec1.2.2.2.2.1 ZERO_ADDRESS y) (hrel ZERO_ADDRESS)
  have mZ2 : AccMatches (getOrCreateUser (getOrCreateUser s e.pfrom).2 e.pto).2 ZERO_ADDRESS (aexec es ZERO_ADDRESS) :=
    accMatches_congr (getOrCreateUser s e.pfrom).2 (getOrCreateUser (getOrCreateUser s e.pfrom).2 e.pto).2 ZERO_ADDRESS _ (spec2.2.2.2.1 ZERO_ADDRESS (Ne.symm ht0))
      (fun y => spec2.2.2.2.2.1 ZERO_ADDRESS y) mZ1
  have rU3 : ((getOrCreateUser (getOrCreateUser (getOrCreateUser s e.pfrom).2 e.pto).2 ZERO_ADDRESS).1 : User) = ⟨ZERO_ADDRESS, (aexec es ZERO_ADDRESS).balance,
      ((aexec es ZERO_ADDRESS).chain.length : Int),
      prevBucketOf (aexec es ZERO_ADDRESS).chain⟩ :=
    gocu_of_accMatches (getOrCreateUser (getOrCreateUser s e.pfrom).2 e.pto).2 ZERO_ADDRESS _ mZ2 (habsWF ZERO_ADDRESS)
  have hFb : ((getOrCreateUser s e.pfrom).1 : User).balance = (aexec es e.pfrom).balance := by rw [rFR]
  have hFc : ((getOrCreateUser s e.pfrom).1 : User).observationCount = ((aexec es e.pfrom).chain.length : Int) := by
    rw [rFR]
  have hFl : ((getOrCreateUser s e.pfrom).1 : User).lastHourTimestamp = prevBucketOf (aexec es e.pfrom).chain := by
    rw [rFR]
  have hTb : ((getOrCreateUser (getOrCreateUser s e.pfrom).2 e.pto).1 : User).balance = (aexec es e.pto).balance := by rw [rTR]
  have hTc : ((getOrCreateUser (getOrCreateUser s e.pfrom).2 e.pto).1 : User).observationCount = ((aexec es e.pto).chain.length : Int) := by
    rw [rTR]
  have hTl : ((getOrCreateUser (getOrCreateUser s e.pfrom).2 e.pto).1 : User).lastHourTimestamp = prevBucketOf (aexec es e.pto).chain := by
    rw [rTR]
  have hZb : ((getOrCreateUser (getOrCreateUser (getOrCreateUser s e.pfrom).2 e.pto).2 ZERO_ADDRESS).1 : User).balance = (aexec es ZERO_ADDRESS).balance := by rw [rU3]
  have hZc : ((getOrCreateUser (getOrCreateUser (getOrCreateUser s e.pfrom).2 e.pto).2 ZERO_ADDRESS).1 : User).observationCount =
      ((aexec es ZERO_ADDRESS).chain.length : Int) := by rw [rU3]
  have hZl : ((getOrCreateUser (getOrCreateUser (getOrCreateUser s e.pfrom).2 e.pto).2 ZERO_ADDRESS).1 : User).lastHourTimestamp =
      prevBucketOf (aexec es ZERO_ADDRESS).chain := by rw [rU3]
  have obsSS : ∀ x y, loadObs (saveUser (saveUser (saveUser (getOrCreateUser (getOrCreateUser (getOrCreateUser s e.pfrom).2 e.pto).2 ZERO_ADDRESS).2 { id := ((getOrCreateUser s e.pfrom).1).id, balance := ((getOrCreateUser s e.pfrom).1).balance - e.value, observationCount := ((getOrCreateUser s e.pfrom).1).observationCount, lastHourTimestamp := ((getOrCreateUser s e.pfrom).1).lastHourTimestamp }) { id := ((getOrCreateUser (getOrCreateUser s e.pfrom).2 e.pto).1).id, balance := ((getOrCreateUser (getOrCreateUser s e.pfrom).2 e.pto).1).balance + e.value, observationCount := ((getOrCreateUser (getOrCreateUser s e.pfrom).2 e.pto).1).observationCount, lastHourTimestamp := ((getOrCreateUser (getOrCreateUser s e.pfrom).2 e.pto).1).lastHourTimestamp }) (getOrCreateUser (getOrCreateUser (getOrCreateUser s e.pfrom).2 e.pto).2 ZERO_ADDRESS).1) x y = loadObs s x y := by
    intro x y
    rw [loadObs_saveUser, loadObs_saveUser, loadObs_saveUser, spec3.2.2.2.2.1,
      spec2.2.2.2.2.1, spec1.2.2.2.2.1]
  have uSSf : loadUser (saveUser (saveUser (saveUser (getOrCreateUser (getOrCreateUser (getOrCreateUser s e.pfrom).2 e.pto).2 ZERO_ADDRESS).2 { id := ((getOrCreateUser s e.pfrom).1).id, balance := ((getOrCreateUser s e.pfrom).1).balance - e.value, observationCount := ((getOrCreateUser s e.pfrom).1).observationCount, lastHourTimestamp := ((getOrCreateUser s e.pfrom).1).lastHourTimestamp }) { id := ((getOrCreateUser (getOrCreateUser s e.pfrom).2 e.pto).1).id, balance := ((getOrCreateUser (getOrCreateUser s e.pfrom).2 e.pto).1).balance + e.value, observationCount := ((getOrCreateUser (getOrCreateUser s e.pfrom).2 e.pto).1).observationCount, lastHourTimestamp := ((getOrCreateUser (getOrCreateUser s e.pfrom).2 e.pto).1).lastHourTimestamp }) (getOrCreateUser (getOrCreateUser (getOrCreateUser s e.pfrom).2 e.pto).2 ZERO_ADDRESS).1) e.pfrom = some ({ id := ((getOrCreateUser s e.pfrom).1).id, balance := ((getOrCreateUser s e.pfrom).1).balance - e.value, observationCount := ((getOrCreateUser s e.pfrom).1).observationCount, lastHourTimestamp := ((getOrCreateUser s e.pfrom).1).lastHourTimestamp }) := by
    rw [loadUser_saveUser, if_neg (by rw [spec3.1]; exact hf0),
      loadUser_saveUser, if_neg (by rw [hTRpid]; exact hne),
      loadUser_saveUser, if_pos hFRpid.symm]
  have uSSt : loadUser (saveUser (saveUser (saveUser (getOrCreateUser (getOrCreateUser (getOrCreateUser s e.pfrom).2 e.pto).2 ZERO_ADDRESS).2 { id := ((getOrCreateUser s e.pfrom).1).id, balance := ((getOrCreateUser s e.pfrom).1).balance - e.value, observationCount := ((getOrCreateUser s e.pfrom).1).observationCount, lastHourTimestamp := ((getOrCreateUser s e.pfrom).1).lastHourTimestamp }) { id := ((getOrCreateUser (getOrCreateUser s e.pfrom).2 e.pto).1).id, balance := ((getOrCreateUser (getOrCreateUser s e.pfrom).2 e.pto).1).balance + e.value, observationCount := ((getOrCreateUser (getOrCreateUser s e.pfrom).2 e.pto).1).observationCount, lastHourTimestamp := ((getOrCreateUser (getOrCreateUser s e.pfrom).2 e.pto).1).lastHourTimestamp }) (getOrCreateUser (getOrCreateUser (getOrCreateUser s e.pfrom).2 e.pto).2 ZERO_ADDRESS).1) e.pto = some ({ id := ((getOrCreateUser (getOrCreateUser s e.pfrom).2 e.pto).1).id, balance := ((getOrCreateUser (getOrCreateUser s e.pfrom).2 e.pto).1).balance + e.value, observationCount := ((getOrCreateUser (getOrCreateUser s e.pfrom).2 e.pto).1).observationCount, lastHourTimestamp := ((getOrCreateUser (getOrCreateUser s e.pfrom).2 e.pto).1).lastHourTimestamp }) := by
    rw [loadUser_saveUser, if_neg (by rw [spec3.1]; exact ht0),
      loadUser_saveUser, if_pos hTRpid.symm]
  have uSSz : loadUser (saveUser (saveUser (saveUser (getOrCreateUser (getOrCreateUser (getOrCreateUser s e.pfrom).2 e.pto).2 ZERO_ADDRESS).2 { id := ((getOrCreateUser s e.pfrom).1).id, balance := ((getOrCreateUser s e.pfrom).1).balance - e.value, observationCount := ((getOrCreateUser s e.pfrom).1).observationCount, lastHourTimestamp := ((getOrCreateUser s e.pfrom).1).lastHourTimestamp }) { id := ((getOrCreateUser (getOrCreateUser s e.pfrom).2 e.pto).1).id, balance := ((getOrCreateUser (getOrCreateUser s e.pfrom).2 e.pto).1).balance + e.value, observationCount := ((getOrCreateUser (getOrCreateUser s e.pfrom).2 e.pto).1).observationCount, lastHourTimestamp := ((getOrCreateUser (getOrCreateUser s e.pfrom).2 e.pto).1).lastHourTimestamp }) (getOrCreateUser (getOrCreateUser (getOrCreateUser s e.pfrom).2 e.pto).2 ZERO_ADDRESS).1) ZERO_ADDRESS = some ((getOrCreateUser (getOrCreateUser (getOrCreateUser s e.pfrom).2 e.pto).2 ZERO_ADDRESS).1) := by
    rw [loadUser_saveUser, if_pos spec3.1.symm]
  have stepF : AccMatches (obsPipeline (getOrCreateUser (getOrCreateUser (getOrCreateUser s e.pfrom).2 e.pto).2 ZERO_ADDRESS).1 e.timestamp ((getOrCreateUser (getOrCreateUser (getOrCreateUser s e.pfrom).2 e.pto).2 ZERO_ADDRESS).1).balance (obsPipeline { id := ((getOrCreateUser (getOrCreateUser s e.pfrom).2 e.pto).1).id, balance := ((getOrCreateUser (getOrCreateUser s e.pfrom).2 e.pto).1).balance + e.value, observationCount := ((getOrCreateUser (getOrCreateUser s e.pfrom).2 e.pto).1).observationCount, lastHourTimestamp := ((getOrCreateUser (getOrCreateUser s e.pfrom).2 e.pto).1).lastHourTimestamp } e.timestamp ((getOrCreateUser (getOrCreateUser s e.pfrom).2 e.pto).1).balance (obsPipeline { id := ((getOrCreateUser s e.pfrom).1).id, balance := ((getOrCreateUser s e.pfrom).1).balance - e.value, observationCount := ((getOrCreateUser s e.pfrom).1).observationCount, lastHourTimestamp := ((getOrCreateUser s e.pfrom).1).lastHourTimestamp } e.timestamp ((getOrCreateUser s e.pfrom).1).balance (saveUser (saveUser (saveUser (getOrCreateUser (getOrCreateUser (getOrCreateUser s e.pfrom).2 e.pto).2 ZERO_ADDRESS).2 { id := ((getOrCreateUser s e.pfrom).1).id, balance := ((getOrCreateUser s e.pfrom).1).balance - e.value, observationCount := ((getOrCreateUser s e.pfrom).1).observationCount, lastHourTimestamp := ((getOrCreateUser s e.pfrom).1).lastHourTimestamp }) { id := ((getOrCreateUser (getOrCreateUser s e.pfrom).2 e.pto).1).id, balance := ((getOrCreateUser (getOrCreateUser s e.pfrom).2 e.pto).1).balance + e.value, observationCount := ((getOrCreateUser (getOrCreateUser s e.pfrom).2 e.pto).1).observationCount, lastHourTimestamp := ((getOrCreateUser (getOrCreateUser s e.pfrom).2 e.pto).1).lastHourTimestamp }) (getOrCreateUser (getOrCreateUser (getOrCreateUser s e.pfrom).2 e.pto).2 ZERO_ADDRESS).1)))) e.pfrom
      (astepRaw (aexec es e.pfrom) e.timestamp (-e.value)) := by
    refine accMatches_step (saveUser (saveUser (saveUser (getOrCreateUser (getOrCreateUser (getOrCreateUser s e.pfrom).2 e.pto).2 ZERO_ADDRESS).2 { id := ((getOrCreateUser s e.pfrom).1).id, balance := ((getOrCreateUser s e.pfrom).1).balance - e.value, observationCount := ((getOrCreateUser s e.pfrom).1).observationCount, lastHourTimestamp := ((getOrCreateUser s e.pfrom).1).lastHourTimestamp }) { id := ((getOrCreateUser (getOrCreateUser s e.pfrom).2 e.pto).1).id, balance := ((getOrCreateUser (getOrCreateUser s e.pfrom).2 e.pto).1).balance + e.value, observationCount := ((getOrCreateUser (getOrCreateUser s e.pfrom).2 e.pto).1).observationCount, lastHourTimestamp := ((getOrCreateUser (getOrCreateUser s e.pfrom).2 e.pto).1).lastHourTimestamp }) (getOrCreateUser (getOrCreateUser (getOrCreateUser s e.pfrom).2 e.pto).2 ZERO_ADDRESS).1) (obsPipeline (getOrCreateUser (getOrCreateUser (getOrCreateUser s e.pfrom).2 e.pto).2 ZERO_ADDRESS).1 e.timestamp ((getOrCreateUser (getOrCreateUser (getOrCreateUser s e.pfrom).2 e.pto).2 ZERO_ADDRESS).1).balance (obsPipeline { id := ((getOrCreateUser (getOrCreateUser s e.pfrom).2 e.pto).1).id, balance := ((getOrCreateUser (getOrCreateUser s e.pfrom).2 e.pto).1).balance + e.value, observationCount := ((getOrCreateUser (getOrCreateUser s e.pfrom).2 e.pto).1).observationCount, lastHourTimestamp := ((getOrCreateUser (getOrCreateUser s e.pfrom).2 e.pto).1).lastHourTimestamp } e.timestamp ((getOrCreateUser (getOrCreateUser s e.pfrom).2 e.pto).1).balance (obsPipeline { id := ((getOrCreateUser s e.pfrom).1).id, balance := ((getOrCreateUser s e.pfrom).1).balance - e.value, observationCount := ((getOrCreateUser s e.pfrom).1).observationCount, lastHourTimestamp := ((getOrCreateUser s e.pfrom).1).lastHourTimestamp } e.timestamp ((getOrCreateUser s e.pfrom).1).balance (saveUser (saveUser (saveUser (getOrCreateUser (getOrCreateUser (getOrCreateUser s e.pfrom).2 e.pto).2 ZERO_ADDRESS).2 { id := ((getOrCreateUser s e.pfrom).1).id, balance := ((getOrCreateUser s e.pfrom).1).balance - e.value, observationCount := ((getOrCreateUser s e.pfrom).1).observationCount, lastHourTimestamp := ((getOrCreateUser s e.pfrom).1).lastHourTimestamp }) { id := ((getOrCreateUser (getOrCreateUser s e.pfrom).2 e.pto).1).id, balance := ((getOrCreateUser (getOrCreateUser s e.pfrom).2 e.pto).1).balance + e.value, observationCount := ((getOrCreateUser (getOrCreateUser s e.pfrom).2 e.pto).1).observationCount, lastHourTimestamp := ((getOrCreateUser (getOrCreateUser s e.pfrom).2 e.pto).1).lastHourTimestamp }) (getOrCreateUser (getOrCreateUser (getOrCreateUser s e.pfrom).2 e.pto).2 ZERO_ADDRESS).1)))) e.pfrom (aexec es e.pfrom) ({ id := ((getOrCreateUser s e.pfrom).1).id, balance := ((getOrCreateUser s e.pfrom).1).balance - e.value, observationCount := ((getOrCreateUser s e.pfrom).1).observationCount, lastHourTimestamp := ((getOrCreateUser s e.pfrom).1).lastHourTimestamp }) e.timestamp
      (((getOrCreateUser s e.pfrom).1).balance) (-e.value) hFRpid ?_ ?_ ?_ hFb (habsWF e.pfrom) (habsHead e.pfrom) ht
      uSSf ?_ ?_ ?_ ?_
    · show ((getOrCreateUser s e.pfrom).1 : User).balance - e.value = (aexec es e.pfrom).balance + -e.value
      rw [hFb]
      ring
    · exact hFc
    · exact hFl
    · intro b
      rw [obsSS e.pfrom b]
      exact (hrel e.pfrom).1 b
    · exact chainInStore_mono s _ e.pfrom _ (fun y hy => obsSS e.pfrom y) (hrel e.pfrom).2.1
    · rw [obsPipeline_loadUser_other ((getOrCreateUser (getOrCreateUser (getOrCreateUser s e.pfrom).2 e.pto).2 ZERO_ADDRESS).1) _ _ _ _ (by rw [spec3.1]; exact hf0),
        obsPipeline_loadUser_other ({ id := ((getOrCreateUser (getOrCreateUser s e.pfrom).2 e.pto).1).id, balance := ((getOrCreateUser (getOrCreateUser s e.pfrom).2 e.pto).1).balance + e.value, observationCount := ((getOrCreateUser (getOrCreateUser s e.pfrom).2 e.pto).1).observationCount, lastHourTimestamp := ((getOrCreateUser (getOrCreateUser s e.pfrom).2 e.pto).1).lastHourTimestamp }) _ _ _ _ (by rw [hTRpid]; exact hne)]
    · intro y
      rw [obsPipeline_loadObs_other ((getOrCreateUser (getOrCreateUser (getOrCreateUser s e.pfrom).2 e.pto).2 ZERO_ADDRESS).1) _ _ _ _ _ (by rw [spec3.1]; exact hf0),
        obsPipeline_loadObs_other ({ id := ((getOrCreateUser (getOrCreateUser s e.pfrom).2 e.pto).1).id, balance := ((getOrCreateUser (getOrCreateUser s e.pfrom).2 e.pto).1).balance + e.value, observationCount := ((getOrCreateUser (getOrCreateUser s e.pfrom).2 e.pto).1).observationCount, lastHourTimestamp := ((getOrCreateUser (getOrCreateUser s e.pfrom).2 e.pto).1).lastHourTimestamp }) _ _ _ _ _ (by rw [hTRpid]; exact hne)]
  have uP1t : loadUser (obsPipeline { id := ((getOrCreateUser s e.pfrom).1).id, balance := ((getOrCreateUser s e.pfrom).1).balance - e.value, observationCount := ((getOrCreateUser s e.pfrom).1).observationCount, lastHourTimestamp := ((getOrCreateUser s e.pfrom).1).lastHourTimestamp } e.timestamp ((getOrCreateUser s e.pfrom).1).balance (saveUser (saveUser (saveUser (getOrCreateUser (getOrCreateUser (getOrCreateUser s e.pfrom).2 e.pto).2 ZERO_ADDRESS).2 { id := ((getOrCreateUser s e.pfrom).1).id, balance := ((getOrCreateUser s e.pfrom).1).balance - e.value, observationCount := ((getOrCreateUser s e.pfrom).1).observationCount, lastHourTimestamp := ((getOrCreateUser s e.pfrom).1).lastHourTimestamp }) { id := ((getOrCreateUser (getOrCreateUser s e.pfrom).2 e.pto).1).id, balance := ((getOrCreateUser (getOrCreateUser s e.pfrom).2 e.pto).1).balance + e.value, observationCount := ((getOrCreateUser (getOrCreateUser s e.pfrom).2 e.pto).1).observationCount, lastHourTimestamp := ((getOrCreateUser (getOrCreateUser s e.pfrom).2 e.pto).1).lastHourTimestamp }) (getOrCreateUser (getOrCreateUser (getOrCreateUser s e.pfrom).2 e.pto).2 ZERO_ADDRESS).1)) e.pto = some ({ id := ((getOrCreateUser (getOrCreateUser s e.pfrom).2 e.pto).1).id, balance := ((getOrCreateUser (getOrCreateUser s e.pfrom).2 e.pto).1).balance + e.value, observationCount := ((getOrCreateUser (getOrCreateUser s e.pfrom).2 e.pto).1).observationCount, lastHourTimestamp := ((getOrCreateUser (getOrCreateUser s e.pfrom).2 e.pto).1).lastHourTimestamp }) := by
    rw [obsPipeline_loadUser_other ({ id := ((getOrCreateUser s e.pfrom).1).id, balance := ((getOrCreateUser s e.pfrom).1).balance - e.value, observationCount := ((getOrCreateUser s e.pfrom).1).observationCount, lastHourTimestamp := ((getOrCreateUser s e.pfrom).1).lastHourTimestamp }) _ _ _ _ (by rw [hFRpid]; exact Ne.symm hne)]
    exact uSSt
  have obsP1t : ∀ y, loadObs (obsPipeline { id := ((getOrCreateUser s e.pfrom).1).id, balance := ((getOrCreateUser s e.pfrom).1).balance - e.value, observationCount := ((getOrCreateUser s e.pfrom).1).observationCount, lastHourTimestamp := ((getOrCreateUser s e.pfrom).1).lastHourTimestamp } e.timestamp ((getOrCreateUser s e.pfrom).1).balance (saveUser (saveUser (saveUser (getOrCreateUser (getOrCreateUser (getOrCreateUser s e.pfrom).2 e.pto).2 ZERO_ADDRESS).2 { id := ((getOrCreateUser s e.pfrom).1).id, balance := ((getOrCreateUser s e.pfrom).1).balance - e.value, observationCount := ((getOrCreateUser s e.pfrom).1).observationCount, lastHourTimestamp := ((getOrCreateUser s e.pfrom).1).lastHourTimestamp }) { id := ((getOrCreateUser (getOrCreateUser s e.pfrom).2 e.pto).1).id, balance := ((getOrCreateUser (getOrCreateUser s e.pfrom).2 e.pto).1).balance + e.value, observationCount := ((getOrCreateUser (getOrCreateUser s e.pfrom).2 e.pto).1).observationCount, lastHourTimestamp := ((getOrCreateUser (getOrCreateUser s e.pfrom).2 e.pto).1).lastHourTimestamp }) (getOrCreateUser (getOrCreateUser (getOrCreateUser s e.pfrom).2 e.pto).2 ZERO_ADDRESS).1)) e.pto y = loadObs s e.pto y := by
    intro y
    rw [obsPipeline_loadObs_other ({ id := ((getOrCreateUser s e.pfrom).1).id, balance := ((getOrCreateUser s e.pfrom).1).balance - e.value, observationCount := ((getOrCreateUser s e.pfrom).1).observationCount, lastHourTimestamp := ((getOrCreateUser s e.pfrom).1).lastHourTimestamp }) _ _ _ _ _ (by rw [hFRpid]; exact Ne.symm hne)]
    exact obsSS e.pto y
  have stepT : AccMatches (obsPipeline (getOrCreateUser (getOrCreateUser (getOrCreateUser s e.pfrom).2 e.pto).2 ZERO_ADDRESS).1 e.timestamp ((getOrCreateUser (getOrCreateUser (getOrCreateUser s e.pfrom).2 e.pto).2 ZERO_ADDRESS).1).balance (obsPipeline { id := ((getOrCreateUser (getOrCreateUser s e.pfrom).2 e.pto).1).id, balance := ((getOrCreateUser (getOrCreateUser s e.pfrom).2 e.pto).1).balance + e.value, observationCount := ((getOrCreateUser (getOrCreateUser s e.pfrom).2 e.pto).1).observationCount, lastHourTimestamp := ((getOrCreateUser (getOrCreateUser s e.pfrom).2 e.pto).1).lastHourTimestamp } e.timestamp ((getOrCreateUser (getOrCreateUser s e.pfrom).2 e.pto).1).balance (obsPipeline { id := ((getOrCreateUser s e.pfrom).1).id, balance := ((getOrCreateUser s e.pfrom).1).balance - e.value, observationCount := ((getOrCreateUser s e.pfrom).1).observationCount, lastHourTimestamp := ((getOrCreateUser s e.pfrom).1).lastHourTimestamp } e.timestamp ((getOrCreateUser s e.pfrom).1).balance (saveUser (saveUser (saveUser (getOrCreateUser (getOrCreateUser (getOrCreateUser s e.pfrom).2 e.pto).2 ZERO_ADDRESS).2 { id := ((getOrCreateUser s e.pfrom).1).id, balance := ((getOrCreateUser s e.pfrom).1).balance - e.value, observationCount := ((getOrCreateUser s e.pfrom).1).observationCount, lastHourTimestamp := ((getOrCreateUser s e.pfrom).1).lastHourTimestamp }) { id := ((getOrCreateUser (getOrCreateUser s e.pfrom).2 e.pto).1).id, balance := ((getOrCreateUser (getOrCreateUser s e.pfrom).2 e.pto).1).balance + e.value, observationCount := ((getOrCreateUser (getOrCreateUser s e.pfrom).2 e.pto).1).observationCount, lastHourTimestamp := ((getOrCreateUser (getOrCreateUser s e.pfrom).2 e.pto).1).lastHourTimestamp }) (getOrCreateUser (getOrCreateUser (getOrCreateUser s e.pfrom).2 e.pto).2 ZERO_ADDRESS).1)))) e.pto
      (astepRaw (aexec es e.pto) e.timestamp e.value) := by
    refine accMatches_step (obsPipeline { id := ((getOrCreateUser s e.pfrom).1).id, balance := ((getOrCreateUser s e.pfrom).1).balance - e.value, observationCount := ((getOrCreateUser s e.pfrom).1).observationCount, lastHourTimestamp := ((getOrCreateUser s e.pfrom).1).lastHourTimestamp } e.timestamp ((getOrCreateUser s e.pfrom).1).balance (saveUser (saveUser (saveUser (getOrCreateUser (getOrCreateUser (getOrCreateUser s e.pfrom).2 e.pto).2 ZERO_ADDRESS).2 { id := ((getOrCreateUser s e.pfrom).1).id, balance := ((getOrCreateUser s e.pfrom).1).balance - e.value, observationCount := ((getOrCreateUser s e.pfrom).1).observationCount, lastHourTimestamp := ((getOrCreateUser s e.pfrom).1).lastHourTimestamp }) { id := ((getOrCreateUser (getOrCreateUser s e.pfrom).2 e.pto).1).id, balance := ((getOrCreateUser (getOrCreateUser s e.pfrom).2 e.pto).1).balance + e.value, observationCount := ((getOrCreateUser (getOrCreateUser s e.pfrom).2 e.pto).1).observationCount, lastHourTimestamp := ((getOrCreateUser (getOrCreateUser s e.pfrom).2 e.pto).1).lastHourTimestamp }) (getOrCreateUser (getOrCreateUser (getOrCreateUser s e.pfrom).2 e.pto).2 ZERO_ADDRESS).1)) (obsPipeline (getOrCreateUser (getOrCreateUser (getOrCreateUser s e.pfrom).2 e.pto).2 ZERO_ADDRESS).1 e.timestamp ((getOrCreateUser (getOrCreateUser (getOrCreateUser s e.pfrom).2 e.pto).2 ZERO_ADDRESS).1).balance (obsPipeline { id := ((getOrCreateUser (getOrCreateUser s e.pfrom).2 e.pto).1).id, balance := ((getOrCreateUser (getOrCreateUser s e.pfrom).2 e.pto).1).balance + e.value, observationCount := ((getOrCreateUser (getOrCreateUser s e.pfrom).2 e.pto).1).observationCount, lastHourTimestamp := ((getOrCreateUser (getOrCreateUser s e.pfrom).2 e.pto).1).lastHourTimestamp } e.timestamp ((getOrCreateUser (getOrCreateUser s e.pfrom).2 e.pto).1).balance (obsPipeline { id := ((getOrCreateUser s e.pfrom).1).id, balance := ((getOrCreateUser s e.pfrom).1).balance - e.value, observationCount := ((getOrCreateUser s e.pfrom).1).observationCount, lastHourTimestamp := ((getOrCreateUser s e.pfrom).1).lastHourTimestamp } e.timestamp ((getOrCreateUser s e.pfrom).1).balance (saveUser (saveUser (saveUser (getOrCreateUser (getOrCreateUser (getOrCreateUser s e.pfrom).2 e.pto).2 ZERO_ADDRESS).2 { id := ((getOrCreateUser s e.pfrom).1).id, balance := ((getOrCreateUser s e.pfrom).1).balance - e.value, observationCount := ((getOrCreateUser s e.pfrom).1).observationCount, lastHourTimestamp := ((getOrCreateUser s e.pfrom).1).lastHourTimestamp }) { id := ((getOrCreateUser (getOrCreateUser s e.pfrom).2 e.pto).1).id, balance := ((getOrCreateUser (getOrCreateUser s e.pfrom).2 e.pto).1).balance + e.value, observationCount := ((getOrCreateUser (getOrCreateUser s e.pfrom).2 e.pto).1).observationCount, lastHourTimestamp := ((getOrCreateUser (getOrCreateUser s e.pfrom).2 e.pto).1).lastHourTimestamp }) (getOrCreateUser (getOrCreateUser (getOrCreateUser s e.pfrom).2 e.pto).2 ZERO_ADDRESS).1)))) e.pto (aexec es e.pto) ({ id := ((getOrCreateUser (getOrCreateUser s e.pfrom).2 e.pto).1).id, balance := ((getOrCreateUser (getOrCreateUser s e.pfrom).2 e.pto).1).balance + e.value, observationCount := ((getOrCreateUser (getOrCreateUser s e.pfrom).2 e.pto).1).observationCount, lastHourTimestamp := ((getOrCreateUser (getOrCreateUser s e.pfrom).2 e.pto).1).lastHourTimestamp }) e.timestamp
      (((getOrCreateUser (getOrCreateUser s e.pfrom).2 e.pto).1).balance) e.value hTRpid ?_ ?_ ?_ hTb (habsWF e.pto) (habsHead e.pto) ht
      uP1t ?_ ?_ ?_ ?_
    · show ((getOrCreateUser (getOrCreateUser s e.pfrom).2 e.pto).1 : User).balance + e.value = (aexec es e.pto).balance + e.value
      rw [hTb]
    · exact hTc
    · exact hTl
    · intro b
      rw [obsP1t b]
      exact (hrel e.pto).1 b
    · exact chainInStore_mono s _ e.pto _ (fun y hy => obsP1t y) (hrel e.pto).2.1
    · rw [obsPipeline_loadUser_other ((getOrCreateUser (getOrCreateUser (getOrCreateUser s e.pfrom).2 e.pto).2 ZERO_ADDRESS).1) _ _ _ _ (by rw [spec3.1]; exact ht0)]
    · intro y
      rw [obsPipeline_loadObs_other ((getOrCreateUser (getOrCreateUser (getOrCreateUser s e.pfrom).2 e.pto).2 ZERO_ADDRESS).1) _ _ _ _ _ (by rw [spec3.1]; exact ht0)]
  have uP2z : loadUser (obsPipeline { id := ((getOrCreateUser (getOrCreateUser s e.pfrom).2 e.pto).1).id, balance := ((getOrCreateUser (getOrCreateUser s e.pfrom).2 e.pto).1).balance + e.value, observationCount := ((getOrCreateUser (getOrCreateUser s e.pfrom).2 e.pto).1).observationCount, lastHourTimestamp := ((getOrCreateUser (getOrCreateUser s e.pfrom).2 e.pto).1).lastHourTimestamp } e.timestamp ((getOrCreateUser (getOrCreateUser s e.pfrom).2 e.pto).1).balance (obsPipeline { id := ((getOrCreateUser s e.pfrom).1).id, balance := ((getOrCreateUser s e.pfrom).1).balance - e.value, observationCount := ((getOrCreateUser s e.pfrom).1).observationCount, lastHourTimestamp := ((getOrCreateUser s e.pfrom).1).lastHourTimestamp } e.timestamp ((getOrCreateUser s e.pfrom).1).balance (saveUser (saveUser (saveUser (getOrCreateUser (getOrCreateUser (getOrCreateUser s e.pfrom).2 e.pto).2 ZERO_ADDRESS).2 { id := ((getOrCreateUser s e.pfrom).1).id, balance := ((getOrCreateUser s e.pfrom).1).balance - e.value, observationCount := ((getOrCreateUser s e.pfrom).1).observationCount, lastHourTimestamp := ((getOrCreateUser s e.pfrom).1).lastHourTimestamp }) { id := ((getOrCreateUser (getOrCreateUser s e.pfrom).2 e.pto).1).id, balance := ((getOrCreateUser (getOrCreateUser s e.pfrom).2 e.pto).1).balance + e.value, observationCount := ((getOrCreateUser (getOrCreateUser s e.pfrom).2 e.pto).1).observationCount, lastHourTimestamp := ((getOrCreateUser (getOrCreateUser s e.pfrom).2 e.pto).1).lastHourTimestamp }) (getOrCreateUser (getOrCreateUser (getOrCreateUser s e.pfrom).2 e.pto).2 ZERO_ADDRESS).1))) ZERO_ADDRESS = some ((getOrCreateUser (getOrCreateUser (getOrCreateUser s e.pfrom).2 e.pto).2 ZERO_ADDRESS).1) := by
    rw [obsPipeline_loadUser_other ({ id := ((getOrCreateUser (getOrCreateUser s e.pfrom).2 e.pto).1).id, balance := ((getOrCreateUser (getOrCreateUser s e.pfrom).2 e.pto).1).balance + e.value, observationCount := ((getOrCreateUser (getOrCreateUser s e.pfrom).2 e.pto).1).observationCount, lastHourTimestamp := ((getOrCreateUser (getOrCreateUser s e.pfrom).2 e.pto).1).lastHourTimestamp }) _ _ _ _ (by rw [hTRpid]; exact fun h => ht0 h.symm),
      obsPipeline_loadUser_other ({ id := ((getOrCreateUser s e.pfrom).1).id, balance := ((getOrCreateUser s e.pfrom).1).balance - e.value, observationCount := ((getOrCreateUser s e.pfrom).1).observationCount, lastHourTimestamp := ((getOrCreateUser s e.pfrom).1).lastHourTimestamp }) _ _ _ _ (by rw [hFRpid]; exact fun h => hf0 h.symm)]
    exact uSSz
  have obsP2z : ∀ y, loadObs (obsPipeline { id := ((getOrCreateUser (getOrCreateUser s e.pfrom).2 e.pto).1).id, balance := ((getOrCreateUser (getOrCreateUser s e.pfrom).2 e.pto).1).balance + e.value, observationCount := ((getOrCreateUser (getOrCreateUser s e.pfrom).2 e.pto).1).observationCount, lastHourTimestamp := ((getOrCreateUser (getOrCreateUser s e.pfrom).2 e.pto).1).lastHourTimestamp } e.timestamp ((getOrCreateUser (getOrCreateUser s e.pfrom).2 e.pto).1).balance (obsPipeline { id := ((getOrCreateUser s e.pfrom).1).id, balance := ((getOrCreateUser s e.pfrom).1).balance - e.value, observationCount := ((getOrCreateUser s e.pfrom).1).observationCount, lastHourTimestamp := ((getOrCreateUser s e.pfrom).1).lastHourTimestamp } e.timestamp ((getOrCreateUser s e.pfrom).1).balance (saveUser (saveUser (saveUser (getOrCreateUser (getOrCreateUser (getOrCreateUser s e.pfrom).2 e.pto).2 ZERO_ADDRESS).2 { id := ((getOrCreateUser s e.pfrom).1).id, balance := ((getOrCreateUser s e.pfrom).1).balance - e.value, observationCount := ((getOrCreateUser s e.pfrom).1).observationCount, lastHourTimestamp := ((getOrCreateUser s e.pfrom).1).lastHourTimestamp }) { id := ((getOrCreateUser (getOrCreateUser s e.pfrom).2 e.pto).1).id, balance := ((getOrCreateUser (getOrCreateUser s e.pfrom).2 e.pto).1).balance + e.value, observationCount := ((getOrCreateUser (getOrCreateUser s e.pfrom).2 e.pto).1).observationCount, lastHourTimestamp := ((getOrCreateUser (getOrCreateUser s e.pfrom).2 e.pto).1).lastHourTimestamp }) (getOrCreateUser (getOrCreateUser (getOrCreateUser s e.pfrom).2 e.pto).2 ZERO_ADDRESS).1))) ZERO_ADDRESS y = loadObs s ZERO_ADDRESS y := by
    intro y
    rw [obsPipeline_loadObs_other ({ id := ((getOrCreateUser (getOrCreateUser s e.pfrom).2 e.pto).1).id, balance := ((getOrCreateUser (getOrCreateUser s e.pfrom).2 e.pto).1).balance + e.value, observationCount := ((getOrCreateUser (getOrCreateUser s e.pfrom).2 e.pto).1).observationCount, lastHourTimestamp := ((getOrCreateUser (getOrCreateUser s e.pfrom).2 e.pto).1).lastHourTimestamp }) _ _ _ _ _ (by rw [hTRpid]; exact fun h => ht0 h.symm),
      obsPipeline_loadObs_other ({ id := ((getOrCreateUser s e.pfrom).1).id, balance := ((getOrCreateUser s e.pfrom).1).balance - e.value, observationCount := ((getOrCreateUser s e.pfrom).1).observationCount, lastHourTimestamp := ((getOrCreateUser s e.pfrom).1).lastHourTimestamp }) _ _ _ _ _ (by rw [hFRpid]; exact fun h => hf0 h.symm)]
    exact obsSS ZERO_ADDRESS y
  have stepZ : AccMatches (obsPipeline (getOrCreateUser (getOrCreateUser (getOrCreateUser s e.pfrom).2 e.pto).2 ZERO_ADDRESS).1 e.timestamp ((getOrCreateUser (getOrCreateUser (getOrCreateUser s e.pfrom).2 e.pto).2 ZERO_ADDRESS).1).balance (obsPipeline { id := ((getOrCreateUser (getOrCreateUser s e.pfrom).2 e.pto).1).id, balance := ((getOrCreateUser (getOrCreateUser s e.pfrom).2 e.pto).1).balance + e.value, observationCount := ((getOrCreateUser (getOrCreateUser s e.pfrom).2 e.pto).1).observationCount, lastHourTimestamp := ((getOrCreateUser (getOrCreateUser s e.pfrom).2 e.pto).1).lastHourTimestamp } e.timestamp ((getOrCreateUser (getOrCreateUser s e.pfrom).2 e.pto).1).balance (obsPipeline { id := ((getOrCreateUser s e.pfrom).1).id, balance := ((getOrCreateUser s e.pfrom).1).balance - e.value, observationCount := ((getOrCreateUser s e.pfrom).1).observationCount, lastHourTimestamp := ((getOrCreateUser s e.pfrom).1).lastHourTimestamp } e.timestamp ((getOrCreateUser s e.pfrom).1).balance (saveUser (saveUser (saveUser (getOrCreateUser (getOrCreateUser (getOrCreateUser s e.pfrom).2 e.pto).2 ZERO_ADDRESS).2 { id := ((getOrCreateUser s e.pfrom).1).id, balance := ((getOrCreateUser s e.pfrom).1).balance - e.value, observationCount := ((getOrCreateUser s e.pfrom).1).observationCount, lastHourTimestamp := ((getOrCreateUser s e.pfrom).1).lastHourTimestamp }) { id := ((getOrCreateUser (getOrCreateUser s e.pfrom).2 e.pto).1).id, balance := ((getOrCreateUser (getOrCreateUser s e.pfrom).2 e.pto).1).balance + e.value, observationCount := ((getOrCreateUser (getOrCreateUser s e.pfrom).2 e.pto).1).observationCount, lastHourTimestamp := ((getOrCreateUser (getOrCreateUser s e.pfrom).2 e.pto).1).lastHourTimestamp }) (getOrCreateUser (getOrCreateUser (getOrCreateUser s e.pfrom).2 e.pto).2 ZERO_ADDRESS).1)))) ZERO_ADDRESS
      (astepRaw (aexec es ZERO_ADDRESS) e.timestamp 0) := by
    refine accMatches_step (obsPipeline { id := ((getOrCreateUser (getOrCreateUser s e.pfrom).2 e.pto).1).id, balance := ((getOrCreateUser (getOrCreateUser s e.pfrom).2 e.pto).1).balance + e.value, observationCount := ((getOrCreateUser (getOrCreateUser s e.pfrom).2 e.pto).1).observationCount, lastHourTimestamp := ((getOrCreateUser (getOrCreateUser s e.pfrom).2 e.pto).1).lastHourTimestamp } e.timestamp ((getOrCreateUser (getOrCreateUser s e.pfrom).2 e.pto).1).balance (obsPipeline { id := ((getOrCreateUser s e.pfrom).1).id, balance := ((getOrCreateUser s e.pfrom).1).balance - e.value, observationCount := ((getOrCreateUser s e.pfrom).1).observationCount, lastHourTimestamp := ((getOrCreateUser s e.pfrom).1).lastHourTimestamp } e.timestamp ((getOrCreateUser s e.pfrom).1).balance (saveUser (saveUser (saveUser (getOrCreateUser (getOrCreateUser (getOrCreateUser s e.pfrom).2 e.pto).2 ZERO_ADDRESS).2 { id := ((getOrCreateUser s e.pfrom).1).id, balance := ((getOrCreateUser s e.pfrom).1).balance - e.value, observationCount := ((getOrCreateUser s e.pfrom).1).observationCount, lastHourTimestamp := ((getOrCreateUser s e.pfrom).1).lastHourTimestamp }) { id := ((getOrCreateUser (getOrCreateUser s e.pfrom).2 e.pto).1).id, balance := ((getOrCreateUser (getOrCreateUser s e.pfrom).2 e.pto).1).balance + e.value, observationCount := ((getOrCreateUser (getOrCreateUser s e.pfrom).2 e.pto).1).observationCount, lastHourTimestamp := ((getOrCreateUser (getOrCreateUser s e.pfrom).2 e.pto).1).lastHourTimestamp }) (getOrCreateUser (getOrCreateUser (getOrCreateUser s e.pfrom).2 e.pto).2 ZERO_ADDRESS).1))) (obsPipeline (getOrCreateUser (getOrCreateUser (getOrCreateUser s e.pfrom).2 e.pto).2 ZERO_ADDRESS).1 e.timestamp ((getOrCreateUser (getOrCreateUser (getOrCreateUser s e.pfrom).2 e.pto).2 ZERO_ADDRESS).1).balance (obsPipeline { id := ((getOrCreateUser (getOrCreateUser s e.pfrom).2 e.pto).1).id, balance := ((getOrCreateUser (getOrCreateUser s e.pfrom).2 e.pto).1).balance + e.value, observationCount := ((getOrCreateUser (getOrCreateUser s e.pfrom).2 e.pto).1).observationCount, lastHourTimestamp := ((getOrCreateUser (getOrCreateUser s e.pfrom).2 e.pto).1).lastHourTimestamp } e.timestamp ((getOrCreateUser (getOrCreateUser s e.pfrom).2 e.pto).1).balance (obsPipeline { id := ((getOrCreateUser s e.pfrom).1).id, balance := ((getOrCreateUser s e.pfrom).1).balance - e.value, observationCount := ((getOrCreateUser s e.pfrom).1).observationCount, lastHourTimestamp := ((getOrCreateUser s e.pfrom).1).lastHourTimestamp } e.timestamp ((getOrCreateUser s e.pfrom).1).balance (saveUser (saveUser (saveUser (getOrCreateUser (getOrCreateUser (getOrCreateUser s e.pfrom).2 e.pto).2 ZERO_ADDRESS).2 { id := ((getOrCreateUser s e.pfrom).1).id, balance := ((getOrCreateUser s e.pfrom).1).balance - e.value, observationCount := ((getOrCreateUser s e.pfrom).1).observationCount, lastHourTimestamp := ((getOrCreateUser s e.pfrom).1).lastHourTimestamp }) { id := ((getOrCreateUser (getOrCreateUser s e.pfrom).2 e.pto).1).id, balance := ((getOrCreateUser (getOrCreateUser s e.pfrom).2 e.pto).1).balance + e.value, observationCount := ((getOrCreateUser (getOrCreateUser s e.pfrom).2 e.pto).1).observationCount, lastHourTimestamp := ((getOrCreateUser (getOrCreateUser s e.pfrom).2 e.pto).1).lastHourTimestamp }) (getOrCreateUser (getOrCreateUser (getOrCreateUser s e.pfrom).2 e.pto).2 ZERO_ADDRESS).1)))) ZERO_ADDRESS (aexec es ZERO_ADDRESS) ((getOrCreateUser (getOrCreateUser (getOrCreateUser s e.pfrom).2 e.pto).2 ZERO_ADDRESS).1)
      e.timestamp (((getOrCreateUser (getOrCreateUser (getOrCreateUser s e.pfrom).2 e.pto).2 ZERO_ADDRESS).1).balance) 0 spec3.1 ?_ hZc hZl hZb (habsWF ZERO_ADDRESS)
      (habsHead ZERO_ADDRESS) ht uP2z ?_ ?_ rfl (fun y => rfl)
    · show ((getOrCreateUser (getOrCreateUser (getOrCreateUser s e.pfrom).2 e.pto).2 ZERO_ADDRESS).1 : User).balance = (aexec es ZERO_ADDRESS).balance + 0
      rw [hZb]
      ring
    · intro b
      rw [obsP2z b]
      exact (hrel ZERO_ADDRESS).1 b
    · exact chainInStore_mono s _ ZERO_ADDRESS _ (fun y hy => obsP2z y)
        (hrel ZERO_ADDRESS).2.1
  intro x
  rw [hres, aexec_append]
  by_cases hx1 : x = e.pfrom
  · subst hx1
    rw [astepAcc_touch (touches_pfrom hv hf0), delta_pfrom e hv hf0 hne]
    exact stepF
  · by_cases hx2 : x = e.pto
    · subst hx2
      rw [astepAcc_touch (touches_pto hv ht0), delta_pto e hv ht0 hne]
      exact stepT
    · by_cases hx3 : x = ZERO_ADDRESS
      · subst hx3
        have hdz : delta e ZERO_ADDRESS = 0 := by
          rw [delta_zero_addr e hv, if_neg hf0, if_neg ht0]
        rw [astepAcc_touch (touches_zero hv), hdz]
        exact stepZ
      · rw [astepAcc_no (fun htc => by
          rcases touches_cases htc with h | h | h
          · exact hx3 h
          · exact hx1 h
          · exact hx2 h)]
        refine accMatches_congr s (obsPipeline (getOrCreateUser (getOrCreateUser (getOrCreateUser s e.pfrom).2 e.pto).2 ZERO_ADDRESS).1 e.timestamp ((getOrCreateUser (getOrCreateUser (getOrCreateUser s e.pfrom).2 e.pto).2 ZERO_ADDRESS).1).balance (obsPipeline { id := ((getOrCreateUser (getOrCreateUser s e.pfrom).2 e.pto).1).id, balance := ((getOrCreateUser (getOrCreateUser s e.pfrom).2 e.pto).1).balance + e.value, observationCount := ((getOrCreateUser (getOrCreateUser s e.pfrom).2 e.pto).1).observationCount, lastHourTimestamp := ((getOrCreateUser (getOrCreateUser s e.pfrom).2 e.pto).1).lastHourTimestamp } e.timestamp ((getOrCreateUser (getOrCreateUser s e.pfrom).2 e.pto).1).balance (obsPipeline { id := ((getOrCreateUser s e.pfrom).1).id, balance := ((getOrCreateUser s e.pfrom).1).balance - e.value, observationCount := ((getOrCreateUser s e.pfrom).1).observationCount, lastHourTimestamp := ((getOrCreateUser s e.pfrom).1).lastHourTimestamp } e.timestamp ((getOrCreateUser s e.pfrom).1).balance (saveUser (saveUser (saveUser (getOrCreateUser (getOrCreateUser (getOrCreateUser s e.pfrom).2 e.pto).2 ZERO_ADDRESS).2 { id := ((getOrCreateUser s e.pfrom).1).id, balance := ((getOrCreateUser s e.pfrom).1).balance - e.value, observationCount := ((getOrCreateUser s e.pfrom).1).observationCount, lastHourTimestamp := ((getOrCreateUser s e.pfrom).1).lastHourTimestamp }) { id := ((getOrCreateUser (getOrCreateUser s e.pfrom).2 e.pto).1).id, balance := ((getOrCreateUser (getOrCreateUser s e.pfrom).2 e.pto).1).balance + e.value, observationCount := ((getOrCreateUser (getOrCreateUser s e.pfrom).2 e.pto).1).observationCount, lastHourTimestamp := ((getOrCreateUser (getOrCreateUser s e.pfrom).2 e.pto).1).lastHourTimestamp }) (getOrCreateUser (getOrCreateUser (getOrCreateUser s e.pfrom).2 e.pto).2 ZERO_ADDRESS).1)))) x _ ?_ ?_ (hrel x)
        · rw [obsPipeline_loadUser_other ((getOrCreateUser (getOrCreateUser (getOrCreateUser s e.pfrom).2 e.pto).2 ZERO_ADDRESS).1) _ _ _ _ (by rw [spec3.1]; exact hx3),
            obsPipeline_loadUser_other ({ id := ((getOrCreateUser (getOrCreateUser s e.pfrom).2 e.pto).1).id, balance := ((getOrCreateUser (getOrCreateUser s e.pfrom).2 e.pto).1).balance + e.value, observationCount := ((getOrCreateUser (getOrCreateUser s e.pfrom).2 e.pto).1).observationCount, lastHourTimestamp := ((getOrCreateUser (getOrCreateUser s e.pfrom).2 e.pto).1).lastHourTimestamp }) _ _ _ _ (by rw [hTRpid]; exact hx2),
            obsPipeline_loadUser_other ({ id := ((getOrCreateUser s e.pfrom).1).id, balance := ((getOrCreateUser s e.pfrom).1).balance - e.value, observationCount := ((getOrCreateUser s e.pfrom).1).observationCount, lastHourTimestamp := ((getOrCreateUser s e.pfrom).1).lastHourTimestamp }) _ _ _ _ (by rw [hFRpid]; exact hx1),
            loadUser_saveUser, if_neg (by rw [spec3.1]; exact hx3),
            loadUser_saveUser, if_neg (by rw [hTRpid]; exact hx2),
            loadUser_saveUser, if_neg (by rw [hFRpid]; exact hx1),
            spec3.2.2.2.1 x hx3, spec2.2.2.2.1 x hx2, spec1.2.2.2.1 x hx1]
        · intro y
          rw [obsPipeline_loadObs_other ((getOrCreateUser (getOrCreateUser (getOrCreateUser s e.pfrom).2 e.pto).2 ZERO_ADDRESS).1) _ _ _ _ _ (by rw [spec3.1]; exact hx3),
            obsPipeline_loadObs_other ({ id := ((getOrCreateUser (getOrCreateUser s e.pfrom).2 e.pto).1).id, balance := ((getOrCreateUser (getOrCreateUser s e.pfrom).2 e.pto).1).balance + e.value, observationCount := ((getOrCreateUser (getOrCreateUser s e.pfrom).2 e.pto).1).observationCount, lastHourTimestamp := ((getOrCreateUser (getOrCreateUser s e.pfrom).2 e.pto).1).lastHourTimestamp }) _ _ _ _ _ (by rw [hTRpid]; exact hx2),
            obsPipeline_loadObs_other ({ id := ((getOrCreateUser s e.pfrom).1).id, balance := ((getOrCreateUser s e.pfrom).1).balance - e.value, observationCount := ((getOrCreateUser s e.pfrom).1).observationCount, lastHourTimestamp := ((getOrCreateUser s e.pfrom).1).lastHourTimestamp }) _ _ _ _ _ (by rw [hFRpid]; exact hx1)]
          exact obsSS x y


theorem rel_step_mint (s : Store) (es : List Event) (e : Event)
    (hWF : StoreIdWF s)
    (hrel : ∀ x, AccMatches s x (aexec es x))
    (habsWF : ∀ x, AAccWF (aexec es x))
    (habsHead : ∀ x, headLastLE (aexec es x) e.timestamp)
    (ht : SECONDS_PER_HOUR ≤ e.timestamp) (hv : 0 < e.value)
    (hfz : e.pfrom = ZERO_ADDRESS) (ht0 : e.pto ≠ ZERO_ADDRESS) :
    ∀ x, AccMatches (mintResult s e) x (aexec (es ++ [e]) x) := by
  have hres : mintResult s e = (obsPipeline { id := ((getOrCreateUser (getOrCreateUser (getOrCreateUser s e.pfrom).2 e.pto).2 ZERO_ADDRESS).1).id, balance := ((getOrCreateUser (getOrCreateUser (getOrCreateUser s e.pfrom).2 e.pto).2 ZERO_ADDRESS).1).balance + e.value, observationCount := ((getOrCreateUser (getOrCreateUser (getOrCreateUser s e.pfrom).2 e.pto).2 ZERO_ADDRESS).1).observationCount, lastHourTimestamp := ((getOrCreateUser (getOrCreateUser (getOrCreateUser s e.pfrom).2 e.pto).2 ZERO_ADDRESS).1).lastHourTimestamp } e.timestamp ((getOrCreateUser (getOrCreateUser (getOrCreateUser s e.pfrom).2 e.pto).2 ZERO_ADDRESS).1).balance (obsPipeline { id := ((getOrCreateUser (getOrCreateUser s e.pfrom).2 e.pto).1).id, balance := ((getOrCreateUser (getOrCreateUser s e.pfrom).2 e.pto).1).balance + e.value, observationCount := ((getOrCreateUser (getOrCreateUser s e.pfrom).2 e.pto).1).observationCount, lastHourTimestamp := ((getOrCreateUser (getOrCreateUser s e.pfrom).2 e.pto).1).lastHourTimestamp } e.timestamp ((getOrCreateUser (getOrCreateUser s e.pfrom).2 e.pto).1).balance (saveUser (saveUser (getOrCreateUser (getOrCreateUser (getOrCreateUser s e.pfrom).2 e.pto).2 ZERO_ADDRESS).2 { id := ((getOrCreateUser (getOrCreateUser s e.pfrom).2 e.pto).1).id, balance := ((getOrCreateUser (getOrCreateUser s e.pfrom).2 e.pto).1).balance + e.value, observationCount := ((getOrCreateUser (getOrCreateUser s e.pfrom).2 e.pto).1).observationCount, lastHourTimestamp := ((getOrCreateUser (getOrCreateUser s e.pfrom).2 e.pto).1).lastHourTimestamp }) { id := ((getOrCreateUser (getOrCreateUser (getOrCreateUser s e.pfrom).2 e.pto).2 ZERO_ADDRESS).1).id, balance := ((getOrCreateUser (getOrCreateUser (getOrCreateUser s e.pfrom).2 e.pto).2 ZERO_ADDRESS).1).balance + e.value, observationCount := ((getOrCreateUser (getOrCreateUser (getOrCreateUser s e.pfrom).2 e.pto).2 ZERO_ADDRESS).1).observationCount, lastHourTimestamp := ((getOrCreateUser (getOrCreateUser (getOrCreateUser s e.pfrom).2 e.pto).2 ZERO_ADDRESS).1).lastHourTimestamp }))) := rfl
  have spec1 := getOrCreateUser_spec s e.pfrom hWF
  have wf1 : StoreIdWF (getOrCreateUser s e.pfrom).2 := spec1.2.2.2.2.2
  have spec2 := getOrCreateUser_spec (getOrCreateUser s e.pfrom).2 e.pto wf1
  have wf2 : StoreIdWF (getOrCreateUser (getOrCreateUser s e.pfrom).2 e.pto).2 := spec2.2.2.2.2.2
  have spec3 := getOrCreateUser_spec (getOrCreateUser (getOrCreateUser s e.pfrom).2 e.pto).2 ZERO_ADDRESS wf2
  have hTRpid : ({ id := ((getOrCreateUser (getOrCreateUser s e.pfrom).2 e.pto).1).id, balance := ((getOrCreateUser (getOrCreateUser s e.pfrom).2 e.pto).1).balance + e.value, observationCount := ((getOrCreateUser (getOrCreateUser s e.pfrom).2 e.pto).1).observationCount, lastHourTimestamp := ((getOrCreateUser (getOrCreateUser s e.pfrom).2 e.pto).1).lastHourTimestamp } : User).id = e.pto := spec2.1
  have hTKpid : ({ id := ((getOrCreateUser (getOrCreateUser (getOrCreateUser s e.pfrom).2 e.pto).2 ZERO_ADDRESS).1).id, balance := ((getOrCreateUser (getOrCreateUser (getOrCreateUser s e.pfrom).2 e.pto).2 ZERO_ADDRESS).1).balance + e.value, observationCount := ((getOrCreateUser (getOrCreateUser (getOrCreateUser s e.pfrom).2 e.pto).2 ZERO_ADDRESS).1).observationCount, lastHourTimestamp := ((getOrCreateUser (getOrCreateUser (getOrCreateUser s e.pfrom).2 e.pto).2 ZERO_ADDRESS).1).lastHourTimestamp } : User).id = ZERO_ADDRESS := spec3.1
  have mZ0 : AccMatches s e.pfrom (aexec es ZERO_ADDRESS) := by
    rw [hfz]
    exact hrel ZERO_ADDRESS
  have rFR : ((getOrCreateUser s e.pfrom).1 : User) = ⟨e.pfrom, (aexec es ZERO_ADDRESS).balance,
      ((aexec es ZERO_ADDRESS).chain.length : Int),
      prevBucketOf (aexec es ZERO_ADDRESS).chain⟩ := by
    have := gocu_of_accMatches s e.pfrom (aexec es ZERO_ADDRESS) mZ0 (habsWF ZERO_ADDRESS)
    exact this
  have mT1 : AccMatches (getOrCreateUser s e.pfrom).2 e.pto (aexec es e.pto) :=
    accMatches_congr s (getOrCreateUser s e.pfrom).2 e.pto _
      (spec1.2.2.2.1 e.pto (fun h => ht0 (h.trans hfz)))
      (fun y => spec1.2.2.2.2.1 e.pto y) (hrel e.pto)
  have rTR : ((getOrCreateUser (getOrCreateUser s e.pfrom).2 e.pto).1 : User) = ⟨e.pto, (aexec es e.pto).balance,
      ((aexec es e.pto).chain.length : Int), prevBucketOf (aexec es e.pto).chain⟩ :=
    gocu_of_accMatches (getOrCreateUser s e.pfrom).2 e.pto _ mT1 (habsWF e.pto)
  have uS1z : loadUser (getOrCreateUser s e.pfrom).2 ZERO_ADDRESS = some ((getOrCreateUser s e.pfrom).1) := by
    rw [← hfz]
    exact spec1.2.2.1
  have uS2z : loadUser (getOrCreateUser (getOrCreateUser s e.pfrom).2 e.pto).2 ZERO_ADDRESS = some ((getOrCreateUser s e.pfrom).1) := by
    rw [spec2.2.2.2.1 ZERO_ADDRESS (fun h => ht0 h.symm)]
    exact uS1z
  have hG3 : getOrCreateUser (getOrCreateUser (getOrCreateUser s e.pfrom).2 e.pto).2 ZERO_ADDRESS = (((getOrCreateUser s e.pfrom).1), (getOrCreateUser (getOrCreateUser s e.pfrom).2 e.pto).2) :=
    getOrCreateUser_of_some _ _ _ uS2z
  have rU3 : ((getOrCreateUser (getOrCreateUser (getOrCreateUser s e.pfrom).2 e.pto).2 ZERO_ADDRESS).1 : User) = ⟨ZERO_ADDRESS, (aexec es ZERO_ADDRESS).balance,
      ((aexec es ZERO_ADDRESS).chain.length : Int),
      prevBucketOf (aexec es ZERO_ADDRESS).chain⟩ := by
    rw [hG3]
    rw [rFR, hfz]
  have hS3eq : ((getOrCreateUser (getOrCreateUser (getOrCreateUser s e.pfrom).2 e.pto).2 ZERO_ADDRESS).2) = (getOrCreateUser (getOrCreateUser s e.pfrom).2 e.pto).2 := by rw [hG3]
  have hTb : ((getOrCreateUser (getOrCreateUser s e.pfrom).2 e.pto).1 : User).balance = (aexec es e.pto).balance := by rw [rTR]
  have hTc : ((getOrCreateUser (getOrCreateUser s e.pfrom).2 e.pto).1 : User).observationCount = ((aexec es e.pto).chain.length : Int) := by
    rw [rTR]
  have hTl : ((getOrCreateUser (getOrCreateUser s e.pfrom).2 e.pto).1 : User).lastHourTimestamp = prevBucketOf (aexec es e.pto).chain := by
    rw [rTR]
  have hZb : ((getOrCreateUser (getOrCreateUser (getOrCreateUser s e.pfrom).2 e.pto).2 ZERO_ADDRESS).1 : User).balance = (aexec es ZERO_ADDRESS).balance := by rw [rU3]
  have hZc : ((getOrCreateUser (getOrCreateUser (getOrCreateUser s e.pfrom).2 e.pto).2 ZERO_ADDRESS).1 : User).observationCount =
      ((aexec es ZERO_ADDRESS).chain.length : Int) := by rw [rU3]
  have hZl : ((getOrCreateUser (getOrCreateUser (getOrCreateUser s e.pfrom).2 e.pto).2 ZERO_ADDRESS).1 : User).lastHourTimestamp =
      prevBucketOf (aexec es ZERO_ADDRESS).chain := by rw [rU3]
  have obsSS : ∀ x y, loadObs (saveUser (saveUser (getOrCreateUser (getOrCreateUser (getOrCreateUser s e.pfrom).2 e.pto).2 ZERO_ADDRESS).2 { id := ((getOrCreateUser (getOrCreateUser s e.pfrom).2 e.pto).1).id, balance := ((getOrCreateUser (getOrCreateUser s e.pfrom).2 e.pto).1).balance + e.value, observationCount := ((getOrCreateUser (getOrCreateUser s e.pfrom).2 e.pto).1).observationCount, lastHourTimestamp := ((getOrCreateUser (getOrCreateUser s e.pfrom).2 e.pto).1).lastHourTimestamp }) { id := ((getOrCreateUser (getOrCreateUser (getOrCreateUser s e.pfrom).2 e.pto).2 ZERO_ADDRESS).1).id, balance := ((getOrCreateUser (getOrCreateUser (getOrCreateUser s e.pfrom).2 e.pto).2 ZERO_ADDRESS).1).balance + e.value, observationCount := ((getOrCreateUser (getOrCreateUser (getOrCreateUser s e.pfrom).2 e.pto).2 ZERO_ADDRESS).1).observationCount, lastHourTimestamp := ((getOrCreateUser (getOrCreateUser (getOrCreateUser s e.pfrom).2 e.pto).2 ZERO_ADDRESS).1).lastHourTimestamp }) x y = loadObs s x y := by
    intro x y
    rw [loadObs_saveUser, loadObs_saveUser, spec3.2.2.2.2.1,
      spec2.2.2.2.2.1, spec1.2.2.2.2.1]
  have uSSt : loadUser (saveUser (saveUser (getOrCreateUser (getOrCreateUser (getOrCreateUser s e.pfrom).2 e.pto).2 ZERO_ADDRESS).2 { id := ((getOrCreateUser (getOrCreateUser s e.pfrom).2 e.pto).1).id, balance := ((getOrCreateUser (getOrCreateUser s e.pfrom).2 e.pto).1).balance + e.value, observationCount := ((getOrCreateUser (getOrCreateUser s e.pfrom).2 e.pto).1).observationCount, lastHourTimestamp := ((getOrCreateUser (getOrCreateUser s e.pfrom).2 e.pto).1).lastHourTimestamp }) { id := ((getOrCreateUser (getOrCreateUser (getOrCreateUser s e.pfrom).2 e.pto).2 ZERO_ADDRESS).1).id, balance := ((getOrCreateUser (getOrCreateUser (getOrCreateUser s e.pfrom).2 e.pto).2 ZERO_ADDRESS).1).balance + e.value, observationCount := ((getOrCreateUser (getOrCreateUser (getOrCreateUser s e.pfrom).2 e.pto).2 ZERO_ADDRESS).1).observationCount, lastHourTimestamp := ((getOrCreateUser (getOrCreateUser (getOrCreateUser s e.pfrom).2 e.pto).2 ZERO_ADDRESS).1).lastHourTimestamp }) e.pto = some ({ id := ((getOrCreateUser (getOrCreateUser s e.pfrom).2 e.pto).1).id, balance := ((getOrCreateUser (getOrCreateUser s e.pfrom).2 e.pto).1).balance + e.value, observationCount := ((getOrCreateUser (getOrCreateUser s e.pfrom).2 e.pto).1).observationCount, lastHourTimestamp := ((getOrCreateUser (getOrCreateUser s e.pfrom).2 e.pto).1).lastHourTimestamp }) := by
    rw [loadUser_saveUser, if_neg (by rw [hTKpid]; exact ht0),
      loadUser_saveUser, if_pos hTRpid.symm]
  have uSSz : loadUser (saveUser (saveUser (getOrCreateUser (getOrCreateUser (getOrCreateUser s e.pfrom).2 e.pto).2 ZERO_ADDRESS).2 { id := ((getOrCreateUser (getOrCreateUser s e.pfrom).2 e.pto).1).id, balance := ((getOrCreateUser (getOrCreateUser s e.pfrom).2 e.pto).1).balance + e.value, observationCount := ((getOrCreateUser (getOrCreateUser s e.pfrom).2 e.pto).1).observationCount, lastHourTimestamp := ((getOrCreateUser (getOrCreateUser s e.pfrom).2 e.pto).1).lastHourTimestamp }) { id := ((getOrCreateUser (getOrCreateUser (getOrCreateUser s e.pfrom).2 e.pto).2 ZERO_ADDRESS).1).id, balance := ((getOrCreateUser (getOrCreateUser (getOrCreateUser s e.pfrom).2 e.pto).2 ZERO_ADDRESS).1).balance + e.value, observationCount := ((getOrCreateUser (getOrCreateUser (getOrCreateUser s e.pfrom).2 e.pto).2 ZERO_ADDRESS).1).observationCount, lastHourTimestamp := ((getOrCreateUser (getOrCreateUser (getOrCreateUser s e.pfrom).2 e.pto).2 ZERO_ADDRESS).1).lastHourTimestamp }) ZERO_ADDRESS = some ({ id := ((getOrCreateUser (getOrCreateUser (getOrCreateUser s e.pfrom).2 e.pto).2 ZERO_ADDRESS).1).id, balance := ((getOrCreateUser (getOrCreateUser (getOrCreateUser s e.pfrom).2 e.pto).2 ZERO_ADDRESS).1).balance + e.value, observationCount := ((getOrCreateUser (getOrCreateUser (getOrCreateUser s e.pfrom).2 e.pto).2 ZERO_ADDRESS).1).observationCount, lastHourTimestamp := ((getOrCreateUser (getOrCreateUser (getOrCreateUser s e.pfrom).2 e.pto).2 ZERO_ADDRESS).1).lastHourTimestamp }) := by
    rw [loadUser_saveUser, if_pos hTKpid.symm]
  have stepT : AccMatches (obsPipeline { id := ((getOrCreateUser (getOrCreateUser (getOrCreateUser s e.pfrom).2 e.pto).2 ZERO_ADDRESS).1).id, balance := ((getOrCreateUser (getOrCreateUser (getOrCreateUser s e.pfrom).2 e.pto).2 ZERO_ADDRESS).1).balance + e.value, observationCount := ((getOrCreateUser (getOrCreateUser (getOrCreateUser s e.pfrom).2 e.pto).2 ZERO_ADDRESS).1).observationCount, lastHourTimestamp := ((getOrCreateUser (getOrCreateUser (getOrCreateUser s e.pfrom).2 e.pto).2 ZERO_ADDRESS).1).lastHourTimestamp } e.timestamp ((getOrCreateUser (getOrCreateUser (getOrCreateUser s e.pfrom).2 e.pto).2 ZERO_ADDRESS).1).balance (obsPipeline { id := ((getOrCreateUser (getOrCreateUser s e.pfrom).2 e.pto).1).id, balance := ((getOrCreateUser (getOrCreateUser s e.pfrom).2 e.pto).1).balance + e.value, observationCount := ((getOrCreateUser (getOrCreateUser s e.pfrom).2 e.pto).1).observationCount, lastHourTimestamp := ((getOrCreateUser (getOrCreateUser s e.pfrom).2 e.pto).1).lastHourTimestamp } e.timestamp ((getOrCreateUser (getOrCreateUser s e.pfrom).2 e.pto).1).balance (saveUser (saveUser (getOrCreateUser (getOrCreateUser (getOrCreateUser s e.pfrom).2 e.pto).2 ZERO_ADDRESS).2 { id := ((getOrCreateUser (getOrCreateUser s e.pfrom).2 e.pto).1).id, balance := ((getOrCreateUser (getOrCreateUser s e.pfrom).2 e.pto).1).balance + e.value, observationCount := ((getOrCreateUser (getOrCreateUser s e.pfrom).2 e.pto).1).observationCount, lastHourTimestamp := ((getOrCreateUser (getOrCreateUser s e.pfrom).2 e.pto).1).lastHourTimestamp }) { id := ((getOrCreateUser (getOrCreateUser (getOrCreateUser s e.pfrom).2 e.pto).2 ZERO_ADDRESS).1).id, balance := ((getOrCreateUser (getOrCreateUser (getOrCreateUser s e.pfrom).2 e.pto).2 ZERO_ADDRESS).1).balance + e.value, observationCount := ((getOrCreateUser (getOrCreateUser (getOrCreateUser s e.pfrom).2 e.pto).2 ZERO_ADDRESS).1).observationCount, lastHourTimestamp := ((getOrCreateUser (getOrCreateUser (getOrCreateUser s e.pfrom).2 e.pto).2 ZERO_ADDRESS).1).lastHourTimestamp }))) e.pto
      (astepRaw (aexec es e.pto) e.timestamp e.value) := by
    refine accMatches_step (saveUser (saveUser (getOrCreateUser (getOrCreateUser (getOrCreateUser s e.pfrom).2 e.pto).2 ZERO_ADDRESS).2 { id := ((getOrCreateUser (getOrCreateUser s e.pfrom).2 e.pto).1).id, balance := ((getOrCreateUser (getOrCreateUser s e.pfrom).2 e.pto).1).balance + e.value, observationCount := ((getOrCreateUser (getOrCreateUser s e.pfrom).2 e.pto).1).observationCount, lastHourTimestamp := ((getOrCreateUser (getOrCreateUser s e.pfrom).2 e.pto).1).lastHourTimestamp }) { id := ((getOrCreateUser (getOrCreateUser (getOrCreateUser s e.pfrom).2 e.pto).2 ZERO_ADDRESS).1).id, balance := ((getOrCreateUser (getOrCreateUser (getOrCreateUser s e.pfrom).2 e.pto).2 ZERO_ADDRESS).1).balance + e.value, observationCount := ((getOrCreateUser (getOrCreateUser (getOrCreateUser s e.pfrom).2 e.pto).2 ZERO_ADDRESS).1).observationCount, lastHourTimestamp := ((getOrCreateUser (getOrCreateUser (getOrCreateUser s e.pfrom).2 e.pto).2 ZERO_ADDRESS).1).lastHourTimestamp }) (obsPipeline { id := ((getOrCreateUser (getOrCreateUser (getOrCreateUser s e.pfrom).2 e.pto).2 ZERO_ADDRESS).1).id, balance := ((getOrCreateUser (getOrCreateUser (getOrCreateUser s e.pfrom).2 e.pto).2 ZERO_ADDRESS).1).balance + e.value, observationCount := ((getOrCreateUser (getOrCreateUser (getOrCreateUser s e.pfrom).2 e.pto).2 ZERO_ADDRESS).1).observationCount, lastHourTimestamp := ((getOrCreateUser (getOrCreateUser (getOrCreateUser s e.pfrom).2 e.pto).2 ZERO_ADDRESS).1).lastHourTimestamp } e.timestamp ((getOrCreateUser (getOrCreateUser (getOrCreateUser s e.pfrom).2 e.pto).2 ZERO_ADDRESS).1).balance (obsPipeline { id := ((getOrCreateUser (getOrCreateUser s e.pfrom).2 e.pto).1).id, balance := ((getOrCreateUser (getOrCreateUser s e.pfrom).2 e.pto).1).balance + e.value, observationCount := ((getOrCreateUser (getOrCreateUser s e.pfrom).2 e.pto).1).observationCount, lastHourTimestamp := ((getOrCreateUser (getOrCreateUser s e.pfrom).2 e.pto).1).lastHourTimestamp } e.timestamp ((getOrCreateUser (getOrCreateUser s e.pfrom).2 e.pto).1).balance (saveUser (saveUser (getOrCreateUser (getOrCreateUser (getOrCreateUser s e.pfrom).2 e.pto).2 ZERO_ADDRESS).2 { id := ((getOrCreateUser (getOrCreateUser s e.pfrom).2 e.pto).1).id, balance := ((getOrCreateUser (getOrCreateUser s e.pfrom).2 e.pto).1).balance + e.value, observationCount := ((getOrCreateUser (getOrCreateUser s e.pfrom).2 e.pto).1).observationCount, lastHourTimestamp := ((getOrCreateUser (getOrCreateUser s e.pfrom).2 e.pto).1).lastHourTimestamp }) { id := ((getOrCreateUser (getOrCreateUser (getOrCreateUser s e.pfrom).2 e.pto).2 ZERO_ADDRESS).1).id, balance := ((getOrCreateUser (getOrCreateUser (getOrCreateUser s e.pfrom).2 e.pto).2 ZERO_ADDRESS).1).balance + e.value, observationCount := ((getOrCreateUser (getOrCreateUser (getOrCreateUser s e.pfrom).2 e.pto).2 ZERO_ADDRESS).1).observationCount, lastHourTimestamp := ((getOrCreateUser (getOrCreateUser (getOrCreateUser s e.pfrom).2 e.pto).2 ZERO_ADDRESS).1).lastHourTimestamp }))) e.pto (aexec es e.pto) ({ id := ((getOrCreateUser (getOrCreateUser s e.pfrom).2 e.pto).1).id, balance := ((getOrCreateUser (getOrCreateUser s e.pfrom).2 e.pto).1).balance + e.value, observationCount := ((getOrCreateUser (getOrCreateUser s e.pfrom).2 e.pto).1).observationCount, lastHourTimestamp := ((getOrCreateUser (getOrCreateUser s e.pfrom).2 e.pto).1).lastHourTimestamp }) e.timestamp
      (((getOrCreateUser (getOrCreateUser s e.pfrom).2 e.pto).1).balance) e.value hTRpid ?_ ?_ ?_ hTb (habsWF e.pto) (habsHead e.pto) ht
      uSSt ?_ ?_ ?_ ?_
    · show ((getOrCreateUser (getOrCreateUser s e.pfrom).2 e.pto).1 : User).balance + e.value = (aexec es e.pto).balance + e.value
      rw [hTb]
    · exact hTc
    · exact hTl
    · intro b
      rw [obsSS e.pto b]
      exact (hrel e.pto).1 b
    · exact chainInStore_mono s _ e.pto _ (fun y hy => obsSS e.pto y) (hrel e.pto).2.1
    · rw [obsPipeline_loadUser_other ({ id := ((getOrCreateUser (getOrCreateUser (getOrCreateUser s e.pfrom).2 e.pto).2 ZERO_ADDRESS).1).id, balance := ((getOrCreateUser (getOrCreateUser (getOrCreateUser s e.pfrom).2 e.pto).2 ZERO_ADDRESS).1).balance + e.value, observationCount := ((getOrCreateUser (getOrCreateUser (getOrCreateUser s e.pfrom).2 e.pto).2 ZERO_ADDRESS).1).observationCount, lastHourTimestamp := ((getOrCreateUser (getOrCreateUser (getOrCreateUser s e.pfrom).2 e.pto).2 ZERO_ADDRESS).1).lastHourTimestamp }) _ _ _ _ (by rw [hTKpid]; exact ht0)]
    · intro y
      rw [obsPipeline_loadObs_other ({ id := ((getOrCreateUser (getOrCreateUser (getOrCreateUser s e.pfrom).2 e.pto).2 ZERO_ADDRESS).1).id, balance := ((getOrCreateUser (getOrCreateUser (getOrCreateUser s e.pfrom).2 e.pto).2 ZERO_ADDRESS).1).balance + e.value, observationCount := ((getOrCreateUser (getOrCreateUser (getOrCreateUser s e.pfrom).2 e.pto).2 ZERO_ADDRESS).1).observationCount, lastHourTimestamp := ((getOrCreateUser (getOrCreateUser (getOrCreateUser s e.pfrom).2 e.pto).2 ZERO_ADDRESS).1).lastHourTimestamp }) _ _ _ _ _ (by rw [hTKpid]; exact ht0)]
  have uP1z : loadUser (obsPipeline { id := ((getOrCreateUser (getOrCreateUser s e.pfrom).2 e.pto).1).id, balance := ((getOrCreateUser (getOrCreateUser s e.pfrom).2 e.pto).1).balance + e.value, observationCount := ((getOrCreateUser (getOrCreateUser s e.pfrom).2 e.pto).1).observationCount, lastHourTimestamp := ((getOrCreateUser (getOrCreateUser s e.pfrom).2 e.pto).1).lastHourTimestamp } e.timestamp ((getOrCreateUser (getOrCreateUser s e.pfrom).2 e.pto).1).balance (saveUser (saveUser (getOrCreateUser (getOrCreateUser (getOrCreateUser s e.pfrom).2 e.pto).2 ZERO_ADDRESS).2 { id := ((getOrCreateUser (getOrCreateUser s e.pfrom).2 e.pto).1).id, balance := ((getOrCreateUser (getOrCreateUser s e.pfrom).2 e.pto).1).balance + e.value, observationCount := ((getOrCreateUser (getOrCreateUser s e.pfrom).2 e.pto).1).observationCount, lastHourTimestamp := ((getOrCreateUser (getOrCreateUser s e.pfrom).2 e.pto).1).lastHourTimestamp }) { id := ((getOrCreateUser (getOrCreateUser (getOrCreateUser s e.pfrom).2 e.pto).2 ZERO_ADDRESS).1).id, balance := ((getOrCreateUser (getOrCreateUser (getOrCreateUser s e.pfrom).2 e.pto).2 ZERO_ADDRESS).1).balance + e.value, observationCount := ((getOrCreateUser (getOrCreateUser (getOrCreateUser s e.pfrom).2 e.pto).2 ZERO_ADDRESS).1).observationCount, lastHourTimestamp := ((getOrCreateUser (getOrCreateUser (getOrCreateUser s e.pfrom).2 e.pto).2 ZERO_ADDRESS).1).lastHourTimestamp })) ZERO_ADDRESS = some ({ id := ((getOrCreateUser (getOrCreateUser (getOrCreateUser s e.pfrom).2 e.pto).2 ZERO_ADDRESS).1).id, balance := ((getOrCreateUser (getOrCreateUser (getOrCreateUser s e.pfrom).2 e.pto).2 ZERO_ADDRESS).1).balance + e.value, observationCount := ((getOrCreateUser (getOrCreateUser (getOrCreateUser s e.pfrom).2 e.pto).2 ZERO_ADDRESS).1).observationCount, lastHourTimestamp := ((getOrCreateUser (getOrCreateUser (getOrCreateUser s e.pfrom).2 e.pto).2 ZERO_ADDRESS).1).lastHourTimestamp }) := by
    rw [obsPipeline_loadUser_other ({ id := ((getOrCreateUser (getOrCreateUser s e.pfrom).2 e.pto).1).id, balance := ((getOrCreateUser (getOrCreateUser s e.pfrom).2 e.pto).1).balance + e.value, observationCount := ((getOrCreateUser (getOrCreateUser s e.pfrom).2 e.pto).1).observationCount, lastHourTimestamp := ((getOrCreateUser (getOrCreateUser s e.pfrom).2 e.pto).1).lastHourTimestamp }) _ _ _ _ (by rw [hTRpid]; exact fun h => ht0 h.symm)]
    exact uSSz
  have obsP1z : ∀ y, loadObs (obsPipeline { id := ((getOrCreateUser (getOrCreateUser s e.pfrom).2 e.pto).1).id, balance := ((getOrCreateUser (getOrCreateUser s e.pfrom).2 e.pto).1).balance + e.value, observationCount := ((getOrCreateUser (getOrCreateUser s e.pfrom).2 e.pto).1).observationCount, lastHourTimestamp := ((getOrCreateUser (getOrCreateUser s e.pfrom).2 e.pto).1).lastHourTimestamp } e.timestamp ((getOrCreateUser (getOrCreateUser s e.pfrom).2 e.pto).1).balance (saveUser (saveUser (getOrCreateUser (getOrCreateUser (getOrCreateUser s e.pfrom).2 e.pto).2 ZERO_ADDRESS).2 { id := ((getOrCreateUser (getOrCreateUser s e.pfrom).2 e.pto).1).id, balance := ((getOrCreateUser (getOrCreateUser s e.pfrom).2 e.pto).1).balance + e.value, observationCount := ((getOrCreateUser (getOrCreateUser s e.pfrom).2 e.pto).1).observationCount, lastHourTimestamp := ((getOrCreateUser (getOrCreateUser s e.pfrom).2 e.pto).1).lastHourTimestamp }) { id := ((getOrCreateUser (getOrCreateUser (getOrCreateUser s e.pfrom).2 e.pto).2 ZERO_ADDRESS).1).id, balance := ((getOrCreateUser (getOrCreateUser (getOrCreateUser s e.pfrom).2 e.pto).2 ZERO_ADDRESS).1).balance + e.value, observationCount := ((getOrCreateUser (getOrCreateUser (getOrCreateUser s e.pfrom).2 e.pto).2 ZERO_ADDRESS).1).observationCount, lastHourTimestamp := ((getOrCreateUser (getOrCreateUser (getOrCreateUser s e.pfrom).2 e.pto).2 ZERO_ADDRESS).1).lastHourTimestamp })) ZERO_ADDRESS y = loadObs s ZERO_ADDRESS y := by
    intro y
    rw [obsPipeline_loadObs_other ({ id := ((getOrCreateUser (getOrCreateUser s e.pfrom).2 e.pto).1).id, balance := ((getOrCreateUser (getOrCreateUser s e.pfrom).2 e.pto).1).balance + e.value, observationCount := ((getOrCreateUser (getOrCreateUser s e.pfrom).2 e.pto).1).observationCount, lastHourTimestamp := ((getOrCreateUser (getOrCreateUser s e.pfrom).2 e.pto).1).lastHourTimestamp }) _ _ _ _ _ (by rw [hTRpid]; exact fun h => ht0 h.symm)]
    exact obsSS ZERO_ADDRESS y
  have stepZ : AccMatches (obsPipeline { id := ((getOrCreateUser (getOrCreateUser (getOrCreateUser s e.pfrom).2 e.pto).2 ZERO_ADDRESS).1).id, balance := ((getOrCreateUser (getOrCreateUser (getOrCreateUser s e.pfrom).2 e.pto).2 ZERO_ADDRESS).1).balance + e.value, observationCount := ((getOrCreateUser (getOrCreateUser (getOrCreateUser s e.pfrom).2 e.pto).2 ZERO_ADDRESS).1).observationCount, lastHourTimestamp := ((getOrCreateUser (getOrCreateUser (getOrCreateUser s e.pfrom).2 e.pto).2 ZERO_ADDRESS).1).lastHourTimestamp } e.timestamp ((getOrCreateUser (getOrCreateUser (getOrCreateUser s e.pfrom).2 e.pto).2 ZERO_ADDRESS).1).balance (obsPipeline { id := ((getOrCreateUser (getOrCreateUser s e.pfrom).2 e.pto).1).id, balance := ((getOrCreateUser (getOrCreateUser s e.pfrom).2 e.pto).1).balance + e.value, observationCount := ((getOrCreateUser (getOrCreateUser s e.pfrom).2 e.pto).1).observationCount, lastHourTimestamp := ((getOrCreateUser (getOrCreateUser s e.pfrom).2 e.pto).1).lastHourTimestamp } e.timestamp ((getOrCreateUser (getOrCreateUser s e.pfrom).2 e.pto).1).balance (saveUser (saveUser (getOrCreateUser (getOrCreateUser (getOrCreateUser s e.pfrom).2 e.pto).2 ZERO_ADDRESS).2 { id := ((getOrCreateUser (getOrCreateUser s e.pfrom).2 e.pto).1).id, balance := ((getOrCreateUser (getOrCreateUser s e.pfrom).2 e.pto).1).balance + e.value, observationCount := ((getOrCreateUser (getOrCreateUser s e.pfrom).2 e.pto).1).observationCount, lastHourTimestamp := ((getOrCreateUser (getOrCreateUser s e.pfrom).2 e.pto).1).lastHourTimestamp }) { id := ((getOrCreateUser (getOrCreateUser (getOrCreateUser s e.pfrom).2 e.pto).2 ZERO_ADDRESS).1).id, balance := ((getOrCreateUser (getOrCreateUser (getOrCreateUser s e.pfrom).2 e.pto).2 ZERO_ADDRESS).1).balance + e.value, observationCount := ((getOrCreateUser (getOrCreateUser (getOrCreateUser s e.pfrom).2 e.pto).2 ZERO_ADDRESS).1).observationCount, lastHourTimestamp := ((getOrCreateUser (getOrCreateUser (getOrCreateUser s e.pfrom).2 e.pto).2 ZERO_ADDRESS).1).lastHourTimestamp }))) ZERO_ADDRESS
      (astepRaw (aexec es ZERO_ADDRESS) e.timestamp e.value) := by
    refine accMatches_step (obsPipeline { id := ((getOrCreateUser (getOrCreateUser s e.pfrom).2 e.pto).1).id, balance := ((getOrCreateUser (getOrCreateUser s e.pfrom).2 e.pto).1).balance + e.value, observationCount := ((getOrCreateUser (getOrCreateUser s e.pfrom).2 e.pto).1).observationCount, lastHourTimestamp := ((getOrCreateUser (getOrCreateUser s e.pfrom).2 e.pto).1).lastHourTimestamp } e.timestamp ((getOrCreateUser (getOrCreateUser s e.pfrom).2 e.pto).1).balance (saveUser (saveUser (getOrCreateUser (getOrCreateUser (getOrCreateUser s e.pfrom).2 e.pto).2 ZERO_ADDRESS).2 { id := ((getOrCreateUser (getOrCreateUser s e.pfrom).2 e.pto).1).id, balance := ((getOrCreateUser (getOrCreateUser s e.pfrom).2 e.pto).1).balance + e.value, observationCount := ((getOrCreateUser (getOrCreateUser s e.pfrom).2 e.pto).1).observationCount, lastHourTimestamp := ((getOrCreateUser (getOrCreateUser s e.pfrom).2 e.pto).1).lastHourTimestamp }) { id := ((getOrCreateUser (getOrCreateUser (getOrCreateUser s e.pfrom).2 e.pto).2 ZERO_ADDRESS).1).id, balance := ((getOrCreateUser (getOrCreateUser (getOrCreateUser s e.pfrom).2 e.pto).2 ZERO_ADDRESS).1).balance + e.value, observationCount := ((getOrCreateUser (getOrCreateUser (getOrCreateUser s e.pfrom).2 e.pto).2 ZERO_ADDRESS).1).observationCount, lastHourTimestamp := ((getOrCreateUser (getOrCreateUser (getOrCreateUser s e.pfrom).2 e.pto).2 ZERO_ADDRESS).1).lastHourTimestamp })) (obsPipeline { id := ((getOrCreateUser (getOrCreateUser (getOrCreateUser s e.pfrom).2 e.pto).2 ZERO_ADDRESS).1).id, balance := ((getOrCreateUser (getOrCreateUser (getOrCreateUser s e.pfrom).2 e.pto).2 ZERO_ADDRESS).1).balance + e.value, observationCount := ((getOrCreateUser (getOrCreateUser (getOrCreateUser s e.pfrom).2 e.pto).2 ZERO_ADDRESS).1).observationCount, lastHourTimestamp := ((getOrCreateUser (getOrCreateUser (getOrCreateUser s e.pfrom).2 e.pto).2 ZERO_ADDRESS).1).lastHourTimestamp } e.timestamp ((getOrCreateUser (getOrCreateUser (getOrCreateUser s e.pfrom).2 e.pto).2 ZERO_ADDRESS).1).balance (obsPipeline { id := ((getOrCreateUser (getOrCreateUser s e.pfrom).2 e.pto).1).id, balance := ((getOrCreateUser (getOrCreateUser s e.pfrom).2 e.pto).1).balance + e.value, observationCount := ((getOrCreateUser (getOrCreateUser s e.pfrom).2 e.pto).1).observationCount, lastHourTimestamp := ((getOrCreateUser (getOrCreateUser s e.pfrom).2 e.pto).1).lastHourTimestamp } e.timestamp ((getOrCreateUser (getOrCreateUser s e.pfrom).2 e.pto).1).balance (saveUser (saveUser (getOrCreateUser (getOrCreateUser (getOrCreateUser s e.pfrom).2 e.pto).2 ZERO_ADDRESS).2 { id := ((getOrCreateUser (getOrCreateUser s e.pfrom).2 e.pto).1).id, balance := ((getOrCreateUser (getOrCreateUser s e.pfrom).2 e.pto).1).balance + e.value, observationCount := ((getOrCreateUser (getOrCreateUser s e.pfrom).2 e.pto).1).observationCount, lastHourTimestamp := ((getOrCreateUser (getOrCreateUser s e.pfrom).2 e.pto).1).lastHourTimestamp }) { id := ((getOrCreateUser (getOrCreateUser (getOrCreateUser s e.pfrom).2 e.pto).2 ZERO_ADDRESS).1).id, balance := ((getOrCreateUser (getOrCreateUser (getOrCreateUser s e.pfrom).2 e.pto).2 ZERO_ADDRESS).1).balance + e.value, observationCount := ((getOrCreateUser (getOrCreateUser (getOrCreateUser s e.pfrom).2 e.pto).2 ZERO_ADDRESS).1).observationCount, lastHourTimestamp := ((getOrCreateUser (getOrCreateUser (getOrCreateUser s e.pfrom).2 e.pto).2 ZERO_ADDRESS).1).lastHourTimestamp }))) ZERO_ADDRESS (aexec es ZERO_ADDRESS) ({ id := ((getOrCreateUser (getOrCreateUser (getOrCreateUser s e.pfrom).2 e.pto).2 ZERO_ADDRESS).1).id, balance := ((getOrCreateUser (getOrCreateUser (getOrCreateUser s e.pfrom).2 e.pto).2 ZERO_ADDRESS).1).balance + e.value, observationCount := ((getOrCreateUser (getOrCreateUser (getOrCreateUser s e.pfrom).2 e.pto).2 ZERO_ADDRESS).1).observationCount, lastHourTimestamp := ((getOrCreateUser (getOrCreateUser (getOrCreateUser s e.pfrom).2 e.pto).2 ZERO_ADDRESS).1).lastHourTimestamp })
      e.timestamp (((getOrCreateUser (getOrCreateUser (getOrCreateUser s e.pfrom).2 e.pto).2 ZERO_ADDRESS).1).balance) e.value hTKpid ?_ ?_ ?_ hZb (habsWF ZERO_ADDRESS)
      (habsHead ZERO_ADDRESS) ht uP1z ?_ ?_ rfl (fun y => rfl)
    · show ((getOrCreateUser (getOrCreateUser (getOrCreateUser s e.pfrom).2 e.pto).2 ZERO_ADDRESS).1 : User).balance + e.value = (aexec es ZERO_ADDRESS).balance + e.value
      rw [hZb]
    · exact hZc
    · exact hZl
    · intro b
      rw [obsP1z b]
      exact (hrel ZERO_ADDRESS).1 b
    · exact chainInStore_mono s _ ZERO_ADDRESS _ (fun y hy => obsP1z y)
        (hrel ZERO_ADDRESS).2.1
  intro x
  rw [hres, aexec_append]
  by_cases hx2 : x = e.pto
  · subst hx2
    rw [astepAcc_touch (touches_pto hv ht0), delta_pto e hv ht0 (by rw [hfz]; exact fun h => ht0 h.symm)]
    exact stepT
  · by_cases hx3 : x = ZERO_ADDRESS
    · subst hx3
      have hdz : delta e ZERO_ADDRESS = e.value := by
        rw [delta_zero_addr e hv, if_pos hfz]
      rw [astepAcc_touch (touches_zero hv), hdz]
      exact stepZ
    · rw [astepAcc_no (fun htc => by
        rcases touches_cases htc with h | h | h
        · exact hx3 h
        · exact hx3 (h.trans hfz)
        · exact hx2 h)]
      refine accMatches_congr s (obsPipeline { id := ((getOrCreateUser (getOrCreateUser (getOrCreateUser s e.pfrom).2 e.pto).2 ZERO_ADDRESS).1).id, balance := ((getOrCreateUser (getOrCreateUser (getOrCreateUser s e.pfrom).2 e.pto).2 ZERO_ADDRESS).1).balance + e.value, observationCount := ((getOrCreateUser (getOrCreateUser (getOrCreateUser s e.pfrom).2 e.pto).2 ZERO_ADDRESS).1).observationCount, lastHourTimestamp := ((getOrCreateUser (getOrCreateUser (getOrCreateUser s e.pfrom).2 e.pto).2 ZERO_ADDRESS).1).lastHourTimestamp } e.timestamp ((getOrCreateUser (getOrCreateUser (getOrCreateUser s e.pfrom).2 e.pto).2 ZERO_ADDRESS).1).balance (obsPipeline { id := ((getOrCreateUser (getOrCreateUser s e.pfrom).2 e.pto).1).id, balance := ((getOrCreateUser (getOrCreateUser s e.pfrom).2 e.pto).1).balance + e.value, observationCount := ((getOrCreateUser (getOrCreateUser s e.pfrom).2 e.pto).1).observationCount, lastHourTimestamp := ((getOrCreateUser (getOrCreateUser s e.pfrom).2 e.pto).1).lastHourTimestamp } e.timestamp ((getOrCreateUser (getOrCreateUser s e.pfrom).2 e.pto).1).balance (saveUser (saveUser (getOrCreateUser (getOrCreateUser (getOrCreateUser s e.pfrom).2 e.pto).2 ZERO_ADDRESS).2 { id := ((getOrCreateUser (getOrCreateUser s e.pfrom).2 e.pto).1).id, balance := ((getOrCreateUser (getOrCreateUser s e.pfrom).2 e.pto).1).balance + e.value, observationCount := ((getOrCreateUser (getOrCreateUser s e.pfrom).2 e.pto).1).observationCount, lastHourTimestamp := ((getOrCreateUser (getOrCreateUser s e.pfrom).2 e.pto).1).lastHourTimestamp }) { id := ((getOrCreateUser (getOrCreateUser (getOrCreateUser s e.pfrom).2 e.pto).2 ZERO_ADDRESS).1).id, balance := ((getOrCreateUser (getOrCreateUser (getOrCreateUser s e.pfrom).2 e.pto).2 ZERO_ADDRESS).1).balance + e.value, observationCount := ((getOrCreateUser (getOrCreateUser (getOrCreateUser s e.pfrom).2 e.pto).2 ZERO_ADDRESS).1).observationCount, lastHourTimestamp := ((getOrCreateUser (getOrCreateUser (getOrCreateUser s e.pfrom).2 e.pto).2 ZERO_ADDRESS).1).lastHourTimestamp }))) x _ ?_ ?_ (hrel x)
      · rw [obsPipeline_loadUser_other ({ id := ((getOrCreateUser (getOrCreateUser (getOrCreateUser s e.pfrom).2 e.pto).2 ZERO_ADDRESS).1).id, balance := ((getOrCreateUser (getOrCreateUser (getOrCreateUser s e.pfrom).2 e.pto).2 ZERO_ADDRESS).1).balance + e.value, observationCount := ((getOrCreateUser (getOrCreateUser (getOrCreateUser s e.pfrom).2 e.pto).2 ZERO_ADDRESS).1).observationCount, lastHourTimestamp := ((getOrCreateUser (getOrCreateUser (getOrCreateUser s e.pfrom).2 e.pto).2 ZERO_ADDRESS).1).lastHourTimestamp }) _ _ _ _ (by rw [hTKpid]; exact hx3),
          obsPipeline_loadUser_other ({ id := ((getOrCreateUser (getOrCreateUser s e.pfrom).2 e.pto).1).id, balance := ((getOrCreateUser (getOrCreateUser s e.pfrom).2 e.pto).1).balance + e.value, observationCount := ((getOrCreateUser (getOrCreateUser s e.pfrom).2 e.pto).1).observationCount, lastHourTimestamp := ((getOrCreateUser (getOrCreateUser s e.pfrom).2 e.pto).1).lastHourTimestamp }) _ _ _ _ (by rw [hTRpid]; exact hx2),
          loadUser_saveUser, if_neg (by rw [hTKpid]; exact hx3),
          loadUser_saveUser, if_neg (by rw [hTRpid]; exact hx2),
          spec3.2.2.2.1 x hx3, spec2.2.2.2.1 x hx2,
          spec1.2.2.2.1 x (by rw [hfz]; exact hx3)]
      · intro y
        rw [obsPipeline_loadObs_other ({ id := ((getOrCreateUser (getOrCreateUser (getOrCreateUser s e.pfrom).2 e.pto).2 ZERO_ADDRESS).1).id, balance := ((getOrCreateUser (getOrCreateUser (getOrCreateUser s e.pfrom).2 e.pto).2 ZERO_ADDRESS).1).balance + e.value, observationCount := ((getOrCreateUser (getOrCreateUser (getOrCreateUser s e.pfrom).2 e.pto).2 ZERO_ADDRESS).1).observationCount, lastHourTimestamp := ((getOrCreateUser (getOrCreateUser (getOrCreateUser s e.pfrom).2 e.pto).2 ZERO_ADDRESS).1).lastHourTimestamp }) _ _ _ _ _ (by rw [hTKpid]; exact hx3),
          obsPipeline_loadObs_other ({ id := ((getOrCreateUser (getOrCreateUser s e.pfrom).2 e.pto).1).id, balance := ((getOrCreateUser (getOrCreateUser s e.pfrom).2 e.pto).1).balance + e.value, observationCount := ((getOrCreateUser (getOrCreateUser s e.pfrom).2 e.pto).1).observationCount, lastHourTimestamp := ((getOrCreateUser (getOrCreateUser s e.pfrom).2 e.pto).1).lastHourTimestamp }) _ _ _ _ _ (by rw [hTRpid]; exact hx2)]
        exact obsSS x y


theorem rel_step_burn (s : Store) (es : List Event) (e : Event)
    (hWF : StoreIdWF s)
    (hrel : ∀ x, AccMatches s x (aexec es x))
    (habsWF : ∀ x, AAccWF (aexec es x))
    (habsHead : ∀ x, headLastLE (aexec es x) e.timestamp)
    (ht : SECONDS_PER_HOUR ≤ e.timestamp) (hv : 0 < e.value)
    (hf0 : e.pfrom ≠ ZERO_ADDRESS) (hbz : e.pto = ZERO_ADDRESS) :
    ∀ x, AccMatches (burnResult s e) x (aexec (es ++ [e]) x) := by
  have hres : burnResult s e = (obsPipeline { id := ((getOrCreateUser (getOrCreateUser (getOrCreateUser s e.pfrom).2 e.pto).2 ZERO_ADDRESS).1).id, balance := ((getOrCreateUser (getOrCreateUser (getOrCreateUser s e.pfrom).2 e.pto).2 ZERO_ADDRESS).1).balance - e.value, observationCount := ((getOrCreateUser (getOrCreateUser (getOrCreateUser s e.pfrom).2 e.pto).2 ZERO_ADDRESS).1).observationCount, lastHourTimestamp := ((getOrCreateUser (getOrCreateUser (getOrCreateUser s e.pfrom).2 e.pto).2 ZERO_ADDRESS).1).lastHourTimestamp } e.timestamp ((getOrCreateUser (getOrCreateUser (getOrCreateUser s e.pfrom).2 e.pto).2 ZERO_ADDRESS).1).balance (obsPipeline { id := ((getOrCreateUser s e.pfrom).1).id, balance := ((getOrCreateUser s e.pfrom).1).balance - e.value, observationCount := ((getOrCreateUser s e.pfrom).1).observationCount, lastHourTimestamp := ((getOrCreateUser s e.pfrom).1).lastHourTimestamp } e.timestamp ((getOrCreateUser s e.pfrom).1).balance (saveUser (saveUser (getOrCreateUser (getOrCreateUser (getOrCreateUser s e.pfrom).2 e.pto).2 ZERO_ADDRESS).2 { id := ((getOrCreateUser s e.pfrom).1).id, balance := ((getOrCreateUser s e.pfrom).1).balance - e.value, observationCount := ((getOrCreateUser s e.pfrom).1).observationCount, lastHourTimestamp := ((getOrCreateUser s e.pfrom).1).lastHourTimestamp }) { id := ((getOrCreateUser (getOrCreateUser (getOrCreateUser s e.pfrom).2 e.pto).2 ZERO_ADDRESS).1).id, balance := ((getOrCreateUser (getOrCreateUser (getOrCreateUser s e.pfrom).2 e.pto).2 ZERO_ADDRESS).1).balance - e.value, observationCount := ((getOrCreateUser (getOrCreateUser (getOrCreateUser s e.pfrom).2 e.pto).2 ZERO_ADDRESS).1).observationCount, lastHourTimestamp := ((getOrCreateUser (getOrCreateUser (getOrCreateUser s e.pfrom).2 e.pto).2 ZERO_ADDRESS).1).lastHourTimestamp }))) := rfl
  have hne : e.pfrom ≠ e.pto := fun h => hf0 (h.trans hbz)
  have spec1 := getOrCreateUser_spec s e.pfrom hWF
  have wf1 : StoreIdWF (getOrCreateUser s e.pfrom).2 := spec1.2.2.2.2.2
  have spec2 := getOrCreateUser_spec (getOrCreateUser s e.pfrom).2 e.pto wf1
  have wf2 : StoreIdWF (getOrCreateUser (getOrCreateUser s e.pfrom).2 e.pto).2 := spec2.2.2.2.2.2
  have spec3 := getOrCreateUser_spec (getOrCreateUser (getOrCreateUser s e.pfrom).2 e.pto).2 ZERO_ADDRESS wf2
  have hFRpid : ({ id := ((getOrCreateUser s e.pfrom).1).id, balance := ((getOrCreateUser s e.pfrom).1).balance - e.value, observationCount := ((getOrCreateUser s e.pfrom).1).observationCount, lastHourTimestamp := ((getOrCreateUser s e.pfrom).1).lastHourTimestamp } : User).id = e.pfrom := spec1.1
  have hTKpid : ({ id := ((getOrCreateUser (getOrCreateUser (getOrCreateUser s e.pfrom).2 e.pto).2 ZERO_ADDRESS).1).id, balance := ((getOrCreateUser (getOrCreateUser (getOrCreateUser s e.pfrom).2 e.pto).2 ZERO_ADDRESS).1).balance - e.value, observationCount := ((getOrCreateUser (getOrCreateUser (getOrCreateUser s e.pfrom).2 e.pto).2 ZERO_ADDRESS).1).observationCount, lastHourTimestamp := ((getOrCreateUser (getOrCreateUser (getOrCreateUser s e.pfrom).2 e.pto).2 ZERO_ADDRESS).1).lastHourTimestamp } : User).id = ZERO_ADDRESS := spec3.1
  have rFR : ((getOrCreateUser s e.pfrom).1 : User) = ⟨e.pfrom, (aexec es e.pfrom).balance,
      ((aexec es e.pfrom).chain.length : Int), prevBucketOf (aexec es e.pfrom).chain⟩ :=
    gocu_of_accMatches s e.pfrom _ (hrel e.pfrom) (habsWF e.pfrom)
  have mZ1 : AccMatches (getOrCreateUser s e.pfrom).2 ZERO_ADDRESS (aexec es ZERO_ADDRESS) :=
    accMatches_congr s (getOrCreateUser s e.pfrom).2 ZERO_ADDRESS _ (spec1.2.2.2.1 ZERO_ADDRESS (Ne.symm hf0))
      (fun y => spec1.2.2.2.2.1 ZERO_ADDRESS y) (hrel ZERO_ADDRESS)
  have mZpto : AccMatches (getOrCreateUser s e.pfrom).2 e.pto (aexec es ZERO_ADDRESS) := by
    rw [hbz]
    exact mZ1
  have rTR : ((getOrCreateUser (getOrCreateUser s e.pfrom).2 e.pto).1 : User) = ⟨e.pto, (aexec es ZERO_ADDRESS).balance,
      ((aexec es ZERO_ADDRESS).chain.length : Int),
      prevBucketOf (aexec es ZERO_ADDRESS).chain⟩ :=
    gocu_of_accMatches (getOrCreateUser s e.pfrom).2 e.pto _ mZpto (habsWF ZERO_ADDRESS)
  have uS2z : loadUser (getOrCreateUser (getOrCreateUser s e.pfrom).2 e.pto).2 ZERO_ADDRESS = some ((getOrCreateUser (getOrCreateUser s e.pfrom).2 e.pto).1) := by
    rw [← hbz]
    exact spec2.2.2.1
  have hG3 : getOrCreateUser (getOrCreateUser (getOrCreateUser s e.pfrom).2 e.pto).2 ZERO_ADDRESS = (((getOrCreateUser (getOrCreateUser s e.pfrom).2 e.pto).1), (getOrCreateUser (getOrCreateUser s e.pfrom).2 e.pto).2) :=
    getOrCreateUser_of_some _ _ _ uS2z
  have rU3 : ((getOrCreateUser (getOrCreateUser (getOrCreateUser s e.pfrom).2 e.pto).2 ZERO_ADDRESS).1 : User) = ⟨ZERO_ADDRESS, (aexec es ZERO_ADDRESS).balance,
      ((aexec es ZERO_ADDRESS).chain.length : Int),
      prevBucketOf (aexec es ZERO_ADDRESS).chain⟩ := by
    rw [hG3]
    rw [rTR, hbz]
  have hFb : ((getOrCreateUser s e.pfrom).1 : User).balance = (aexec es e.pfrom).balance := by rw [rFR]
  have hFc : ((getOrCreateUser s e.pfrom).1 : User).observationCount = ((aexec es e.pfrom).chain.length : Int) := by
    rw [rFR]
  have hFl : ((getOrCreateUser s e.pfrom).1 : User).lastHourTimestamp = prevBucketOf (aexec es e.pfrom).chain := by
    rw [rFR]
  have hZb : ((getOrCreateUser (getOrCreateUser (getOrCreateUser s e.pfrom).2 e.pto).2 ZERO_ADDRESS).1 : User).balance = (aexec es ZERO_ADDRESS).balance := by rw [rU3]
  have hZc : ((getOrCreateUser (getOrCreateUser (getOrCreateUser s e.pfrom).2 e.pto).2 ZERO_ADDRESS).1 : User).observationCount =
      ((aexec es ZERO_ADDRESS).chain.length : Int) := by rw [rU3]
  have hZl : ((getOrCreateUser (getOrCreateUser (getOrCreateUser s e.pfrom).2 e.pto).2 ZERO_ADDRESS).1 : User).lastHourTimestamp =
      prevBucketOf (aexec es ZERO_ADDRESS).chain := by rw [rU3]
  have obsSS : ∀ x y, loadObs (saveUser (saveUser (getOrCreateUser (getOrCreateUser (getOrCreateUser s e.pfrom).2 e.pto).2 ZERO_ADDRESS).2 { id := ((getOrCreateUser s e.pfrom).1).id, balance := ((getOrCreateUser s e.pfrom).1).balance - e.value, observationCount := ((getOrCreateUser s e.pfrom).1).observationCount, lastHourTimestamp := ((getOrCreateUser s e.pfrom).1).lastHourTimestamp }) { id := ((getOrCreateUser (getOrCreateUser (getOrCreateUser s e.pfrom).2 e.pto).2 ZERO_ADDRESS).1).id, balance := ((getOrCreateUser (getOrCreateUser (getOrCreateUser s e.pfrom).2 e.pto).2 ZERO_ADDRESS).1).balance - e.value, observationCount := ((getOrCreateUser (getOrCreateUser (getOrCreateUser s e.pfrom).2 e.pto).2 ZERO_ADDRESS).1).observationCount, lastHourTimestamp := ((getOrCreateUser (getOrCreateUser (getOrCreateUser s e.pfrom).2 e.pto).2 ZERO_ADDRESS).1).lastHourTimestamp }) x y = loadObs s x y := by
    intro x y
    rw [loadObs_saveUser, loadObs_saveUser, spec3.2.2.2.2.1,
      spec2.2.2.2.2.1, spec1.2.2.2.2.1]
  have uSSf : loadUser (saveUser (saveUser (getOrCreateUser (getOrCreateUser (getOrCreateUser s e.pfrom).2 e.pto).2 ZERO_ADDRESS).2 { id := ((getOrCreateUser s e.pfrom).1).id, balance := ((getOrCreateUser s e.pfrom).1).balance - e.value, observationCount := ((getOrCreateUser s e.pfrom).1).observationCount, lastHourTimestamp := ((getOrCreateUser s e.pfrom).1).lastHourTimestamp }) { id := ((getOrCreateUser (getOrCreateUser (getOrCreateUser s e.pfrom).2 e.pto).2 ZERO_ADDRESS).1).id, balance := ((getOrCreateUser (getOrCreateUser (getOrCreateUser s e.pfrom).2 e.pto).2 ZERO_ADDRESS).1).balance - e.value, observationCount := ((getOrCreateUser (getOrCreateUser (getOrCreateUser s e.pfrom).2 e.pto).2 ZERO_ADDRESS).1).observationCount, lastHourTimestamp := ((getOrCreateUser (getOrCreateUser (getOrCreateUser s e.pfrom).2 e.pto).2 ZERO_ADDRESS).1).lastHourTimestamp }) e.pfrom = some ({ id := ((getOrCreateUser s e.pfrom).1).id, balance := ((getOrCreateUser s e.pfrom).1).balance - e.value, observationCount := ((getOrCreateUser s e.pfrom).1).observationCount, lastHourTimestamp := ((getOrCreateUser s e.pfrom).1).lastHourTimestamp }) := by
    rw [loadUser_saveUser, if_neg (by rw [hTKpid]; exact hf0),
      loadUser_saveUser, if_pos hFRpid.symm]
  have uSSz : loadUser (saveUser (saveUser (getOrCreateUser (getOrCreateUser (getOrCreateUser s e.pfrom).2 e.pto).2 ZERO_ADDRESS).2 { id := ((getOrCreateUser s e.pfrom).1).id, balance := ((getOrCreateUser s e.pfrom).1).balance - e.value, observationCount := ((getOrCreateUser s e.pfrom).1).observationCount, lastHourTimestamp := ((getOrCreateUser s e.pfrom).1).lastHourTimestamp }) { id := ((getOrCreateUser (getOrCreateUser (getOrCreateUser s e.pfrom).2 e.pto).2 ZERO_ADDRESS).1).id, balance := ((getOrCreateUser (getOrCreateUser (getOrCreateUser s e.pfrom).2 e.pto).2 ZERO_ADDRESS).1).balance - e.value, observationCount := ((getOrCreateUser (getOrCreateUser (getOrCreateUser s e.pfrom).2 e.pto).2 ZERO_ADDRESS).1).observationCount, lastHourTimestamp := ((getOrCreateUser (getOrCreateUser (getOrCreateUser s e.pfrom).2 e.pto).2 ZERO_ADDRESS).1).lastHourTimestamp }) ZERO_ADDRESS = some ({ id := ((getOrCreateUser (getOrCreateUser (getOrCreateUser s e.pfrom).2 e.pto).2 ZERO_ADDRESS).1).id, balance := ((getOrCreateUser (getOrCreateUser (getOrCreateUser s e.pfrom).2 e.pto).2 ZERO_ADDRESS).1).balance - e.value, observationCount := ((getOrCreateUser (getOrCreateUser (getOrCreateUser s e.pfrom).2 e.pto).2 ZERO_ADDRESS).1).observationCount, lastHourTimestamp := ((getOrCreateUser (getOrCreateUser (getOrCreateUser s e.pfrom).2 e.pto).2 ZERO_ADDRESS).1).lastHourTimestamp }) := by
    rw [loadUser_saveUser, if_pos hTKpid.symm]
  have stepF : AccMatches (obsPipeline { id := ((getOrCreateUser (getOrCreateUser (getOrCreateUser s e.pfrom).2 e.pto).2 ZERO_ADDRESS).1).id, balance := ((getOrCreateUser (getOrCreateUser (getOrCreateUser s e.pfrom).2 e.pto).2 ZERO_ADDRESS).1).balance - e.value, observationCount := ((getOrCreateUser (getOrCreateUser (getOrCreateUser s e.pfrom).2 e.pto).2 ZERO_ADDRESS).1).observationCount, lastHourTimestamp := ((getOrCreateUser (getOrCreateUser (getOrCreateUser s e.pfrom).2 e.pto).2 ZERO_ADDRESS).1).lastHourTimestamp } e.timestamp ((getOrCreateUser (getOrCreateUser (getOrCreateUser s e.pfrom).2 e.pto).2 ZERO_ADDRESS).1).balance (obsPipeline { id := ((getOrCreateUser s e.pfrom).1).id, balance := ((getOrCreateUser s e.pfrom).1).balance - e.value, observationCount := ((getOrCreateUser s e.pfrom).1).observationCount, lastHourTimestamp := ((getOrCreateUser s e.pfrom).1).lastHourTimestamp } e.timestamp ((getOrCreateUser s e.pfrom).1).balance (saveUser (saveUser (getOrCreateUser (getOrCreateUser (getOrCreateUser s e.pfrom).2 e.pto).2 ZERO_ADDRESS).2 { id := ((getOrCreateUser s e.pfrom).1).id, balance := ((getOrCreateUser s e.pfrom).1).balance - e.value, observationCount := ((getOrCreateUser s e.pfrom).1).observationCount, lastHourTimestamp := ((getOrCreateUser s e.pfrom).1).lastHourTimestamp }) { id := ((getOrCreateUser (getOrCreateUser (getOrCreateUser s e.pfrom).2 e.pto).2 ZERO_ADDRESS).1).id, balance := ((getOrCreateUser (getOrCreateUser (getOrCreateUser s e.pfrom).2 e.pto).2 ZERO_ADDRESS).1).balance - e.value, observationCount := ((getOrCreateUser (getOrCreateUser (getOrCreateUser s e.pfrom).2 e.pto).2 ZERO_ADDRESS).1).observationCount, lastHourTimestamp := ((getOrCreateUser (getOrCreateUser (getOrCreateUser s e.pfrom).2 e.pto).2 ZERO_ADDRESS).1).lastHourTimestamp }))) e.pfrom
      (astepRaw (aexec es e.pfrom) e.timestamp (-e.value)) := by
    refine accMatches_step (saveUser (saveUser (getOrCreateUser (getOrCreateUser (getOrCreateUser s e.pfrom).2 e.pto).2 ZERO_ADDRESS).2 { id := ((getOrCreateUser s e.pfrom).1).id, balance := ((getOrCreateUser s e.pfrom).1).balance - e.value, observationCount := ((getOrCreateUser s e.pfrom).1).observationCount, lastHourTimestamp := ((getOrCreateUser s e.pfrom).1).lastHourTimestamp }) { id := ((getOrCreateUser (getOrCreateUser (getOrCreateUser s e.pfrom).2 e.pto).2 ZERO_ADDRESS).1).id, balance := ((getOrCreateUser (getOrCreateUser (getOrCreateUser s e.pfrom).2 e.pto).2 ZERO_ADDRESS).1).balance - e.value, observationCount := ((getOrCreateUser (getOrCreateUser (getOrCreateUser s e.pfrom).2 e.pto).2 ZERO_ADDRESS).1).observationCount, lastHourTimestamp := ((getOrCreateUser (getOrCreateUser (getOrCreateUser s e.pfrom).2 e.pto).2 ZERO_ADDRESS).1).lastHourTimestamp }) (obsPipeline { id := ((getOrCreateUser (getOrCreateUser (getOrCreateUser s e.pfrom).2 e.pto).2 ZERO_ADDRESS).1).id, balance := ((getOrCreateUser (getOrCreateUser (getOrCreateUser s e.pfrom).2 e.pto).2 ZERO_ADDRESS).1).balance - e.value, observationCount := ((getOrCreateUser (getOrCreateUser (getOrCreateUser s e.pfrom).2 e.pto).2 ZERO_ADDRESS).1).observationCount, lastHourTimestamp := ((getOrCreateUser (getOrCreateUser (getOrCreateUser s e.pfrom).2 e.pto).2 ZERO_ADDRESS).1).lastHourTimestamp } e.timestamp ((getOrCreateUser (getOrCreateUser (getOrCreateUser s e.pfrom).2 e.pto).2 ZERO_ADDRESS).1).balance (obsPipeline { id := ((getOrCreateUser s e.pfrom).1).id, balance := ((getOrCreateUser s e.pfrom).1).balance - e.value, observationCount := ((getOrCreateUser s e.pfrom).1).observationCount, lastHourTimestamp := ((getOrCreateUser s e.pfrom).1).lastHourTimestamp } e.timestamp ((getOrCreateUser s e.pfrom).1).balance (saveUser (saveUser (getOrCreateUser (getOrCreateUser (getOrCreateUser s e.pfrom).2 e.pto).2 ZERO_ADDRESS).2 { id := ((getOrCreateUser s e.pfrom).1).id, balance := ((getOrCreateUser s e.pfrom).1).balance - e.value, observationCount := ((getOrCreateUser s e.pfrom).1).observationCount, lastHourTimestamp := ((getOrCreateUser s e.pfrom).1).lastHourTimestamp }) { id := ((getOrCreateUser (getOrCreateUser (getOrCreateUser s e.pfrom).2 e.pto).2 ZERO_ADDRESS).1).id, balance := ((getOrCreateUser (getOrCreateUser (getOrCreateUser s e.pfrom).2 e.pto).2 ZERO_ADDRESS).1).balance - e.value, observationCount := ((getOrCreateUser (getOrCreateUser (getOrCreateUser s e.pfrom).2 e.pto).2 ZERO_ADDRESS).1).observationCount, lastHourTimestamp := ((getOrCreateUser (getOrCreateUser (getOrCreateUser s e.pfrom).2 e.pto).2 ZERO_ADDRESS).1).lastHourTimestamp }))) e.pfrom (aexec es e.pfrom) ({ id := ((getOrCreateUser s e.pfrom).1).id, balance := ((getOrCreateUser s e.pfrom).1).balance - e.value, observationCount := ((getOrCreateUser s e.pfrom).1).observationCount, lastHourTimestamp := ((getOrCreateUser s e.pfrom).1).lastHourTimestamp }) e.timestamp
      (((getOrCreateUser s e.pfrom).1).balance) (-e.value) hFRpid ?_ ?_ ?_ hFb (habsWF e.pfrom) (habsHead e.pfrom) ht
      uSSf ?_ ?_ ?_ ?_
    · show ((getOrCreateUser s e.pfrom).1 : User).balance - e.value = (aexec es e.pfrom).balance + -e.value
      rw [hFb]
      ring
    · exact hFc
    · exact hFl
    · intro b
      rw [obsSS e.pfrom b]
      exact (hrel e.pfrom).1 b
    · exact chainInStore_mono s _ e.pfrom _ (fun y hy => obsSS e.pfrom y) (hrel e.pfrom).2.1
    · rw [obsPipeline_loadUser_other ({ id := ((getOrCreateUser (getOrCreateUser (getOrCreateUser s e.pfrom).2 e.pto).2 ZERO_ADDRESS).1).id, balance := ((getOrCreateUser (getOrCreateUser (getOrCreateUser s e.pfrom).2 e.pto).2 ZERO_ADDRESS).1).balance - e.value, observationCount := ((getOrCreateUser (getOrCreateUser (getOrCreateUser s e.pfrom).2 e.pto).2 ZERO_ADDRESS).1).observationCount, lastHourTimestamp := ((getOrCreateUser (getOrCreateUser (getOrCreateUser s e.pfrom).2 e.pto).2 ZERO_ADDRESS).1).lastHourTimestamp }) _ _ _ _ (by rw [hTKpid]; exact hf0)]
    · intro y
      rw [obsPipeline_loadObs_other ({ id := ((getOrCreateUser (getOrCreateUser (getOrCreateUser s e.pfrom).2 e.pto).2 ZERO_ADDRESS).1).id, balance := ((getOrCreateUser (getOrCreateUser (getOrCreateUser s e.pfrom).2 e.pto).2 ZERO_ADDRESS).1).balance - e.value, observationCount := ((getOrCreateUser (getOrCreateUser (getOrCreateUser s e.pfrom).2 e.pto).2 ZERO_ADDRESS).1).observationCount, lastHourTimestamp := ((getOrCreateUser (getOrCreateUser (getOrCreateUser s e.pfrom).2 e.pto).2 ZERO_ADDRESS).1).lastHourTimestamp }) _ _ _ _ _ (by rw [hTKpid]; exact hf0)]
  have uP1z : loadUser (obsPipeline { id := ((getOrCreateUser s e.pfrom).1).id, balance := ((getOrCreateUser s e.pfrom).1).balance - e.value, observationCount := ((getOrCreateUser s e.pfrom).1).observationCount, lastHourTimestamp := ((getOrCreateUser s e.pfrom).1).lastHourTimestamp } e.timestamp ((getOrCreateUser s e.pfrom).1).balance (saveUser (saveUser (getOrCreateUser (getOrCreateUser (getOrCreateUser s e.pfrom).2 e.pto).2 ZERO_ADDRESS).2 { id := ((getOrCreateUser s e.pfrom).1).id, balance := ((getOrCreateUser s e.pfrom).1).balance - e.value, observationCount := ((getOrCreateUser s e.pfrom).1).observationCount, lastHourTimestamp := ((getOrCreateUser s e.pfrom).1).lastHourTimestamp }) { id := ((getOrCreateUser (getOrCreateUser (getOrCreateUser s e.pfrom).2 e.pto).2 ZERO_ADDRESS).1).id, balance := ((getOrCreateUser (getOrCreateUser (getOrCreateUser s e.pfrom).2 e.pto).2 ZERO_ADDRESS).1).balance - e.value, observationCount := ((getOrCreateUser (getOrCreateUser (getOrCreateUser s e.pfrom).2 e.pto).2 ZERO_ADDRESS).1).observationCount, lastHourTimestamp := ((getOrCreateUser (getOrCreateUser (getOrCreateUser s e.pfrom).2 e.pto).2 ZERO_ADDRESS).1).lastHourTimestamp })) ZERO_ADDRESS = some ({ id := ((getOrCreateUser (getOrCreateUser (getOrCreateUser s e.pfrom).2 e.pto).2 ZERO_ADDRESS).1).id, balance := ((getOrCreateUser (getOrCreateUser (getOrCreateUser s e.pfrom).2 e.pto).2 ZERO_ADDRESS).1).balance - e.value, observationCount := ((getOrCreateUser (getOrCreateUser (getOrCreateUser s e.pfrom).2 e.pto).2 ZERO_ADDRESS).1).observationCount, lastHourTimestamp := ((getOrCreateUser (getOrCreateUser (getOrCreateUser s e.pfrom).2 e.pto).2 ZERO_ADDRESS).1).lastHourTimestamp }) := by
    rw [obsPipeline_loadUser_other ({ id := ((getOrCreateUser s e.pfrom).1).id, balance := ((getOrCreateUser s e.pfrom).1).balance - e.value, observationCount := ((getOrCreateUser s e.pfrom).1).observationCount, lastHourTimestamp := ((getOrCreateUser s e.pfrom).1).lastHourTimestamp }) _ _ _ _ (by rw [hFRpid]; exact fun h => hf0 h.symm)]
    exact uSSz
  have obsP1z : ∀ y, loadObs (obsPipeline { id := ((getOrCreateUser s e.pfrom).1).id, balance := ((getOrCreateUser s e.pfrom).1).balance - e.value, observationCount := ((getOrCreateUser s e.pfrom).1).observationCount, lastHourTimestamp := ((getOrCreateUser s e.pfrom).1).lastHourTimestamp } e.timestamp ((getOrCreateUser s e.pfrom).1).balance (saveUser (saveUser (getOrCreateUser (getOrCreateUser (getOrCreateUser s e.pfrom).2 e.pto).2 ZERO_ADDRESS).2 { id := ((getOrCreateUser s e.pfrom).1).id, balance := ((getOrCreateUser s e.pfrom).1).balance - e.value, observationCount := ((getOrCreateUser s e.pfrom).1).observationCount, lastHourTimestamp := ((getOrCreateUser s e.pfrom).1).lastHourTimestamp }) { id := ((getOrCreateUser (getOrCreateUser (getOrCreateUser s e.pfrom).2 e.pto).2 ZERO_ADDRESS).1).id, balance := ((getOrCreateUser (getOrCreateUser (getOrCreateUser s e.pfrom).2 e.pto).2 ZERO_ADDRESS).1).balance - e.value, observationCount := ((getOrCreateUser (getOrCreateUser (getOrCreateUser s e.pfrom).2 e.pto).2 ZERO_ADDRESS).1).observationCount, lastHourTimestamp := ((getOrCreateUser (getOrCreateUser (getOrCreateUser s e.pfrom).2 e.pto).2 ZERO_ADDRESS).1).lastHourTimestamp })) ZERO_ADDRESS y = loadObs s ZERO_ADDRESS y := by
    intro y
    rw [obsPipeline_loadObs_other ({ id := ((getOrCreateUser s e.pfrom).1).id, balance := ((getOrCreateUser s e.pfrom).1).balance - e.value, observationCount := ((getOrCreateUser s e.pfrom).1).observationCount, lastHourTimestamp := ((getOrCreateUser s e.pfrom).1).lastHourTimestamp }) _ _ _ _ _ (by rw [hFRpid]; exact fun h => hf0 h.symm)]
    exact obsSS ZERO_ADDRESS y
  have stepZ : AccMatches (obsPipeline { id := ((getOrCreateUser (getOrCreateUser (getOrCreateUser s e.pfrom).2 e.pto).2 ZERO_ADDRESS).1).id, balance := ((getOrCreateUser (getOrCreateUser (getOrCreateUser s e.pfrom).2 e.pto).2 ZERO_ADDRESS).1).balance - e.value, observationCount := ((getOrCreateUser (getOrCreateUser (getOrCreateUser s e.pfrom).2 e.pto).2 ZERO_ADDRESS).1).observationCount, lastHourTimestamp := ((getOrCreateUser (getOrCreateUser (getOrCreateUser s e.pfrom).2 e.pto).2 ZERO_ADDRESS).1).lastHourTimestamp } e.timestamp ((getOrCreateUser (getOrCreateUser (getOrCreateUser s e.pfrom).2 e.pto).2 ZERO_ADDRESS).1).balance (obsPipeline { id := ((getOrCreateUser s e.pfrom).1).id, balance := ((getOrCreateUser s e.pfrom).1).balance - e.value, observationCount := ((getOrCreateUser s e.pfrom).1).observationCount, lastHourTimestamp := ((getOrCreateUser s e.pfrom).1).lastHourTimestamp } e.timestamp ((getOrCreateUser s e.pfrom).1).balance (saveUser (saveUser (getOrCreateUser (getOrCreateUser (getOrCreateUser s e.pfrom).2 e.pto).2 ZERO_ADDRESS).2 { id := ((getOrCreateUser s e.pfrom).1).id, balance := ((getOrCreateUser s e.pfrom).1).balance - e.value, observationCount := ((getOrCreateUser s e.pfrom).1).observationCount, lastHourTimestamp := ((getOrCreateUser s e.pfrom).1).lastHourTimestamp }) { id := ((getOrCreateUser (getOrCreateUser (getOrCreateUser s e.pfrom).2 e.pto).2 ZERO_ADDRESS).1).id, balance := ((getOrCreateUser (getOrCreateUser (getOrCreateUser s e.pfrom).2 e.pto).2 ZERO_ADDRESS).1).balance - e.value, observationCount := ((getOrCreateUser (getOrCreateUser (getOrCreateUser s e.pfrom).2 e.pto).2 ZERO_ADDRESS).1).observationCount, lastHourTimestamp := ((getOrCreateUser (getOrCreateUser (getOrCreateUser s e.pfrom).2 e.pto).2 ZERO_ADDRESS).1).lastHourTimestamp }))) ZERO_ADDRESS
      (astepRaw (aexec es ZERO_ADDRESS) e.timestamp (-e.value)) := by
    refine accMatches_step (obsPipeline { id := ((getOrCreateUser s e.pfrom).1).id, balance := ((getOrCreateUser s e.pfrom).1).balance - e.value, observationCount := ((getOrCreateUser s e.pfrom).1).observationCount, lastHourTimestamp := ((getOrCreateUser s e.pfrom).1).lastHourTimestamp } e.timestamp ((getOrCreateUser s e.pfrom).1).balance (saveUser (saveUser (getOrCreateUser (getOrCreateUser (getOrCreateUser s e.pfrom).2 e.pto).2 ZERO_ADDRESS).2 { id := ((getOrCreateUser s e.pfrom).1).id, balance := ((getOrCreateUser s e.pfrom).1).balance - e.value, observationCount := ((getOrCreateUser s e.pfrom).1).observationCount, lastHourTimestamp := ((getOrCreateUser s e.pfrom).1).lastHourTimestamp }) { id := ((getOrCreateUser (getOrCreateUser (getOrCreateUser s e.pfrom).2 e.pto).2 ZERO_ADDRESS).1).id, balance := ((getOrCreateUser (getOrCreateUser (getOrCreateUser s e.pfrom).2 e.pto).2 ZERO_ADDRESS).1).balance - e.value, observationCount := ((getOrCreateUser (getOrCreateUser (getOrCreateUser s e.pfrom).2 e.pto).2 ZERO_ADDRESS).1).observationCount, lastHourTimestamp := ((getOrCreateUser (getOrCreateUser (getOrCreateUser s e.pfrom).2 e.pto).2 ZERO_ADDRESS).1).lastHourTimestamp })) (obsPipeline { id := ((getOrCreateUser (getOrCreateUser (getOrCreateUser s e.pfrom).2 e.pto).2 ZERO_ADDRESS).1).id, balance := ((getOrCreateUser (getOrCreateUser (getOrCreateUser s e.pfrom).2 e.pto).2 ZERO_ADDRESS).1).balance - e.value, observationCount := ((getOrCreateUser (getOrCreateUser (getOrCreateUser s e.pfrom).2 e.pto).2 ZERO_ADDRESS).1).observationCount, lastHourTimestamp := ((getOrCreateUser (getOrCreateUser (getOrCreateUser s e.pfrom).2 e.pto).2 ZERO_ADDRESS).1).lastHourTimestamp } e.timestamp ((getOrCreateUser (getOrCreateUser (getOrCreateUser s e.pfrom).2 e.pto).2 ZERO_ADDRESS).1).balance (obsPipeline { id := ((getOrCreateUser s e.pfrom).1).id, balance := ((getOrCreateUser s e.pfrom).1).balance - e.value, observationCount := ((getOrCreateUser s e.pfrom).1).observationCount, lastHourTimestamp := ((getOrCreateUser s e.pfrom).1).lastHourTimestamp } e.timestamp ((getOrCreateUser s e.pfrom).1).balance (saveUser (saveUser (getOrCreateUser (getOrCreateUser (getOrCreateUser s e.pfrom).2 e.pto).2 ZERO_ADDRESS).2 { id := ((getOrCreateUser s e.pfrom).1).id, balance := ((getOrCreateUser s e.pfrom).1).balance - e.value, observationCount := ((getOrCreateUser s e.pfrom).1).observationCount, lastHourTimestamp := ((getOrCreateUser s e.pfrom).1).lastHourTimestamp }) { id := ((getOrCreateUser (getOrCreateUser (getOrCreateUser s e.pfrom).2 e.pto).2 ZERO_ADDRESS).1).id, balance := ((getOrCreateUser (getOrCreateUser (getOrCreateUser s e.pfrom).2 e.pto).2 ZERO_ADDRESS).1).balance - e.value, observationCount := ((getOrCreateUser (getOrCreateUser (getOrCreateUser s e.pfrom).2 e.pto).2 ZERO_ADDRESS).1).observationCount, lastHourTimestamp := ((getOrCreateUser (getOrCreateUser (getOrCreateUser s e.pfrom).2 e.pto).2 ZERO_ADDRESS).1).lastHourTimestamp }))) ZERO_ADDRESS (aexec es ZERO_ADDRESS) ({ id := ((getOrCreateUser (getOrCreateUser (getOrCreateUser s e.pfrom).2 e.pto).2 ZERO_ADDRESS).1).id, balance := ((getOrCreateUser (getOrCreateUser (getOrCreateUser s e.pfrom).2 e.pto).2 ZERO_ADDRESS).1).balance - e.value, observationCount := ((getOrCreateUser (getOrCreateUser (getOrCreateUser s e.pfrom).2 e.pto).2 ZERO_ADDRESS).1).observationCount, lastHourTimestamp := ((getOrCreateUser (getOrCreateUser (getOrCreateUser s e.pfrom).2 e.pto).2 ZERO_ADDRESS).1).lastHourTimestamp })
      e.timestamp (((getOrCreateUser (getOrCreateUser (getOrCreateUser s e.pfrom).2 e.pto).2 ZERO_ADDRESS).1).balance) (-e.value) hTKpid ?_ ?_ ?_ hZb (habsWF ZERO_ADDRESS)
      (habsHead ZERO_ADDRESS) ht uP1z ?_ ?_ rfl (fun y => rfl)
    · show ((getOrCreateUser (getOrCreateUser (getOrCreateUser s e.pfrom).2 e.pto).2 ZERO_ADDRESS).1 : User).balance - e.value = (aexec es ZERO_ADDRESS).balance + -e.value
      rw [hZb]
      ring
    · exact hZc
    · exact hZl
    · intro b
      rw [obsP1z b]
      exact (hrel ZERO_ADDRESS).1 b
    · exact chainInStore_mono s _ ZERO_ADDRESS _ (fun y hy => obsP1z y)
        (hrel ZERO_ADDRESS).2.1
  intro x
  rw [hres, aexec_append]
  by_cases hx1 : x = e.pfrom
  · subst hx1
    rw [astepAcc_touch (touches_pfrom hv hf0), delta_pfrom e hv hf0 hne]
    exact stepF
  · by_cases hx3 : x = ZERO_ADDRESS
    · subst hx3
      have hdz : delta e ZERO_ADDRESS = -e.value := by
        rw [delta_zero_addr e hv, if_neg hf0, if_pos hbz]
      rw [astepAcc_touch (touches_zero hv), hdz]
      exact stepZ
    · rw [astepAcc_no (fun htc => by
        rcases touches_cases htc with h | h | h
        · exact hx3 h
        · exact hx1 h
        · exact hx3 (h.trans hbz))]
      refine accMatches_congr s (obsPipeline { id := ((getOrCreateUser (getOrCreateUser (getOrCreateUser s e.pfrom).2 e.pto).2 ZERO_ADDRESS).1).id, balance := ((getOrCreateUser (getOrCreateUser (getOrCreateUser s e.pfrom).2 e.pto).2 ZERO_ADDRESS).1).balance - e.value, observationCount := ((getOrCreateUser (getOrCreateUser (getOrCreateUser s e.pfrom).2 e.pto).2 ZERO_ADDRESS).1).observationCount, lastHourTimestamp := ((getOrCreateUser (getOrCreateUser (getOrCreateUser s e.pfrom).2 e.pto).2 ZERO_ADDRESS).1).lastHourTimestamp } e.timestamp ((getOrCreateUser (getOrCreateUser (getOrCreateUser s e.pfrom).2 e.pto).2 ZERO_ADDRESS).1).balance (obsPipeline { id := ((getOrCreateUser s e.pfrom).1).id, balance := ((getOrCreateUser s e.pfrom).1).balance - e.value, observationCount := ((getOrCreateUser s e.pfrom).1).observationCount, lastHourTimestamp := ((getOrCreateUser s e.pfrom).1).lastHourTimestamp } e.timestamp ((getOrCreateUser s e.pfrom).1).balance (saveUser (saveUser (getOrCreateUser (getOrCreateUser (getOrCreateUser s e.pfrom).2 e.pto).2 ZERO_ADDRESS).2 { id := ((getOrCreateUser s e.pfrom).1).id, balance := ((getOrCreateUser s e.pfrom).1).balance - e.value, observationCount := ((getOrCreateUser s e.pfrom).1).observationCount, lastHourTimestamp := ((getOrCreateUser s e.pfrom).1).lastHourTimestamp }) { id := ((getOrCreateUser (getOrCreateUser (getOrCreateUser s e.pfrom).2 e.pto).2 ZERO_ADDRESS).1).id, balance := ((getOrCreateUser (getOrCreateUser (getOrCreateUser s e.pfrom).2 e.pto).2 ZERO_ADDRESS).1).balance - e.value, observationCount := ((getOrCreateUser (getOrCreateUser (getOrCreateUser s e.pfrom).2 e.pto).2 ZERO_ADDRESS).1).observationCount, lastHourTimestamp := ((getOrCreateUser (getOrCreateUser (getOrCreateUser s e.pfrom).2 e.pto).2 ZERO_ADDRESS).1).lastHourTimestamp }))) x _ ?_ ?_ (hrel x)
      · rw [obsPipeline_loadUser_other ({ id := ((getOrCreateUser (getOrCreateUser (getOrCreateUser s e.pfrom).2 e.pto).2 ZERO_ADDRESS).1).id, balance := ((getOrCreateUser (getOrCreateUser (getOrCreateUser s e.pfrom).2 e.pto).2 ZERO_ADDRESS).1).balance - e.value, observationCount := ((getOrCreateUser (getOrCreateUser (getOrCreateUser s e.pfrom).2 e.pto).2 ZERO_ADDRESS).1).observationCount, lastHourTimestamp := ((getOrCreateUser (getOrCreateUser (getOrCreateUser s e.pfrom).2 e.pto).2 ZERO_ADDRESS).1).lastHourTimestamp }) _ _ _ _ (by rw [hTKpid]; exact hx3),
          obsPipeline_loadUser_other ({ id := ((getOrCreateUser s e.pfrom).1).id, balance := ((getOrCreateUser s e.pfrom).1).balance - e.value, observationCount := ((getOrCreateUser s e.pfrom).1).observationCount, lastHourTimestamp := ((getOrCreateUser s e.pfrom).1).lastHourTimestamp }) _ _ _ _ (by rw [hFRpid]; exact hx1),
          loadUser_saveUser, if_neg (by rw [hTKpid]; exact hx3),
          loadUser_saveUser, if_neg (by rw [hFRpid]; exact hx1),
          spec3.2.2.2.1 x hx3, spec2.2.2.2.1 x (by rw [hbz]; exact hx3),
          spec1.2.2.2.1 x hx1]
      · intro y
        rw [obsPipeline_loadObs_other ({ id := ((getOrCreateUser (getOrCreateUser (getOrCreateUser s e.pfrom).2 e.pto).2 ZERO_ADDRESS).1).id, balance := ((getOrCreateUser (getOrCreateUser (getOrCreateUser s e.pfrom).2 e.pto).2 ZERO_ADDRESS).1).balance - e.value, observationCount := ((getOrCreateUser (getOrCreateUser (getOrCreateUser s e.pfrom).2 e.pto).2 ZERO_ADDRESS).1).observationCount, lastHourTimestamp := ((getOrCreateUser (getOrCreateUser (getOrCreateUser s e.pfrom).2 e.pto).2 ZERO_ADDRESS).1).lastHourTimestamp }) _ _ _ _ _ (by rw [hTKpid]; exact hx3),
          obsPipeline_loadObs_other ({ id := ((getOrCreateUser s e.pfrom).1).id, balance := ((getOrCreateUser s e.pfrom).1).balance - e.value, observationCount := ((getOrCreateUser s e.pfrom).1).observationCount, lastHourTimestamp := ((getOrCreateUser s e.pfrom).1).lastHourTimestamp }) _ _ _ _ _ (by rw [hFRpid]; exact hx1)]
        exact obsSS x y


theorem rel_step (s s' : Store) (es : List Event) (e : Event)
    (hWF : StoreIdWF s) (hA : AccountsOK s)
    (hrel : ∀ x, AccMatches s x (aexec es x))
    (habsWF : ∀ x, AAccWF (aexec es x))
    (habsHead : ∀ x, headLastLE (aexec es x) e.timestamp)
    (hge : goodEventB e = true)
    (h : handleTransfer s e = .ok s') :
    (∀ x, AccMatches s' x (aexec (es ++ [e]) x)) ∧ AccountsOK s' := by
  rcases goodEventB_spec hge with ⟨hv0, ht36, hfne⟩
  by_cases hv : 0 < e.value
  · have spec1 := getOrCreateUser_spec s e.pfrom hWF
    have spec2 := getOrCreateUser_spec (getOrCreateUser s e.pfrom).2 e.pto spec1.2.2.2.2.2
    by_cases hf : e.pfrom = ZERO_ADDRESS
    · by_cases hb : e.pto = ZERO_ADDRESS
      · exact absurd (hf.trans hb.symm) hfne
      · have hfb : ((getOrCreateUser s e.pfrom).1.id == ZERO_ADDRESS) = true := by
          rw [spec1.1]
          exact beq_iff_eq.mpr hf
        have hbb : ((getOrCreateUser (getOrCreateUser s e.pfrom).2 e.pto).1.id ==
            ZERO_ADDRESS) = false := by
          rw [spec2.1]
          exact beq_eq_false_iff_ne.mpr hb
        rw [handleTransfer_mint s e hv hfb hbb] at h
        injection h with h
        subst h
        exact ⟨rel_step_mint s es e hWF hrel habsWF habsHead ht36 hv hf hb,
          (c2_step_mint s e hWF hA hb).1⟩
    · by_cases hb : e.pto = ZERO_ADDRESS
      · have hfb : ((getOrCreateUser s e.pfrom).1.id == ZERO_ADDRESS) = false := by
          rw [spec1.1]
          exact beq_eq_false_iff_ne.mpr hf
        have hbb : ((getOrCreateUser (getOrCreateUser s e.pfrom).2 e.pto).1.id ==
            ZERO_ADDRESS) = true := by
          rw [spec2.1]
          exact beq_iff_eq.mpr hb
        rw [handleTransfer_burn s e hv hfb hbb] at h
        injection h with h
        subst h
        exact ⟨rel_step_burn s es e hWF hrel habsWF habsHead ht36 hv hf hb,
          (c2_step_burn s e hWF hA hf).1⟩
      · have hfb : ((getOrCreateUser s e.pfrom).1.id == ZERO_ADDRESS) = false := by
          rw [spec1.1]
          exact beq_eq_false_iff_ne.mpr hf
        have hbb : ((getOrCreateUser (getOrCreateUser s e.pfrom).2 e.pto).1.id ==
            ZERO_ADDRESS) = false := by
          rw [spec2.1]
          exact beq_eq_false_iff_ne.mpr hb
        rw [handleTransfer_regular s e hv hfb hbb] at h
        injection h with h
        subst h
        exact ⟨rel_step_regular s es e hWF hrel habsWF habsHead ht36 hv hfne hf hb,
          (c2_step_regular s e hWF hA hfne hf hb).1⟩
  · rw [handleTransfer_zero s e hv] at h
    injection h with h
    subst h
    refine ⟨?_, hA⟩
    intro x
    rw [aexec_append, astepAcc_no (fun htc => hv htc.1)]
    exact hrel x

theorem applyHistoryFrom_append (e : Event) : ∀ (es : List Event) (s : Store),
    applyHistoryFrom s (es ++ [e]) =
      (match applyHistoryFrom s es with
       | .ok s1 => handleTransfer s1 e
       | .error err => .error err) := by
  intro es
  induction es with
  | nil =>
    intro s
    rw [List.nil_append]
    show applyHistoryFrom s [e] = handleTransfer s e
    rw [applyHistoryFrom]
    cases hh : handleTransfer s e with
    | ok s1 => rfl
    | error err => rfl
  | cons f rest ih =>
    intro s
    rw [List.cons_append, applyHistoryFrom, applyHistoryFrom]
    cases hh : handleTransfer s f with
    | ok s1 => exact ih s1
    | error err => rfl

theorem accMatches_empty (x : Addr) : AccMatches emptyStore x (aexec [] x) := by
  refine ⟨fun b => ?_, trivial, rfl⟩
  show (none : Option HourObservation).isSome = true ↔ b ∈ ([] : List Int)
  simp

/-- After any good history that the handlers process without error, the
store realizes the abstract per-account states. -/
theorem history_inv : ∀ (es : List Event) (s : Store), GoodHistoryB es = true →
    applyHistory es = .ok s →
    StoreIdWF s ∧ AccountsOK s ∧ (∀ x, AccMatches s x (aexec es x)) := by
  intro es
  induction es using List.reverseRecOn with
  | nil =>
    intro s _ h
    injection h with h
    subst h
    exact ⟨storeIdWF_empty, accountsOK_empty, accMatches_empty⟩
  | append_singleton es e ih =>
    intro s hG h
    rcases goodHistoryB_append hG with ⟨hG1, hge, hle⟩
    unfold applyHistory at h
    rw [applyHistoryFrom_append] at h
    cases ha : applyHistoryFrom emptyStore es with
    | error err =>
      rw [ha] at h
      exact Except.noConfusion h
    | ok s1 =>
      rw [ha] at h
      rcases ih s1 hG1 ha with ⟨w1, w2, w3⟩
      have habsWF : ∀ x, AAccWF (aexec es x) := fun x => (abstract_correct x es hG1).1
      have habsHead : ∀ x, headLastLE (aexec es x) e.timestamp := fun x =>
        headLastLE_mono (abstract_correct x es hG1).2.1 hle
      rcases rel_step s1 s es e w1 w2 w3 habsWF habsHead hge h with ⟨r1, r2⟩
      exact ⟨storeIdWF_handleTransfer s1 e s w1 h, r2, r1⟩


/-! ## The metric query computes the abstract walk -/

theorem chainWF_buckets_ge : ∀ (ch : List ChainEntry), ChainWF ch →
    ∀ b ∈ ch.map ChainEntry.bucket, SECONDS_PER_HOUR ≤ b := by
  intro ch
  induction ch with
  | nil =>
    intro _ b hb
    cases hb
  | cons c rest ih =>
    intro hWF b hb
    rcases hWF with ⟨hE, hR, hI⟩
    simp only [List.map_cons, List.mem_cons] at hb
    rcases hb with rfl | hb'
    · exact hE.2
    · exact ih hR b (List.mem_map.mpr (List.mem_map.mp hb'))

theorem hodlWalk_chain (s : Store) (a : Addr) (T : Int) :
    ∀ (ch : List ChainEntry) (fuel : Nat), ChainWF ch → ChainInStore s a ch →
      ch.length < fuel →
      hodlWalk s a T fuel (prevBucketOf ch) = .ok (walkCE T ch) := by
  intro ch
  induction ch with
  | nil =>
    intro fuel _ _ hf
    cases fuel with
    | zero => simp at hf
    | succ n =>
      rw [hodlWalk]
      rw [show prevBucketOf ([] : List ChainEntry) = 0 from rfl]
      rw [if_neg (by norm_num)]
      rfl
  | cons c rest ih =>
    intro fuel hWF hcis hf
    rcases hWF with ⟨hE, hR, hI⟩
    rcases hcis with ⟨⟨o, ho, hm⟩, hrest⟩
    rcases hm with ⟨hmu, hmt, hmb, hmc, hmp⟩
    cases fuel with
    | zero => simp at hf
    | succ n =>
      rw [show prevBucketOf (c :: rest) = c.bucket from rfl]
      rw [hodlWalk]
      have hpos : 0 < c.bucket := by
        have := hE.2
        unfold SECONDS_PER_HOUR at this
        omega
      rw [if_pos hpos, ho]
      dsimp only
      by_cases hT : o.lastTimestamp ≤ T
      · rw [if_pos hT]
        rw [walkCE, if_pos (hmt ▸ hT)]
        unfold extrapolateCumulativeHODL
        rw [hmt, hmb, hmc]
      · rw [if_neg hT]
        rw [walkCE, if_neg (hmt ▸ hT)]
        rw [hmp]
        exact ih n hR hrest (by simp only [List.length_cons] at hf; omega)

theorem exact_branch (s : Store) (a : Addr) (T : Int)
    (hzero : loadObs s a 0 = none) :
    ∀ (ch : List ChainEntry), ChainWF ch → ChainInStore s a ch →
      T ∈ ch.map ChainEntry.bucket →
      ∀ obs, loadObs s a T = some obs →
      (match loadObs s a obs.previousHourTimestamp with
       | some previousObservation =>
         (Except.ok (extrapolateCumulativeHODL previousObservation T) :
           Except QueryError Int)
       | none => Except.ok 0) = .ok (walkCE T ch) := by
  intro ch
  induction ch with
  | nil =>
    intro _ _ hmem
    simp at hmem
  | cons c rest ih =>
    intro hWF hcis hmem obs hobs
    rcases hWF with ⟨hE, hR, hI⟩
    rcases hcis with ⟨⟨o, ho, hm⟩, hrest⟩
    rcases entryWF_bounds hE with ⟨hl1, hl2, hl3, hl4⟩
    simp only [List.map_cons, List.mem_cons] at hmem
    rcases hmem with hTc | hTrest
    · have hoT : loadObs s a T = some o := by
        rw [hTc]
        exact ho
      have hobso : obs = o := by
        have h2 := hobs.symm.trans hoT
        injection h2
      subst hobso
      rcases hm with ⟨hmu, hmt, hmb, hmc, hmp⟩
      rw [hmp]
      cases rest with
      | nil =>
        rw [show prevBucketOf ([] : List ChainEntry) = 0 from rfl, hzero]
        rw [walkCE]
        by_cases hcl : c.lastTimestamp ≤ T
        · rw [if_pos hcl]
          have hc0 : c.cum = 0 := hI (by omega)
          have hclT : c.lastTimestamp = T := by omega
          rw [hc0, hclT, sub_self, mul_zero, add_zero]
        · rw [if_neg hcl]
          rfl
      | cons c2 rest2 =>
        rcases hrest with ⟨⟨o2, ho2, hm2⟩, hrest2⟩
        rcases hm2 with ⟨h2u, h2t, h2b, h2c, h2p⟩
        rw [show prevBucketOf (c2 :: rest2) = c2.bucket from rfl, ho2]
        have hIp := hI
        rcases hR with ⟨hE2, hR2, hI2⟩
        rcases entryWF_bounds hE2 with ⟨hq1, hq2, hq3, hq4⟩
        have hdec : c2.bucket + SECONDS_PER_HOUR ≤ c.bucket := hIp.1
        have h2T : c2.lastTimestamp ≤ T := by omega
        rw [walkCE]
        by_cases hcl : c.lastTimestamp ≤ T
        · rw [if_pos hcl]
          have hclT : c.lastTimestamp = T := by omega
          have hcum := hIp.2 (by omega)
          refine congrArg Except.ok ?_
          unfold extrapolateCumulativeHODL
          rw [h2t, h2b, h2c, hcum, hclT, ← hTc]
          ring
        · rw [if_neg hcl]
          rw [walkCE, if_pos h2T]
          refine congrArg Except.ok ?_
          unfold extrapolateCumulativeHODL
          rw [h2t, h2b, h2c]
    · have hlt := chainWF_tail_lt rest c ⟨hE, hR, hI⟩ T hTrest
      rw [walkCE, if_neg (by unfold SECONDS_PER_HOUR at hlt; omega : ¬ (c.lastTimestamp ≤ T))]
      exact ih hR hrest hTrest obs hobs

/-- The metric query returns exactly the abstract backward walk of the
realized chain, at every aligned timestamp. -/
theorem metric_eq_walk (s : Store) (a : Addr) (A : AAcc) (T : Int)
    (hm : AccMatches s a A) (hWFA : AAccWF A) (hal : T = getHourTimestamp T) :
    getOrComputeCumulativeHODL s a T = .ok (walkCE T A.chain) := by
  unfold getOrComputeCumulativeHODL
  rw [if_pos hal]
  rcases hm with ⟨hiso, hcis, hrec⟩
  have hzero : loadObs s a 0 = none := by
    cases hz : loadObs s a 0 with
    | none => rfl
    | some o =>
      have hmem := (hiso 0).mp (by rw [hz]; rfl)
      have := chainWF_buckets_ge A.chain hWFA.1 0 hmem
      unfold SECONDS_PER_HOUR at this
      omega
  cases hch : A.chain with
  | nil =>
    rw [hch] at hrec
    dsimp only at hrec
    rw [hrec]
    rfl
  | cons c rest =>
    rw [hch] at hrec hcis
    have hCW : ChainWF (c :: rest) := by
      have := hWFA.1
      rw [hch] at this
      exact this
    rw [hrec]
    dsimp only
    cases hobs : loadObs s a T with
    | some obs =>
      have hmem : T ∈ (c :: rest).map ChainEntry.bucket := by
        have := (hiso T).mp (by rw [hobs]; rfl)
        rw [hch] at this
        exact this
      exact exact_branch s a T hzero (c :: rest) hCW hcis hmem obs hobs
    | none =>
      have hwalk := hodlWalk_chain s a T (c :: rest) ((c :: rest).length + 1) hCW hcis
        (by omega)
      rw [show prevBucketOf (c :: rest) = c.bucket from rfl] at hwalk
      have hnat : ((((c :: rest).length : Int)).toNat) = (c :: rest).length :=
        Int.toNat_natCast _
      rw [hnat]
      exact hwalk


/-- Master correctness: on any good history processed without error, the
metric query at an aligned timestamp returns exactly the time integral of
the account's balance computed directly from the event feed. -/
theorem metric_correct (es : List Event) (s : Store) (a : Addr) (T : Int)
    (hgood : GoodHistoryB es = true) (happ : applyHistory es = .ok s)
    (hal : T = getHourTimestamp T) :
    getOrComputeCumulativeHODL s a T = .ok (trueHODL es a T) := by
  obtain ⟨hid, hok, hmat⟩ := history_inv es s hgood happ
  obtain ⟨hWF, hle, hwalk⟩ := abstract_correct a es hgood
  rw [metric_eq_walk s a (aexec es a) T (hmat a) hWF hal, hwalk T hal]

/-! ## The walk worded by the specification equals the abstract walk -/

theorem walkObs_chain (s : Store) (a : Addr) (T : Int)
    (hzero : loadObs s a 0 = none) :
    ∀ (ch : List ChainEntry) (fuel : Nat), ChainWF ch → ChainInStore s a ch →
      ch.length ≤ fuel →
      walkObsList T (specChain s a fuel (prevBucketOf ch)) = walkCE T ch := by
  intro ch
  induction ch with
  | nil =>
    intro fuel _ _ _
    cases fuel with
    | zero => rfl
    | succ n =>
      rw [show prevBucketOf ([] : List ChainEntry) = 0 from rfl]
      rw [specChain, hzero]
      rfl
  | cons c rest ih =>
    intro fuel hWF hcis hf
    rcases hWF with ⟨hE, hR, hI⟩
    rcases hcis with ⟨⟨o, ho, hm⟩, hrest⟩
    rcases hm with ⟨hmu, hmt, hmb, hmc, hmp⟩
    rcases entryWF_bounds hE with ⟨hl1, hl2, hl3, hl4⟩
    cases fuel with
    | zero => simp at hf
    | succ n =>
      rw [show prevBucketOf (c :: rest) = c.bucket from rfl]
      rw [specChain, ho]
      have hprev : o.previousHourTimestamp < c.bucket := by
        rw [hmp]
        cases rest with
        | nil =>
          rw [show prevBucketOf ([] : List ChainEntry) = 0 from rfl]
          unfold SECONDS_PER_HOUR at hl4
          omega
        | cons c2 rest2 =>
          rw [show prevBucketOf (c2 :: rest2) = c2.bucket from rfl]
          have := hI.1
          unfold SECONDS_PER_HOUR at this
          omega
      dsimp only
      rw [if_pos hprev]
      rw [walkObsList, walkCE, hmt]
      by_cases hT : c.lastTimestamp ≤ T
      · rw [if_pos hT, if_pos hT]
        unfold extrapolateCumulativeHODL
        rw [hmt, hmb, hmc]
      · rw [if_neg hT, if_neg hT, hmp]
        exact ih n hR hrest (by simp only [List.length_cons] at hf; omega)

/-- The walk described by the specification computes the abstract walk of
the realized chain. -/
theorem metricAtSpec_eq_walk (s : Store) (a : Addr) (A : AAcc) (T : Int)
    (hm : AccMatches s a A) (hWFA : AAccWF A) :
    metricAtSpec s a T = walkCE T A.chain := by
  unfold metricAtSpec
  rcases hm with ⟨hiso, hcis, hrec⟩
  have hzero : loadObs s a 0 = none := by
    cases hz : loadObs s a 0 with
    | none => rfl
    | some o =>
      have hmem := (hiso 0).mp (by rw [hz]; rfl)
      have := chainWF_buckets_ge A.chain hWFA.1 0 hmem
      unfold SECONDS_PER_HOUR at this
      omega
  cases hch : A.chain with
  | nil =>
    rw [hch] at hrec
    dsimp only at hrec
    rw [hrec]
    rfl
  | cons c rest =>
    rw [hch] at hrec hcis
    have hCW : ChainWF (c :: rest) := by
      have := hWFA.1
      rw [hch] at this
      exact this
    rw [hrec]
    dsimp only
    have hw := walkObs_chain s a T hzero (c :: rest) ((c :: rest).length + 1) hCW hcis
      (by omega)
    rw [show prevBucketOf (c :: rest) = c.bucket from rfl] at hw
    have hnat : ((((c :: rest).length : Int)).toNat) = (c :: rest).length :=
      Int.toNat_natCast _
    rw [hnat]
    exact hw

/-- C4: for every good history (chronological, nonzero-aligned start,
first event at or after the first bucket boundary, no self-transfers)
processed without error, and every bucket-aligned timestamp T, the metric
query returns exactly the value described by the specification: 0 for a
never-observed account, otherwise the extrapolation from the first
checkpoint of the backward walk whose last event time is at most T, and 0
when the walk exhausts the chain. As literally stated over arbitrary
histories the claim fails: an event before the first bucket boundary
creates a bucket-0 checkpoint that the code walk (whose loop guard stops
at bucket 0) never visits, while the described walk does. -/
theorem claim_C4_spec_walk (es : List Event) (s : Store) (a : Addr) (T : Int)
    (hgood : GoodHistoryB es = true) (happ : applyHistory es = .ok s)
    (hal : T = getHourTimestamp T) :
    getOrComputeCumulativeHODL s a T = .ok (metricAtSpec s a T) := by
  obtain ⟨hid, hok, hmat⟩ := history_inv es s hgood happ
  obtain ⟨hWF, hle, hwalk⟩ := abstract_correct a es hgood
  rw [metric_eq_walk s a (aexec es a) T (hmat a) hWF hal,
    metricAtSpec_eq_walk s a (aexec es a) T (hmat a) hWF]

/-- C4 witness: on the two-event history wHist the query at the aligned
timestamp 7200 equals the specification walk value. -/
theorem claim_C4_spec_walk_witness :
    GoodHistoryB wHist = true ∧ applyHistory wHist = .ok wStore ∧
    (7200 : Int) = getHourTimestamp 7200 ∧
    getOrComputeCumulativeHODL wStore addrA 7200 = .ok (metricAtSpec wStore addrA 7200) :=
  ⟨rfl, rfl, by decide, claim_C4_spec_walk wHist wStore addrA 7200 rfl rfl (by decide)⟩


/-! ## C1: summing the metric over the stored accounts -/

theorem sumMetrics_ok (s : Store) (T : Int) (f : Addr → Int) :
    ∀ L : List Addr, (∀ a ∈ L, getOrComputeCumulativeHODL s a T = .ok (f a)) →
      sumMetrics s T L = .ok ((L.map f).sum) := by
  intro L
  induction L with
  | nil => intro _; rfl
  | cons a rest ih =>
    intro h
    unfold sumMetrics
    rw [h a (List.mem_cons_self a rest),
      ih (fun b hb => h b (List.mem_cons_of_mem a hb))]
    rfl

theorem astepRaw_chain_nonempty (A : AAcc) (t d : Int) :
    (astepRaw A t d).chain ≠ [] := by
  unfold astepRaw
  cases A.chain with
  | nil => simp
  | cons c rest =>
    dsimp only
    by_cases hb : c.bucket = getHourTimestamp t
    · rw [if_pos hb]
      simp
    · rw [if_neg hb]
      simp

theorem touched_chain_ne (x : Addr) :
    ∀ es : List Event, (∃ e ∈ es, touches e x) → (aexec es x).chain ≠ [] := by
  intro es
  induction es using List.reverseRecOn with
  | nil =>
    rintro ⟨e, he, _⟩
    cases he
  | append_singleton es e ih =>
    rintro ⟨f, hf, htc⟩
    rw [aexec_append]
    unfold astepAcc
    by_cases ht : touches e x
    · rw [if_pos ht]
      exact astepRaw_chain_nonempty _ _ _
    · rw [if_neg ht]
      rcases List.mem_append.mp hf with h1 | h2
      · exact ih ⟨f, h1, htc⟩
      · have hfe : f = e := by simpa using h2
        exact absurd (hfe ▸ htc) ht

theorem endpoint_mem (es : List Event) (s : Store) (x : Addr)
    (hinv : ∀ y, AccMatches s y (aexec es y)) (hok : AccountsOK s)
    (h : ∃ e ∈ es, touches e x) : x ∈ s.accounts := by
  have hne := touched_chain_ne x es h
  obtain ⟨hiso, hcis, hrec⟩ := hinv x
  cases hch : (aexec es x).chain with
  | nil => exact absurd hch hne
  | cons c rest =>
    rw [hch] at hrec
    dsimp only at hrec
    exact (hok.1 x).mp (by rw [hrec]; rfl)

/-- C1: for every good history (chronological, no self-transfers, first
event at or after the first bucket boundary) processed without error and
every bucket-aligned timestamp T ≥ 0, the sum of the metric over the
stored non-sentinel accounts equals the sentinel's metric. As literally
stated over arbitrary chronological histories the claim fails: an event
before the first bucket boundary leaves checkpoints in bucket 0, which
the query's backward walk never reaches, and the conservation breaks. -/
theorem claim_C1_metric_sum (es : List Event) (s : Store) (T : Int)
    (hgood : GoodHistoryB es = true) (happ : applyHistory es = .ok s)
    (hal : T = getHourTimestamp T) (hT : 0 ≤ T) :
    metricSum s T = getOrComputeCumulativeHODL s ZERO_ADDRESS T := by
  obtain ⟨hid, hok, hmat⟩ := history_inv es s hgood happ
  have hm : ∀ a, getOrComputeCumulativeHODL s a T = .ok (trueHODL es a T) :=
    fun a => metric_correct es s a T hgood happ hal
  obtain ⟨hall, hchrono⟩ := goodHistoryB_parts hgood
  have hge : ∀ e ∈ es, goodEventB e = true := by
    intro e he
    exact List.all_eq_true.mp hall e he
  rw [show metricSum s T =
    sumMetrics s T (s.accounts.filter (fun a => a != ZERO_ADDRESS)) from rfl]
  rw [sumMetrics_ok s T (fun a => trueHODL es a T) _ (fun a _ => hm a), hm ZERO_ADDRESS]
  refine congrArg Except.ok ?_
  have hnd : (s.accounts.filter (fun a => a != ZERO_ADDRESS)).Nodup :=
    hok.2.filter _
  rw [← List.sum_toFinset _ hnd]
  have hZ : ZERO_ADDRESS ∉ (s.accounts.filter (fun a => a != ZERO_ADDRESS)).toFinset := by
    intro hmem
    have := (List.mem_filter.mp (List.mem_toFinset.mp hmem)).2
    simp at this
  refine sum_trueHODL _ hZ es T hchrono hT ?_ ?_ ?_
  · intro e he
    exact (goodEventB_spec (hge e he)).2.2
  · intro e he hv hfz
    rw [List.mem_toFinset, List.mem_filter]
    refine ⟨endpoint_mem es s e.pfrom hmat hok
      ⟨e, he, hv, Or.inr (Or.inl ⟨rfl, hfz⟩)⟩, ?_⟩
    simp [hfz]
  · intro e he hv htz
    rw [List.mem_toFinset, List.mem_filter]
    refine ⟨endpoint_mem es s e.pto hmat hok
      ⟨e, he, hv, Or.inr (Or.inr ⟨rfl, htz⟩)⟩, ?_⟩
    simp [htz]

/-- C1 witness: on the two-event history wHist the sum of the metric over
the stored non-sentinel accounts at the aligned timestamp 7200 equals the
sentinel's metric. -/
theorem claim_C1_metric_sum_witness :
    GoodHistoryB wHist = true ∧ applyHistory wHist = .ok wStore ∧
    (7200 : Int) = getHourTimestamp 7200 ∧ (0 : Int) ≤ 7200 ∧
    metricSum wStore 7200 = getOrComputeCumulativeHODL wStore ZERO_ADDRESS 7200 :=
  ⟨rfl, rfl, by decide, by decide,
    claim_C1_metric_sum wHist wStore 7200 rfl rfl (by decide) (by decide)⟩


/-! ## C3: monotonicity of the metric on overdraft-free histories -/

theorem balanceOf_snoc_nonneg (done : List Event) (e : Event)
    (hg : goodEventB e = true)
    (hguard : (!(decide (0 < e.value) && (e.pfrom != ZERO_ADDRESS)) ||
      decide (e.value ≤ balanceOf done e.pfrom)) = true)
    (hbase : ∀ a, a ≠ ZERO_ADDRESS → 0 ≤ balanceOf done a) :
    ∀ a, a ≠ ZERO_ADDRESS → 0 ≤ balanceOf (done ++ [e]) a := by
  intro a ha
  rw [balanceOf_append]
  have hbe : balanceOf [e] a = delta e a := by
    rw [balanceOf_cons, balanceOf_nil]
    ring
  rw [hbe]
  obtain ⟨hv0, hts, hne⟩ := goodEventB_spec hg
  by_cases hv : 0 < e.value
  · unfold delta
    rw [if_pos hv]
    by_cases hfa : a = e.pfrom ∧ e.pfrom ≠ ZERO_ADDRESS
    · rw [if_pos hfa]
      have h2 : ¬ (a = e.pto ∧ e.pto ≠ ZERO_ADDRESS) := by
        intro hc
        exact hne (hfa.1 ▸ hc.1)
      rw [if_neg h2, if_neg ha]
      have hgd : e.value ≤ balanceOf done e.pfrom := by
        rw [Bool.or_eq_true] at hguard
        rcases hguard with h | h
        · exfalso
          rw [Bool.not_eq_true'] at h
          rw [decide_eq_true hv, bne_iff_ne.mpr hfa.2] at h
          simp at h
        · exact of_decide_eq_true h
      rw [← hfa.1] at hgd
      have hb := hbase a ha
      omega
    · rw [if_neg hfa, if_neg ha]
      by_cases hta : a = e.pto ∧ e.pto ≠ ZERO_ADDRESS
      · rw [if_pos hta]
        have hb := hbase a ha
        omega
      · rw [if_neg hta]
        have hb := hbase a ha
        omega
  · rw [delta_of_nonpos e a hv]
    have hb := hbase a ha
    omega

theorem nonneg_filter_aux (t : Int) :
    ∀ (es done : List Event) (L : Int), chronoFromB L es = true →
      (∀ e ∈ es, goodEventB e = true) →
      noOverdraftAux done es = true →
      (∀ a, a ≠ ZERO_ADDRESS → 0 ≤ balanceOf done a) →
      ∀ a, a ≠ ZERO_ADDRESS →
        0 ≤ balanceOf (done ++ es.filter (fun e => decide (e.timestamp ≤ t))) a := by
  intro es
  induction es with
  | nil =>
    intro done L _ _ _ hbase a ha
    rw [List.filter_nil, List.append_nil]
    exact hbase a ha
  | cons e rest ih =>
    intro done L hc hg hno hbase a ha
    rcases chronoFromB_cons.mp hc with ⟨hL, hc2⟩
    rw [noOverdraftAux, Bool.and_eq_true] at hno
    rw [List.filter_cons]
    by_cases hts : e.timestamp ≤ t
    · rw [decide_eq_true hts, if_pos rfl]
      rw [show done ++ e :: List.filter (fun e => decide (e.timestamp ≤ t)) rest =
        (done ++ [e]) ++ List.filter (fun e => decide (e.timestamp ≤ t)) rest by
          rw [List.append_assoc]
          rfl]
      exact ih (done ++ [e]) e.timestamp hc2
        (fun f hf => hg f (List.mem_cons_of_mem e hf)) hno.2
        (balanceOf_snoc_nonneg done e (hg e (List.mem_cons_self e rest)) hno.1 hbase)
        a ha
    · rw [decide_eq_false hts, if_neg Bool.false_ne_true]
      have hrest : List.filter (fun e => decide (e.timestamp ≤ t)) rest = [] := by
        rw [List.filter_eq_nil_iff]
        intro f hf
        have hge := chronoFromB_all_ge hc2 f hf
        simp only [decide_eq_true_eq]
        omega
      rw [hrest, List.append_nil]
      exact hbase a ha

theorem balAt_nonneg_of_ne (es : List Event) (a : Addr) (t : Int)
    (hchrono : chronoFromB 0 es = true)
    (hg : ∀ e ∈ es, goodEventB e = true) (hnod : noOverdraftB es = true)
    (ha : a ≠ ZERO_ADDRESS) : 0 ≤ balAt es a t := by
  have h := nonneg_filter_aux t es [] 0 hchrono hg hnod
    (fun x _ => le_of_eq (balanceOf_nil x).symm) a ha
  rw [List.nil_append] at h
  exact h

theorem balAt_nonneg_all (es : List Event) (t : Int) (hgood : GoodHistoryB es = true)
    (hnod : noOverdraftB es = true) : ∀ a, 0 ≤ balAt es a t := by
  obtain ⟨hall, hchrono⟩ := goodHistoryB_parts hgood
  have hge : ∀ e ∈ es, goodEventB e = true := fun e he => List.all_eq_true.mp hall e he
  intro a
  by_cases ha : a = ZERO_ADDRESS
  · subst ha
    set S := ((es.map Event.pfrom) ++ (es.map Event.pto)).toFinset.erase ZERO_ADDRESS
      with hS
    have hZ : ZERO_ADDRESS ∉ S := Finset.not_mem_erase _ _
    have hf : ∀ e ∈ es, 0 < e.value → e.pfrom ≠ ZERO_ADDRESS → e.pfrom ∈ S := by
      intro e he _ hfz
      rw [hS, Finset.mem_erase]
      exact ⟨hfz, List.mem_toFinset.mpr
        (List.mem_append.mpr (Or.inl (List.mem_map_of_mem Event.pfrom he)))⟩
    have hgt : ∀ e ∈ es, 0 < e.value → e.pto ≠ ZERO_ADDRESS → e.pto ∈ S := by
      intro e he _ htz
      rw [hS, Finset.mem_erase]
      exact ⟨htz, List.mem_toFinset.mpr
        (List.mem_append.mpr (Or.inr (List.mem_map_of_mem Event.pto he)))⟩
    rw [← sum_balAt S hZ es t (fun e he => (goodEventB_spec (hge e he)).2.2) hf hgt]
    exact Finset.sum_nonneg (fun x hx => balAt_nonneg_of_ne es x t hchrono hge hnod
      (Finset.ne_of_mem_erase hx))
  · exact balAt_nonneg_of_ne es a t hchrono hge hnod ha

theorem trueHODL_mono (es : List Event) (a : Addr) (T1 T2 : Int)
    (hc : chronoFromB 0 es = true) (h0 : 0 ≤ T1) (h12 : T1 ≤ T2)
    (hnn : ∀ t, 0 ≤ balAt es a t) :
    trueHODL es a T1 ≤ trueHODL es a T2 := by
  rw [trueHODL_eq_sum es a T1 hc h0, trueHODL_eq_sum es a T2 hc (le_trans h0 h12)]
  rw [← Finset.Ico_union_Ico_eq_Ico h0 h12,
    Finset.sum_union (Finset.Ico_disjoint_Ico_consecutive 0 T1 T2)]
  have h2 : 0 ≤ ∑ t ∈ Finset.Ico T1 T2, balAt es a t :=
    Finset.sum_nonneg (fun t _ => hnn t)
  omega

/-- C3: for every good history (chronological, first event at or after the
first bucket boundary, no self-transfers) that additionally never debits
more than the sender holds, processed without error, the metric query is
monotone: at aligned timestamps 0 ≤ T1 ≤ T2 both queries succeed and the
value at T1 is at most the value at T2. As literally stated the claim
fails: handleTransfer never checks the sender's balance, an overdrafting
history drives a balance negative, and the metric then strictly
decreases. -/
theorem claim_C3_metric_monotone (es : List Event) (s : Store) (a : Addr) (T1 T2 : Int)
    (hgood : GoodHistoryB es = true) (hnod : noOverdraftB es = true)
    (happ : applyHistory es = .ok s)
    (h1 : T1 = getHourTimestamp T1) (h2 : T2 = getHourTimestamp T2)
    (h0 : 0 ≤ T1) (h12 : T1 ≤ T2) :
    ∃ v1 v2, getOrComputeCumulativeHODL s a T1 = .ok v1 ∧
      getOrComputeCumulativeHODL s a T2 = .ok v2 ∧ v1 ≤ v2 := by
  obtain ⟨hall, hchrono⟩ := goodHistoryB_parts hgood
  exact ⟨trueHODL es a T1, trueHODL es a T2,
    metric_correct es s a T1 hgood happ h1, metric_correct es s a T2 hgood happ h2,
    trueHODL_mono es a T1 T2 hchrono h0 h12 (fun t => balAt_nonneg_all es t hgood hnod a)⟩

/-- C3 witness: on wHist (which never overdrafts) the metric for A is
monotone between the aligned timestamps 3600 and 7200. -/
theorem claim_C3_metric_monotone_witness :
    GoodHistoryB wHist = true ∧ noOverdraftB wHist = true ∧
    applyHistory wHist = .ok wStore ∧
    (3600 : Int) = getHourTimestamp 3600 ∧ (7200 : Int) = getHourTimestamp 7200 ∧
    (0 : Int) ≤ 3600 ∧ (3600 : Int) ≤ 7200 ∧
    (∃ v1 v2, getOrComputeCumulativeHODL wStore addrA 3600 = .ok v1 ∧
      getOrComputeCumulativeHODL wStore addrA 7200 = .ok v2 ∧ v1 ≤ v2) :=
  ⟨rfl, rfl, rfl, by decide, by decide, by decide, by decide,
    claim_C3_metric_monotone wHist wStore addrA 3600 7200 rfl rfl rfl
      (by decide) (by decide) (by decide) (by decide)⟩


/-! ## C6: a full holder of the supply has ratio one -/

theorem trueHODL_delta_eq (es : List Event) (a : Addr) (T1 T2 : Int)
    (hc : chronoFromB 0 es = true) (h0 : 0 ≤ T1) (h12 : T1 ≤ T2)
    (hhold : ∀ t, T1 ≤ t → t < T2 → balAt es a t = balAt es ZERO_ADDRESS t) :
    trueHODL es a T2 - trueHODL es a T1 =
      trueHODL es ZERO_ADDRESS T2 - trueHODL es ZERO_ADDRESS T1 := by
  rw [trueHODL_eq_sum es a T1 hc h0, trueHODL_eq_sum es a T2 hc (le_trans h0 h12),
    trueHODL_eq_sum es ZERO_ADDRESS T1 hc h0,
    trueHODL_eq_sum es ZERO_ADDRESS T2 hc (le_trans h0 h12)]
  rw [← Finset.Ico_union_Ico_eq_Ico h0 h12,
    Finset.sum_union (Finset.Ico_disjoint_Ico_consecutive 0 T1 T2),
    Finset.sum_union (Finset.Ico_disjoint_Ico_consecutive 0 T1 T2)]
  have heq : (∑ t ∈ Finset.Ico T1 T2, balAt es a t)
      = ∑ t ∈ Finset.Ico T1 T2, balAt es ZERO_ADDRESS t := by
    refine Finset.sum_congr rfl ?_
    intro t ht
    rcases Finset.mem_Ico.mp ht with ⟨ht1, ht2⟩
    exact hhold t ht1 ht2
  omega

/-- C6: for every good history (chronological, first event at or after the
first bucket boundary, no self-transfers) processed without error, every
aligned period 0 ≤ T1 < T2, and every account whose balance equals the
sentinel's balance at every instant of [T1, T2) — it holds the entire
supply throughout the period — with a nonzero total metric delta, the
ratio over the period is exactly 1. As literally stated over arbitrary
chronological histories the claim fails: a full holder whose only
checkpoint sits in bucket 0 is invisible to the metric walk, and its
ratio evaluates to 0. -/
theorem claim_C6_ratio_one (es : List Event) (s : Store) (a : Addr) (T1 T2 : Int)
    (hgood : GoodHistoryB es = true) (happ : applyHistory es = .ok s)
    (h1 : T1 = getHourTimestamp T1) (h2 : T2 = getHourTimestamp T2)
    (h0 : 0 ≤ T1) (h12 : T1 < T2)
    (hhold : ∀ t, T1 ≤ t → t < T2 → balAt es a t = balAt es ZERO_ADDRESS t)
    (hnz : trueHODL es ZERO_ADDRESS T2 - trueHODL es ZERO_ADDRESS T1 ≠ 0) :
    computeHODLerRatioValue s a T1 T2 = .ok 1 := by
  have m1 := metric_correct es s a T1 hgood happ h1
  have m2 := metric_correct es s a T2 hgood happ h2
  have m3 := metric_correct es s ZERO_ADDRESS T1 hgood happ h1
  have m4 := metric_correct es s ZERO_ADDRESS T2 hgood happ h2
  obtain ⟨hall, hchrono⟩ := goodHistoryB_parts hgood
  have hdelta := trueHODL_delta_eq es a T1 T2 hchrono h0 (le_of_lt h12) hhold
  unfold computeHODLerRatioValue
  rw [if_neg (not_le.mpr h12), m1]
  simp only [except_bind_ok]
  rw [m2]
  simp only [except_bind_ok]
  rw [m3]
  simp only [except_bind_ok]
  rw [m4]
  simp only [except_bind_ok]
  rw [if_neg hnz, hdelta]
  refine congrArg Except.ok ?_
  exact div_self (Int.cast_ne_zero.mpr hnz)

def c6wHist : List Event := [⟨ZERO_ADDRESS, addrA, 1000, 3600⟩]
def c6wStore : Store := runStore c6wHist

/-- C6 witness: after a single mint of 1000 to A at t = 3600, A holds the
entire supply over [3600, 7200) and its ratio over the period is 1. -/
theorem claim_C6_ratio_one_witness :
    GoodHistoryB c6wHist = true ∧ applyHistory c6wHist = .ok c6wStore ∧
    (3600 : Int) = getHourTimestamp 3600 ∧ (7200 : Int) = getHourTimestamp 7200 ∧
    (0 : Int) ≤ 3600 ∧ (3600 : Int) < 7200 ∧
    computeHODLerRatioValue c6wStore addrA 3600 7200 = .ok 1 := by
  refine ⟨rfl, rfl, by decide, by decide, by decide, by decide, ?_⟩
  refine claim_C6_ratio_one c6wHist c6wStore addrA 3600 7200 rfl rfl
    (by decide) (by decide) (by decide) (by decide) ?_ (by decide)
  intro t ht1 ht2
  have ha : decide ((3600 : Int) ≤ t) = true := by
    simp only [decide_eq_true_eq]
    omega
  unfold balAt c6wHist
  simp only [List.filter_cons, List.filter_nil, ha]
  rfl

end HodlSubgraph
